import Mathlib

/-!
pmtech, Direct3D 11 renderer backend: a verification development

Shallow embedding of `core/pen/source/dx11/renderer_dx11.cpp`.

Conventions of the embedding

* A `PEN_ASSERT` that fails and an access outside an array (undefined
  behaviour in C++) are results of type `fault`; every function that can reach
  one returns `Except fault _`.
* `u32` values that can wrap in normal use (the nesting depth, which is
  decremented without a guard) are natural numbers reduced modulo `2 ^ 32`.
  Counters that count allocated array entries or frames (`pos`, the stack
  height, `s_frame`) are natural numbers: they cannot reach the word size
  before the arrays they index exhaust memory.
* A timestamp query object is represented by the timestamp its last `End`
  recorded. The GPU clock is a counter that every recorded timestamp query
  samples and advances by one.
* The answers of `GetData` (ready or not, disjoint or not) are inputs: the
  `query_oracle` of a gather.
-/

namespace pen

/-! ## Machine arithmetic -/

/-- Reduction of a natural number to an unsigned 32 bit value. -/
def u32 (n : Nat) : Nat := n % 2 ^ 32

/-- The C++ expression `--x` on a `u32`: zero wraps to `0xFFFFFFFF`. -/
def u32_dec (n : Nat) : Nat := if n % 2 ^ 32 = 0 then 2 ^ 32 - 1 else n % 2 ^ 32 - 1

/-- The C++ expression `a - b` on `UINT64` operands. -/
def u64_sub (a b : Nat) : Nat := (a % 2 ^ 64 + (2 ^ 64 - b % 2 ^ 64)) % 2 ^ 64

/-- Abnormal terminations of the embedded code. -/
inductive fault where
  /-- a `PEN_ASSERT` whose condition is false -/
  | assertion
  /-- a read or write outside an array or through a null pointer -/
  | out_of_bounds
  deriving DecidableEq, Repr

/-! ## Performance markers (`renderer_dx11.cpp`, lines 459 to 684) -/

/-- The struct `perf_marker`. The fields `begin` and `end_` stand for the two
timestamp query objects and hold the timestamp last recorded on them. -/
structure perf_marker where
  begin : Nat := 0
  end_ : Nat := 0
  frame : Nat := 0
  name : Option String := none
  issued : Nat := 0
  depth : Nat := 0
  result : Nat := 0
  deriving DecidableEq, Repr, Inhabited

/-- The class `index_stack`: a stretchy buffer of indices and a height. -/
structure index_stack where
  indices : List Nat := []
  pos : Nat := 0
  deriving DecidableEq, Repr, Inhabited

/-- The method `index_stack::clear`. -/
def index_stack.clear (st : index_stack) : index_stack :=
  { st with pos := 0 }

/-- The method `index_stack::push`. -/
def index_stack.push (st : index_stack) (i : Nat) : index_stack :=
  if st.pos ≥ st.indices.length then
    { indices := st.indices ++ [i], pos := st.pos + 1 }
  else
    { indices := st.indices.set st.pos i, pos := st.pos + 1 }

/-- The method `index_stack::pop`: `--pos; return indices[pos];`. At height
zero the decrement wraps to `0xFFFFFFFF` and the read is outside the buffer. -/
def index_stack.pop (st : index_stack) : Except fault (index_stack × Nat) :=
  if st.pos = 0 then .error fault.out_of_bounds
  else
    match st.indices[st.pos - 1]? with
    | some i => .ok ({ st with pos := st.pos - 1 }, i)
    | none => .error fault.out_of_bounds

/-- The constant `perf_marker_set::num_marker_buffers`. -/
def num_marker_buffers : Nat := 5

/-- The struct `perf_marker_set`. The arrays `markers` and `pos` have
`num_marker_buffers` entries; they are total functions of which the code only
uses the indices below `num_marker_buffers`. -/
structure perf_marker_set where
  markers : Nat → List perf_marker := fun _ => []
  pos : Nat → Nat := fun _ => 0
  stack : index_stack := {}
  buf : Nat := 0
  depth : Nat := 0

/-- One value of the local `res` of `gather_perf_markers`: the buffer, the
slot and the elapsed time computed for it. -/
structure perf_result where
  buffer : Nat
  slot : Nat
  elapsed : Nat
  deriving DecidableEq, Repr

/-- The globals the marker code reads and writes: `s_frame`, `s_perf`,
`g_gpu_total`, the GPU clock, and (ghost) the values of the local `res` that
`gather_perf_markers` computed so far, oldest first. -/
structure perf_state where
  s_frame : Nat := 0
  s_perf : perf_marker_set := {}
  g_gpu_total : Nat := 0
  gpu_clock : Nat := 0
  res_trace : List perf_result := []

/-- The state at program start: the static initialisers. -/
def perf_init : perf_state := {}

/-- Assignment to one entry of a fixed array. -/
def array_set {α : Type} (a : Nat → α) (i : Nat) (v : α) : Nat → α :=
  fun j => if j = i then v else a j

/-- The first step of `insert_marker`: `if (pos >= sb_count(s_perf.markers[buf]))`
a new marker (default member initialisers, two new timestamp queries) is pushed on
the current buffer. The result is the current buffer after that step. -/
def markers_alloc (s : perf_state) : List perf_marker :=
  if s.s_perf.pos s.s_perf.buf ≥ (s.s_perf.markers s.s_perf.buf).length then
    s.s_perf.markers s.s_perf.buf ++ [({} : perf_marker)]
  else s.s_perf.markers s.s_perf.buf

/-- The function `insert_marker(name, end)`. -/
def insert_marker (name : Option String) (end_ : Bool) (s : perf_state) :
    Except fault perf_state :=
  if s.s_frame = 0 then .ok s
  else
    let buf := s.s_perf.buf
    let pos := s.s_perf.pos buf
    let depth := s.s_perf.depth
    -- push a new marker
    let ms := markers_alloc s
    if end_ then
      match s.s_perf.stack.pop with
      | .error e => .error e
      | .ok (stack1, pop_pos) =>
        match ms[pop_pos]? with
        | none => .error fault.out_of_bounds
        | some m =>
          if m.issued ≠ 1 then .error fault.assertion
          else
            let m1 := { m with end_ := s.gpu_clock, issued := m.issued + 1 }
            .ok { s with
              gpu_clock := s.gpu_clock + 1
              s_perf := { s.s_perf with
                markers := array_set s.s_perf.markers buf (ms.set pop_pos m1)
                stack := stack1 } }
    else
      match ms[pos]? with
      | none => .error fault.out_of_bounds
      | some m =>
        if m.issued ≠ 0 then .error fault.assertion
        else
          let m1 := { m with
            name := name, depth := depth, frame := s.s_frame,
            begin := s.gpu_clock, issued := m.issued + 1 }
          .ok { s with
            gpu_clock := s.gpu_clock + 1
            s_perf := { s.s_perf with
              markers := array_set s.s_perf.markers buf (ms.set pos m1)
              stack := s.s_perf.stack.push pos
              pos := array_set s.s_perf.pos buf (pos + 1) } }

/-- The function `direct::renderer_push_perf_marker`. -/
def renderer_push_perf_marker (name : Option String) (s : perf_state) :
    Except fault perf_state :=
  if s.s_frame = 0 then .ok s
  else
    match insert_marker name false s with
    | .error e => .error e
    | .ok s1 => .ok { s1 with s_perf := { s1.s_perf with depth := u32 (s1.s_perf.depth + 1) } }

/-- The statement `--depth;` of `renderer_pop_perf_marker`. -/
def dec_depth (s : perf_state) : perf_state :=
  { s with s_perf := { s.s_perf with depth := u32_dec s.s_perf.depth } }

/-- The function `direct::renderer_pop_perf_marker`. -/
def renderer_pop_perf_marker (s : perf_state) : Except fault perf_state :=
  insert_marker (some "end") true (dec_depth s)

/-- The answers of the GPU to the non-blocking `GetData` polls of one gather.
`disjoint bb` is `none` when the validity query of buffer `bb` answers
`S_FALSE` (not ready) and `some d` when it is ready with `Disjoint = d`;
`begin_ok bb i` and `end_ok bb i` tell whether the read of the begin and end
timestamp of slot `i` of buffer `bb` answers `S_OK`. -/
structure query_oracle where
  disjoint : Nat → Option Bool
  begin_ok : Nat → Nat → Bool
  end_ok : Nat → Nat → Bool

/-- The accumulator of the loop over the markers of one buffer: the markers,
`num_complete`, `g_gpu_total` and the trace of `res`. -/
structure gather_acc where
  ms : List perf_marker
  num_complete : Nat
  g_gpu_total : Nat
  res_trace : List perf_result

/-- The body of the loop `for (u32 i = 0; i < s_perf.pos[bb]; ++i)` of
`gather_perf_markers`, for a buffer whose validity data `disjoint` is ready. -/
def gather_marker (o : query_oracle) (bb : Nat) (disjoint : Bool) (acc : gather_acc)
    (i : Nat) : Except fault gather_acc :=
  match acc.ms[i]? with
  | none => .error fault.out_of_bounds
  | some m =>
    if m.issued = 2 then
      if !disjoint then
        if o.begin_ok bb i then
          if o.end_ok bb i then
            let res := u64_sub m.end_ m.begin
            .ok { ms := acc.ms.set i { m with issued := 0 }
                  num_complete := acc.num_complete + 1
                  g_gpu_total := if i = 0 then res else acc.g_gpu_total
                  res_trace := acc.res_trace ++ [{ buffer := bb, slot := i, elapsed := res }] }
          else .ok acc
        else .ok acc
      else .ok acc
    else .ok acc

/-- The body of the loop `for (u32 bb = 0; bb < num_marker_buffers; ++bb)` of
`gather_perf_markers`. -/
def gather_buffer (o : query_oracle) (s : perf_state) (bb : Nat) : Except fault perf_state :=
  match o.disjoint bb with
  | none => .ok s
  | some disjoint =>
    match (List.range (s.s_perf.pos bb)).foldlM (gather_marker o bb disjoint)
        { ms := s.s_perf.markers bb, num_complete := 0,
          g_gpu_total := s.g_gpu_total, res_trace := s.res_trace } with
    | .error e => .error e
    | .ok acc =>
      let s1 : perf_state := { s with
        g_gpu_total := acc.g_gpu_total
        res_trace := acc.res_trace
        s_perf := { s.s_perf with markers := array_set s.s_perf.markers bb acc.ms } }
      if acc.num_complete = s.s_perf.pos bb then
        .ok { s1 with s_perf := { s1.s_perf with pos := array_set s1.s_perf.pos bb 0, depth := 0 } }
      else .ok s1

/-- The function `gather_perf_markers`. The creation, `Begin` and `End` of the
validity queries change nothing in the modelled state; what they answer is the
oracle. -/
def gather_perf_markers (o : query_oracle) (s : perf_state) : Except fault perf_state :=
  if s.s_frame = 0 then .ok s
  else
    match (List.range num_marker_buffers).foldlM (gather_buffer o) s with
    | .error e => .error e
    | .ok s1 =>
      -- swap buffers
      .ok { s1 with s_perf := { s1.s_perf with buf := (s1.s_perf.buf + 1) % num_marker_buffers } }

/-- The marker part of `direct::renderer_present`. -/
def renderer_present (o : query_oracle) (s : perf_state) : Except fault perf_state :=
  match (if s.s_frame > 0 then renderer_pop_perf_marker s else .ok s) with
  | .error e => .error e
  | .ok s1 =>
    match gather_perf_markers o s1 with
    | .error e => .error e
    | .ok s2 => renderer_push_perf_marker none { s2 with s_frame := s2.s_frame + 1 }

/-- The operations on the marker state. -/
inductive perf_op where
  | push (name : Option String)
  | pop
  | gather (o : query_oracle)
  | present (o : query_oracle)

/-- One operation. -/
def perf_step (op : perf_op) (s : perf_state) : Except fault perf_state :=
  match op with
  | .push name => renderer_push_perf_marker name s
  | .pop => renderer_pop_perf_marker s
  | .gather o => gather_perf_markers o s
  | .present o => renderer_present o s

/-- A sequence of operations, stopping at the first fault. -/
def perf_run : List perf_op → perf_state → Except fault perf_state
  | [], s => .ok s
  | op :: ops, s =>
    match perf_step op s with
    | .error e => .error e
    | .ok s1 => perf_run ops s1

/-- The states the marker code can be in: those reached from the static
initialisers by operations none of which fails. -/
inductive perf_reachable : perf_state → Prop where
  | init : perf_reachable perf_init
  | step (op : perf_op) (s s1 : perf_state) :
      perf_reachable s → perf_step op s = .ok s1 → perf_reachable s1

/-- An oracle in which every query of every buffer is answered and stable. -/
def oracle_all_ready : query_oracle :=
  { disjoint := fun _ => some false, begin_ok := fun _ _ => true, end_ok := fun _ _ => true }

/-- An oracle in which no validity query is answered. -/
def oracle_none_ready : query_oracle :=
  { disjoint := fun _ => none, begin_ok := fun _ _ => true, end_ok := fun _ _ => true }

/-- The marker a push writes into the slot it takes. -/
def marker_begin (name : Option String) (s : perf_state) (m : perf_marker) : perf_marker :=
  { m with name := name, depth := s.s_perf.depth, frame := s.s_frame,
           begin := s.gpu_clock, issued := m.issued + 1 }

/-- The marker a pop writes into the slot it closes. -/
def marker_end (s : perf_state) (m : perf_marker) : perf_marker :=
  { m with end_ := s.gpu_clock, issued := m.issued + 1 }

/-- The state a successful push of a marker `m` found in slot `pos[buf]` leaves. -/
def push_state (name : Option String) (s : perf_state) (m : perf_marker) : perf_state :=
  { s with
    gpu_clock := s.gpu_clock + 1
    s_perf := { s.s_perf with
      markers := array_set s.s_perf.markers s.s_perf.buf
        ((markers_alloc s).set (s.s_perf.pos s.s_perf.buf) (marker_begin name s m))
      stack := s.s_perf.stack.push (s.s_perf.pos s.s_perf.buf)
      pos := array_set s.s_perf.pos s.s_perf.buf (s.s_perf.pos s.s_perf.buf + 1)
      depth := u32 (s.s_perf.depth + 1) } }

/-- The state a successful `insert_marker(name, true)` leaves: `st1` is the stack
after the pop, `p` the index popped and `m` the marker found in slot `p`. -/
def end_state (s : perf_state) (st1 : index_stack) (p : Nat) (m : perf_marker) : perf_state :=
  { s with
    gpu_clock := s.gpu_clock + 1
    s_perf := { s.s_perf with
      markers := array_set s.s_perf.markers s.s_perf.buf ((markers_alloc s).set p (marker_end s m))
      stack := st1 } }

/-- The state a successful pop leaves. -/
def pop_state (s : perf_state) (st1 : index_stack) (p : Nat) (m : perf_marker) : perf_state :=
  { s with
    gpu_clock := s.gpu_clock + 1
    s_perf := { s.s_perf with
      markers := array_set s.s_perf.markers s.s_perf.buf ((markers_alloc s).set p (marker_end s m))
      stack := st1
      depth := u32_dec s.s_perf.depth } }

/-! ### The loop over the markers of one buffer -/

/-- Whether the loop body of `gather_perf_markers` consumes marker `m`, found in
slot `i` of buffer `bb`: it is complete, the interval is valid and both
timestamps are readable. -/
def consumes (o : query_oracle) (bb : Nat) (disjoint : Bool) (i : Nat) (m : perf_marker) : Bool :=
  m.issued = 2 && !disjoint && o.begin_ok bb i && o.end_ok bb i

/-- The loop body of `gather_perf_markers` on a slot that exists. -/
def gather_slot (o : query_oracle) (bb : Nat) (disjoint : Bool) (acc : gather_acc) (i : Nat)
    (m : perf_marker) : gather_acc :=
  if consumes o bb disjoint i m then
    { ms := acc.ms.set i { m with issued := 0 }
      num_complete := acc.num_complete + 1
      g_gpu_total := if i = 0 then u64_sub m.end_ m.begin else acc.g_gpu_total
      res_trace := acc.res_trace ++
        [{ buffer := bb, slot := i, elapsed := u64_sub m.end_ m.begin }] }
  else acc

/-- The first `n` iterations of the loop over the markers, as a total function
(a slot that does not exist is skipped). -/
def gather_upto (o : query_oracle) (bb : Nat) (disjoint : Bool) (acc0 : gather_acc) :
    Nat → gather_acc
  | 0 => acc0
  | n + 1 =>
    match (gather_upto o bb disjoint acc0 n).ms[n]? with
    | some m => gather_slot o bb disjoint (gather_upto o bb disjoint acc0 n) n m
    | none => gather_upto o bb disjoint acc0 n

/-- The result the loop body computes for slot `i`, if it consumes it. -/
def slot_result (o : query_oracle) (bb : Nat) (disjoint : Bool) (ms : List perf_marker) (i : Nat) :
    Option perf_result :=
  match ms[i]? with
  | some m =>
    if consumes o bb disjoint i m then
      some { buffer := bb, slot := i, elapsed := u64_sub m.end_ m.begin }
    else none
  | none => none

/-- The start of the loop over the markers of buffer `bb` in state `s`. -/
def acc_init (s : perf_state) (bb : Nat) : gather_acc :=
  { ms := s.s_perf.markers bb, num_complete := 0,
    g_gpu_total := s.g_gpu_total, res_trace := s.res_trace }

/-- The state `gather_buffer` leaves for a buffer whose validity data is ready. -/
def buffer_state (o : query_oracle) (s : perf_state) (bb : Nat) (disjoint : Bool) : perf_state :=
  let acc := gather_upto o bb disjoint (acc_init s bb) (s.s_perf.pos bb)
  let s1 : perf_state := { s with
    g_gpu_total := acc.g_gpu_total
    res_trace := acc.res_trace
    s_perf := { s.s_perf with markers := array_set s.s_perf.markers bb acc.ms } }
  if acc.num_complete = s.s_perf.pos bb then
    { s1 with s_perf := { s1.s_perf with pos := array_set s1.s_perf.pos bb 0, depth := 0 } }
  else s1

/-- A state used to exercise the theorems: the markers after the operations
`ops` from program start (program start itself if one of them fails). -/
def state_after (ops : List perf_op) : perf_state :=
  match perf_run ops perf_init with
  | .ok s => s
  | .error _ => perf_init

/-- What a gather does to slot `i` of a buffer, by the answer `r` of the
validity query of that buffer and the position `pos` of the buffer. -/
def gathered (o : query_oracle) (bb : Nat) (r : Option Bool) (pos i : Nat) (m : perf_marker) :
    perf_marker :=
  match r with
  | some d => if i < pos ∧ consumes o bb d i m = true then { m with issued := 0 } else m
  | none => m

/-- An oracle in which only the validity query of buffer `b` is answered: the
interval is valid and every timestamp is readable. -/
def oracle_only (b : Nat) : query_oracle :=
  { disjoint := fun bb => if bb = b then some false else none,
    begin_ok := fun _ _ => true, end_ok := fun _ _ => true }

/-- The operations of the counterexample of C5. Frame 1 runs in buffer 0 and
records the frame marker and the markers "X" and "Z"; the five presents that
follow take the ring through buffers 1, 2, 3, 4 and back to 0, and at none of
their gathers is any validity query answered; frame 6 runs in buffer 0 again and
records its frame marker and the marker "Y". -/
def cycle_ops : List perf_op :=
  [.present oracle_none_ready, .push (some "X"), .pop, .push (some "Z"), .pop,
   .present oracle_none_ready, .present oracle_none_ready, .present oracle_none_ready,
   .present oracle_none_ready, .present oracle_none_ready, .push (some "Y"), .pop]

/-- The frame, name and issued-count of the slots of buffer `b`. -/
def slots_of (s : perf_state) (b : Nat) : List (Nat × Option String × Nat) :=
  (s.s_perf.markers b).map (fun m => (m.frame, m.name, m.issued))

/-- Whether an operation in state `s` does not concern buffer `b`: a push or
pop while the ring is on another buffer, a gather at which `b` is not ready, or
a present at which `b` is not ready and which pops and pushes in other
buffers. -/
def leaves_alone (b : Nat) (op : perf_op) (s : perf_state) : Bool :=
  match op with
  | .push _ => s.s_perf.buf != b
  | .pop => s.s_perf.buf != b
  | .gather o => (o.disjoint b).isNone
  | .present o =>
    (o.disjoint b).isNone && s.s_perf.buf != b &&
      (s.s_perf.buf + 1) % num_marker_buffers != b

/-- Whether none of the operations `ops`, run from state `s`, concerns buffer `b`. -/
def quiet_on (b : Nat) : List perf_op → perf_state → Bool
  | [], _ => true
  | op :: ops, s =>
    leaves_alone b op s &&
      match perf_step op s with
      | .ok s1 => quiet_on b ops s1
      | .error _ => true

/-- Frame 1 of the counterexample of C5, up to the present that ends it: the
ring is on buffer 1 afterwards. -/
def frame1_ops : List perf_op :=
  [.present oracle_none_ready, .push (some "X"), .pop, .push (some "Z"), .pop,
   .present oracle_none_ready]

/-- Three presents that take the ring from buffer 1 to buffer 4, no validity
query being answered. -/
def away_ops : List perf_op :=
  [.present oracle_none_ready, .present oracle_none_ready, .present oracle_none_ready]

/-- Whether a result is a normal return. -/
def is_ok {α : Type} : Except fault α → Bool
  | .ok _ => true
  | .error _ => false

/-- An oracle in which only the validity query of buffer `b` is answered, the
interval is valid, and every timestamp is readable but the end timestamp of
slot `i` of buffer `b`. -/
def oracle_end_pending (b i : Nat) : query_oracle :=
  { disjoint := fun bb => if bb = b then some false else none,
    begin_ok := fun _ _ => true,
    end_ok := fun bb j => !(bb == b && j == i) }

/-- The operations of the failing input of C6. Frame 1 records the frame marker
and the marker "A" in buffer 0. At the gather of the present that ends it,
buffer 0 is ready and valid but the end timestamp of slot 1 is not readable yet;
at the gather of the next present it is. -/
def spread_ops : List perf_op :=
  [.present oracle_none_ready, .push (some "A"), .pop,
   .present (oracle_end_pending 0 1), .present (oracle_only 0)]

/-- The same with the gathers called directly and a marker "B" left open in
buffer 1, so that the nesting depth is 1 at the second gather. -/
def spread_gather_ops : List perf_op :=
  [.present oracle_none_ready, .push (some "A"), .pop, .pop,
   .gather (oracle_end_pending 0 1), .push (some "B"), .gather (oracle_only 0)]

/-! ## The device, the resource table and the render targets

Conventions of this part

* Direct3D and heap objects are numbers; 0 is the null pointer. The device is
  a mock that hands out fresh numbers and keeps the table of the objects that
  were acquired and not yet destroyed, and the list of the commands issued on
  the immediate context. A creation call on the device always succeeds (at
  `D3D_DEBUG_LEVEL 2` a failure is an assertion failure).
* A heap struct that a resource slot points to is kept in the slot, next to the
  number of its allocation.
* An `f32` is represented by its bit pattern; no floating point operation is
  modelled.
* `Release()`, `memory_free` and `delete` destroy the object: the code holds
  one reference to each object it creates. A read through a null or dangling
  pointer, or of a union member other than the one the slot holds (up to the
  common initial members of the structs), is a `fault`.
* Handles are natural numbers; the comparison with `PEN_INVALID_HANDLE` is the
  only place where the word size of a handle matters.
-/

/-- The kinds of objects the code acquires, with what the creation call was
told about them. -/
inductive gpu_object where
  /-- `CreateTexture2D`: format, usage, bind flags, CPU access flags, misc
  flags, array size, mip levels, sample count -/
  | texture2d (format usage bind_flags cpu_access misc array_size : Nat) (mips : Int)
      (samples : Nat)
  /-- `CreateTexture3D` -/
  | texture3d
  /-- `CreateRenderTargetView`: texture, format, whether the view is an array
  view, first slice, number of slices, mip slice -/
  | render_target_view (texture format : Nat) (array_view : Bool) (first_slice slices mip : Nat)
  /-- `CreateDepthStencilView`, same description -/
  | depth_stencil_view (texture format : Nat) (array_view : Bool) (first_slice slices mip : Nat)
  /-- `CreateShaderResourceView`: resource, format, dimension, array size (when
  the code sets it), mip levels -/
  | shader_resource_view (resource format dimension : Nat) (array_size : Option Nat) (mips : Int)
  /-- `CreateUnorderedAccessView` -/
  | unordered_access_view (resource : Nat)
  /-- `CreateBuffer` -/
  | buffer
  /-- a state object, shader or input layout -/
  | state_object
  /-- `pen::memory_alloc` of a struct -/
  | heap_struct
  /-- `new T*[n]`: an array of `n` view pointers -/
  | view_array (n : Nat)
  /-- `new texture_creation_params` -/
  | tcp_copy
  /-- `IDXGISwapChain::GetBuffer`: a reference to buffer 0 of the swap chain -/
  | back_buffer
  deriving DecidableEq, Repr

/-- A command issued on the immediate context. -/
inductive command where
  | ClearRenderTargetView (view : Nat) (colour : List Nat)
  | ClearDepthStencilView (view flags depth stencil : Nat)
  | GenerateMips (srv : Nat)
  | OMSetRenderTargets (num_views : Nat) (views : List Nat) (dsv : Nat)
  | UpdateSubresource (resource sub row_pitch slice_pitch : Nat)
  | PSSetSamplers (unit sampler : Nat)
  | PSSetShaderResources (unit srv : Nat)
  | VSSetSamplers (unit sampler : Nat)
  | VSSetShaderResources (unit srv : Nat)
  | CSSetUnorderedAccessViews (unit uav : Nat)
  | CSSetShaderResources (unit srv : Nat)
  | Map (resource : Nat)
  | Unmap (resource : Nat)
  | PSSetConstantBuffers (unit buffer : Nat)
  | VSSetConstantBuffers (unit buffer : Nat)
  | CSSetConstantBuffers (unit buffer : Nat)
  /-- the viewport itself is not modelled -/
  | RSSetViewports
  | IASetVertexBuffers (start_slot num_buffers : Nat) (buffers : List Nat)
  | IASetIndexBuffer (buffer format offset : Nat)
  | IASetPrimitiveTopology (topology : Nat)
  | DrawIndexed (index_count start_index base_vertex : Nat)
  | ResolveSubresource (dst dst_sub src src_sub format : Nat)
  deriving DecidableEq, Repr

/-- The mock of the device and its immediate context. -/
structure device where
  /-- the number the next object gets -/
  next_id : Nat := 1
  /-- the objects acquired and not yet destroyed -/
  live : List (Nat × gpu_object) := []
  /-- the commands issued, oldest first -/
  cmds : List command := []
  deriving DecidableEq, Repr

/-- A creation call or allocation: a fresh object. -/
def device.acquire (d : device) (o : gpu_object) : device × Nat :=
  ({ d with next_id := d.next_id + 1, live := d.live ++ [(d.next_id, o)] }, d.next_id)

/-- Whether object `id` is acquired and not destroyed. -/
def device.is_live (d : device) (id : Nat) : Bool :=
  d.live.any (fun e => e.1 == id)

/-- `Release()`, `memory_free`, `delete`: through a null or dangling pointer it
is undefined behaviour. -/
def device.release (d : device) (id : Nat) : Except fault device :=
  if d.is_live id then .ok { d with live := d.live.filter (fun e => e.1 != id) }
  else .error fault.out_of_bounds

/-- A command on the immediate context. -/
def device.issue (d : device) (c : command) : device :=
  { d with cmds := d.cmds ++ [c] }

/-! ### Constants -/

/-- Modelled from the spec: `MAX_MRT` is declared in `renderer.h`, which is not
among the sources; the context state holds 8 colour targets. -/
def MAX_MRT : Nat := 8

/-- Modelled from the spec: `PEN_INVALID_HANDLE` is declared in a header that is
not among the sources; it is the `u32` value `-1` (compare `null_values`). -/
def PEN_INVALID_HANDLE : Nat := 2 ^ 32 - 1

def PEN_BACK_BUFFER_COLOUR : Nat := 1

def PEN_BACK_BUFFER_DEPTH : Nat := 2

-- enum texture_format
def PEN_TEX_FORMAT_BGRA8_UNORM : Nat := 0

def PEN_TEX_FORMAT_RGBA8_UNORM : Nat := 1

def PEN_TEX_FORMAT_D24_UNORM_S8_UINT : Nat := 2

def PEN_TEX_FORMAT_D32_FLOAT : Nat := 3

def PEN_TEX_FORMAT_D32_FLOAT_S8_UINT : Nat := 4

def PEN_TEX_FORMAT_R32G32B32A32_FLOAT : Nat := 5

def PEN_TEX_FORMAT_R32_FLOAT : Nat := 6

def PEN_TEX_FORMAT_R16G16B16A16_FLOAT : Nat := 7

def PEN_TEX_FORMAT_R16_FLOAT : Nat := 8

def PEN_TEX_FORMAT_R32_UINT : Nat := 9

def PEN_TEX_FORMAT_R8_UNORM : Nat := 10

def PEN_TEX_FORMAT_R32G32_FLOAT : Nat := 11

def PEN_TEX_FORMAT_BC1_UNORM : Nat := 12

def PEN_TEX_FORMAT_BC2_UNORM : Nat := 13

def PEN_TEX_FORMAT_BC3_UNORM : Nat := 14

def PEN_TEX_FORMAT_BC4_UNORM : Nat := 15

def PEN_TEX_FORMAT_BC5_UNORM : Nat := 16

-- enum clear_bits
def PEN_CLEAR_COLOUR_BUFFER : Nat := 1

def PEN_CLEAR_DEPTH_BUFFER : Nat := 2

def PEN_CLEAR_STENCIL_BUFFER : Nat := 4

-- enum usage
def PEN_USAGE_DEFAULT : Nat := 0

def PEN_USAGE_IMMUTABLE : Nat := 1

def PEN_USAGE_DYNAMIC : Nat := 2

def PEN_USAGE_STAGING : Nat := 3

-- enum bind_flags
def PEN_BIND_SHADER_RESOURCE : Nat := 1

def PEN_BIND_VERTEX_BUFFER : Nat := 2

def PEN_BIND_INDEX_BUFFER : Nat := 4

def PEN_BIND_CONSTANT_BUFFER : Nat := 8

def PEN_BIND_RENDER_TARGET : Nat := 32

def PEN_BIND_DEPTH_STENCIL : Nat := 64

def PEN_BIND_SHADER_WRITE : Nat := 128

def PEN_STREAM_OUT_VERTEX_BUFFER : Nat := 256

-- enum cpu_access_flags
def PEN_CPU_ACCESS_WRITE : Nat := 1

def PEN_CPU_ACCESS_READ : Nat := 2

-- enum e_resource_type
def RES_NONE : Nat := 0

def RES_BUFFER : Nat := 1

def RES_TEXTURE : Nat := 2

def RES_RENDER_TARGET : Nat := 3

def RES_TEXTURE_3D : Nat := 4

/-! Values of the Direct3D 11 headers (`dxgiformat.h`, `d3d11.h`, `d3dcommon.h`). -/

def DXGI_FORMAT_UNKNOWN : Nat := 0

def DXGI_FORMAT_R32G32B32A32_FLOAT : Nat := 2

def DXGI_FORMAT_R16G16B16A16_FLOAT : Nat := 10

def DXGI_FORMAT_R32G32_FLOAT : Nat := 16

def DXGI_FORMAT_R32G8X24_TYPELESS : Nat := 19

def DXGI_FORMAT_D32_FLOAT_S8X24_UINT : Nat := 20

def DXGI_FORMAT_R32_FLOAT_X8X24_TYPELESS : Nat := 21

def DXGI_FORMAT_R8G8B8A8_UNORM : Nat := 28

def DXGI_FORMAT_R32_TYPELESS : Nat := 39

def DXGI_FORMAT_D32_FLOAT : Nat := 40

def DXGI_FORMAT_R32_FLOAT : Nat := 41

def DXGI_FORMAT_R32_UINT : Nat := 42

def DXGI_FORMAT_R24G8_TYPELESS : Nat := 44

def DXGI_FORMAT_D24_UNORM_S8_UINT : Nat := 45

def DXGI_FORMAT_R24_UNORM_X8_TYPELESS : Nat := 46

def DXGI_FORMAT_R16_TYPELESS : Nat := 53

def DXGI_FORMAT_R16_FLOAT : Nat := 54

def DXGI_FORMAT_D16_UNORM : Nat := 55

def DXGI_FORMAT_R8_UNORM : Nat := 61

def DXGI_FORMAT_BC1_UNORM : Nat := 71

def DXGI_FORMAT_BC2_UNORM : Nat := 74

def DXGI_FORMAT_BC3_UNORM : Nat := 77

def DXGI_FORMAT_BC4_UNORM : Nat := 80

def DXGI_FORMAT_BC5_UNORM : Nat := 83

def DXGI_FORMAT_B8G8R8A8_UNORM : Nat := 87

def D3D11_USAGE_DEFAULT : Nat := 0

def D3D11_USAGE_IMMUTABLE : Nat := 1

def D3D11_USAGE_DYNAMIC : Nat := 2

def D3D11_USAGE_STAGING : Nat := 3

def D3D11_BIND_VERTEX_BUFFER : Nat := 1

def D3D11_BIND_INDEX_BUFFER : Nat := 2

def D3D11_BIND_CONSTANT_BUFFER : Nat := 4

def D3D11_BIND_SHADER_RESOURCE : Nat := 8

def D3D11_BIND_STREAM_OUTPUT : Nat := 16

def D3D11_BIND_RENDER_TARGET : Nat := 32

def D3D11_BIND_DEPTH_STENCIL : Nat := 64

def D3D11_BIND_UNORDERED_ACCESS : Nat := 128

def D3D11_CPU_ACCESS_WRITE : Nat := 65536

def D3D11_CPU_ACCESS_READ : Nat := 131072

def D3D11_RESOURCE_MISC_GENERATE_MIPS : Nat := 1

def D3D11_RESOURCE_MISC_TEXTURECUBE : Nat := 4

def D3D11_CLEAR_DEPTH : Nat := 1

def D3D11_CLEAR_STENCIL : Nat := 2

def D3D_SRV_DIMENSION_TEXTURE2D : Nat := 4

def D3D_SRV_DIMENSION_TEXTURE2DARRAY : Nat := 5

def D3D_SRV_DIMENSION_TEXTURE2DMS : Nat := 6

def D3D_SRV_DIMENSION_TEXTURE2DMSARRAY : Nat := 7

def D3D_SRV_DIMENSION_TEXTURE3D : Nat := 8

def D3D_SRV_DIMENSION_TEXTURECUBE : Nat := 9

def D3D_SRV_DIMENSION_TEXTURECUBEARRAY : Nat := 10

/-- Modelled from the spec: the enumeration `pen::e_texture_collection_type` is
declared in `renderer.h`, which is not among the sources; the spec names the
kinds plain, array, cube, cube-array and volume. -/
inductive texture_collection where
  | TEXTURE_COLLECTION_NONE
  | TEXTURE_COLLECTION_CUBE
  | TEXTURE_COLLECTION_VOLUME
  | TEXTURE_COLLECTION_ARRAY
  | TEXTURE_COLLECTION_CUBE_ARRAY
  deriving DecidableEq, Repr

/-- Modelled from the spec: the struct `pen::texture_creation_params` is declared
in `renderer.h`, which is not among the sources. These are the members the
source reads; the first eleven are those the source copies onto a
`D3D11_TEXTURE2D_DESC` (width, height, mip levels, array size, format, sample
count and quality, usage, bind flags, CPU access flags, misc flags). `data` tells
whether the data pointer is non-null. -/
structure texture_creation_params where
  width : Int := 0
  height : Int := 0
  num_mips : Int := 1
  num_arrays : Nat := 1
  format : Nat := 0
  sample_count : Nat := 1
  sample_quality : Nat := 0
  usage : Nat := 0
  bind_flags : Nat := 0
  cpu_access_flags : Nat := 0
  flags : Nat := 0
  collection_type : texture_collection := .TEXTURE_COLLECTION_NONE
  data : Bool := false
  block_size : Nat := 0
  pixels_per_block : Nat := 1
  deriving DecidableEq, Repr

/-- The functions of `renderer_shared` the source calls, which are not among the
sources: `_renderer_tcp_resolve_ratio` and `calc_num_mips`. (The tracking of
managed render targets touches nothing that is modelled.) -/
structure shared_env where
  tcp_resolve_ratio : texture_creation_params → texture_creation_params
  calc_num_mips : Int → Int → Int

/-! ### The enum translations -/

/-- The function `to_d3d11_usage`. -/
def to_d3d11_usage (pen_usage : Nat) : Except fault Nat :=
  if pen_usage = PEN_USAGE_DEFAULT then .ok D3D11_USAGE_DEFAULT
  else if pen_usage = PEN_USAGE_IMMUTABLE then .ok D3D11_USAGE_IMMUTABLE
  else if pen_usage = PEN_USAGE_DYNAMIC then .ok D3D11_USAGE_DYNAMIC
  else if pen_usage = PEN_USAGE_STAGING then .ok D3D11_USAGE_STAGING
  else .error fault.assertion

/-- Whether `flags & bit` is non-zero. -/
def has_bit (flags bit : Nat) : Bool := flags &&& bit != 0

/-- The function `to_d3d11_bind_flags`. -/
def to_d3d11_bind_flags (pen_bind_flags : Nat) : Nat :=
  (if has_bit pen_bind_flags PEN_BIND_SHADER_RESOURCE then D3D11_BIND_SHADER_RESOURCE else 0) |||
  (if has_bit pen_bind_flags PEN_BIND_VERTEX_BUFFER then D3D11_BIND_VERTEX_BUFFER else 0) |||
  (if has_bit pen_bind_flags PEN_BIND_INDEX_BUFFER then D3D11_BIND_INDEX_BUFFER else 0) |||
  (if has_bit pen_bind_flags PEN_BIND_CONSTANT_BUFFER then D3D11_BIND_CONSTANT_BUFFER else 0) |||
  (if has_bit pen_bind_flags PEN_BIND_RENDER_TARGET then D3D11_BIND_RENDER_TARGET else 0) |||
  (if has_bit pen_bind_flags PEN_BIND_DEPTH_STENCIL then D3D11_BIND_DEPTH_STENCIL else 0) |||
  (if has_bit pen_bind_flags PEN_BIND_SHADER_WRITE then D3D11_BIND_UNORDERED_ACCESS else 0) |||
  (if has_bit pen_bind_flags PEN_STREAM_OUT_VERTEX_BUFFER then
    D3D11_BIND_STREAM_OUTPUT ||| D3D11_BIND_VERTEX_BUFFER else 0)

/-- The function `to_d3d11_cpu_access_flags`. -/
def to_d3d11_cpu_access_flags (pen_access_flags : Nat) : Nat :=
  (if has_bit pen_access_flags PEN_CPU_ACCESS_WRITE then D3D11_CPU_ACCESS_WRITE else 0) |||
  (if has_bit pen_access_flags PEN_CPU_ACCESS_READ then D3D11_CPU_ACCESS_READ else 0)

/-- The function `to_d3d11_texture_format`. -/
def to_d3d11_texture_format (pen_texture_format : Nat) : Except fault Nat :=
  if pen_texture_format = PEN_TEX_FORMAT_BGRA8_UNORM then .ok DXGI_FORMAT_B8G8R8A8_UNORM
  else if pen_texture_format = PEN_TEX_FORMAT_RGBA8_UNORM then .ok DXGI_FORMAT_R8G8B8A8_UNORM
  else if pen_texture_format = PEN_TEX_FORMAT_D24_UNORM_S8_UINT then .ok DXGI_FORMAT_R24G8_TYPELESS
  else if pen_texture_format = PEN_TEX_FORMAT_D32_FLOAT then .ok DXGI_FORMAT_R32_TYPELESS
  else if pen_texture_format = PEN_TEX_FORMAT_D32_FLOAT_S8_UINT then
    .ok DXGI_FORMAT_R32G8X24_TYPELESS
  else if pen_texture_format = PEN_TEX_FORMAT_R32G32B32A32_FLOAT then
    .ok DXGI_FORMAT_R32G32B32A32_FLOAT
  else if pen_texture_format = PEN_TEX_FORMAT_R32_FLOAT then .ok DXGI_FORMAT_R32_FLOAT
  else if pen_texture_format = PEN_TEX_FORMAT_R16G16B16A16_FLOAT then
    .ok DXGI_FORMAT_R16G16B16A16_FLOAT
  else if pen_texture_format = PEN_TEX_FORMAT_R16_FLOAT then .ok DXGI_FORMAT_R16_FLOAT
  else if pen_texture_format = PEN_TEX_FORMAT_R32_UINT then .ok DXGI_FORMAT_R32_UINT
  else if pen_texture_format = PEN_TEX_FORMAT_R8_UNORM then .ok DXGI_FORMAT_R8_UNORM
  else if pen_texture_format = PEN_TEX_FORMAT_R32G32_FLOAT then .ok DXGI_FORMAT_R32G32_FLOAT
  else if pen_texture_format = PEN_TEX_FORMAT_BC1_UNORM then .ok DXGI_FORMAT_BC1_UNORM
  else if pen_texture_format = PEN_TEX_FORMAT_BC2_UNORM then .ok DXGI_FORMAT_BC2_UNORM
  else if pen_texture_format = PEN_TEX_FORMAT_BC3_UNORM then .ok DXGI_FORMAT_BC3_UNORM
  else if pen_texture_format = PEN_TEX_FORMAT_BC4_UNORM then .ok DXGI_FORMAT_BC4_UNORM
  else if pen_texture_format = PEN_TEX_FORMAT_BC5_UNORM then .ok DXGI_FORMAT_BC5_UNORM
  else .error fault.assertion

/-- The function `depth_texture_format_to_dsv_format`. -/
def depth_texture_format_to_dsv_format (tex_format : Nat) : Except fault Nat :=
  if tex_format = DXGI_FORMAT_R16_TYPELESS then .ok DXGI_FORMAT_D16_UNORM
  else if tex_format = DXGI_FORMAT_R32_TYPELESS then .ok DXGI_FORMAT_D32_FLOAT
  else if tex_format = DXGI_FORMAT_R24G8_TYPELESS then .ok DXGI_FORMAT_D24_UNORM_S8_UINT
  else if tex_format = DXGI_FORMAT_R32G8X24_TYPELESS then .ok DXGI_FORMAT_D32_FLOAT_S8X24_UINT
  else .error fault.assertion

/-- The function `depth_texture_format_to_srv_format`. -/
def depth_texture_format_to_srv_format (tex_format : Nat) : Except fault Nat :=
  if tex_format = DXGI_FORMAT_R16_TYPELESS then .ok DXGI_FORMAT_R16_FLOAT
  else if tex_format = DXGI_FORMAT_R32_TYPELESS then .ok DXGI_FORMAT_R32_FLOAT
  else if tex_format = DXGI_FORMAT_R24G8_TYPELESS then .ok DXGI_FORMAT_R24_UNORM_X8_TYPELESS
  else if tex_format = DXGI_FORMAT_R32G8X24_TYPELESS then
    .ok DXGI_FORMAT_R32_FLOAT_X8X24_TYPELESS
  else .error fault.assertion

/-- The function `is_array`. -/
def is_array (srv : Nat) : Bool :=
  srv == D3D_SRV_DIMENSION_TEXTURE2DARRAY || srv == D3D_SRV_DIMENSION_TEXTURECUBEARRAY ||
    srv == D3D_SRV_DIMENSION_TEXTURECUBE

/-- The function `is_cube`. -/
def is_cube (srv : Nat) : Bool :=
  srv == D3D_SRV_DIMENSION_TEXTURECUBEARRAY || srv == D3D_SRV_DIMENSION_TEXTURECUBE

/-- The function `to_d3d11_srv_dimension`. -/
def to_d3d11_srv_dimension (pen_collection_type : texture_collection) (ms : Bool) : Nat :=
  match pen_collection_type with
  | .TEXTURE_COLLECTION_CUBE => D3D_SRV_DIMENSION_TEXTURECUBE
  | .TEXTURE_COLLECTION_ARRAY =>
    if ms then D3D_SRV_DIMENSION_TEXTURE2DMSARRAY else D3D_SRV_DIMENSION_TEXTURE2DARRAY
  | .TEXTURE_COLLECTION_CUBE_ARRAY => D3D_SRV_DIMENSION_TEXTURECUBEARRAY
  | .TEXTURE_COLLECTION_VOLUME => D3D_SRV_DIMENSION_TEXTURE3D
  | .TEXTURE_COLLECTION_NONE =>
    if ms then D3D_SRV_DIMENSION_TEXTURE2DMS else D3D_SRV_DIMENSION_TEXTURE2D

/-! ### The resource table -/

/-- The struct `texture_resource`; `texture2d_internal` and `texture3d_internal`
have the same three members. -/
structure texture_resource where
  texture : Nat := 0
  srv : Nat := 0
  uav : Nat := 0
  deriving DecidableEq, Repr

/-- An array of view pointers allocated with `new T*[n]`: the number of the
allocation and the entries; an entry that was never assigned is `none`. -/
structure view_array where
  id : Nat
  views : List (Option Nat)
  deriving DecidableEq, Repr

/-- The struct `render_target_internal`. The pointer `tcp` is the number of the
allocation and the copy it holds. The last two members are not members of the
C++ struct: the source also writes this allocation through the union member
`depth_target`, as a `depth_stencil_target_internal`, whose members `has_mips`
and `invalidate` lie at lower offsets than `invalidate` and `has_mips` of
`render_target_internal` (the structs agree up to `tex_read_back`; with 8 byte
pointers `depth_target->has_mips` falls on `msaa_resolve_readback` and
`depth_target->invalidate` on `tex_resolve.uav`). What is written through that
view is kept in `depth_has_mips` and `depth_invalidate`; no embedded function
reads it through the other view. -/
structure render_target_internal where
  tex : texture_resource := {}
  rt : Option view_array := none
  tex_msaa : texture_resource := {}
  rt_msaa : Option view_array := none
  tex_read_back : texture_resource := {}
  tex_resolve : texture_resource := {}
  msaa_resolve_readback : Bool := false
  format : Nat := 0
  tcp : Option (Nat × texture_creation_params) := none
  invalidate : Nat := 0
  num_arrays : Nat := 0
  has_mips : Bool := false
  depth_has_mips : Bool := false
  depth_invalidate : Nat := 0
  deriving DecidableEq, Repr

/-- The struct `depth_stencil_target_internal`. -/
structure depth_stencil_target_internal where
  tex : texture_resource := {}
  ds : Option view_array := none
  tex_msaa : texture_resource := {}
  ds_msaa : Option view_array := none
  tex_read_back : texture_resource := {}
  format : Nat := 0
  tcp : Option (Nat × texture_creation_params) := none
  invalidate : Nat := 0
  num_arrays : Nat := 0
  has_mips : Bool := false
  deriving DecidableEq, Repr

/-- Modelled from the spec: the struct `mrt_clear` is declared in `renderer.h`,
which is not among the sources. It holds the four words of a clear colour, read
as `f32` through the member `f` and as `u32` through the member `u`, and the
member `type`. -/
structure mrt_clear where
  f : List Nat := [0, 0, 0, 0]
  type : Nat := 0
  deriving DecidableEq, Repr

/-- The struct `clear_state_internal`. Of the array `mrt` the model holds the
entries that were written. -/
structure clear_state_internal where
  rgba : List Nat := [0, 0, 0, 0]
  depth : Nat := 0
  stencil : Nat := 0
  flags : Nat := 0
  mrt : List mrt_clear := []
  num_colour_targets : Nat := 0
  deriving DecidableEq, Repr

/-- The struct `ua_buffer`. -/
structure ua_buffer where
  buf : Nat := 0
  uav : Nat := 0
  srv : Nat := 0
  deriving DecidableEq, Repr

/-- The union of `resource_allocation`, by the member that was written last. A
member that is a pointer to a heap struct carries the number of the allocation
and the struct. -/
inductive resource_payload where
  /-- never written: all bytes zero -/
  | empty
  | clear_state (ptr : Nat) (cs : clear_state_internal)
  | generic_buffer (b : ua_buffer)
  /-- `texture_2d` or `texture_3d` -/
  | texture (ptr : Nat) (t : texture_resource)
  | render_target (ptr : Nat) (rt : render_target_internal)
  | depth_target (ptr : Nat) (dt : depth_stencil_target_internal)
  /-- a single interface pointer: a shader, an input layout, a sampler or a
  state object -/
  | object (id : Nat)
  | shader_program (vertex_shader pixel_shader input_layout : Nat)
  deriving DecidableEq, Repr

/-- The struct `resource_allocation`. -/
structure resource_allocation where
  type : Nat := 0
  payload : resource_payload := .empty
  deriving DecidableEq, Repr

/-- Modelled from the spec: the template `res_pool` is declared in
`data_struct.h`, which is not among the sources. The spec: `grow(handle)`
ensures capacity of at least `handle + 1` and is a no-op if the capacity
suffices; indexed access returns a reference to the slot, without a check. -/
structure res_pool where
  capacity : Nat := 0
  slots : Nat → resource_allocation := fun _ => {}

/-- Modelled from the spec: `res_pool::grow`. -/
def res_pool.grow (p : res_pool) (handle : Nat) : res_pool :=
  if handle < p.capacity then p else { p with capacity := handle + 1 }

/-- Modelled from the spec: `res_pool::operator[]` used as a read; beyond the
capacity the access is outside the table. -/
def res_pool.get (p : res_pool) (handle : Nat) : Except fault resource_allocation :=
  if handle < p.capacity then .ok (p.slots handle) else .error fault.out_of_bounds

/-- Modelled from the spec: an assignment through `res_pool::operator[]`. -/
def res_pool.set (p : res_pool) (handle : Nat) (r : resource_allocation) :
    Except fault res_pool :=
  if handle < p.capacity then .ok { p with slots := array_set p.slots handle r }
  else .error fault.out_of_bounds

/-- The struct `context_state`; `active_colour_target` has 8 entries. -/
structure context_state where
  backbuffer_colour : Nat := 0
  backbuffer_depth : Nat := 0
  active_colour_target : List Nat := [0, 0, 0, 0, 0, 0, 0, 0]
  active_depth_target : Nat := 0
  num_active_colour_targets : Nat := 1
  depth_stencil_state : Nat := 0
  stencil_ref : Nat := 0
  active_query_index : Nat := 0
  deriving DecidableEq, Repr

/-- The globals of the renderer: the device and its context, `_res_pool` and
`g_context`. -/
structure renderer_state where
  dev : device := {}
  pool : res_pool := {}
  ctx : context_state := {}

/-- The state after `_res_pool.init(2048)`. -/
def renderer_init : renderer_state :=
  { pool := { capacity := 2048 } }

/-- The write views of a slot read through the union member `render_target` or
`depth_target`: the members `rt` and `rt_msaa`, which lie where `ds` and
`ds_msaa` lie. Through any other member that was written, or the null pointer,
the read is undefined. -/
def write_views (r : resource_allocation) :
    Except fault (Option view_array × Option view_array) :=
  match r.payload with
  | .render_target _ rt => .ok (rt.rt, rt.rt_msaa)
  | .depth_target _ dt => .ok (dt.ds, dt.ds_msaa)
  | _ => .error fault.out_of_bounds

/-- The read `a[i]` of an entry of a view array through the pointer `a`. -/
def view_at (a : Option view_array) (i : Nat) : Except fault Nat :=
  match a with
  | none => .error fault.out_of_bounds
  | some arr =>
    match arr.views[i]? with
    | some (some v) => .ok v
    | _ => .error fault.out_of_bounds

/-- The selection `if (rt->rt_msaa && rt->rt_msaa[face]) view = rt->rt_msaa[face];
else view = rt->rt[face];` of `renderer_set_targets` and `renderer_clear`. -/
def select_view (single msaa : Option view_array) (face : Nat) : Except fault Nat :=
  match msaa with
  | some arr =>
    match view_at (some arr) face with
    | .error e => .error e
    | .ok v => if v ≠ 0 then .ok v else view_at single face
  | none => view_at single face

/-! ### The render target builder -/

/-- The loop `for (u32 a = 0; a < array_size; ++a)` of
`renderer_create_render_target_multi` that creates one array view per slice:
slice `a`, one slice, mip 0. `n` is the number of iterations left. -/
def create_slice_views (depth : Bool) (texture format array_size : Nat) :
    Nat → device → List (Option Nat) → Except fault (device × List (Option Nat))
  | 0, d, views => .ok (d, views)
  | n + 1, d, views =>
    let a := array_size - (n + 1)
    let (d1, v) := d.acquire
      (if depth then .depth_stencil_view texture format true a 1 0
       else .render_target_view texture format true a 1 0)
    if a < views.length then
      create_slice_views depth texture format array_size n d1 (views.set a (some v))
    else .error fault.out_of_bounds

/-- The creation of the write views of `renderer_create_render_target_multi`,
the same code in the depth and in the colour branch: `new` of the array, then
one view in entry 0 for a target that is not an array, or one view per slice. -/
def create_write_views (depth : Bool) (texture format srv_dimension array_size : Nat)
    (d : device) : Except fault (device × view_array) :=
  let (d1, arr) := d.acquire (.view_array array_size)
  let views : List (Option Nat) := List.replicate array_size none
  if !is_array srv_dimension then
    -- single rt
    let (d2, v) := d1.acquire
      (if depth then .depth_stencil_view texture format false 0 0 0
       else .render_target_view texture format false 0 0 0)
    if 0 < views.length then .ok (d2, { id := arr, views := views.set 0 (some v) })
    else .error fault.out_of_bounds
  else
    -- array or cubemap rt
    match create_slice_views depth texture format array_size array_size d1 views with
    | .error e => .error e
    | .ok (d2, views1) => .ok (d2, { id := arr, views := views1 })

/-- The member `ArraySize` of the description of the read view, as
`renderer_create_render_target_multi` sets it. -/
def read_view_array_size (srv_dimension array_size : Nat) : Option Nat :=
  if is_array srv_dimension then
    if srv_dimension = D3D_SRV_DIMENSION_TEXTURE2DARRAY then some array_size
    else if is_cube srv_dimension then some (array_size / 6)
    else none
  else none

/-- The function `renderer_create_render_target_multi`. The result is the device,
the texture container with its members `texture` and `srv` written, and the
array of write views it stores through `*dsv` or `*rtv` (its callers pass two
pointers to the same member for the two). -/
def renderer_create_render_target_multi (tcp : texture_creation_params) (d : device)
    (texture_container : texture_resource) :
    Except fault (device × texture_resource × view_array) :=
  match to_d3d11_texture_format tcp.format with
  | .error e => .error e
  | .ok format =>
    match to_d3d11_usage tcp.usage with
    | .error e => .error e
    | .ok usage =>
      let bind_flags := to_d3d11_bind_flags tcp.bind_flags
      let cpu_access := to_d3d11_cpu_access_flags tcp.cpu_access_flags
      let misc :=
        if tcp.collection_type = .TEXTURE_COLLECTION_CUBE ∨
            tcp.collection_type = .TEXTURE_COLLECTION_CUBE_ARRAY then tcp.flags ||| 4
        else tcp.flags
      let array_size := tcp.num_arrays
      let ms : Bool := decide (tcp.sample_count > 1)
      let num_mips := tcp.num_mips
      if array_size > 1 ∧ ms = true then
        -- arrays and cubes don't support msaa yet
        .error fault.assertion
      else if tcp.collection_type = .TEXTURE_COLLECTION_VOLUME then
        -- 3d render targets are writable textures
        .error fault.assertion
      else
        let (d1, texture) := d.acquire
          (.texture2d format usage bind_flags cpu_access misc array_size num_mips
            tcp.sample_count)
        let srv_dimension := to_d3d11_srv_dimension tcp.collection_type ms
        if has_bit bind_flags D3D11_BIND_DEPTH_STENCIL then
          match depth_texture_format_to_srv_format format with
          | .error e => .error e
          | .ok srv_format =>
            match depth_texture_format_to_dsv_format format with
            | .error e => .error e
            | .ok dsv_format =>
              match create_write_views true texture dsv_format srv_dimension array_size d1 with
              | .error e => .error e
              | .ok (d2, views) =>
                let (d3, srv) := d2.acquire
                  (.shader_resource_view texture srv_format srv_dimension
                    (read_view_array_size srv_dimension array_size) num_mips)
                .ok (d3, { texture_container with texture := texture, srv := srv }, views)
        else if has_bit bind_flags D3D11_BIND_RENDER_TARGET then
          match create_write_views false texture format srv_dimension array_size d1 with
          | .error e => .error e
          | .ok (d2, views) =>
            let (d3, srv) := d2.acquire
              (.shader_resource_view texture format srv_dimension
                (read_view_array_size srv_dimension array_size) num_mips)
            .ok (d3, { texture_container with texture := texture, srv := srv }, views)
        else
          -- m8 this is not a render target
          .error fault.assertion

/-! ### Textures -/

/-- Conversion of an `s32` to `u32`. -/
def to_u32 (i : Int) : Nat := (i % 2 ^ 32).toNat

/-- The loop over the mips of `renderer_create_texture`: `n` iterations are
left, the current one is `num_mips - n`. -/
def upload_mips (texture a num_mips block_size : Nat) :
    Nat → Nat → Nat → List command
  | 0, _, _ => []
  | n + 1, current_width, current_height =>
    let i := num_mips - (n + 1)
    let row_pitch := u32 (current_width * block_size)
    let slice_pitch := u32 (current_height * row_pitch)
    command.UpdateSubresource texture (u32 (i + a * num_mips)) row_pitch slice_pitch ::
      upload_mips texture a num_mips block_size n (max (current_width / 2) 1)
        (max (current_height / 2) 1)

/-- The loop over the arrays, slices and faces of `renderer_create_texture`. -/
def upload_arrays (tcp : texture_creation_params) (texture num_arrays : Nat) : List command :=
  (List.range num_arrays).flatMap (fun a =>
    upload_mips texture a tcp.num_mips.toNat tcp.block_size tcp.num_mips.toNat
      (to_u32 tcp.width / tcp.pixels_per_block) (to_u32 tcp.height / tcp.pixels_per_block))

/-- The function `direct::renderer_create_texture`. -/
def renderer_create_texture (tcp : texture_creation_params) (resource_slot : Nat)
    (s : renderer_state) : Except fault renderer_state :=
  let pool := s.pool.grow resource_slot
  let volume : Bool := decide (tcp.collection_type = .TEXTURE_COLLECTION_VOLUME)
  let view_dimension :=
    if volume then D3D_SRV_DIMENSION_TEXTURE3D
    else if tcp.collection_type = .TEXTURE_COLLECTION_CUBE then D3D_SRV_DIMENSION_TEXTURECUBE
    else to_d3d11_srv_dimension tcp.collection_type (decide (tcp.sample_count > 1))
  let num_arrays := if volume then 1 else tcp.num_arrays
  match to_d3d11_texture_format tcp.format with
  | .error e => .error e
  | .ok format =>
    match to_d3d11_usage tcp.usage with
    | .error e => .error e
    | .ok usage =>
      let (d1, ptr) := s.dev.acquire .heap_struct
      let (d2, texture) := d1.acquire
        (if volume then .texture3d
         else .texture2d format usage (to_d3d11_bind_flags tcp.bind_flags)
           (to_d3d11_cpu_access_flags tcp.cpu_access_flags)
           (if tcp.collection_type = .TEXTURE_COLLECTION_CUBE then
              tcp.flags ||| D3D11_RESOURCE_MISC_TEXTURECUBE else tcp.flags)
           tcp.num_arrays tcp.num_mips tcp.sample_count)
      -- fill with data
      if tcp.data = true ∧ tcp.pixels_per_block = 0 ∧ 0 < num_arrays then
        .error fault.out_of_bounds
      else
        let d3 : device :=
          if tcp.data then
            { d2 with cmds := d2.cmds ++ upload_arrays tcp texture num_arrays }
          else d2
        -- create shader resource view
        let (d4, srv) := d3.acquire
          (.shader_resource_view texture format view_dimension
            (some (if tcp.collection_type = .TEXTURE_COLLECTION_ARRAY then tcp.num_arrays else 0))
            (-1))
        let (d5, uav) :=
          if has_bit tcp.bind_flags PEN_BIND_SHADER_WRITE then
            d4.acquire (.unordered_access_view texture)
          else (d4, 0)
        match pool.set resource_slot
            { type := if volume then RES_TEXTURE_3D else RES_TEXTURE
              payload := .texture ptr { texture := texture, srv := srv, uav := uav } } with
        | .error e => .error e
        | .ok pool1 => .ok { s with dev := d5, pool := pool1 }

/-- The function `direct::renderer_release_texture`. -/
def renderer_release_texture (texture_index : Nat) (s : renderer_state) :
    Except fault renderer_state :=
  match s.pool.get texture_index with
  | .error e => .error e
  | .ok r =>
    match r.payload with
    | .texture _ t =>
      match s.dev.release t.texture with
      | .error e => .error e
      | .ok d1 =>
        match d1.release t.srv with
        | .error e => .error e
        | .ok d2 => .ok { s with dev := d2 }
    | .render_target _ rt =>
      -- the members `texture` and `srv` of `tex`, which lies first in the struct
      match s.dev.release rt.tex.texture with
      | .error e => .error e
      | .ok d1 =>
        match d1.release rt.tex.srv with
        | .error e => .error e
        | .ok d2 => .ok { s with dev := d2 }
    | _ => .error fault.out_of_bounds

/-! ### Render targets -/

/-- The effective mip count of `renderer_create_render_target`: `tcp.num_mips`,
or the count `calc_num_mips` computes from the resolved size when it is -1. -/
def effective_num_mips (env : shared_env) (tcp : texture_creation_params) : Int :=
  if tcp.num_mips = -1 then
    env.calc_num_mips (env.tcp_resolve_ratio tcp).width (env.tcp_resolve_ratio tcp).height
  else tcp.num_mips

/-- The local `_tcp` of `renderer_create_render_target` after the block
`rt mip maps`. -/
def resolved_tcp (env : shared_env) (tcp : texture_creation_params) : texture_creation_params :=
  let _tcp := { env.tcp_resolve_ratio tcp with num_mips := effective_num_mips env tcp }
  if _tcp.num_mips > 1 then { _tcp with flags := _tcp.flags ||| D3D11_RESOURCE_MISC_GENERATE_MIPS }
  else _tcp

/-- The body of `direct::renderer_create_render_target` after the allocation of
the zeroed `render_target_internal`: the struct it fills, and the device. -/
def build_render_target (env : shared_env) (tcp : texture_creation_params) (d : device) :
    Except fault (device × render_target_internal) :=
  let _tcp := resolved_tcp env tcp
  let mips : Bool := decide (effective_num_mips env tcp > 1)
  -- format required for resolve
  let rt1 : render_target_internal :=
    { format := tcp.format, tcp := none, has_mips := mips, depth_has_mips := mips,
      num_arrays := _tcp.num_arrays }
  let read_back : Except fault (device × render_target_internal × texture_creation_params) :=
    if _tcp.cpu_access_flags ≠ 0 then
      match to_d3d11_texture_format _tcp.format with
      | .error e => .error e
      | .ok format =>
        let (d1, texture) := d.acquire
          (.texture2d format D3D11_USAGE_STAGING 0
            (to_d3d11_cpu_access_flags _tcp.cpu_access_flags) _tcp.flags _tcp.num_arrays
            _tcp.num_mips _tcp.sample_count)
        .ok (d1, { rt1 with tex_read_back := { rt1.tex_read_back with texture := texture } },
          { _tcp with cpu_access_flags := 0 })
    else .ok (d, rt1, _tcp)
  match read_back with
  | .error e => .error e
  | .ok (d1, rt2, _tcp1) =>
    if tcp.sample_count > 1 then
      -- create msaa
      match renderer_create_render_target_multi _tcp1 d1 rt2.tex_msaa with
      | .error e => .error e
      | .ok (d2, tex_msaa, views) =>
        -- for resolve later
        let (d3, copy) := d2.acquire .tcp_copy
        .ok (d3, { rt2 with tex_msaa := tex_msaa, rt_msaa := some views, tcp := some (copy, tcp) })
    else
      match renderer_create_render_target_multi { _tcp1 with sample_count := 1 } d1 rt2.tex with
      | .error e => .error e
      | .ok (d2, tex, views) => .ok (d2, { rt2 with tex := tex, rt := some views })

/-- The function `direct::renderer_create_render_target`. -/
def renderer_create_render_target (env : shared_env) (tcp : texture_creation_params)
    (resource_slot : Nat) (_track : Bool) (s : renderer_state) : Except fault renderer_state :=
  if tcp.collection_type = .TEXTURE_COLLECTION_VOLUME then
    renderer_create_texture tcp resource_slot s
  else
    let pool := s.pool.grow resource_slot
    -- alloc rt
    let (d1, ptr) := s.dev.acquire .heap_struct
    match build_render_target env tcp d1 with
    | .error e => .error e
    | .ok (d2, rt) =>
      match pool.set resource_slot { type := RES_RENDER_TARGET, payload := .render_target ptr rt } with
      | .error e => .error e
      | .ok pool1 => .ok { s with dev := d2, pool := pool1 }

/-- One of the two blocks of the loop of `release_render_target_internal`:
`if (a && a[i]) { a[i]->Release(); a[i] = nullptr; }`. -/
def release_view_entry (d : device) (a : Option view_array) (i : Nat) :
    Except fault (device × Option view_array) :=
  match a with
  | none => .ok (d, none)
  | some arr =>
    match arr.views[i]? with
    | some (some v) =>
      if v ≠ 0 then
        match d.release v with
        | .error e => .error e
        | .ok d1 => .ok (d1, some { arr with views := arr.views.set i (some 0) })
      else .ok (d, some arr)
    | _ => .error fault.out_of_bounds

/-- The loop `for (s32 i = 0; i < rt->num_arrays; ++i)` of
`release_render_target_internal`; `n` iterations are left. -/
def release_views (num_arrays : Nat) :
    Nat → device → Option view_array → Option view_array →
      Except fault (device × Option view_array × Option view_array)
  | 0, d, rt, rt_msaa => .ok (d, rt, rt_msaa)
  | n + 1, d, rt, rt_msaa =>
    let i := num_arrays - (n + 1)
    match release_view_entry d rt i with
    | .error e => .error e
    | .ok (d1, rt1) =>
      match release_view_entry d1 rt_msaa i with
      | .error e => .error e
      | .ok (d2, rt_msaa1) => release_views num_arrays n d2 rt1 rt_msaa1

/-- The statement `if (p) p->Release();`. -/
def release_if (d : device) (p : Nat) : Except fault device :=
  if p ≠ 0 then d.release p else .ok d

/-- The function `release_render_target_internal`. After `delete rt->tcp` the
member `tcp` keeps its value. -/
def release_render_target_internal (render_target : Nat) (s : renderer_state) :
    Except fault renderer_state :=
  match s.pool.get render_target with
  | .error e => .error e
  | .ok r =>
    match r.payload with
    | .render_target ptr rt =>
      match release_views rt.num_arrays rt.num_arrays s.dev rt.rt rt.rt_msaa with
      | .error e => .error e
      | .ok (d1, views, views_msaa) =>
        match release_if d1 rt.tex.texture with
        | .error e => .error e
        | .ok d2 =>
          match release_if d2 rt.tex.srv with
          | .error e => .error e
          | .ok d3 =>
            match release_if d3 rt.tex_msaa.texture with
            | .error e => .error e
            | .ok d4 =>
              match release_if d4 rt.tex_msaa.srv with
              | .error e => .error e
              | .ok d5 =>
                match release_if d5 rt.tex_read_back.texture with
                | .error e => .error e
                | .ok d6 =>
                  let rt1 : render_target_internal := { rt with
                    rt := views, rt_msaa := views_msaa
                    tex_msaa := { rt.tex_msaa with srv := 0, texture := 0 }
                    tex := { rt.tex with srv := 0, texture := 0 } }
                  match (match rt.tcp with
                    | some (copy, _) => d6.release copy
                    | none => .ok d6) with
                  | .error e => .error e
                  | .ok d7 =>
                    match s.pool.set render_target
                        { r with payload := .render_target ptr rt1 } with
                    | .error e => .error e
                    | .ok pool1 => .ok { s with dev := d7, pool := pool1 }
    | _ => .error fault.out_of_bounds

/-- The function `direct::renderer_release_render_target`. -/
def renderer_release_render_target (render_target : Nat) (s : renderer_state) :
    Except fault renderer_state :=
  release_render_target_internal render_target s

/-! ### Buffers and clear states -/

/-- Modelled from the spec: the struct `pen::buffer_creation_params` is declared
in `renderer.h`, which is not among the sources; these are the members the
source reads (`data` tells whether the data pointer is non-null). -/
structure buffer_creation_params where
  usage_flags : Nat := 0
  bind_flags : Nat := 0
  cpu_access_flags : Nat := 0
  buffer_size : Nat := 0
  stride : Nat := 0
  data : Bool := false
  deriving DecidableEq, Repr

/-- The function `direct::renderer_create_buffer`. The test of the structured
buffer is `bd.BindFlags & PEN_BIND_SHADER_WRITE`, on the translated flags. -/
def renderer_create_buffer (params : buffer_creation_params) (resource_slot : Nat)
    (s : renderer_state) : Except fault renderer_state :=
  let pool := s.pool.grow resource_slot
  match to_d3d11_usage params.usage_flags with
  | .error e => .error e
  | .ok _ =>
    let bind := to_d3d11_bind_flags params.bind_flags
    let (d1, buf) := s.dev.acquire .buffer
    let old : ua_buffer :=
      match (pool.slots resource_slot).payload with
      | .generic_buffer b => b
      | _ => {}
    if has_bit bind PEN_BIND_SHADER_WRITE then
      if params.stride = 0 then .error fault.out_of_bounds
      else
        -- uav if we need it
        let (d2, uav) := d1.acquire (.unordered_access_view buf)
        -- srv if we need it
        let (d3, srv) := d2.acquire
          (.shader_resource_view buf DXGI_FORMAT_UNKNOWN 11 none 0)
        match pool.set resource_slot { pool.slots resource_slot with
            payload := .generic_buffer { buf := buf, uav := uav, srv := srv } } with
        | .error e => .error e
        | .ok pool1 => .ok { s with dev := d3, pool := pool1 }
    else
      match pool.set resource_slot { pool.slots resource_slot with
          payload := .generic_buffer { old with buf := buf } } with
      | .error e => .error e
      | .ok pool1 => .ok { s with dev := d1, pool := pool1 }

/-- The function `direct::renderer_release_buffer`. -/
def renderer_release_buffer (buffer_index : Nat) (s : renderer_state) :
    Except fault renderer_state :=
  match s.pool.get buffer_index with
  | .error e => .error e
  | .ok r =>
    match r.payload with
    | .generic_buffer b =>
      match s.dev.release b.buf with
      | .error e => .error e
      | .ok d1 => .ok { s with dev := d1 }
    | _ => .error fault.out_of_bounds

/-- Modelled from the spec: the struct `pen::clear_state` is declared in
`renderer.h`, which is not among the sources; these are the members the source
reads. -/
structure clear_state where
  r : Nat := 0
  g : Nat := 0
  b : Nat := 0
  a : Nat := 0
  depth : Nat := 0
  stencil : Nat := 0
  flags : Nat := 0
  mrt : List mrt_clear := []
  num_colour_targets : Nat := 0
  deriving DecidableEq, Repr

/-- Modelled from the spec: the enumerator `CLEAR_U32` is declared in
`renderer.h`, which is not among the sources. -/
def CLEAR_U32 : Nat := 1

/-- The function `direct::renderer_create_clear_state`; `to_f32` is the
conversion `(f32)` of a `u32`. -/
def renderer_create_clear_state (to_f32 : Nat → Nat) (cs : clear_state) (resource_slot : Nat)
    (s : renderer_state) : Except fault renderer_state :=
  let pool := s.pool.grow resource_slot
  let (d1, ptr) := s.dev.acquire .heap_struct
  if cs.num_colour_targets > MAX_MRT ∨ cs.num_colour_targets > cs.mrt.length then
    .error fault.out_of_bounds
  else
    -- convert int clears (required on gl) to floats for d3d
    let mrt := (cs.mrt.take cs.num_colour_targets).map (fun m =>
      if m.type = CLEAR_U32 then { m with f := m.f.map to_f32 } else m)
    match pool.set resource_slot { pool.slots resource_slot with
        payload := .clear_state ptr
          { rgba := [cs.r, cs.g, cs.b, cs.a], depth := cs.depth, stencil := cs.stencil % 256,
            flags := cs.flags, mrt := mrt, num_colour_targets := cs.num_colour_targets } } with
    | .error e => .error e
    | .ok pool1 => .ok { s with dev := d1, pool := pool1 }

/-- The function `direct::renderer_release_clear_state`. -/
def renderer_release_clear_state (clear_state : Nat) (s : renderer_state) :
    Except fault renderer_state :=
  match s.pool.get clear_state with
  | .error e => .error e
  | .ok r =>
    match r.payload with
    | .clear_state ptr _ =>
      match s.dev.release ptr with
      | .error e => .error e
      | .ok d1 => .ok { s with dev := d1 }
    | _ => .error fault.out_of_bounds

/-! ### Binding targets -/

/-- The view the code selects for slot `ct` and face `face`: the read of the
members `rt` and `rt_msaa` (or `ds` and `ds_msaa`) of the struct the slot points
to, and the selection between them. -/
def target_view (pool : res_pool) (ct face : Nat) : Except fault Nat :=
  match pool.get ct with
  | .error e => .error e
  | .ok r =>
    match write_views r with
    | .error e => .error e
    | .ok (single, msaa) => select_view single msaa face

/-- The statement `if (render_target->has_mips) render_target->invalidate = 1;`
of `renderer_set_targets`. Through the member `render_target` the member
`has_mips` of a `depth_stencil_target_internal` lies beyond the allocation. -/
def mark_colour_written (pool : res_pool) (colour_target : Nat) : Except fault res_pool :=
  match pool.get colour_target with
  | .error e => .error e
  | .ok r =>
    match r.payload with
    | .render_target ptr rt =>
      if rt.has_mips then
        pool.set colour_target { r with payload := .render_target ptr { rt with invalidate := 1 } }
      else .ok pool
    | _ => .error fault.out_of_bounds

/-- The statement `if (depth_target->has_mips) depth_target->invalidate = 1;` of
`renderer_set_targets`. -/
def mark_depth_written (pool : res_pool) (depth_target : Nat) : Except fault res_pool :=
  match pool.get depth_target with
  | .error e => .error e
  | .ok r =>
    match r.payload with
    | .depth_target ptr dt =>
      if dt.has_mips then
        pool.set depth_target { r with payload := .depth_target ptr { dt with invalidate := 1 } }
      else .ok pool
    | .render_target ptr rt =>
      if rt.depth_has_mips then
        pool.set depth_target
          { r with payload := .render_target ptr { rt with depth_invalidate := 1 } }
      else .ok pool
    | _ => .error fault.out_of_bounds

/-- What the loop of `renderer_set_targets` writes: the resource table, the array
`g_context.active_colour_target` and the local array `colour_rtv`. -/
structure targets_acc where
  pool : res_pool
  active : List Nat
  colour_rtv : List Nat

/-- One iteration of the loop of `renderer_set_targets`. -/
def set_colour_target (colour_targets : List Nat) (colour_face i : Nat) (a : targets_acc) :
    Except fault targets_acc :=
  match colour_targets[i]? with
  | none => .error fault.out_of_bounds
  | some colour_target =>
    if i < a.active.length ∧ i < a.colour_rtv.length then
      if colour_target ≠ 0 ∧ colour_target ≠ PEN_INVALID_HANDLE then
        match target_view a.pool colour_target colour_face with
        | .error e => .error e
        | .ok v =>
          match mark_colour_written a.pool colour_target with
          | .error e => .error e
          | .ok pool1 =>
            .ok { pool := pool1, active := a.active.set i colour_target
                  colour_rtv := a.colour_rtv.set i v }
      else .ok { a with active := a.active.set i 0 }
    else .error fault.out_of_bounds

/-- The first `k` iterations of the loop of `renderer_set_targets`. -/
def set_colour_targets_upto (colour_targets : List Nat) (colour_face : Nat) (a0 : targets_acc) :
    Nat → Except fault targets_acc
  | 0 => .ok a0
  | k + 1 =>
    match set_colour_targets_upto colour_targets colour_face a0 k with
    | .error e => .error e
    | .ok a => set_colour_target colour_targets colour_face k a

/-- The depth part of `renderer_set_targets`: the resource table, the view `dsv`
and the value of `g_context.active_depth_target`. -/
def set_depth_target (pool : res_pool) (depth_target depth_face : Nat) :
    Except fault (res_pool × Nat × Nat) :=
  if depth_target ≠ 0 ∧ depth_target ≠ PEN_INVALID_HANDLE then
    match target_view pool depth_target depth_face with
    | .error e => .error e
    | .ok v =>
      match mark_depth_written pool depth_target with
      | .error e => .error e
      | .ok pool1 => .ok (pool1, v, depth_target)
  else .ok (pool, 0, 0)

/-- The function `direct::renderer_set_targets`; `colour_targets` is the array
the pointer points to. -/
def renderer_set_targets (colour_targets : List Nat)
    (num_colour_targets depth_target colour_face depth_face : Nat) (s : renderer_state) :
    Except fault renderer_state :=
  match set_colour_targets_upto colour_targets colour_face
      { pool := s.pool, active := s.ctx.active_colour_target
        colour_rtv := List.replicate MAX_MRT 0 } num_colour_targets with
  | .error e => .error e
  | .ok a =>
    match set_depth_target a.pool depth_target depth_face with
    | .error e => .error e
    | .ok (pool1, dsv, active_depth) =>
      .ok { dev := s.dev.issue (.OMSetRenderTargets num_colour_targets a.colour_rtv dsv)
            pool := pool1
            ctx := { s.ctx with
              active_depth_target := active_depth
              num_active_colour_targets := num_colour_targets
              active_colour_target := a.active } }

/-- The function `direct::renderer_set_resolve_targets`. -/
def renderer_set_resolve_targets (colour_target depth_target : Nat) (s : renderer_state) :
    Except fault renderer_state :=
  let colour : Except fault Nat :=
    if colour_target > 0 then
      match s.pool.get colour_target with
      | .error e => .error e
      | .ok r =>
        match write_views r with
        | .error e => .error e
        | .ok (single, _) => view_at single 0
    else .ok 0
  match colour with
  | .error e => .error e
  | .ok v =>
    let depth : Except fault Nat :=
      if depth_target > 0 then
        match s.pool.get depth_target with
        | .error e => .error e
        | .ok r =>
          match write_views r with
          | .error e => .error e
          | .ok (single, _) => view_at single 0
      else .ok 0
    match depth with
    | .error e => .error e
    | .ok dsv =>
      let colour_rtv := (List.replicate MAX_MRT 0).set 0 v
      .ok { s with dev := s.dev.issue (.OMSetRenderTargets 1 colour_rtv dsv) }

/-! ### Binding textures -/

/-- Modelled from the spec: the enumerators `TEXTURE_BIND_MSAA`,
`TEXTURE_BIND_PS`, `TEXTURE_BIND_VS` and `TEXTURE_BIND_CS` are declared in
`renderer.h`, which is not among the sources; the argument `bind_flags` is given
by the four tests the source makes on it. -/
structure texture_bind_flags where
  msaa : Bool := false
  ps : Bool := false
  vs : Bool := false
  cs : Bool := false
  deriving DecidableEq, Repr

/-- The first pointer-sized word of the union of a slot, which is what the
members that are single pointers, and `generic_buffer.buf`, read. -/
def union_pointer (p : resource_payload) : Nat :=
  match p with
  | .empty => 0
  | .clear_state ptr _ => ptr
  | .generic_buffer b => b.buf
  | .texture ptr _ => ptr
  | .render_target ptr _ => ptr
  | .depth_target ptr _ => ptr
  | .object id => id
  | .shader_program vertex_shader pixel_shader _ => vertex_shader + 2 ^ 32 * pixel_shader

/-- The struct a slot points to, read through the union member
`texture_resource`: its three members lie first in every struct a slot points
to but `clear_state_internal`. -/
def texture_resource_of (p : resource_payload) : Except fault texture_resource :=
  match p with
  | .texture _ t => .ok t
  | .render_target _ rt => .ok rt.tex
  | .depth_target _ dt => .ok dt.tex
  | _ => .error fault.out_of_bounds

/-- The block `if (texture_index > 0)` of `renderer_set_texture`: the state, and
the values of `*srv` and `*uav`. -/
def set_texture_resource (texture_index : Nat) (bind_flags : texture_bind_flags)
    (s : renderer_state) : Except fault (renderer_state × Nat × Nat) :=
  match s.pool.get texture_index with
  | .error e => .error e
  | .ok r =>
    match texture_resource_of r.payload with
    | .error e => .error e
    | .ok tex_res =>
      if r.type = RES_RENDER_TARGET then
        match r.payload with
        | .render_target ptr rt =>
          -- auto gen mip maps
          let gen_mips : Bool := rt.has_mips && rt.invalidate != 0
          let srv := if bind_flags.msaa then rt.tex_msaa.srv else tex_res.srv
          if gen_mips then
            match s.pool.set texture_index
                { r with payload := .render_target ptr { rt with invalidate := 0 } } with
            | .error e => .error e
            | .ok pool1 =>
              .ok ({ s with dev := s.dev.issue (.GenerateMips srv), pool := pool1 }, srv,
                tex_res.uav)
          else .ok (s, srv, tex_res.uav)
        | _ => .error fault.out_of_bounds
      else .ok (s, tex_res.srv, tex_res.uav)

/-- The function `direct::renderer_set_texture`. -/
def renderer_set_texture (texture_index sampler_index unit : Nat)
    (bind_flags : texture_bind_flags) (s : renderer_state) : Except fault renderer_state :=
  let sampler : Except fault Nat :=
    if sampler_index > 0 then
      match s.pool.get sampler_index with
      | .error e => .error e
      | .ok r => .ok (union_pointer r.payload)
    else .ok 0
  match (if texture_index > 0 then set_texture_resource texture_index bind_flags s
         else .ok (s, 0, 0)) with
  | .error e => .error e
  | .ok (s1, srv, uav) =>
    match (if bind_flags.ps || bind_flags.vs then sampler else .ok 0) with
    | .error e => .error e
    | .ok smp =>
      let ps : List command :=
        if bind_flags.ps then [.PSSetSamplers unit smp, .PSSetShaderResources unit srv] else []
      let vs : List command :=
        if bind_flags.vs then [.VSSetSamplers unit smp, .VSSetShaderResources unit srv] else []
      let cs : List command :=
        if bind_flags.cs then
          .CSSetUnorderedAccessViews unit uav ::
            (if uav = 0 then [.CSSetShaderResources unit srv] else [])
        else []
      .ok { s1 with dev := { s1.dev with cmds := s1.dev.cmds ++ ps ++ vs ++ cs } }

/-! ### Clearing -/

/-- The view the loops of `renderer_clear` select at index `i`:
`ct = g_context.active_colour_target[i]`, then the selection on slot `ct`. -/
def bound_colour_view (s : renderer_state) (i colour_face : Nat) : Except fault Nat :=
  match s.ctx.active_colour_target[i]? with
  | none => .error fault.out_of_bounds
  | some ct => target_view s.pool ct colour_face

/-- The first `k` iterations of the loop of `renderer_clear` over the active
colour targets: the commands they issue. -/
def clear_colour_upto (s : renderer_state) (rgba : List Nat) (colour_face : Nat) :
    Nat → Except fault (List command)
  | 0 => .ok []
  | k + 1 =>
    match clear_colour_upto s rgba colour_face k with
    | .error e => .error e
    | .ok cmds =>
      match bound_colour_view s k colour_face with
      | .error e => .error e
      | .ok colour_rtv =>
        .ok (if colour_rtv ≠ 0 then cmds ++ [.ClearRenderTargetView colour_rtv rgba] else cmds)

/-- The first `k` iterations of the loop `MRT clear colour` of `renderer_clear`:
the commands they issue. -/
def clear_mrt_upto (s : renderer_state) (cs : clear_state_internal) (colour_face : Nat) :
    Nat → Except fault (List command)
  | 0 => .ok []
  | k + 1 =>
    match clear_mrt_upto s cs colour_face k with
    | .error e => .error e
    | .ok cmds =>
      match bound_colour_view s k colour_face with
      | .error e => .error e
      | .ok colour_rtv =>
        match cs.mrt[k]? with
        | none => .error fault.out_of_bounds
        | some m => .ok (cmds ++ [.ClearRenderTargetView colour_rtv m.f])

/-- The value of `d3d_flags` in `renderer_clear`. -/
def clear_d3d_flags (flags : Nat) : Nat :=
  (if has_bit flags PEN_CLEAR_DEPTH_BUFFER then D3D11_CLEAR_DEPTH else 0) |||
  (if has_bit flags PEN_CLEAR_STENCIL_BUFFER then D3D11_CLEAR_STENCIL else 0)

/-- The depth part of `renderer_clear`: the commands it issues. -/
def clear_depth (s : renderer_state) (cs : clear_state_internal) (depth_face : Nat) :
    Except fault (List command) :=
  if clear_d3d_flags cs.flags ≠ 0 ∧ s.ctx.active_depth_target ≠ 0 then
    match target_view s.pool s.ctx.active_depth_target depth_face with
    | .error e => .error e
    | .ok dsv =>
      -- clear depth
      .ok [.ClearDepthStencilView dsv (clear_d3d_flags cs.flags) cs.depth cs.stencil]
  else .ok []

/-- The commands `renderer_clear` issues for the clear state `cs`: those of the
uniform colour clear, of the MRT colour clear and of the depth clear. -/
def clear_commands (s : renderer_state) (cs : clear_state_internal)
    (colour_face depth_face : Nat) :
    Except fault (List command × List command × List command) :=
  match (if has_bit cs.flags PEN_CLEAR_COLOUR_BUFFER = true ∧ cs.num_colour_targets = 0 then
          clear_colour_upto s cs.rgba colour_face s.ctx.num_active_colour_targets
         else .ok []) with
  | .error e => .error e
  | .ok colour =>
    match clear_mrt_upto s cs colour_face cs.num_colour_targets with
    | .error e => .error e
    | .ok mrt =>
      match clear_depth s cs depth_face with
      | .error e => .error e
      | .ok depth => .ok (colour, mrt, depth)

/-- The function `direct::renderer_clear`. -/
def renderer_clear (clear_state_index colour_face depth_face : Nat) (s : renderer_state) :
    Except fault renderer_state :=
  match s.pool.get clear_state_index with
  | .error e => .error e
  | .ok r =>
    match r.payload with
    | .clear_state _ cs =>
      match clear_commands s cs colour_face depth_face with
      | .error e => .error e
      | .ok (colour, mrt, depth) =>
        .ok { s with dev := { s.dev with cmds := s.dev.cmds ++ (colour ++ mrt ++ depth) } }
    | _ => .error fault.out_of_bounds

/-! ### Resolving -/

def DXGI_FORMAT_R16_UINT : Nat := 57

def D3D11_PRIMITIVE_TOPOLOGY_POINTLIST : Nat := 1

def D3D11_PRIMITIVE_TOPOLOGY_LINELIST : Nat := 2

def D3D11_PRIMITIVE_TOPOLOGY_LINESTRIP : Nat := 3

def D3D11_PRIMITIVE_TOPOLOGY_TRIANGLELIST : Nat := 4

def D3D11_PRIMITIVE_TOPOLOGY_TRIANGLESTRIP : Nat := 5

-- enum primitive_topology
def PEN_PT_POINTLIST : Nat := 0

def PEN_PT_LINELIST : Nat := 1

def PEN_PT_LINESTRIP : Nat := 2

def PEN_PT_TRIANGLELIST : Nat := 3

def PEN_PT_TRIANGLESTRIP : Nat := 4

-- enum index_buffer_format
def PEN_FORMAT_R16_UINT : Nat := 0

def PEN_FORMAT_R32_UINT : Nat := 1

/-- The function `to_d3d11_primitive_topology`. -/
def to_d3d11_primitive_topology (pen_primitive_topology : Nat) : Except fault Nat :=
  if pen_primitive_topology = PEN_PT_POINTLIST then .ok D3D11_PRIMITIVE_TOPOLOGY_POINTLIST
  else if pen_primitive_topology = PEN_PT_LINELIST then .ok D3D11_PRIMITIVE_TOPOLOGY_LINELIST
  else if pen_primitive_topology = PEN_PT_LINESTRIP then .ok D3D11_PRIMITIVE_TOPOLOGY_LINESTRIP
  else if pen_primitive_topology = PEN_PT_TRIANGLELIST then
    .ok D3D11_PRIMITIVE_TOPOLOGY_TRIANGLELIST
  else if pen_primitive_topology = PEN_PT_TRIANGLESTRIP then
    .ok D3D11_PRIMITIVE_TOPOLOGY_TRIANGLESTRIP
  else .error fault.assertion

/-- The function `to_d3d11_index_format`. -/
def to_d3d11_index_format (pen_index_format : Nat) : Except fault Nat :=
  if pen_index_format = PEN_FORMAT_R16_UINT then .ok DXGI_FORMAT_R16_UINT
  else if pen_index_format = PEN_FORMAT_R32_UINT then .ok DXGI_FORMAT_R32_UINT
  else .error fault.assertion

/-- Modelled from the spec: the enumeration `e_msaa_resolve_type` is declared in
`renderer.h`, which is not among the sources; the source names two of its
values. -/
inductive e_msaa_resolve_type where
  | RESOLVE_GENERATE_MIPS
  | RESOLVE_CUSTOM
  /-- any other value: a fixed-function resolve -/
  | other (n : Nat)
  deriving DecidableEq, Repr

/-- Modelled from the spec: the struct `resolve_resources` is declared in
`renderer.h`, which is not among the sources; the source reads these three
handles. -/
structure resolve_resources where
  vertex_buffer : Nat := 0
  index_buffer : Nat := 0
  constant_buffer : Nat := 0
  deriving DecidableEq, Repr

/-- Modelled from the spec: the enumerators `CBUFFER_BIND_PS`, `CBUFFER_BIND_VS`
and `CBUFFER_BIND_CS` are declared in `renderer.h`, which is not among the
sources; the argument `flags` is given by the three tests the source makes. -/
structure cbuffer_bind_flags where
  ps : Bool := false
  vs : Bool := false
  cs : Bool := false
  deriving DecidableEq, Repr

/-- The read `_res_pool[buffer_index].generic_buffer.buf`. -/
def buffer_of (s : renderer_state) (buffer_index : Nat) : Except fault Nat :=
  match s.pool.get buffer_index with
  | .error e => .error e
  | .ok r => .ok (union_pointer r.payload)

/-- The function `direct::renderer_update_buffer`: the copy goes to the address
`Map` returns, which is null unless the buffer exists. -/
def renderer_update_buffer (buffer_index : Nat) (s : renderer_state) :
    Except fault renderer_state :=
  match buffer_of s buffer_index with
  | .error e => .error e
  | .ok buf =>
    if s.dev.live.contains (buf, gpu_object.buffer) then
      .ok { s with dev := (s.dev.issue (.Map buf)).issue (.Unmap buf) }
    else .error fault.out_of_bounds

/-- The function `direct::renderer_set_constant_buffer`. -/
def renderer_set_constant_buffer (buffer_index unit : Nat) (flags : cbuffer_bind_flags)
    (s : renderer_state) : Except fault renderer_state :=
  if flags.ps || flags.vs || flags.cs then
    match buffer_of s buffer_index with
    | .error e => .error e
    | .ok buf =>
      let cmds : List command :=
        (if flags.ps then [command.PSSetConstantBuffers unit buf] else []) ++
        (if flags.vs then [command.VSSetConstantBuffers unit buf] else []) ++
        (if flags.cs then [command.CSSetConstantBuffers unit buf] else [])
      .ok { s with dev := { s.dev with cmds := s.dev.cmds ++ cmds } }
  else .ok s

/-- The function `direct::renderer_set_viewport`. -/
def renderer_set_viewport (s : renderer_state) : Except fault renderer_state :=
  .ok { s with dev := s.dev.issue .RSSetViewports }

/-- The loop of `renderer_set_vertex_buffers`, over the indices it reads. -/
def buffers_of (s : renderer_state) : List Nat → Except fault (List Nat)
  | [] => .ok []
  | i :: rest =>
    match buffer_of s i with
    | .error e => .error e
    | .ok buf =>
      match buffers_of s rest with
      | .error e => .error e
      | .ok bufs => .ok (buf :: bufs)

/-- The function `direct::renderer_set_vertex_buffers`; the local array
`buffers` has 4 entries. -/
def renderer_set_vertex_buffers (buffer_indices : List Nat) (num_buffers start_slot : Nat)
    (s : renderer_state) : Except fault renderer_state :=
  if num_buffers ≤ 4 ∧ num_buffers ≤ buffer_indices.length then
    match buffers_of s (buffer_indices.take num_buffers) with
    | .error e => .error e
    | .ok bufs => .ok { s with dev := s.dev.issue (.IASetVertexBuffers start_slot num_buffers bufs) }
  else .error fault.out_of_bounds

/-- The function `direct::renderer_set_index_buffer`. -/
def renderer_set_index_buffer (buffer_index format offset : Nat) (s : renderer_state) :
    Except fault renderer_state :=
  match to_d3d11_index_format format with
  | .error e => .error e
  | .ok d3d11_format =>
    match buffer_of s buffer_index with
    | .error e => .error e
    | .ok buf => .ok { s with dev := s.dev.issue (.IASetIndexBuffer buf d3d11_format offset) }

/-- The function `direct::renderer_draw_indexed`. -/
def renderer_draw_indexed (index_count start_index base_vertex primitive_topology : Nat)
    (s : renderer_state) : Except fault renderer_state :=
  match to_d3d11_primitive_topology primitive_topology with
  | .error e => .error e
  | .ok topology =>
    let d1 := s.dev.issue (.IASetPrimitiveTopology topology)
    .ok { s with dev := d1.issue (.DrawIndexed index_count start_index base_vertex) }

/-- The block `create resolve surface if required` of `renderer_resolve_target`,
for the slot `r` of `target`, which points to `rti`; `tcp` is `*rti->tcp`. The
sizes are below 2 ^ 24, where the conversion through `f32` is exact. -/
def create_resolve_surface (target ptr : Nat) (r : resource_allocation)
    (rti : render_target_internal) (tcp : texture_creation_params) (w h : Int)
    (s : renderer_state) : Except fault (renderer_state × render_target_internal) :=
  if rti.tex.texture = 0 then
    -- create a resolve surface
    let resolve_tcp : texture_creation_params :=
      { tcp with sample_count := 1, width := w, height := h }
    -- depth gets resolved into colour textures
    let _tcp : texture_creation_params :=
      if rti.format = PEN_TEX_FORMAT_D24_UNORM_S8_UINT then
        { resolve_tcp with
          bind_flags :=
            (resolve_tcp.bind_flags &&& (2 ^ 32 - 1 - PEN_BIND_DEPTH_STENCIL)) |||
              PEN_BIND_RENDER_TARGET
          format := PEN_TEX_FORMAT_R32_FLOAT }
      else resolve_tcp
    match renderer_create_render_target_multi _tcp s.dev rti.tex with
    | .error e => .error e
    | .ok (d1, tex, views) =>
      let rti1 : render_target_internal := { rti with tex := tex, rt := some views }
      match s.pool.set target { r with payload := .render_target ptr rti1 } with
      | .error e => .error e
      | .ok pool1 => .ok ({ s with dev := d1, pool := pool1 }, rti1)
  else .ok (s, rti)

/-- The branch `type == RESOLVE_CUSTOM` of `renderer_resolve_target`. -/
def resolve_custom (target : Nat) (res : resolve_resources) (s : renderer_state) :
    Except fault renderer_state :=
  (renderer_set_resolve_targets target 0 s).bind fun s1 =>
  (renderer_update_buffer res.constant_buffer s1).bind fun s2 =>
  (renderer_set_constant_buffer res.constant_buffer 0 { ps := true } s2).bind fun s3 =>
  (renderer_set_viewport s3).bind fun s4 =>
  (renderer_set_vertex_buffers [res.vertex_buffer] 1 0 s4).bind fun s5 =>
  (renderer_set_index_buffer res.index_buffer PEN_FORMAT_R16_UINT 0 s5).bind fun s6 =>
  (renderer_set_texture target 0 0 { msaa := true, ps := true } s6).bind fun s7 =>
  renderer_draw_indexed 6 0 0 PEN_PT_TRIANGLELIST s7

/-- The function `direct::renderer_resolve_target`. In the ratio case
(`tcp->width == -1`) the size is computed from the window, which is not among
the sources: `window_size` gives it from `tcp->height`. -/
def renderer_resolve_target (window_size : Int → Int × Int) (target : Nat)
    (type : e_msaa_resolve_type) (res : resolve_resources) (s : renderer_state) :
    Except fault renderer_state :=
  match s.pool.get target with
  | .error e => .error e
  | .ok r =>
    if type = .RESOLVE_GENERATE_MIPS then
      -- 3d texture render targets are just 3d textures
      if r.type = RES_TEXTURE_3D then
        match texture_resource_of r.payload with
        | .error e => .error e
        | .ok t => .ok { s with dev := s.dev.issue (.GenerateMips t.srv) }
      else .ok s
    else
      match r.payload with
      | .render_target ptr rti =>
        match rti.tcp with
        | none => .ok s
        | some (copy, tcp) =>
          if s.dev.is_live copy then
            -- get dimensions for shader
            let size : Int × Int :=
              if tcp.width = -1 then window_size tcp.height else (tcp.width, tcp.height)
            match create_resolve_surface target ptr r rti tcp size.1 size.2 s with
            | .error e => .error e
            | .ok (s1, rti1) =>
              if rti1.tex_msaa.texture = 0 then .ok s1
              else if type = .RESOLVE_CUSTOM then resolve_custom target res s1
              else if rti1.format = PEN_TEX_FORMAT_D24_UNORM_S8_UINT then .ok s1
              else
                let resolve : command :=
                  .ResolveSubresource rti1.tex.texture 0 rti1.tex_msaa.texture 0 rti1.format
                .ok { s1 with dev := s1.dev.issue resolve }
          else .error fault.out_of_bounds
      | _ => .error fault.out_of_bounds

/-! ## Definitions used in the statements on the renderer -/

/-- Whether a handle passes the test `handle != 0 && handle != PEN_INVALID_HANDLE`. -/
def valid_handle (h : Nat) : Prop := h ≠ 0 ∧ h ≠ PEN_INVALID_HANDLE

instance (h : Nat) : Decidable (valid_handle h) := by unfold valid_handle; infer_instance

/-- What `mark_colour_written` makes of a slot. -/
def touch_colour (r : resource_allocation) : resource_allocation :=
  match r.payload with
  | .render_target ptr rt =>
    if rt.has_mips then { r with payload := .render_target ptr { rt with invalidate := 1 } } else r
  | _ => r

/-- What `mark_depth_written` makes of a slot. -/
def touch_depth (r : resource_allocation) : resource_allocation :=
  match r.payload with
  | .depth_target ptr dt =>
    if dt.has_mips then { r with payload := .depth_target ptr { dt with invalidate := 1 } } else r
  | .render_target ptr rt =>
    if rt.depth_has_mips then
      { r with payload := .render_target ptr { rt with depth_invalidate := 1 } }
    else r
  | _ => r

/-- Handle `h` is among the first `k` entries of `cts` and passes the test of
`renderer_set_targets`. -/
def named_upto (cts : List Nat) (k h : Nat) : Prop :=
  ∃ i, i < k ∧ cts[i]? = some h ∧ valid_handle h

/-- The invariant of the loop of `renderer_set_targets` after `k` iterations. -/
def targets_inv (cts : List Nat) (face : Nat) (a0 : targets_acc) (k : Nat) (a : targets_acc) :
    Prop :=
  a.active.length = a0.active.length ∧ a.colour_rtv.length = a0.colour_rtv.length ∧
  k ≤ a0.active.length ∧ k ≤ a0.colour_rtv.length ∧
  a.pool.capacity = a0.pool.capacity ∧
  (∀ h, (named_upto cts k h → a.pool.slots h = touch_colour (a0.pool.slots h)) ∧
    (¬ named_upto cts k h → a.pool.slots h = a0.pool.slots h)) ∧
  (∀ i, i < k → ∃ ct, cts[i]? = some ct ∧
    a.active[i]? = some (if valid_handle ct then ct else 0) ∧
    (if valid_handle ct then ∃ v, target_view a0.pool ct face = .ok v ∧ a.colour_rtv[i]? = some v
     else a.colour_rtv[i]? = a0.colour_rtv[i]?)) ∧
  (∀ i, k ≤ i → a.active[i]? = a0.active[i]? ∧ a.colour_rtv[i]? = a0.colour_rtv[i]?)

/-- The slot points to a `render_target_internal`. -/
def is_render_target_slot (r : resource_allocation) : Prop :=
  ∃ ptr rt, r.payload = .render_target ptr rt

/-- Whether a command is a colour clear. -/
def is_colour_clear : command → Bool
  | .ClearRenderTargetView _ _ => true
  | _ => false

/-- Whether a command is a depth-stencil clear. -/
def is_depth_clear : command → Bool
  | .ClearDepthStencilView _ _ _ _ => true
  | _ => false

/-- The state of a run that returned; used on concrete runs only. -/
def ok_state (r : Except fault renderer_state) : renderer_state :=
  match r with
  | .ok s => s
  | .error _ => renderer_init

/-- An environment for the concrete runs: sizes are not ratios of the window,
and the mip count of a 64 x 64 target is 7. -/
def demo_env : shared_env :=
  { tcp_resolve_ratio := fun tcp => tcp, calc_num_mips := fun _ _ => 7 }

/-- A 64 x 64 colour target, `PEN_TEX_FORMAT_RGBA8_UNORM`, with 4 mips. -/
def demo_colour_tcp : texture_creation_params :=
  { width := 64, height := 64, num_mips := 4, format := PEN_TEX_FORMAT_RGBA8_UNORM
    bind_flags := PEN_BIND_RENDER_TARGET ||| PEN_BIND_SHADER_RESOURCE }

/-- A 64 x 64 depth target, `PEN_TEX_FORMAT_D24_UNORM_S8_UINT`. -/
def demo_depth_tcp : texture_creation_params :=
  { width := 64, height := 64, num_mips := 1, format := PEN_TEX_FORMAT_D24_UNORM_S8_UINT
    bind_flags := PEN_BIND_DEPTH_STENCIL ||| PEN_BIND_SHADER_RESOURCE }

/-- The clear state of `basic_texture.cpp`: colour (0, 0, 0.5, 1) as `f32` bit
patterns, depth 1.0, stencil 0, colour and depth. -/
def demo_clear_state : clear_state :=
  { r := 0, g := 0, b := 0x3f000000, a := 0x3f800000, depth := 0x3f800000, stencil := 0
    flags := PEN_CLEAR_COLOUR_BUFFER ||| PEN_CLEAR_DEPTH_BUFFER }

/-- A clear state with two explicit colour targets and no flag. -/
def demo_mrt_clear_state : clear_state :=
  { flags := 0, num_colour_targets := 2
    mrt := [{ f := [1, 2, 3, 4] }, { f := [5, 6, 7, 8] }] }

/-- The state after creating the colour targets 5 and 6, the depth target 7 and
the clear states 8 and 9 from the state after `_res_pool.init`. -/
def demo_created : renderer_state :=
  ok_state
    ((renderer_create_render_target demo_env demo_colour_tcp 5 false renderer_init).bind fun s1 =>
     (renderer_create_render_target demo_env demo_colour_tcp 6 false s1).bind fun s2 =>
     (renderer_create_render_target demo_env demo_depth_tcp 7 false s2).bind fun s3 =>
     (renderer_create_clear_state (fun u => u) demo_clear_state 8 s3).bind fun s4 =>
     renderer_create_clear_state (fun u => u) demo_mrt_clear_state 9 s4)

/-- The state after binding the colour targets 5 and 6 and the depth target 7 in
`demo_created`. -/
def demo_bound : renderer_state :=
  ok_state (renderer_set_targets [5, 6] 2 7 0 0 demo_created)

instance except_decidable_eq {ε α : Type} [DecidableEq ε] [DecidableEq α] :
    DecidableEq (Except ε α) := fun a b =>
  match a, b with
  | .ok x, .ok y =>
    if h : x = y then isTrue (by rw [h]) else isFalse (fun e => h (Except.ok.inj e))
  | .error x, .error y =>
    if h : x = y then isTrue (by rw [h]) else isFalse (fun e => h (Except.error.inj e))
  | .ok _, .error _ => isFalse (fun e => by cases e)
  | .error _, .ok _ => isFalse (fun e => by cases e)

/-- Whether a command is a `GenerateMips`. -/
def is_generate_mips : command → Bool
  | .GenerateMips _ => true
  | _ => false

/-- The slot points to a `render_target_internal` with `has_mips` set, and is
tagged as a render target. -/
def slot_has_mips (r : resource_allocation) : Prop :=
  r.type = RES_RENDER_TARGET ∧ ∃ ptr rt, r.payload = .render_target ptr rt ∧ rt.has_mips = true

/-- The member `invalidate` of the `render_target_internal` a slot points to. -/
def slot_invalidate (r : resource_allocation) : Option Nat :=
  match r.payload with
  | .render_target _ rt => some rt.invalidate
  | _ => none

/-- Slot `h` of the resource table is a render target with mips. -/
def mip_target (s : renderer_state) (h : Nat) : Prop :=
  h < s.pool.capacity ∧ slot_has_mips (s.pool.slots h)

/-- The dirty flag of the render target in slot `h`. -/
def invalidate_flag (s : renderer_state) (h : Nat) : Option Nat :=
  slot_invalidate (s.pool.slots h)

/-- The write view the builder creates: a depth-stencil view in the depth
branch, a render target view in the colour branch. -/
def write_view_object (depth : Bool) (texture format : Nat) (array_view : Bool)
    (first_slice slices mip : Nat) : gpu_object :=
  if depth then .depth_stencil_view texture format array_view first_slice slices mip
  else .render_target_view texture format array_view first_slice slices mip

/-- The texture `renderer_create_render_target_multi` creates. -/
def multi_texture (tcp : texture_creation_params) (format usage : Nat) : gpu_object :=
  .texture2d format usage (to_d3d11_bind_flags tcp.bind_flags)
    (to_d3d11_cpu_access_flags tcp.cpu_access_flags)
    (if tcp.collection_type = .TEXTURE_COLLECTION_CUBE ∨
        tcp.collection_type = .TEXTURE_COLLECTION_CUBE_ARRAY then tcp.flags ||| 4
      else tcp.flags)
    tcp.num_arrays tcp.num_mips tcp.sample_count

/-- The value of `srv_dimension` in `renderer_create_render_target_multi`. -/
def multi_dimension (tcp : texture_creation_params) : Nat :=
  to_d3d11_srv_dimension tcp.collection_type (decide (tcp.sample_count > 1))

/-- Whether an object is a read (shader resource) view. -/
def is_read_view : gpu_object → Bool
  | .shader_resource_view _ _ _ _ _ => true
  | _ => false

/-- Whether an object is a write view: a render target view or a depth-stencil
view. -/
def is_write_view : gpu_object → Bool
  | .render_target_view _ _ _ _ _ _ => true
  | .depth_stencil_view _ _ _ _ _ _ => true
  | _ => false

/-- The slices and the mip a write view covers (first slice, slice count, mip):
those of its description when it is described as an array view; a view described
as a plain 2D or multisample 2D view covers the first slice of its texture. -/
def covered_slices : gpu_object → Option (Nat × Nat × Nat)
  | .render_target_view _ _ true first_slice slices mip => some (first_slice, slices, mip)
  | .render_target_view _ _ false _ _ mip => some (0, 1, mip)
  | .depth_stencil_view _ _ true first_slice slices mip => some (first_slice, slices, mip)
  | .depth_stencil_view _ _ false _ _ mip => some (0, 1, mip)
  | _ => none

/-- The single-sample surface of the render target in slot `h`: the member
`tex.texture` of its struct, 0 when it has none. -/
def resolve_surface (s : renderer_state) (h : Nat) : Option Nat :=
  match (s.pool.slots h).payload with
  | .render_target _ rt => some rt.tex.texture
  | _ => none

/-- Nothing was acquired or destroyed between `s` and `s1`, and every render
target has the surface it had. -/
def same_objects (s s1 : renderer_state) : Prop :=
  s1.dev.live = s.dev.live ∧ s1.dev.next_id = s.dev.next_id ∧
  s1.pool.capacity = s.pool.capacity ∧
  ∀ h, (s1.pool.slots h).type = (s.pool.slots h).type ∧
    ((s1.pool.slots h = s.pool.slots h) ∨
      ∃ ptr rt i, (s.pool.slots h).payload = .render_target ptr rt ∧
        (s1.pool.slots h).payload = .render_target ptr { rt with invalidate := i })

/-- The sample count a texture was created with. -/
def texture_samples : gpu_object → Option Nat
  | .texture2d _ _ _ _ _ _ _ samples => some samples
  | _ => none

/-- A 64 x 64 colour target with 4 samples. -/
def demo_msaa_tcp : texture_creation_params :=
  { demo_colour_tcp with sample_count := 4, num_mips := 1 }

/-- A 64 x 64 depth target of the given pixel format with 4 samples. -/
def demo_msaa_depth_tcp (format : Nat) : texture_creation_params :=
  { demo_depth_tcp with sample_count := 4, format := format }

/-- The state after creating the multisampled colour target 5 from the state
after `_res_pool.init`. -/
def demo_msaa_created : renderer_state :=
  ok_state (renderer_create_render_target demo_env demo_msaa_tcp 5 false renderer_init)

/-- A structured buffer of 16 elements of 4 bytes. -/
def demo_structured_buffer : buffer_creation_params :=
  { bind_flags := PEN_BIND_SHADER_WRITE, buffer_size := 64, stride := 4 }

/-- A 64 x 64 multisampled colour target with a read-back texture. -/
def demo_msaa_read_back_tcp : texture_creation_params :=
  { demo_msaa_tcp with cpu_access_flags := PEN_CPU_ACCESS_READ }

/-- Slot `h` of the resource table points to a `render_target_internal` that
holds no multisample data: its member `tcp` is null. -/
def single_sample_target (s : renderer_state) (h : Nat) : Prop :=
  h < s.pool.capacity ∧ ∃ ptr rt, (s.pool.slots h).payload = .render_target ptr rt ∧ rt.tcp = none

/-- The state after creating the 64 x 64 colour target of sample count 1 in slot
5 from the state after `_res_pool.init`. -/
def demo_single_created : renderer_state :=
  ok_state (renderer_create_render_target demo_env demo_colour_tcp 5 false renderer_init)

/-- The state after binding the colour target 5 alone, with the depth target 7,
in `demo_bound`, where the colour targets 5 and 6 were bound: entry 1 of
`active_colour_target` still holds 6. -/
def demo_rebound : renderer_state :=
  ok_state (renderer_set_targets [5] 1 7 0 0 demo_bound)

/-- The state after binding no colour target (the handle `PEN_INVALID_HANDLE`)
and the depth target 7 in `demo_created`: a depth-only pass. -/
def demo_depth_only : renderer_state :=
  ok_state (renderer_set_targets [PEN_INVALID_HANDLE] 1 7 0 0 demo_created)

/-- The fault of a run that did not return. -/
def fault_of {α : Type} : Except fault α → Option fault
  | .ok _ => none
  | .error e => some e

/-! ### Blend factors and shader programs -/

/-- The enumerators of `blending_factor` (`renderer_definitions.h`). -/
def PEN_BLEND_ZERO : Nat := 0

/-- See `PEN_BLEND_ZERO`. -/
def PEN_BLEND_ONE : Nat := 1

/-- See `PEN_BLEND_ZERO`. -/
def PEN_BLEND_SRC_COLOR : Nat := 2

/-- See `PEN_BLEND_ZERO`. -/
def PEN_BLEND_INV_SRC_COLOR : Nat := 3

/-- See `PEN_BLEND_ZERO`. -/
def PEN_BLEND_SRC_ALPHA : Nat := 4

/-- See `PEN_BLEND_ZERO`. -/
def PEN_BLEND_INV_SRC_ALPHA : Nat := 5

/-- See `PEN_BLEND_ZERO`. -/
def PEN_BLEND_DEST_ALPHA : Nat := 6

/-- See `PEN_BLEND_ZERO`. -/
def PEN_BLEND_INV_DEST_ALPHA : Nat := 7

/-- See `PEN_BLEND_ZERO`. -/
def PEN_BLEND_DEST_COLOR : Nat := 8

/-- See `PEN_BLEND_ZERO`. -/
def PEN_BLEND_INV_DEST_COLOR : Nat := 9

/-- See `PEN_BLEND_ZERO`. -/
def PEN_BLEND_SRC_ALPHA_SAT : Nat := 10

/-- See `PEN_BLEND_ZERO`. -/
def PEN_BLEND_BLEND_FACTOR : Nat := 11

/-- See `PEN_BLEND_ZERO`. -/
def PEN_BLEND_INV_BLEND_FACTOR : Nat := 12

/-- See `PEN_BLEND_ZERO`. -/
def PEN_BLEND_SRC1_COLOR : Nat := 13

/-- See `PEN_BLEND_ZERO`. -/
def PEN_BLEND_INV_SRC1_COLOR : Nat := 14

/-- See `PEN_BLEND_ZERO`. -/
def PEN_BLEND_SRC1_ALPHA : Nat := 15

/-- See `PEN_BLEND_ZERO`. -/
def PEN_BLEND_INV_SRC1_ALPHA : Nat := 16

/-- The enumerators of `D3D11_BLEND` (`d3d11.h`). -/
def D3D11_BLEND_ZERO : Nat := 1

/-- See `D3D11_BLEND_ZERO`. -/
def D3D11_BLEND_ONE : Nat := 2

/-- See `D3D11_BLEND_ZERO`. -/
def D3D11_BLEND_SRC_COLOR : Nat := 3

/-- See `D3D11_BLEND_ZERO`. -/
def D3D11_BLEND_INV_SRC_COLOR : Nat := 4

/-- See `D3D11_BLEND_ZERO`. -/
def D3D11_BLEND_SRC_ALPHA : Nat := 5

/-- See `D3D11_BLEND_ZERO`. -/
def D3D11_BLEND_INV_SRC_ALPHA : Nat := 6

/-- See `D3D11_BLEND_ZERO`. -/
def D3D11_BLEND_DEST_ALPHA : Nat := 7

/-- See `D3D11_BLEND_ZERO`. -/
def D3D11_BLEND_INV_DEST_ALPHA : Nat := 8

/-- See `D3D11_BLEND_ZERO`. -/
def D3D11_BLEND_DEST_COLOR : Nat := 9

/-- See `D3D11_BLEND_ZERO`. -/
def D3D11_BLEND_INV_DEST_COLOR : Nat := 10

/-- See `D3D11_BLEND_ZERO`. -/
def D3D11_BLEND_SRC_ALPHA_SAT : Nat := 11

/-- See `D3D11_BLEND_ZERO`. -/
def D3D11_BLEND_BLEND_FACTOR : Nat := 14

/-- See `D3D11_BLEND_ZERO`. -/
def D3D11_BLEND_INV_BLEND_FACTOR : Nat := 15

/-- See `D3D11_BLEND_ZERO`. -/
def D3D11_BLEND_SRC1_COLOR : Nat := 16

/-- See `D3D11_BLEND_ZERO`. -/
def D3D11_BLEND_INV_SRC1_COLOR : Nat := 17

/-- See `D3D11_BLEND_ZERO`. -/
def D3D11_BLEND_SRC1_ALPHA : Nat := 18

/-- See `D3D11_BLEND_ZERO`. -/
def D3D11_BLEND_INV_SRC1_ALPHA : Nat := 19

/-- The function `to_d3d11_blend_factor`: the cases of the `switch` in the order
of the source, then `PEN_ASSERT(0)`. -/
def to_d3d11_blend_factor (pen_blend_factor : Nat) : Except fault Nat :=
  if pen_blend_factor = PEN_BLEND_ZERO then .ok D3D11_BLEND_ZERO
  else if pen_blend_factor = PEN_BLEND_ONE then .ok D3D11_BLEND_ONE
  else if pen_blend_factor = PEN_BLEND_SRC_COLOR then .ok D3D11_BLEND_SRC_COLOR
  else if pen_blend_factor = PEN_BLEND_INV_SRC_COLOR then .ok D3D11_BLEND_INV_SRC_COLOR
  else if pen_blend_factor = PEN_BLEND_SRC_ALPHA then .ok D3D11_BLEND_SRC_ALPHA
  else if pen_blend_factor = PEN_BLEND_INV_SRC_ALPHA then .ok D3D11_BLEND_INV_SRC_ALPHA
  else if pen_blend_factor = PEN_BLEND_DEST_ALPHA then .ok D3D11_BLEND_DEST_ALPHA
  else if pen_blend_factor = PEN_BLEND_INV_DEST_ALPHA then .ok D3D11_BLEND_INV_DEST_ALPHA
  else if pen_blend_factor = PEN_BLEND_INV_DEST_COLOR then .ok D3D11_BLEND_DEST_COLOR
  else if pen_blend_factor = PEN_BLEND_SRC_ALPHA_SAT then .ok D3D11_BLEND_SRC_ALPHA_SAT
  else if pen_blend_factor = PEN_BLEND_SRC1_COLOR then .ok D3D11_BLEND_SRC1_COLOR
  else if pen_blend_factor = PEN_BLEND_INV_SRC1_COLOR then .ok D3D11_BLEND_INV_SRC1_COLOR
  else if pen_blend_factor = PEN_BLEND_SRC1_ALPHA then .ok D3D11_BLEND_SRC1_ALPHA
  else if pen_blend_factor = PEN_BLEND_INV_SRC1_ALPHA then .ok D3D11_BLEND_INV_SRC1_ALPHA
  else if pen_blend_factor = PEN_BLEND_BLEND_FACTOR then .ok D3D11_BLEND_BLEND_FACTOR
  else if pen_blend_factor = PEN_BLEND_INV_BLEND_FACTOR then .ok D3D11_BLEND_INV_BLEND_FACTOR
  else .error fault.assertion

/-- The enumerators of `blending_factor` paired with the `D3D11_BLEND` constant
of the same name. -/
def blend_factor_names : List (Nat × Nat) :=
  [(PEN_BLEND_ZERO, D3D11_BLEND_ZERO), (PEN_BLEND_ONE, D3D11_BLEND_ONE),
   (PEN_BLEND_SRC_COLOR, D3D11_BLEND_SRC_COLOR),
   (PEN_BLEND_INV_SRC_COLOR, D3D11_BLEND_INV_SRC_COLOR),
   (PEN_BLEND_SRC_ALPHA, D3D11_BLEND_SRC_ALPHA),
   (PEN_BLEND_INV_SRC_ALPHA, D3D11_BLEND_INV_SRC_ALPHA),
   (PEN_BLEND_DEST_ALPHA, D3D11_BLEND_DEST_ALPHA),
   (PEN_BLEND_INV_DEST_ALPHA, D3D11_BLEND_INV_DEST_ALPHA),
   (PEN_BLEND_DEST_COLOR, D3D11_BLEND_DEST_COLOR),
   (PEN_BLEND_INV_DEST_COLOR, D3D11_BLEND_INV_DEST_COLOR),
   (PEN_BLEND_SRC_ALPHA_SAT, D3D11_BLEND_SRC_ALPHA_SAT),
   (PEN_BLEND_BLEND_FACTOR, D3D11_BLEND_BLEND_FACTOR),
   (PEN_BLEND_INV_BLEND_FACTOR, D3D11_BLEND_INV_BLEND_FACTOR),
   (PEN_BLEND_SRC1_COLOR, D3D11_BLEND_SRC1_COLOR),
   (PEN_BLEND_INV_SRC1_COLOR, D3D11_BLEND_INV_SRC1_COLOR),
   (PEN_BLEND_SRC1_ALPHA, D3D11_BLEND_SRC1_ALPHA),
   (PEN_BLEND_INV_SRC1_ALPHA, D3D11_BLEND_INV_SRC1_ALPHA)]

/-- Modelled from the spec: the struct `shader_link_params` is declared in
`renderer.h`, which is not among the sources; these are the three handles the
source reads. -/
structure shader_link_params where
  input_layout : Nat := 0
  vertex_shader : Nat := 0
  pixel_shader : Nat := 0
  deriving DecidableEq, Repr

/-- The function `direct::renderer_link_shader_program`: the reference
`sp = _res_pool[resource_index].shader_program` and the three assignments
through it. -/
def renderer_link_shader_program (params : shader_link_params) (resource_slot : Nat)
    (s : renderer_state) : Except fault renderer_state :=
  match s.pool.get resource_slot with
  | .error e => .error e
  | .ok r =>
    let sp : resource_payload :=
      .shader_program params.vertex_shader params.pixel_shader params.input_layout
    match s.pool.set resource_slot { r with payload := sp } with
    | .error e => .error e
    | .ok pool1 => .ok { s with pool := pool1 }

/-- A call that concerns the render target in slot `h`: a `renderer_set_targets`
with any arguments, or a `renderer_set_texture` on `h`. -/
inductive target_op where
  | set_targets (colour_targets : List Nat)
      (num_colour_targets depth_target colour_face depth_face : Nat)
  | set_texture (sampler_index unit : Nat) (bind_flags : texture_bind_flags)

/-- One call. -/
def target_step (h : Nat) (op : target_op) (s : renderer_state) : Except fault renderer_state :=
  match op with
  | .set_targets cts n d cf df => renderer_set_targets cts n d cf df s
  | .set_texture sampler_index unit bind_flags =>
    renderer_set_texture h sampler_index unit bind_flags s

/-- A sequence of calls, stopping at the first fault. -/
def target_run (h : Nat) : List target_op → renderer_state → Except fault renderer_state
  | [], s => .ok s
  | op :: ops, s =>
    match target_step h op s with
    | .error e => .error e
    | .ok s1 => target_run h ops s1

/-- Whether a call binds `h` as a render target: a `renderer_set_targets` that
names `h` among its first `num_colour_targets` colour handles, `h` passing the
test of the handle. -/
def binds (h : Nat) : target_op → Bool
  | .set_targets cts n _ _ _ => decide (h ∈ cts.take n) && decide (valid_handle h)
  | .set_texture _ _ _ => false

/-- The count the claim on lazy mip generation gives: the number of reads (calls
of `renderer_set_texture`) in `ops` that were preceded by at least one bind of
`h` since the previous read; `dirty` tells whether there was a bind before `ops`
since the last read. -/
def regenerations (h : Nat) : Bool → List target_op → Nat
  | _, [] => 0
  | dirty, .set_targets cts n d cf df :: ops =>
    regenerations h (dirty || binds h (.set_targets cts n d cf df)) ops
  | dirty, .set_texture _ _ _ :: ops => (if dirty then 1 else 0) + regenerations h false ops

/-- Slot `h` of the resource table is a render target without mips. -/
def plain_target (s : renderer_state) (h : Nat) : Prop :=
  h < s.pool.capacity ∧ (s.pool.slots h).type = RES_RENDER_TARGET ∧
    ∃ ptr rt, (s.pool.slots h).payload = .render_target ptr rt ∧ rt.has_mips = false

/-- The calls of the witness of C23, on slot 5: a read, two binds, two reads,
a bind of target 6 alone, a read, a bind of 6 and 5 and a read. -/
def demo_target_ops : List target_op :=
  [.set_texture 0 0 { ps := true }, .set_targets [5] 1 0 0 0, .set_targets [5, 6] 2 7 0 0,
   .set_texture 0 0 { ps := true }, .set_texture 0 1 { vs := true },
   .set_targets [6] 1 7 0 0, .set_texture 0 0 { ps := true },
   .set_targets [6, 5] 2 0 0 0, .set_texture 0 0 { ps := true }]

/-- The state after creating the colour target 6 and the depth target 7 from the
state after `_res_pool.init`. -/
def demo_two_created : renderer_state :=
  ok_state
    ((renderer_create_render_target demo_env demo_colour_tcp 6 false renderer_init).bind fun s1 =>
     renderer_create_render_target demo_env demo_depth_tcp 7 false s1)

/-- The state after creating the colour target 5, with 4 mips, in
`demo_two_created`. -/
def demo_mip_created : renderer_state :=
  ok_state (renderer_create_render_target demo_env demo_colour_tcp 5 false demo_two_created)

/-! ### The back buffer -/

/-- What `create_rtvs` reads of the swap chain and of the window, which are not
among the sources: the member `BufferDesc.Format` of the description of the swap
chain and `pen_window.sample_count`. -/
structure swap_chain_env where
  format : Nat
  sample_count : Nat

/-- The statements `if (!p) p = memory_alloc(sizeof(T)); memory_zero(p, sizeof(T));`
of `create_rtvs` on the pointer of a slot: the device and the pointer. A struct
`render_target_internal` is larger than a `depth_stencil_target_internal`;
zeroing through a pointer to anything else writes outside the allocation. -/
def back_buffer_struct (d : device) (p : resource_payload) (depth : Bool) :
    Except fault (device × Nat) :=
  match p with
  | .empty => .ok (d.acquire .heap_struct)
  | .render_target ptr _ => .ok (d, ptr)
  | .depth_target ptr _ => if depth then .ok (d, ptr) else .error fault.out_of_bounds
  | _ => .error fault.out_of_bounds

/-- The function `create_rtvs`. The sizes `w` and `h` go into the description of
the depth texture, of which the model keeps no size. -/
def create_rtvs (env : swap_chain_env) (crtv dsv _w _h : Nat) (s : renderer_state) :
    Except fault renderer_state :=
  if crtv ≠ PEN_BACK_BUFFER_COLOUR then .error fault.assertion
  else if dsv ≠ PEN_BACK_BUFFER_DEPTH then .error fault.assertion
  else
    match s.pool.get crtv with
    | .error e => .error e
    | .ok rc =>
      match back_buffer_struct s.dev rc.payload false with
      | .error e => .error e
      | .ok (d1, ptr) =>
        match s.pool.set crtv { type := RES_RENDER_TARGET, payload := .render_target ptr {} } with
        | .error e => .error e
        | .ok pool1 =>
          match pool1.get dsv with
          | .error e => .error e
          | .ok rd =>
            match back_buffer_struct d1 rd.payload true with
            | .error e => .error e
            | .ok (d2, dptr) =>
              -- alloc arrays
              let (d3, rt_array) := d2.acquire (.view_array 1)
              let (d4, ds_array) := d3.acquire (.view_array 1)
              -- Create a render target view
              let (d5, back) := d4.acquire .back_buffer
              let (d6, rtv) := d5.acquire (.render_target_view back env.format false 0 0 0)
              -- for readback and resolve
              let (d7, resolve) := d6.acquire (.texture2d env.format D3D11_USAGE_DEFAULT 0 0 0 1 1 1)
              let (d8, read_back) := d7.acquire
                (.texture2d env.format D3D11_USAGE_STAGING 0 D3D11_CPU_ACCESS_READ 0 1 1 1)
              -- Create depth stencil texture
              let (d9, depth) := d8.acquire
                (.texture2d DXGI_FORMAT_D24_UNORM_S8_UINT D3D11_USAGE_DEFAULT
                  D3D11_BIND_DEPTH_STENCIL 0 0 1 1 env.sample_count)
              -- Create the depth stencil view
              let (d10, view) := d9.acquire
                (.depth_stencil_view depth DXGI_FORMAT_D24_UNORM_S8_UINT false 0 0 0)
              let rti : render_target_internal :=
                { tex := { texture := back }, rt := some { id := rt_array, views := [some rtv] }
                  format := env.format, msaa_resolve_readback := true
                  tex_resolve := { texture := resolve }, tex_read_back := { texture := read_back } }
              let dti : depth_stencil_target_internal :=
                { tex := { texture := depth }, ds := some { id := ds_array, views := [some view] } }
              match pool1.set crtv { type := RES_RENDER_TARGET, payload := .render_target ptr rti } with
              | .error e => .error e
              | .ok pool2 =>
                match pool2.set dsv { rd with payload := .depth_target dptr dti } with
                | .error e => .error e
                | .ok pool3 =>
                  if 0 < s.ctx.active_colour_target.length then
                    .ok { dev := d10.issue (.OMSetRenderTargets 1 [rtv] 0)
                          pool := pool3
                          ctx := { s.ctx with
                            active_depth_target := PEN_BACK_BUFFER_DEPTH
                            active_colour_target :=
                              s.ctx.active_colour_target.set 0 PEN_BACK_BUFFER_COLOUR
                            num_active_colour_targets := 1
                            backbuffer_colour := crtv
                            backbuffer_depth := dsv } }
                  else .error fault.out_of_bounds

/-- One of the two blocks `if (p->ds) { p->ds[0]->Release(); p->tex.texture->Release(); }`
of `renderer_new_frame`, for the slot `r`. -/
def release_back_buffer (d : device) (r : resource_allocation) : Except fault device :=
  match write_views r with
  | .error e => .error e
  | .ok (single, _) =>
    match single with
    | none => .ok d
    | some a =>
      match view_at (some a) 0 with
      | .error e => .error e
      | .ok v =>
        match d.release v with
        | .error e => .error e
        | .ok d1 =>
          match texture_resource_of r.payload with
          | .error e => .error e
          | .ok t => d1.release t.texture

/-- The function `direct::renderer_new_frame`; `backbuffer_resize` is the test
of the flag of `_renderer_flags()`, `w` and `h` are the size of the window.
`ResizeBuffers` and `_renderer_new_frame` touch nothing that is modelled. -/
def renderer_new_frame (env : swap_chain_env) (backbuffer_resize : Bool) (w h : Nat)
    (s : renderer_state) : Except fault renderer_state :=
  if backbuffer_resize then
    let d0 := s.dev.issue (.OMSetRenderTargets 0 [] 0)
    -- Release all outstanding references to the swap chain's buffers.
    match s.pool.get s.ctx.backbuffer_depth with
    | .error e => .error e
    | .ok rd =>
      match release_back_buffer d0 rd with
      | .error e => .error e
      | .ok d1 =>
        match s.pool.get s.ctx.backbuffer_colour with
        | .error e => .error e
        | .ok rc =>
          match release_back_buffer d1 rc with
          | .error e => .error e
          | .ok d2 =>
            create_rtvs env s.ctx.backbuffer_colour s.ctx.backbuffer_depth w h { s with dev := d2 }
  else .ok s

/-- The state `create_rtvs` establishes in the resource table: slot 1 is tagged
as a render target and points to a struct whose array `rt` has one entry, a
render target view of its texture, and which has no multisample array; slot 2
points to a depth struct whose array `ds` has one entry, a depth-stencil view of
its texture, and which has no multisample array; the context records the two
handles; the four objects are acquired and distinct. -/
def back_buffer_slots (s : renderer_state) : Prop :=
  2 < s.pool.capacity ∧ s.ctx.backbuffer_colour = PEN_BACK_BUFFER_COLOUR ∧
  s.ctx.backbuffer_depth = PEN_BACK_BUFFER_DEPTH ∧
  (s.pool.slots 1).type = RES_RENDER_TARGET ∧
  ∃ ptr rt ac vc dptr dt ad vd,
    (s.pool.slots 1).payload = .render_target ptr rt ∧ rt.rt = some ac ∧
    ac.views = [some vc] ∧ rt.rt_msaa = none ∧
    (s.pool.slots 2).payload = .depth_target dptr dt ∧ dt.ds = some ad ∧
    ad.views = [some vd] ∧ dt.ds_msaa = none ∧
    (∃ f, (vc, gpu_object.render_target_view rt.tex.texture f false 0 0 0) ∈ s.dev.live) ∧
    (∃ f, (vd, gpu_object.depth_stencil_view dt.tex.texture f false 0 0 0) ∈ s.dev.live) ∧
    s.dev.is_live rt.tex.texture = true ∧ s.dev.is_live dt.tex.texture = true ∧
    [vc, rt.tex.texture, vd, dt.tex.texture].Nodup

/-- The context records the back buffer as the bound targets. -/
def back_buffer_bound (s : renderer_state) : Prop :=
  s.ctx.num_active_colour_targets = 1 ∧
  s.ctx.active_colour_target[0]? = some PEN_BACK_BUFFER_COLOUR ∧
  s.ctx.active_depth_target = PEN_BACK_BUFFER_DEPTH

/-- The table has more than two slots, the pointer of slot 1 is null or points
to a `render_target_internal`, the pointer of slot 2 is null or points to a depth
or render target struct, and `active_colour_target` has its 8 entries. -/
def back_buffer_ready (s : renderer_state) : Prop :=
  2 < s.pool.capacity ∧
  ((s.pool.slots 1).payload = .empty ∨ ∃ ptr rt, (s.pool.slots 1).payload = .render_target ptr rt) ∧
  ((s.pool.slots 2).payload = .empty ∨
    (∃ ptr dt, (s.pool.slots 2).payload = .depth_target ptr dt) ∨
    ∃ ptr rt, (s.pool.slots 2).payload = .render_target ptr rt) ∧
  s.ctx.active_colour_target.length = MAX_MRT

/-- The swap chain of the concrete runs: `DXGI_FORMAT_R8G8B8A8_UNORM`, one sample. -/
def demo_swap_chain : swap_chain_env :=
  { format := DXGI_FORMAT_R8G8B8A8_UNORM, sample_count := 1 }

/-- The invariant of the marker ring: in every buffer the position lies inside
the buffer or right behind it, and every slot at or behind the position is
unused. -/
def ring_inv (s : perf_state) : Prop :=
  ∀ b, s.s_perf.pos b ≤ (s.s_perf.markers b).length ∧
    ∀ i m, (s.s_perf.markers b)[i]? = some m → s.s_perf.pos b ≤ i → m.issued = 0

/-- Whether an operation is a push. -/
def is_push : perf_op → Bool
  | .push _ => true
  | _ => false

/-- Whether an operation is a pop. -/
def is_pop : perf_op → Bool
  | .pop => true
  | _ => false

/-- A sequence of pushes and pops in which every prefix has at least as many
pushes as pops, above `h` markers that are open already, and which closes them
all. -/
def balanced_above (h : Nat) (ops : List perf_op) : Prop :=
  (∀ op ∈ ops, is_push op = true ∨ is_pop op = true) ∧
  (∀ k, (ops.take k).countP is_pop ≤ (ops.take k).countP is_push + h) ∧
  ops.countP is_push + h = ops.countP is_pop

/-- A balanced sequence of pushes and pops: every prefix has at least as many
pushes as pops, and the totals are equal. -/
def balanced (ops : List perf_op) : Prop :=
  (∀ op ∈ ops, is_push op = true ∨ is_pop op = true) ∧
  (∀ k, (ops.take k).countP is_pop ≤ (ops.take k).countP is_push) ∧
  ops.countP is_push = ops.countP is_pop

/-- The pairing of pushes and pops by the LIFO rule: each pop closes the most
recently pushed slot that is still open. `opens` are the open slots, the most
recent first, each with the time of its push; `next` is the slot the next push
takes and `t` the time of the next operation. The result lists, for each pop,
the slot it closes with the times of its push and of the pop. -/
def lifo_closed : List perf_op → List (Nat × Nat) → Nat → Nat → List (Nat × Nat × Nat)
  | [], _, _, _ => []
  | .push _ :: ops, opens, next, t => lifo_closed ops ((next, t) :: opens) (next + 1) (t + 1)
  | .pop :: ops, e :: opens, next, t => (e.1, e.2, t) :: lifo_closed ops opens next (t + 1)
  | _ :: ops, opens, next, t => lifo_closed ops opens next (t + 1)

/-- The stack height lies within the storage of the stack and the nesting depth
is a `u32`. -/
def perf_wf (s : perf_state) : Prop :=
  s.s_perf.stack.pos ≤ s.s_perf.stack.indices.length ∧ s.s_perf.depth < 2 ^ 32

/-- The invariant of a run of pushes and pops: `opens` are the slots of the
current buffer that the run has opened and not closed, the most recent first,
each with the time of its push; they are the top entries of the index stack. -/
def open_inv (s : perf_state) (opens : List (Nat × Nat)) : Prop :=
  s.s_frame ≠ 0 ∧ ring_inv s ∧ perf_wf s ∧
  opens.length ≤ s.s_perf.stack.pos ∧ (opens.map Prod.fst).Nodup ∧
  ∀ j e, opens[j]? = some e →
    s.s_perf.stack.indices[s.s_perf.stack.pos - 1 - j]? = some e.1 ∧
    e.1 < s.s_perf.pos s.s_perf.buf ∧
    ∃ m, (s.s_perf.markers s.s_perf.buf)[e.1]? = some m ∧ m.issued = 1 ∧ m.begin = e.2

/-- What a run `ops` from `s`, above the open slots `opens`, leaves in `s1`. -/
def run_result (s s1 : perf_state) (opens : List (Nat × Nat)) (ops : List perf_op) : Prop :=
  s1.s_perf.stack.pos + opens.length = s.s_perf.stack.pos ∧
  u32 (s1.s_perf.depth + opens.length) = s.s_perf.depth ∧ s1.s_perf.depth < 2 ^ 32 ∧
  s1.s_perf.pos s.s_perf.buf = s.s_perf.pos s.s_perf.buf + ops.countP is_push ∧
  s1.s_perf.buf = s.s_perf.buf ∧ s1.s_frame = s.s_frame ∧
  s1.gpu_clock = s.gpu_clock + ops.length ∧
  (∀ b, b ≠ s.s_perf.buf →
    s1.s_perf.markers b = s.s_perf.markers b ∧ s1.s_perf.pos b = s.s_perf.pos b) ∧
  (∀ e ∈ lifo_closed ops opens (s.s_perf.pos s.s_perf.buf) s.gpu_clock,
    ∃ m, (s1.s_perf.markers s.s_perf.buf)[e.1]? = some m ∧ m.issued = 2 ∧
      m.begin = e.2.1 ∧ m.end_ = e.2.2) ∧
  (∀ e ∈ opens, ∃ m, (s1.s_perf.markers s.s_perf.buf)[e.1]? = some m ∧ m.issued = 2) ∧
  (∀ i, s.s_perf.pos s.s_perf.buf ≤ i →
    i < s.s_perf.pos s.s_perf.buf + ops.countP is_push →
    ∃ m, (s1.s_perf.markers s.s_perf.buf)[i]? = some m ∧ m.issued = 2) ∧
  (∀ i m, i < s.s_perf.pos s.s_perf.buf → i ∉ opens.map Prod.fst →
    (s.s_perf.markers s.s_perf.buf)[i]? = some m →
    (s1.s_perf.markers s.s_perf.buf)[i]? = some m)

/-- The operations of the witness of C24: "A" with "B" nested in it, then "C". -/
def demo_balanced_ops : List perf_op :=
  [.push (some "A"), .push (some "B"), .pop, .pop, .push (some "C"), .pop]

theorem array_set_same {α : Type} (a : Nat → α) (i : Nat) (v : α) : array_set a i v i = v := by
  simp [array_set]

theorem array_set_other {α : Type} (a : Nat → α) (i j : Nat) (v : α) (h : j ≠ i) :
    array_set a i v j = a j := by
  simp [array_set, h]

theorem push_ok_iff (name : Option String) (s s1 : perf_state) (h0 : s.s_frame ≠ 0) :
    renderer_push_perf_marker name s = .ok s1 ↔
      ∃ m, (markers_alloc s)[s.s_perf.pos s.s_perf.buf]? = some m ∧ m.issued = 0 ∧
        s1 = push_state name s m := by
  simp only [renderer_push_perf_marker, insert_marker, h0, if_false, Bool.false_eq_true]
  cases hm : (markers_alloc s)[s.s_perf.pos s.s_perf.buf]? with
  | none => simp
  | some m =>
    by_cases hi : m.issued = 0
    · simp [hi, push_state, marker_begin, eq_comm]
    · simp [hi]

theorem stack_pop_ok_iff (st st1 : index_stack) (p : Nat) :
    st.pop = .ok (st1, p) ↔
      0 < st.pos ∧ st.indices[st.pos - 1]? = some p ∧ st1 = { st with pos := st.pos - 1 } := by
  unfold index_stack.pop
  by_cases h : st.pos = 0
  · simp [h]
  · cases hi : st.indices[st.pos - 1]? with
    | none => simp [h, hi]
    | some i =>
      simp only [h, if_false, Except.ok.injEq, Prod.mk.injEq, Option.some.injEq]
      constructor
      · rintro ⟨rfl, rfl⟩
        exact ⟨Nat.pos_of_ne_zero h, rfl, rfl⟩
      · rintro ⟨-, rfl, rfl⟩
        exact ⟨rfl, rfl⟩

theorem insert_end_eq (name : Option String) (s : perf_state) (h0 : s.s_frame ≠ 0) :
    insert_marker name true s =
      match s.s_perf.stack.pop with
      | .error e => .error e
      | .ok (st1, p) =>
        match (markers_alloc s)[p]? with
        | none => .error fault.out_of_bounds
        | some m =>
          if m.issued ≠ 1 then .error fault.assertion else .ok (end_state s st1 p m) := by
  simp only [insert_marker, h0, if_false, if_true]
  rfl

theorem pop_eq (s : perf_state) (h0 : s.s_frame ≠ 0) :
    renderer_pop_perf_marker s =
      match s.s_perf.stack.pop with
      | .error e => .error e
      | .ok (st1, p) =>
        match (markers_alloc s)[p]? with
        | none => .error fault.out_of_bounds
        | some m =>
          if m.issued ≠ 1 then .error fault.assertion else .ok (pop_state s st1 p m) := by
  unfold renderer_pop_perf_marker
  rw [insert_end_eq (some "end") (dec_depth s) h0]
  have h1 : (dec_depth s).s_perf.stack = s.s_perf.stack := rfl
  have h2 : markers_alloc (dec_depth s) = markers_alloc s := rfl
  have h3 : ∀ st1 p m, end_state (dec_depth s) st1 p m = pop_state s st1 p m := fun _ _ _ => rfl
  simp only [h1, h2, h3]

theorem pop_ok_iff (s s1 : perf_state) (h0 : s.s_frame ≠ 0) :
    renderer_pop_perf_marker s = .ok s1 ↔
      ∃ st1 p m, s.s_perf.stack.pop = .ok (st1, p) ∧ (markers_alloc s)[p]? = some m ∧
        m.issued = 1 ∧ s1 = pop_state s st1 p m := by
  rw [pop_eq s h0]
  cases hp : s.s_perf.stack.pop with
  | error e =>
    constructor
    · intro h
      cases h
    · rintro ⟨st2, p2, m2, h1, -⟩
      cases h1
  | ok r =>
    obtain ⟨st1, p⟩ := r
    dsimp only
    cases hm : (markers_alloc s)[p]? with
    | none =>
      dsimp only
      constructor
      · intro h
        cases h
      · rintro ⟨st2, p2, m2, h1, h2, -⟩
        cases h1
        rw [hm] at h2
        cases h2
    | some m =>
      dsimp only
      by_cases hi : m.issued = 1
      · simp only [hi, ne_eq, not_true_eq_false, if_false, Except.ok.injEq]
        constructor
        · rintro rfl
          exact ⟨st1, p, m, rfl, hm, hi, rfl⟩
        · rintro ⟨st2, p2, m2, h1, h2, -, rfl⟩
          cases h1
          rw [hm] at h2
          cases h2
          rfl
      · simp only [hi, ne_eq, not_false_eq_true, if_true]
        constructor
        · intro h
          cases h
        · rintro ⟨st2, p2, m2, h1, h2, h3, -⟩
          cases h1
          rw [hm] at h2
          cases h2
          exact absurd h3 hi

theorem pop_assert_of_issued (s : perf_state) (h0 : s.s_frame ≠ 0) (st1 : index_stack) (p : Nat)
    (m : perf_marker) (hp : s.s_perf.stack.pop = .ok (st1, p))
    (hm : (markers_alloc s)[p]? = some m) (hi : m.issued ≠ 1) :
    renderer_pop_perf_marker s = .error fault.assertion := by
  rw [pop_eq s h0, hp]
  dsimp only
  rw [hm]
  dsimp only
  rw [if_pos hi]

theorem markers_alloc_getElem?_of_lt (s : perf_state) (i : Nat)
    (h : i < (s.s_perf.markers s.s_perf.buf).length) :
    (markers_alloc s)[i]? = (s.s_perf.markers s.s_perf.buf)[i]? := by
  unfold markers_alloc
  split
  · rw [List.getElem?_append_left h]
  · rfl

theorem markers_alloc_length (s : perf_state) :
    (markers_alloc s).length =
      if s.s_perf.pos s.s_perf.buf ≥ (s.s_perf.markers s.s_perf.buf).length then
        (s.s_perf.markers s.s_perf.buf).length + 1
      else (s.s_perf.markers s.s_perf.buf).length := by
  unfold markers_alloc
  split <;> simp

theorem markers_alloc_getElem?_ge (s : perf_state) (i : Nat) (m : perf_marker)
    (h : (s.s_perf.markers s.s_perf.buf).length ≤ i) (hm : (markers_alloc s)[i]? = some m) :
    m = {} ∧ i = (s.s_perf.markers s.s_perf.buf).length ∧
      (s.s_perf.markers s.s_perf.buf).length ≤ s.s_perf.pos s.s_perf.buf := by
  unfold markers_alloc at hm
  split at hm
  · rename_i hge
    rw [List.getElem?_append_right h] at hm
    have hi : i - (s.s_perf.markers s.s_perf.buf).length = 0 := by
      by_contra hne
      have : ([({} : perf_marker)])[i - (s.s_perf.markers s.s_perf.buf).length]? = none := by
        apply List.getElem?_eq_none
        simp
        omega
      rw [this] at hm
      cases hm
    rw [hi] at hm
    simp at hm
    exact ⟨hm.symm, by omega, hge⟩
  · rw [List.getElem?_eq_none h] at hm
    cases hm

theorem gather_marker_eq (o : query_oracle) (bb : Nat) (disjoint : Bool) (acc : gather_acc)
    (i : Nat) (m : perf_marker) (hm : acc.ms[i]? = some m) :
    gather_marker o bb disjoint acc i = .ok (gather_slot o bb disjoint acc i m) := by
  unfold gather_marker gather_slot consumes
  rw [hm]
  dsimp only
  by_cases h1 : m.issued = 2 <;> cases disjoint <;> cases o.begin_ok bb i <;>
    cases o.end_ok bb i <;> simp [h1]

theorem gather_slot_length (o : query_oracle) (bb : Nat) (disjoint : Bool) (acc : gather_acc)
    (i : Nat) (m : perf_marker) : (gather_slot o bb disjoint acc i m).ms.length = acc.ms.length := by
  unfold gather_slot
  split <;> simp

theorem gather_upto_length (o : query_oracle) (bb : Nat) (disjoint : Bool) (acc0 : gather_acc)
    (n : Nat) : (gather_upto o bb disjoint acc0 n).ms.length = acc0.ms.length := by
  induction n with
  | zero => rfl
  | succ n ih =>
    simp only [gather_upto]
    split
    · rw [gather_slot_length, ih]
    · exact ih

theorem gather_fold_eq (o : query_oracle) (bb : Nat) (disjoint : Bool) (acc0 : gather_acc)
    (n : Nat) (hn : n ≤ acc0.ms.length) :
    (List.range n).foldlM (gather_marker o bb disjoint) acc0 =
      .ok (gather_upto o bb disjoint acc0 n) := by
  induction n with
  | zero => rfl
  | succ n ih =>
    rw [List.range_succ, List.foldlM_append, ih (by omega)]
    have hlen := gather_upto_length o bb disjoint acc0 n
    have hlt : n < (gather_upto o bb disjoint acc0 n).ms.length := by omega
    have hm : (gather_upto o bb disjoint acc0 n).ms[n]? =
        some ((gather_upto o bb disjoint acc0 n).ms[n]) := List.getElem?_eq_getElem hlt
    simp only [gather_upto, hm]
    show (do
      let a ← gather_marker o bb disjoint (gather_upto o bb disjoint acc0 n) n
      List.foldlM (gather_marker o bb disjoint) a []) = _
    rw [gather_marker_eq o bb disjoint _ n _ hm]
    rfl

/-- Slots at and beyond the loop counter are untouched. -/
theorem gather_upto_ge (o : query_oracle) (bb : Nat) (disjoint : Bool) (acc0 : gather_acc)
    (n i : Nat) (h : n ≤ i) : (gather_upto o bb disjoint acc0 n).ms[i]? = acc0.ms[i]? := by
  induction n with
  | zero => rfl
  | succ n ih =>
    simp only [gather_upto]
    split
    · unfold gather_slot
      split
      · simp only
        rw [List.getElem?_set_ne (by omega)]
        exact ih (by omega)
      · exact ih (by omega)
    · exact ih (by omega)

/-- What the loop does to a slot below the loop counter. -/
theorem gather_upto_lt (o : query_oracle) (bb : Nat) (disjoint : Bool) (acc0 : gather_acc)
    (n i : Nat) (m : perf_marker) (h : i < n) (hm : acc0.ms[i]? = some m) :
    (gather_upto o bb disjoint acc0 n).ms[i]? =
      some (if consumes o bb disjoint i m then { m with issued := 0 } else m) := by
  induction n with
  | zero => omega
  | succ n ih =>
    simp only [gather_upto]
    by_cases hin : i = n
    · subst hin
      have hcur : (gather_upto o bb disjoint acc0 i).ms[i]? = some m := by
        rw [gather_upto_ge o bb disjoint acc0 i i (le_refl i)]
        exact hm
      rw [hcur]
      dsimp only
      unfold gather_slot
      split
      · simp only
        have hlt : i < (gather_upto o bb disjoint acc0 i).ms.length := by
          rcases List.getElem?_eq_some.mp hcur with ⟨hl, -⟩
          exact hl
        rw [List.getElem?_set_self hlt]
      · exact hcur
    · have hlt : i < n := by omega
      split
      · unfold gather_slot
        split
        · simp only
          rw [List.getElem?_set_ne (by omega)]
          exact ih hlt
        · exact ih hlt
      · exact ih hlt

theorem gather_upto_succ_some (o : query_oracle) (bb : Nat) (disjoint : Bool) (acc0 : gather_acc)
    (n : Nat) (m : perf_marker) (hm : acc0.ms[n]? = some m) :
    gather_upto o bb disjoint acc0 (n + 1) =
      gather_slot o bb disjoint (gather_upto o bb disjoint acc0 n) n m := by
  have hcur : (gather_upto o bb disjoint acc0 n).ms[n]? = some m := by
    rw [gather_upto_ge o bb disjoint acc0 n n (le_refl n)]
    exact hm
  simp only [gather_upto, hcur]

theorem gather_upto_succ_none (o : query_oracle) (bb : Nat) (disjoint : Bool) (acc0 : gather_acc)
    (n : Nat) (hm : acc0.ms[n]? = none) :
    gather_upto o bb disjoint acc0 (n + 1) = gather_upto o bb disjoint acc0 n := by
  have hcur : (gather_upto o bb disjoint acc0 n).ms[n]? = none := by
    rw [gather_upto_ge o bb disjoint acc0 n n (le_refl n)]
    exact hm
  simp only [gather_upto, hcur]

theorem gather_upto_trace (o : query_oracle) (bb : Nat) (disjoint : Bool) (acc0 : gather_acc)
    (n : Nat) :
    (gather_upto o bb disjoint acc0 n).res_trace =
      acc0.res_trace ++ (List.range n).filterMap (slot_result o bb disjoint acc0.ms) := by
  induction n with
  | zero => simp [gather_upto]
  | succ n ih =>
    rw [List.range_succ, List.filterMap_append]
    cases hm : acc0.ms[n]? with
    | none =>
      rw [gather_upto_succ_none o bb disjoint acc0 n hm, ih]
      simp [slot_result, hm]
    | some m =>
      rw [gather_upto_succ_some o bb disjoint acc0 n m hm]
      unfold gather_slot
      by_cases hc : consumes o bb disjoint n m
      · simp [hc, ih, slot_result, hm]
      · simp [hc, ih, slot_result, hm]

theorem gather_upto_num_complete_le (o : query_oracle) (bb : Nat) (disjoint : Bool)
    (acc0 : gather_acc) (n : Nat) :
    (gather_upto o bb disjoint acc0 n).num_complete ≤ acc0.num_complete + n := by
  induction n with
  | zero => simp [gather_upto]
  | succ n ih =>
    cases hm : acc0.ms[n]? with
    | none =>
      rw [gather_upto_succ_none o bb disjoint acc0 n hm]
      omega
    | some m =>
      rw [gather_upto_succ_some o bb disjoint acc0 n m hm]
      unfold gather_slot
      split
      · simp only
        omega
      · omega

/-- The loop counts `n` completions in `n` iterations exactly when it consumes
every slot below `n`. -/
theorem gather_upto_num_complete_eq_iff (o : query_oracle) (bb : Nat) (disjoint : Bool)
    (acc0 : gather_acc) (n : Nat) (hn : n ≤ acc0.ms.length) :
    (gather_upto o bb disjoint acc0 n).num_complete = acc0.num_complete + n ↔
      ∀ i m, i < n → acc0.ms[i]? = some m → consumes o bb disjoint i m = true := by
  induction n with
  | zero => simp [gather_upto]
  | succ n ih =>
    have hlt : n < acc0.ms.length := by omega
    have hm : acc0.ms[n]? = some acc0.ms[n] := List.getElem?_eq_getElem hlt
    have hle := gather_upto_num_complete_le o bb disjoint acc0 n
    rw [gather_upto_succ_some o bb disjoint acc0 n _ hm]
    unfold gather_slot
    by_cases hc : consumes o bb disjoint n acc0.ms[n] = true
    · rw [if_pos hc]
      simp only
      constructor
      · intro h i m hi him
        by_cases hin : i = n
        · subst hin
          rw [hm] at him
          cases him
          exact hc
        · exact (ih (by omega)).mp (by omega) i m (by omega) him
      · intro h
        have := (ih (by omega)).mpr (fun i m hi him => h i m (by omega) him)
        omega
    · rw [if_neg hc]
      constructor
      · intro h
        omega
      · intro h
        exact absurd (h n _ (by omega) hm) hc

theorem gather_upto_total (o : query_oracle) (bb : Nat) (disjoint : Bool) (acc0 : gather_acc)
    (n : Nat) :
    (gather_upto o bb disjoint acc0 n).g_gpu_total =
      match acc0.ms[0]? with
      | some m =>
        if 0 < n ∧ consumes o bb disjoint 0 m = true then u64_sub m.end_ m.begin
        else acc0.g_gpu_total
      | none => acc0.g_gpu_total := by
  induction n with
  | zero =>
    cases acc0.ms[0]? <;> simp [gather_upto]
  | succ n ih =>
    cases hm : acc0.ms[n]? with
    | none =>
      rw [gather_upto_succ_none o bb disjoint acc0 n hm, ih]
      cases h0 : acc0.ms[0]? with
      | none => rfl
      | some m0 =>
        have hn : n ≠ 0 := by
          rintro rfl
          rw [hm] at h0
          cases h0
        have h1 : 0 < n := Nat.pos_of_ne_zero hn
        simp [h1]
    | some m =>
      rw [gather_upto_succ_some o bb disjoint acc0 n m hm]
      unfold gather_slot
      by_cases hn : n = 0
      · subst hn
        rw [hm]
        by_cases hc : consumes o bb disjoint 0 m = true
        · simp [hc]
        · simp [hc, gather_upto]
      · have h1 : 0 < n := Nat.pos_of_ne_zero hn
        by_cases hc : consumes o bb disjoint n m = true
        · simp only [hc, if_true, hn, if_false]
          rw [ih]
          cases acc0.ms[0]? <;> simp [h1]
        · rw [if_neg hc, ih]
          cases h0 : acc0.ms[0]? with
          | none => rfl
          | some m0 => simp [h1]

/-- A loop that returns has stayed inside the buffer and computed `gather_upto`. -/
theorem gather_fold_ok (o : query_oracle) (bb : Nat) (disjoint : Bool) (acc0 acc : gather_acc)
    (n : Nat) (h : (List.range n).foldlM (gather_marker o bb disjoint) acc0 = .ok acc) :
    n ≤ acc0.ms.length ∧ acc = gather_upto o bb disjoint acc0 n := by
  induction n generalizing acc with
  | zero =>
    refine ⟨Nat.zero_le _, ?_⟩
    simp only [List.range_zero, List.foldlM_nil] at h
    cases h
    rfl
  | succ n ih =>
    rw [List.range_succ, List.foldlM_append] at h
    cases h1 : (List.range n).foldlM (gather_marker o bb disjoint) acc0 with
    | error e =>
      rw [h1] at h
      cases h
    | ok acc1 =>
      obtain ⟨hn, hacc1⟩ := ih acc1 h1
      rw [h1] at h
      have h2 : gather_marker o bb disjoint acc1 n = .ok acc := by
        cases h3 : gather_marker o bb disjoint acc1 n with
        | error e =>
          have : (Except.ok acc1 >>= fun b => List.foldlM (gather_marker o bb disjoint) b [n]) =
              Except.error e := by
            show (do
              let a ← gather_marker o bb disjoint acc1 n
              List.foldlM (gather_marker o bb disjoint) a []) = _
            rw [h3]
            rfl
          rw [this] at h
          cases h
        | ok acc2 =>
          have : (Except.ok acc1 >>= fun b => List.foldlM (gather_marker o bb disjoint) b [n]) =
              Except.ok acc2 := by
            show (do
              let a ← gather_marker o bb disjoint acc1 n
              List.foldlM (gather_marker o bb disjoint) a []) = _
            rw [h3]
            rfl
          rw [this] at h
          cases h
          rfl
      cases hm : acc1.ms[n]? with
      | none =>
        unfold gather_marker at h2
        rw [hm] at h2
        cases h2
      | some m =>
        have hlen := gather_upto_length o bb disjoint acc0 n
        have hlt : n < acc1.ms.length := by
          rcases List.getElem?_eq_some.mp hm with ⟨hl, -⟩
          exact hl
        rw [hacc1] at hlt
        refine ⟨by omega, ?_⟩
        rw [gather_marker_eq o bb disjoint acc1 n m hm] at h2
        cases h2
        rw [hacc1] at hm ⊢
        simp only [gather_upto, hm]

theorem gather_buffer_not_ready (o : query_oracle) (s : perf_state) (bb : Nat)
    (h : o.disjoint bb = none) : gather_buffer o s bb = .ok s := by
  unfold gather_buffer
  rw [h]

theorem gather_buffer_ready (o : query_oracle) (s : perf_state) (bb : Nat) (disjoint : Bool)
    (h : o.disjoint bb = some disjoint) (hpos : s.s_perf.pos bb ≤ (s.s_perf.markers bb).length) :
    gather_buffer o s bb = .ok (buffer_state o s bb disjoint) := by
  unfold gather_buffer
  rw [h]
  dsimp only
  have := gather_fold_eq o bb disjoint (acc_init s bb) (s.s_perf.pos bb) hpos
  unfold acc_init at this
  rw [this]
  dsimp only
  unfold buffer_state acc_init
  dsimp only
  split
  · rfl
  · rfl

theorem gather_buffer_ok (o : query_oracle) (s s1 : perf_state) (bb : Nat)
    (h : gather_buffer o s bb = .ok s1) :
    (o.disjoint bb = none ∧ s1 = s) ∨
      ∃ disjoint, o.disjoint bb = some disjoint ∧
        s.s_perf.pos bb ≤ (s.s_perf.markers bb).length ∧ s1 = buffer_state o s bb disjoint := by
  cases hd : o.disjoint bb with
  | none =>
    rw [gather_buffer_not_ready o s bb hd] at h
    cases h
    exact Or.inl ⟨rfl, rfl⟩
  | some disjoint =>
    right
    refine ⟨disjoint, rfl, ?_⟩
    have hpos : s.s_perf.pos bb ≤ (s.s_perf.markers bb).length := by
      unfold gather_buffer at h
      rw [hd] at h
      dsimp only at h
      cases hf : (List.range (s.s_perf.pos bb)).foldlM (gather_marker o bb disjoint)
          { ms := s.s_perf.markers bb, num_complete := 0,
            g_gpu_total := s.g_gpu_total, res_trace := s.res_trace } with
      | error e =>
        rw [hf] at h
        cases h
      | ok acc => exact (gather_fold_ok o bb disjoint _ acc _ hf).1
    refine ⟨hpos, ?_⟩
    rw [gather_buffer_ready o s bb disjoint hd hpos] at h
    cases h
    rfl

/-- What `gather_buffer` on buffer `bb` leaves alone. -/
theorem gather_buffer_frame (o : query_oracle) (s s1 : perf_state) (bb : Nat)
    (h : gather_buffer o s bb = .ok s1) :
    s1.s_frame = s.s_frame ∧ s1.s_perf.stack = s.s_perf.stack ∧ s1.s_perf.buf = s.s_perf.buf ∧
      s1.gpu_clock = s.gpu_clock ∧
      (∀ b, b ≠ bb → s1.s_perf.markers b = s.s_perf.markers b ∧ s1.s_perf.pos b = s.s_perf.pos b) ∧
      s.res_trace <+: s1.res_trace ∧
      (s1.s_perf.depth = s.s_perf.depth ∨ s1.s_perf.depth = 0) := by
  rcases gather_buffer_ok o s s1 bb h with ⟨-, rfl⟩ | ⟨d, -, -, rfl⟩
  · exact ⟨rfl, rfl, rfl, rfl, fun _ _ => ⟨rfl, rfl⟩, List.prefix_refl _, Or.inl rfl⟩
  · have htr : s.res_trace <+: (gather_upto o bb d (acc_init s bb) (s.s_perf.pos bb)).res_trace := by
      rw [gather_upto_trace]
      exact List.prefix_append _ _
    unfold buffer_state
    dsimp only
    split
    · refine ⟨rfl, rfl, rfl, rfl, fun b hb => ?_, htr, Or.inr rfl⟩
      exact ⟨array_set_other _ _ _ _ hb, array_set_other _ _ _ _ hb⟩
    · refine ⟨rfl, rfl, rfl, rfl, fun b hb => ?_, htr, Or.inl rfl⟩
      exact ⟨array_set_other _ _ _ _ hb, rfl⟩

/-- The loop over a list of distinct buffers: each buffer `b` of the list is
processed once, in a state `t` in which it is as it was at the start. -/
theorem gather_fold_buffers (o : query_oracle) (bs : List Nat) (hnd : bs.Nodup)
    (s s1 : perf_state) (h : bs.foldlM (gather_buffer o) s = .ok s1) :
    s1.s_frame = s.s_frame ∧ s1.s_perf.stack = s.s_perf.stack ∧ s1.s_perf.buf = s.s_perf.buf ∧
      s1.gpu_clock = s.gpu_clock ∧
      (∀ b, b ∉ bs → s1.s_perf.markers b = s.s_perf.markers b ∧ s1.s_perf.pos b = s.s_perf.pos b) ∧
      s.res_trace <+: s1.res_trace ∧
      (s1.s_perf.depth = s.s_perf.depth ∨ s1.s_perf.depth = 0) ∧
      (∀ b, b ∈ bs → ∃ t t1, gather_buffer o t b = .ok t1 ∧
        t.s_perf.markers b = s.s_perf.markers b ∧ t.s_perf.pos b = s.s_perf.pos b ∧
        t.s_frame = s.s_frame ∧
        s1.s_perf.markers b = t1.s_perf.markers b ∧ s1.s_perf.pos b = t1.s_perf.pos b ∧
        s.res_trace <+: t.res_trace ∧ t1.res_trace <+: s1.res_trace ∧
        (t1.s_perf.depth = 0 → s1.s_perf.depth = 0)) := by
  induction bs generalizing s with
  | nil =>
    simp only [List.foldlM_nil] at h
    cases h
    refine ⟨rfl, rfl, rfl, rfl, fun _ _ => ⟨rfl, rfl⟩, List.prefix_refl _, Or.inl rfl, ?_⟩
    intro b hb
    cases hb
  | cons bb rest ih =>
    rw [List.foldlM_cons] at h
    cases h1 : gather_buffer o s bb with
    | error e =>
      rw [h1] at h
      cases h
    | ok s2 =>
      rw [h1] at h
      have h2 : rest.foldlM (gather_buffer o) s2 = .ok s1 := h
      obtain ⟨hbb, hrest⟩ := List.nodup_cons.mp hnd
      obtain ⟨f1, f2, f3, f4, f5, f6, f7⟩ := gather_buffer_frame o s s2 bb h1
      obtain ⟨g1, g2, g3, g4, g5, g6, g7, g8⟩ := ih hrest s2 h2
      refine ⟨g1.trans f1, g2.trans f2, g3.trans f3, g4.trans f4, ?_, f6.trans g6, ?_, ?_⟩
      · intro b hb
        have hne : b ≠ bb := fun hc => hb (hc ▸ List.mem_cons_self _ _)
        have hnr : b ∉ rest := fun hc => hb (List.mem_cons_of_mem _ hc)
        exact ⟨(g5 b hnr).1.trans (f5 b hne).1, (g5 b hnr).2.trans (f5 b hne).2⟩
      · rcases g7 with g7 | g7
        · rcases f7 with f7 | f7
          · exact Or.inl (g7.trans f7)
          · exact Or.inr (g7.trans f7)
        · exact Or.inr g7
      · intro b hb
        rcases List.mem_cons.mp hb with rfl | hb
        · refine ⟨s, s2, h1, rfl, rfl, rfl, (g5 b hbb).1, (g5 b hbb).2, List.prefix_refl _, g6, ?_⟩
          intro hz
          rcases g7 with g7 | g7
          · exact g7.trans hz
          · exact g7
        · have hne : b ≠ bb := fun hc => hbb (hc ▸ hb)
          obtain ⟨t, t1, k1, k2, k3, k4, k5, k6, k7, k8, k9⟩ := g8 b hb
          exact ⟨t, t1, k1, k2.trans (f5 b hne).1, k3.trans (f5 b hne).2, k4.trans f1, k5, k6,
            f6.trans k7, k8, k9⟩

theorem range_marker_buffers : List.range num_marker_buffers = [0, 1, 2, 3, 4] := rfl

theorem gather_ok_iff (o : query_oracle) (s s1 : perf_state) (h0 : s.s_frame ≠ 0) :
    gather_perf_markers o s = .ok s1 ↔
      ∃ s2, (List.range num_marker_buffers).foldlM (gather_buffer o) s = .ok s2 ∧
        s1 = { s2 with s_perf := { s2.s_perf with
          buf := (s2.s_perf.buf + 1) % num_marker_buffers } } := by
  unfold gather_perf_markers
  rw [if_neg h0]
  cases hf : (List.range num_marker_buffers).foldlM (gather_buffer o) s with
  | error e =>
    dsimp only
    constructor
    · intro h
      cases h
    · rintro ⟨s2, h2, -⟩
      cases h2
  | ok s2 =>
    dsimp only
    constructor
    · intro h
      cases h
      exact ⟨s2, rfl, rfl⟩
    · rintro ⟨s3, h3, rfl⟩
      cases h3
      rfl

/-! ### Facts on the machine arithmetic -/

theorem u32_of_lt (n : Nat) (h : n < 2 ^ 32) : u32 n = n := Nat.mod_eq_of_lt h

theorem u32_dec_of_pos (n : Nat) (h0 : 0 < n) (h : n < 2 ^ 32) : u32_dec n + 1 = n := by
  unfold u32_dec
  rw [Nat.mod_eq_of_lt h]
  rw [if_neg (by omega)]
  omega

theorem u32_dec_zero : u32_dec 0 = 2 ^ 32 - 1 := by
  unfold u32_dec
  simp

theorem u32_dec_lt (n : Nat) : u32_dec n < 2 ^ 32 := by
  unfold u32_dec
  have h : n % 2 ^ 32 < 2 ^ 32 := Nat.mod_lt _ (by norm_num)
  split
  · norm_num
  · omega

/-! ## C8: `renderer_push_perf_marker` -/

/-- What a push does (the statement of C8, and the GPU clock). -/
theorem push_spec (name : Option String) (s : perf_state) :
    (s.s_frame = 0 → renderer_push_perf_marker name s = .ok s) ∧
    (s.s_frame ≠ 0 →
      ((s.s_perf.pos s.s_perf.buf ≤ (s.s_perf.markers s.s_perf.buf).length ∧
          ∀ m, (s.s_perf.markers s.s_perf.buf)[s.s_perf.pos s.s_perf.buf]? = some m →
            m.issued = 0) →
        ∃ s1, renderer_push_perf_marker name s = .ok s1) ∧
      ∀ s1, renderer_push_perf_marker name s = .ok s1 →
        ((s1.s_perf.markers s.s_perf.buf).length =
          if s.s_perf.pos s.s_perf.buf = (s.s_perf.markers s.s_perf.buf).length then
            (s.s_perf.markers s.s_perf.buf).length + 1
          else (s.s_perf.markers s.s_perf.buf).length) ∧
        (∃ m1, (s1.s_perf.markers s.s_perf.buf)[s.s_perf.pos s.s_perf.buf]? = some m1 ∧
          m1.name = name ∧ m1.depth = s.s_perf.depth ∧ m1.frame = s.s_frame ∧
          m1.issued = 1 ∧ m1.begin = s.gpu_clock) ∧
        s1.s_perf.stack = s.s_perf.stack.push (s.s_perf.pos s.s_perf.buf) ∧
        s1.s_perf.stack.pos = s.s_perf.stack.pos + 1 ∧
        (s.s_perf.stack.pos ≤ s.s_perf.stack.indices.length →
          s1.s_perf.stack.indices[s.s_perf.stack.pos]? = some (s.s_perf.pos s.s_perf.buf)) ∧
        s1.s_perf.pos s.s_perf.buf = s.s_perf.pos s.s_perf.buf + 1 ∧
        s1.s_perf.depth = u32 (s.s_perf.depth + 1) ∧
        (s.s_perf.depth + 1 < 2 ^ 32 → s1.s_perf.depth = s.s_perf.depth + 1) ∧
        (∀ i, i ≠ s.s_perf.pos s.s_perf.buf →
          (s1.s_perf.markers s.s_perf.buf)[i]? = (s.s_perf.markers s.s_perf.buf)[i]?) ∧
        (∀ b, b ≠ s.s_perf.buf →
          s1.s_perf.markers b = s.s_perf.markers b ∧ s1.s_perf.pos b = s.s_perf.pos b) ∧
        s1.s_perf.buf = s.s_perf.buf ∧ s1.s_frame = s.s_frame ∧
        s1.gpu_clock = s.gpu_clock + 1) := by
  refine ⟨fun h => by simp [renderer_push_perf_marker, h], fun h0 => ⟨?_, ?_⟩⟩
  · rintro ⟨hle, hun⟩
    by_cases hlt : s.s_perf.pos s.s_perf.buf < (s.s_perf.markers s.s_perf.buf).length
    · have hget := List.getElem?_eq_getElem hlt
      refine ⟨_, (push_ok_iff name s _ h0).mpr ⟨_, ?_, hun _ hget, rfl⟩⟩
      rw [markers_alloc_getElem?_of_lt s _ hlt]
      exact hget
    · have heq : s.s_perf.pos s.s_perf.buf = (s.s_perf.markers s.s_perf.buf).length := by omega
      refine ⟨_, (push_ok_iff name s _ h0).mpr ⟨({} : perf_marker), ?_, rfl, rfl⟩⟩
      unfold markers_alloc
      rw [if_pos (by omega), heq]
      simp
  · intro s1 h
    obtain ⟨m, hm, hi, rfl⟩ := (push_ok_iff name s s1 h0).mp h
    have hlen : s.s_perf.pos s.s_perf.buf < (markers_alloc s).length := by
      rcases List.getElem?_eq_some.mp hm with ⟨hl, -⟩
      exact hl
    have hal := markers_alloc_length s
    have hple : s.s_perf.pos s.s_perf.buf ≤ (s.s_perf.markers s.s_perf.buf).length := by
      rw [hal] at hlen
      split at hlen <;> omega
    refine ⟨?_, ?_, rfl, ?_, ?_, ?_, rfl, ?_, ?_, ?_, rfl, rfl, rfl⟩
    · simp only [push_state, array_set_same, List.length_set]
      rw [hal]
      by_cases heq : s.s_perf.pos s.s_perf.buf = (s.s_perf.markers s.s_perf.buf).length
      · rw [if_pos heq, if_pos (by omega)]
      · rw [if_neg heq, if_neg (by omega)]
    · refine ⟨marker_begin name s m, ?_, rfl, rfl, rfl, ?_, rfl⟩
      · simp only [push_state, array_set_same]
        rw [List.getElem?_set_self hlen]
      · simp [marker_begin, hi]
    · simp only [push_state, index_stack.push]
      split <;> rfl
    · intro hwf
      simp only [push_state, index_stack.push]
      split
      · have : s.s_perf.stack.pos = s.s_perf.stack.indices.length := by omega
        simp [this]
      · rw [List.getElem?_set_self (by omega)]
    · simp only [push_state, array_set_same]
    · intro hlt
      exact u32_of_lt _ hlt
    · intro i hi2
      simp only [push_state, array_set_same]
      rw [List.getElem?_set_ne (Ne.symm hi2)]
      by_cases hil : i < (s.s_perf.markers s.s_perf.buf).length
      · exact markers_alloc_getElem?_of_lt s i hil
      · rw [List.getElem?_eq_none (by omega : (s.s_perf.markers s.s_perf.buf).length ≤ i)]
        apply List.getElem?_eq_none
        rw [hal]
        split <;> omega
    · intro b hb
      simp only [push_state]
      exact ⟨array_set_other _ _ _ _ hb, array_set_other _ _ _ _ hb⟩

/-- C8. `renderer_push_perf_marker(name)`: at frame counter 0 the call returns the
state unchanged. At a frame counter above 0, with `p = pos[buf]`: the call
returns when slot `p` is unused or is the first slot beyond the buffer; and
whenever it returns, the buffer has one slot more exactly if `p` equalled its
slot count (otherwise slot `p` is reused), slot `p` holds the name, the nesting
depth before the call, the frame counter, issued-count 1 and the current
timestamp as begin, `p` has been pushed on the index stack, `pos[buf]` is
`p + 1`, the nesting depth is the `u32` successor of the old one (one more,
unless the old one was `0xFFFFFFFF`), and no other slot, no other buffer, not
`buf` and not the frame counter has changed. -/
theorem C8_push_perf_marker (name : Option String) (s : perf_state) :
    (s.s_frame = 0 → renderer_push_perf_marker name s = .ok s) ∧
    (s.s_frame ≠ 0 →
      ((s.s_perf.pos s.s_perf.buf ≤ (s.s_perf.markers s.s_perf.buf).length ∧
          ∀ m, (s.s_perf.markers s.s_perf.buf)[s.s_perf.pos s.s_perf.buf]? = some m →
            m.issued = 0) →
        ∃ s1, renderer_push_perf_marker name s = .ok s1) ∧
      ∀ s1, renderer_push_perf_marker name s = .ok s1 →
        ((s1.s_perf.markers s.s_perf.buf).length =
          if s.s_perf.pos s.s_perf.buf = (s.s_perf.markers s.s_perf.buf).length then
            (s.s_perf.markers s.s_perf.buf).length + 1
          else (s.s_perf.markers s.s_perf.buf).length) ∧
        (∃ m1, (s1.s_perf.markers s.s_perf.buf)[s.s_perf.pos s.s_perf.buf]? = some m1 ∧
          m1.name = name ∧ m1.depth = s.s_perf.depth ∧ m1.frame = s.s_frame ∧
          m1.issued = 1 ∧ m1.begin = s.gpu_clock) ∧
        s1.s_perf.stack = s.s_perf.stack.push (s.s_perf.pos s.s_perf.buf) ∧
        s1.s_perf.stack.pos = s.s_perf.stack.pos + 1 ∧
        (s.s_perf.stack.pos ≤ s.s_perf.stack.indices.length →
          s1.s_perf.stack.indices[s.s_perf.stack.pos]? = some (s.s_perf.pos s.s_perf.buf)) ∧
        s1.s_perf.pos s.s_perf.buf = s.s_perf.pos s.s_perf.buf + 1 ∧
        s1.s_perf.depth = u32 (s.s_perf.depth + 1) ∧
        (s.s_perf.depth + 1 < 2 ^ 32 → s1.s_perf.depth = s.s_perf.depth + 1) ∧
        (∀ i, i ≠ s.s_perf.pos s.s_perf.buf →
          (s1.s_perf.markers s.s_perf.buf)[i]? = (s.s_perf.markers s.s_perf.buf)[i]?) ∧
        (∀ b, b ≠ s.s_perf.buf →
          s1.s_perf.markers b = s.s_perf.markers b ∧ s1.s_perf.pos b = s.s_perf.pos b) ∧
        s1.s_perf.buf = s.s_perf.buf ∧ s1.s_frame = s.s_frame) := by
  obtain ⟨h1, h2⟩ := push_spec name s
  refine ⟨h1, fun h0 => ⟨(h2 h0).1, fun s1 hs1 => ?_⟩⟩
  obtain ⟨k1, k2, k3, k4, k5, k6, k7, k8, k9, k10, k11, k12, -⟩ := (h2 h0).2 s1 hs1
  exact ⟨k1, k2, k3, k4, k5, k6, k7, k8, k9, k10, k11, k12⟩

/-- Witness of C8: the push of "A" in the first frame, after the first present. -/
theorem C8_push_perf_marker_witness :
    ∃ s1, renderer_push_perf_marker (some "A") (state_after [.present oracle_none_ready]) = .ok s1 ∧
      s1.s_perf.pos 0 = 2 ∧ s1.s_perf.depth = 2 ∧
      ∃ m1, (s1.s_perf.markers 0)[1]? = some m1 ∧ m1.name = some "A" ∧ m1.issued = 1 ∧
        m1.depth = 1 := by
  have h := (C8_push_perf_marker (some "A") (state_after [.present oracle_none_ready])).2
    (by decide)
  obtain ⟨s1, hs1⟩ := h.1 ⟨by decide, by decide⟩
  obtain ⟨-, ⟨m1, hm1, hn, hdp, -, hi, -⟩, -, -, -, hpos, -, hd, -⟩ := h.2 s1 hs1
  exact ⟨s1, hs1, hpos, hd (by decide), m1, hm1, hn, hi, hdp⟩

/-! ## C9: `renderer_pop_perf_marker` -/

/-- What a pop does (the statement of C9, and the GPU clock). -/
theorem pop_spec (s : perf_state) (p : Nat) (h0 : s.s_frame ≠ 0)
    (hpos : 0 < s.s_perf.stack.pos)
    (htop : s.s_perf.stack.indices[s.s_perf.stack.pos - 1]? = some p) :
    (∀ m, (s.s_perf.markers s.s_perf.buf)[p]? = some m → m.issued = 1 →
      ∃ s1, renderer_pop_perf_marker s = .ok s1 ∧
        s1.s_perf.depth = u32_dec s.s_perf.depth ∧
        (0 < s.s_perf.depth → s.s_perf.depth < 2 ^ 32 → s1.s_perf.depth + 1 = s.s_perf.depth) ∧
        s1.s_perf.stack.pos = s.s_perf.stack.pos - 1 ∧
        s1.s_perf.stack.indices = s.s_perf.stack.indices ∧
        (s1.s_perf.markers s.s_perf.buf)[p]? =
          some { m with issued := 2, end_ := s.gpu_clock } ∧
        (∀ i, i ≠ p → i < (s.s_perf.markers s.s_perf.buf).length →
          (s1.s_perf.markers s.s_perf.buf)[i]? = (s.s_perf.markers s.s_perf.buf)[i]?) ∧
        (∀ i m1, (s.s_perf.markers s.s_perf.buf).length ≤ i →
          (s1.s_perf.markers s.s_perf.buf)[i]? = some m1 → m1 = {}) ∧
        (∀ b, b ≠ s.s_perf.buf → s1.s_perf.markers b = s.s_perf.markers b) ∧
        s1.s_perf.pos = s.s_perf.pos ∧ s1.s_perf.buf = s.s_perf.buf ∧ s1.s_frame = s.s_frame ∧
        s1.gpu_clock = s.gpu_clock + 1) ∧
    (∀ m, (s.s_perf.markers s.s_perf.buf)[p]? = some m → m.issued ≠ 1 →
      renderer_pop_perf_marker s = .error fault.assertion) ∧
    ((s.s_perf.markers s.s_perf.buf)[p]? = none →
      ∃ e, renderer_pop_perf_marker s = .error e) := by
  have hst : s.s_perf.stack.pop = .ok ({ s.s_perf.stack with pos := s.s_perf.stack.pos - 1 }, p) :=
    (stack_pop_ok_iff _ _ _).mpr ⟨hpos, htop, rfl⟩
  refine ⟨?_, ?_, ?_⟩
  · intro m hm hi
    have hlt : p < (s.s_perf.markers s.s_perf.buf).length := by
      rcases List.getElem?_eq_some.mp hm with ⟨hl, -⟩
      exact hl
    have hma : (markers_alloc s)[p]? = some m := by
      rw [markers_alloc_getElem?_of_lt s p hlt]
      exact hm
    have hlta : p < (markers_alloc s).length := by
      rcases List.getElem?_eq_some.mp hma with ⟨hl, -⟩
      exact hl
    refine ⟨_, (pop_ok_iff s _ h0).mpr ⟨_, p, m, hst, hma, hi, rfl⟩, rfl, ?_, rfl, rfl, ?_, ?_, ?_,
      ?_, rfl, rfl, rfl, rfl⟩
    · intro hd0 hd
      exact u32_dec_of_pos _ hd0 hd
    · simp only [pop_state, array_set_same]
      rw [List.getElem?_set_self hlta]
      simp [marker_end, hi]
    · intro i hne hil
      simp only [pop_state, array_set_same]
      rw [List.getElem?_set_ne (Ne.symm hne)]
      exact markers_alloc_getElem?_of_lt s i hil
    · intro i m1 hil hm1
      simp only [pop_state, array_set_same] at hm1
      rw [List.getElem?_set_ne (by omega)] at hm1
      exact (markers_alloc_getElem?_ge s i m1 hil hm1).1
    · intro b hb
      simp only [pop_state]
      exact array_set_other _ _ _ _ hb
  · intro m hm hi
    have hlt : p < (s.s_perf.markers s.s_perf.buf).length := by
      rcases List.getElem?_eq_some.mp hm with ⟨hl, -⟩
      exact hl
    have hma : (markers_alloc s)[p]? = some m := by
      rw [markers_alloc_getElem?_of_lt s p hlt]
      exact hm
    exact pop_assert_of_issued s h0 _ p m hst hma hi
  · intro hnone
    rw [pop_eq s h0, hst]
    dsimp only
    cases hma : (markers_alloc s)[p]? with
    | none => exact ⟨_, rfl⟩
    | some m =>
      dsimp only
      have hge : (s.s_perf.markers s.s_perf.buf).length ≤ p := by
        by_contra hc
        rw [List.getElem?_eq_getElem (by omega)] at hnone
        cases hnone
      have hm0 := (markers_alloc_getElem?_ge s p m hge hma).1
      subst hm0
      exact ⟨_, rfl⟩

/-- C9. `renderer_pop_perf_marker` at a frame counter above 0, with an index stack
of height above 0 whose top is `p`. If slot `p` of the current buffer has
issued-count 1, the call returns; the nesting depth is the `u32` predecessor of
the old one (one less, when the old one was above 0); `p` is removed from the
stack; slot `p` has issued-count 2 and the current timestamp as end, and keeps
its name, depth and frame; every other slot of the buffer is as before (a slot
the call appended is a fresh unused one); no other buffer, no `pos[]`, not
`buf` and not the frame counter changes. If slot `p` has an issued-count other
than 1 the assertion fails, and if there is no slot `p` the call does not
return normally either. -/
theorem C9_pop_perf_marker (s : perf_state) (p : Nat) (h0 : s.s_frame ≠ 0)
    (hpos : 0 < s.s_perf.stack.pos)
    (htop : s.s_perf.stack.indices[s.s_perf.stack.pos - 1]? = some p) :
    (∀ m, (s.s_perf.markers s.s_perf.buf)[p]? = some m → m.issued = 1 →
      ∃ s1, renderer_pop_perf_marker s = .ok s1 ∧
        s1.s_perf.depth = u32_dec s.s_perf.depth ∧
        (0 < s.s_perf.depth → s.s_perf.depth < 2 ^ 32 → s1.s_perf.depth + 1 = s.s_perf.depth) ∧
        s1.s_perf.stack.pos = s.s_perf.stack.pos - 1 ∧
        s1.s_perf.stack.indices = s.s_perf.stack.indices ∧
        (s1.s_perf.markers s.s_perf.buf)[p]? =
          some { m with issued := 2, end_ := s.gpu_clock } ∧
        (∀ i, i ≠ p → i < (s.s_perf.markers s.s_perf.buf).length →
          (s1.s_perf.markers s.s_perf.buf)[i]? = (s.s_perf.markers s.s_perf.buf)[i]?) ∧
        (∀ i m1, (s.s_perf.markers s.s_perf.buf).length ≤ i →
          (s1.s_perf.markers s.s_perf.buf)[i]? = some m1 → m1 = {}) ∧
        (∀ b, b ≠ s.s_perf.buf → s1.s_perf.markers b = s.s_perf.markers b) ∧
        s1.s_perf.pos = s.s_perf.pos ∧ s1.s_perf.buf = s.s_perf.buf ∧ s1.s_frame = s.s_frame) ∧
    (∀ m, (s.s_perf.markers s.s_perf.buf)[p]? = some m → m.issued ≠ 1 →
      renderer_pop_perf_marker s = .error fault.assertion) ∧
    ((s.s_perf.markers s.s_perf.buf)[p]? = none →
      ∃ e, renderer_pop_perf_marker s = .error e) := by
  obtain ⟨h1, h2, h3⟩ := pop_spec s p h0 hpos htop
  refine ⟨fun m hm hi => ?_, h2, h3⟩
  obtain ⟨s1, k0, k1, k2, k3, k4, k5, k6, k7, k8, k9, k10, k11, -⟩ := h1 m hm hi
  exact ⟨s1, k0, k1, k2, k3, k4, k5, k6, k7, k8, k9, k10, k11⟩

/-- Witness of C9: the pop that closes "A" in the first frame. -/
theorem C9_pop_perf_marker_witness :
    ∃ s1, renderer_pop_perf_marker
        (state_after [.present oracle_none_ready, .push (some "A")]) = .ok s1 ∧
      s1.s_perf.depth = 1 ∧ s1.s_perf.stack.pos = 1 ∧
      (s1.s_perf.markers 0)[1]? =
        some { begin := 1, end_ := 2, frame := 1, name := some "A", issued := 2, depth := 1 } := by
  have h := (C9_pop_perf_marker (state_after [.present oracle_none_ready, .push (some "A")]) 1
    (by decide) (by decide) (by decide)).1
    { begin := 1, frame := 1, name := some "A", issued := 1, depth := 1 } (by decide) (by decide)
  obtain ⟨s1, hs1, hd, -, hp, -, hm, -⟩ := h
  exact ⟨s1, hs1, hd, hp, hm⟩

theorem buffer_state_markers (o : query_oracle) (s : perf_state) (bb : Nat) (d : Bool) :
    (buffer_state o s bb d).s_perf.markers bb =
      (gather_upto o bb d (acc_init s bb) (s.s_perf.pos bb)).ms := by
  unfold buffer_state
  dsimp only
  split <;> exact array_set_same _ _ _

theorem buffer_state_pos (o : query_oracle) (s : perf_state) (bb : Nat) (d : Bool) :
    (buffer_state o s bb d).s_perf.pos bb =
      if (gather_upto o bb d (acc_init s bb) (s.s_perf.pos bb)).num_complete = s.s_perf.pos bb
      then 0 else s.s_perf.pos bb := by
  unfold buffer_state
  dsimp only
  split
  · exact array_set_same _ _ _
  · rfl

theorem gather_buffer_slot (o : query_oracle) (s s1 : perf_state) (bb : Nat)
    (h : gather_buffer o s bb = .ok s1) :
    (s1.s_perf.markers bb).length = (s.s_perf.markers bb).length ∧
      ∀ i m, (s.s_perf.markers bb)[i]? = some m →
        (s1.s_perf.markers bb)[i]? = some (gathered o bb (o.disjoint bb) (s.s_perf.pos bb) i m) := by
  rcases gather_buffer_ok o s s1 bb h with ⟨hd, rfl⟩ | ⟨d, hd, -, rfl⟩
  · refine ⟨rfl, fun i m hm => ?_⟩
    rw [hd]
    exact hm
  · rw [buffer_state_markers, hd]
    refine ⟨gather_upto_length _ _ _ _ _, fun i m hm => ?_⟩
    unfold gathered
    dsimp only
    by_cases hi : i < s.s_perf.pos bb
    · rw [gather_upto_lt o bb d (acc_init s bb) _ i m hi hm]
      by_cases hc : consumes o bb d i m = true
      · rw [if_pos hc, if_pos ⟨hi, hc⟩]
      · rw [if_neg hc, if_neg (fun hh => hc hh.2)]
    · rw [gather_upto_ge o bb d (acc_init s bb) _ i (by omega), if_neg (fun hh => hi hh.1)]
      exact hm

theorem mem_range_marker_buffers (b : Nat) : b ∈ List.range num_marker_buffers ↔ b < 5 := by
  simp [num_marker_buffers]

/-- What a gather at a frame counter above 0 leaves alone, and what it does to
the slots of each of the five buffers. -/
theorem gather_slots (o : query_oracle) (s s1 : perf_state) (h0 : s.s_frame ≠ 0)
    (h : gather_perf_markers o s = .ok s1) :
    s1.s_frame = s.s_frame ∧ s1.s_perf.stack = s.s_perf.stack ∧ s1.gpu_clock = s.gpu_clock ∧
      s1.s_perf.buf = (s.s_perf.buf + 1) % num_marker_buffers ∧
      (∀ b, ¬ b < 5 → s1.s_perf.markers b = s.s_perf.markers b ∧ s1.s_perf.pos b = s.s_perf.pos b) ∧
      (∀ b, (s1.s_perf.markers b).length = (s.s_perf.markers b).length) ∧
      (∀ b, b < 5 → ∀ i m, (s.s_perf.markers b)[i]? = some m →
        (s1.s_perf.markers b)[i]? = some (gathered o b (o.disjoint b) (s.s_perf.pos b) i m)) := by
  obtain ⟨s2, hf, rfl⟩ := (gather_ok_iff o s s1 h0).mp h
  obtain ⟨g1, g2, g3, g4, g5, -, -, g8⟩ :=
    gather_fold_buffers o _ (List.nodup_range _) s s2 hf
  refine ⟨g1, g2, g4, ?_, ?_, ?_, ?_⟩
  · show (s2.s_perf.buf + 1) % num_marker_buffers = _
    rw [g3]
  · intro b hb
    exact g5 b (fun hc => hb ((mem_range_marker_buffers b).mp hc))
  · intro b
    show (s2.s_perf.markers b).length = _
    by_cases hb : b < 5
    · obtain ⟨t, t1, k1, k2, -, -, k5, -⟩ := g8 b ((mem_range_marker_buffers b).mpr hb)
      rw [k5, (gather_buffer_slot o t t1 b k1).1, k2]
    · rw [(g5 b (fun hc => hb ((mem_range_marker_buffers b).mp hc))).1]
  · intro b hb i m hm
    show (s2.s_perf.markers b)[i]? = _
    obtain ⟨t, t1, k1, k2, k3, -, k5, -⟩ := g8 b ((mem_range_marker_buffers b).mpr hb)
    rw [k5, ← k3]
    rw [← k2] at hm
    exact (gather_buffer_slot o t t1 b k1).2 i m hm

/-- The three steps of `renderer_present`. -/
theorem present_steps (o : query_oracle) (s s1 : perf_state)
    (h : renderer_present o s = .ok s1) :
    ∃ s2 s3, (if s.s_frame > 0 then renderer_pop_perf_marker s else .ok s) = .ok s2 ∧
      gather_perf_markers o s2 = .ok s3 ∧
      renderer_push_perf_marker none { s3 with s_frame := s3.s_frame + 1 } = .ok s1 := by
  unfold renderer_present at h
  cases h1 : (if s.s_frame > 0 then renderer_pop_perf_marker s else .ok s) with
  | error e =>
    rw [h1] at h
    cases h
  | ok s2 =>
    rw [h1] at h
    dsimp only at h
    cases h2 : gather_perf_markers o s2 with
    | error e =>
      rw [h2] at h
      cases h
    | ok s3 =>
      rw [h2] at h
      exact ⟨s2, s3, rfl, h2, h⟩

theorem state_after_reachable (ops : List perf_op) : perf_reachable (state_after ops) := by
  have key : ∀ (ops : List perf_op) (s : perf_state), perf_reachable s →
      ∀ s1, perf_run ops s = .ok s1 → perf_reachable s1 := by
    intro ops
    induction ops with
    | nil =>
      intro s hs s1 h
      cases h
      exact hs
    | cons op rest ih =>
      intro s hs s1 h
      unfold perf_run at h
      cases h1 : perf_step op s with
      | error e =>
        rw [h1] at h
        cases h
      | ok s2 =>
        rw [h1] at h
        exact ih s2 (perf_reachable.step op s s2 hs h1) s1 h
  unfold state_after
  cases h : perf_run ops perf_init with
  | error e => exact perf_reachable.init
  | ok s => exact key ops perf_init perf_reachable.init s h

theorem stack_push_spec (st : index_stack) (p : Nat) (hwf : st.pos ≤ st.indices.length) :
    (st.push p).pos = st.pos + 1 ∧ (st.push p).pos ≤ (st.push p).indices.length ∧
      (st.push p).indices[st.pos]? = some p ∧
      ∀ i, i < st.pos → (st.push p).indices[i]? = st.indices[i]? := by
  unfold index_stack.push
  split
  · have heq : st.pos = st.indices.length := by omega
    refine ⟨rfl, by simp [heq], by simp [heq], fun i hi => ?_⟩
    simp only
    rw [List.getElem?_append_left (by omega)]
  · refine ⟨rfl, by simp; omega, ?_, fun i hi => ?_⟩
    · simp only
      rw [List.getElem?_set_self (by omega)]
    · simp only
      rw [List.getElem?_set_ne (by omega)]

theorem u64_sub_add (a k : Nat) : u64_sub (a + k) a = k % 2 ^ 64 := by
  unfold u64_sub
  have h1 : a % 2 ^ 64 < 2 ^ 64 := Nat.mod_lt _ (by norm_num)
  have h2 : (a + k) % 2 ^ 64 = (a % 2 ^ 64 + k) % 2 ^ 64 := (Nat.mod_add_mod a (2 ^ 64) k).symm
  rw [h2]
  generalize a % 2 ^ 64 = r at h1 ⊢
  have h3 : ((r + k) % 2 ^ 64 + (2 ^ 64 - r)) % 2 ^ 64 = ((r + k) + (2 ^ 64 - r)) % 2 ^ 64 := by
    rw [Nat.add_mod, Nat.mod_mod, ← Nat.add_mod]
  rw [h3]
  have h4 : r + k + (2 ^ 64 - r) = k + 2 ^ 64 := by omega
  rw [h4, Nat.add_mod_right]

/-- A gather at a frame counter above 0 returns when every buffer's position is
inside the buffer. -/
theorem gather_fold_total (o : query_oracle) (bs : List Nat) (s : perf_state)
    (hwf : ∀ b, s.s_perf.pos b ≤ (s.s_perf.markers b).length) :
    ∃ s1, bs.foldlM (gather_buffer o) s = .ok s1 ∧
      ∀ b, s1.s_perf.pos b ≤ (s1.s_perf.markers b).length := by
  induction bs generalizing s with
  | nil => exact ⟨s, rfl, hwf⟩
  | cons bb rest ih =>
    have hstep : ∃ s2, gather_buffer o s bb = .ok s2 ∧
        ∀ b, s2.s_perf.pos b ≤ (s2.s_perf.markers b).length := by
      cases hd : o.disjoint bb with
      | none => exact ⟨s, gather_buffer_not_ready o s bb hd, hwf⟩
      | some d =>
        have hok := gather_buffer_ready o s bb d hd (hwf bb)
        refine ⟨_, hok, fun b => ?_⟩
        by_cases hb : b = bb
        · subst hb
          rw [buffer_state_markers, buffer_state_pos, gather_upto_length]
          split
          · exact Nat.zero_le _
          · exact hwf b
        · obtain ⟨-, -, -, -, f5, -, -⟩ := gather_buffer_frame o s _ bb hok
          rw [(f5 b hb).1, (f5 b hb).2]
          exact hwf b
    obtain ⟨s2, h2, hwf2⟩ := hstep
    obtain ⟨s1, h1, hwf1⟩ := ih s2 hwf2
    refine ⟨s1, ?_, hwf1⟩
    rw [List.foldlM_cons, h2]
    exact h1

theorem gather_total (o : query_oracle) (s : perf_state) (h0 : s.s_frame ≠ 0)
    (hwf : ∀ b, s.s_perf.pos b ≤ (s.s_perf.markers b).length) :
    ∃ s1, gather_perf_markers o s = .ok s1 := by
  obtain ⟨s2, h2, -⟩ := gather_fold_total o (List.range num_marker_buffers) s hwf
  exact ⟨_, (gather_ok_iff o s _ h0).mpr ⟨s2, h2, rfl⟩⟩

/-- A gather at a frame counter above 0 and a buffer `b` whose validity data is
ready: the position of `b` is reset exactly when the loop consumes every slot
below it; then the nesting depth is reset too; and every slot the loop consumes
leaves its elapsed time in the trace of `res`. -/
theorem gather_ready_buffer (o : query_oracle) (s s1 : perf_state) (h0 : s.s_frame ≠ 0)
    (h : gather_perf_markers o s = .ok s1) (b : Nat) (hb : b < 5) (d : Bool)
    (hd : o.disjoint b = some d) :
    ((∀ i m, i < s.s_perf.pos b → (s.s_perf.markers b)[i]? = some m →
        consumes o b d i m = true) →
      s1.s_perf.pos b = 0 ∧ s1.s_perf.depth = 0) ∧
    (¬ (∀ i m, i < s.s_perf.pos b → (s.s_perf.markers b)[i]? = some m →
        consumes o b d i m = true) →
      s1.s_perf.pos b = s.s_perf.pos b) ∧
    (∀ i m, i < s.s_perf.pos b → (s.s_perf.markers b)[i]? = some m →
      consumes o b d i m = true →
      { buffer := b, slot := i, elapsed := u64_sub m.end_ m.begin } ∈ s1.res_trace) := by
  obtain ⟨s2, hf, rfl⟩ := (gather_ok_iff o s s1 h0).mp h
  obtain ⟨-, -, -, -, -, -, -, g8⟩ := gather_fold_buffers o _ (List.nodup_range _) s s2 hf
  obtain ⟨t, t1, k1, k2, k3, -, -, k6, -, k8, k9⟩ := g8 b ((mem_range_marker_buffers b).mpr hb)
  rcases gather_buffer_ok o t t1 b k1 with ⟨hn, -⟩ | ⟨d2, hd2, hpos, rfl⟩
  · rw [hd] at hn
    cases hn
  · rw [hd] at hd2
    cases hd2
    have hiff := gather_upto_num_complete_eq_iff o b d (acc_init t b) (t.s_perf.pos b) hpos
    have hnc : (acc_init t b).num_complete = 0 := rfl
    have hms : (acc_init t b).ms = s.s_perf.markers b := k2
    rw [hnc, Nat.zero_add, hms, k3] at hiff
    refine ⟨fun hall => ?_, fun hnall => ?_, fun i m hi hm hc => ?_⟩
    · have hnum := hiff.mpr hall
      constructor
      · show s2.s_perf.pos b = 0
        rw [k6, buffer_state_pos, k3, if_pos hnum]
      · show s2.s_perf.depth = 0
        apply k9
        unfold buffer_state
        dsimp only
        rw [k3, if_pos hnum]
    · show s2.s_perf.pos b = _
      rw [k6, buffer_state_pos, k3, if_neg (fun hc => hnall (hiff.mp hc))]
    · show _ ∈ s2.res_trace
      apply List.IsPrefix.subset k8
      have htr : (buffer_state o t b d).res_trace =
          (gather_upto o b d (acc_init t b) (t.s_perf.pos b)).res_trace := by
        unfold buffer_state
        dsimp only
        split <;> rfl
      rw [htr, gather_upto_trace, hms, k3]
      apply List.mem_append_right
      rw [List.mem_filterMap]
      refine ⟨i, List.mem_range.mpr hi, ?_⟩
      unfold slot_result
      rw [hm]
      dsimp only
      rw [if_pos hc]

/-- C4. GPU timestamps are a strictly increasing counter sampled at each recorded
query. In every state with a frame counter above 0, a current buffer that is
empty (position 0, every slot unused) and an index stack whose height is within
its storage, the sequence push("A"); push("B"); pop(); pop() returns. It leaves
slot 0 named A at the nesting depth `d` of the start and slot 1 named B at the
`u32` successor of `d` (that is `d + 1` unless `d` was `0xFFFFFFFF`), both with
issued-count 2, and no other slot with an issued-count other than 0. The
timestamps satisfy A.begin < B.begin < B.end < A.end, so the elapsed time
`end - begin` of B is at most that of A. A gather in which the buffer is ready,
valid and its timestamps readable returns when every position is inside its
buffer, and whenever it returns it has computed exactly these two elapsed times
for slots 0 and 1 of the buffer. -/
theorem C4_nested_markers (s : perf_state) (h0 : s.s_frame ≠ 0)
    (hpos : s.s_perf.pos s.s_perf.buf = 0)
    (hempty : ∀ (i : Nat) (m : perf_marker), (s.s_perf.markers s.s_perf.buf)[i]? = some m → m.issued = 0)
    (hwf : s.s_perf.stack.pos ≤ s.s_perf.stack.indices.length) :
    ∃ s4 mA mB,
      perf_run [.push (some "A"), .push (some "B"), .pop, .pop] s = .ok s4 ∧
      (s4.s_perf.markers s.s_perf.buf)[0]? = some mA ∧
      (s4.s_perf.markers s.s_perf.buf)[1]? = some mB ∧
      mA.name = some "A" ∧ mA.depth = s.s_perf.depth ∧ mA.issued = 2 ∧
      mB.name = some "B" ∧ mB.depth = u32 (s.s_perf.depth + 1) ∧ mB.issued = 2 ∧
      (s.s_perf.depth + 1 < 2 ^ 32 → mB.depth = s.s_perf.depth + 1) ∧
      (∀ (i : Nat) (m : perf_marker), 2 ≤ i → (s4.s_perf.markers s.s_perf.buf)[i]? = some m → m.issued = 0) ∧
      mA.begin < mB.begin ∧ mB.begin < mB.end_ ∧ mB.end_ < mA.end_ ∧
      mA.begin ≤ mB.begin ∧ mB.end_ ≤ mA.end_ ∧
      u64_sub mB.end_ mB.begin ≤ u64_sub mA.end_ mA.begin ∧
      s4.s_perf.pos s.s_perf.buf = 2 ∧ s4.s_perf.buf = s.s_perf.buf ∧ s4.s_frame = s.s_frame ∧
      (∀ o, (∀ b, s.s_perf.pos b ≤ (s.s_perf.markers b).length) →
        ∃ s5, gather_perf_markers o s4 = .ok s5) ∧
      (∀ o s5, s.s_perf.buf < 5 → o.disjoint s.s_perf.buf = some false →
        o.begin_ok s.s_perf.buf 0 = true → o.end_ok s.s_perf.buf 0 = true →
        o.begin_ok s.s_perf.buf 1 = true → o.end_ok s.s_perf.buf 1 = true →
        gather_perf_markers o s4 = .ok s5 →
        { buffer := s.s_perf.buf, slot := 0, elapsed := u64_sub mA.end_ mA.begin } ∈ s5.res_trace ∧
        { buffer := s.s_perf.buf, slot := 1, elapsed := u64_sub mB.end_ mB.begin } ∈ s5.res_trace ∧
        s5.s_perf.pos s.s_perf.buf = 0 ∧ s5.s_perf.depth = 0) := by
  -- push("A")
  obtain ⟨s1, hs1⟩ := ((push_spec (some "A") s).2 h0).1
    ⟨by omega, fun m hm => hempty _ m hm⟩
  obtain ⟨-, ⟨mA1, a2, a2n, a2d, -, a2i, a2b⟩, a3, -, -, a6, a7, -, a9, a10, a11, a12, a13⟩ :=
    ((push_spec (some "A") s).2 h0).2 s1 hs1
  rw [hpos] at a2 a3 a6 a9
  have hf1 : s1.s_frame ≠ 0 := by rw [a12]; exact h0
  have hlen1 : 0 < (s1.s_perf.markers s.s_perf.buf).length := by
    rcases List.getElem?_eq_some.mp a2 with ⟨hl, -⟩
    exact hl
  -- push("B")
  have hp1 : s1.s_perf.pos s1.s_perf.buf = 1 := by rw [a11, a6]
  obtain ⟨s2, hs2⟩ := ((push_spec (some "B") s1).2 hf1).1 (by
    rw [hp1, a11]
    refine ⟨by omega, fun m hm => ?_⟩
    rw [a9 1 (by omega)] at hm
    exact hempty _ m hm)
  obtain ⟨-, ⟨mB1, b2, b2n, b2d, -, b2i, b2b⟩, b3, -, -, b6, -, -, b9, b10, b11, b12, b13⟩ :=
    ((push_spec (some "B") s1).2 hf1).2 s2 hs2
  rw [hp1, a11] at b2 b6 b9
  rw [hp1] at b3
  have hf2 : s2.s_frame ≠ 0 := by rw [b12]; exact hf1
  have hbuf2 : s2.s_perf.buf = s.s_perf.buf := b11.trans a11
  -- the index stack
  obtain ⟨t1, t2, t3, -⟩ := stack_push_spec s.s_perf.stack 0 hwf
  obtain ⟨u1, -, u3, u4⟩ := stack_push_spec (s.s_perf.stack.push 0) 1 t2
  rw [← a3] at u1 u3 u4 t1 t3
  rw [← b3] at u1 u3 u4
  rw [t1] at u1 u3
  have u5 : s2.s_perf.stack.indices[s.s_perf.stack.pos]? = some 0 := by
    rw [u4 _ (by omega), t3]
  -- pop(): closes B
  have hs2a : (s2.s_perf.markers s.s_perf.buf)[0]? = some mA1 := by
    rw [b9 0 (by omega)]
    exact a2
  obtain ⟨s3, hs3, -, -, c3, c4, c5, c6, c7, c8, c9, c10, c11, c12⟩ :=
    (pop_spec s2 1 hf2 (by omega) (by rw [u1]; exact u3)).1 mB1 (by rw [hbuf2]; exact b2) b2i
  rw [hbuf2] at c5 c6 c7 c8
  have hf3 : s3.s_frame ≠ 0 := by rw [c11]; exact hf2
  have hbuf3 : s3.s_perf.buf = s.s_perf.buf := c10.trans hbuf2
  have hlen2 : 1 < (s2.s_perf.markers s.s_perf.buf).length := by
    rcases List.getElem?_eq_some.mp b2 with ⟨hl, -⟩
    exact hl
  have hs3a : (s3.s_perf.markers s.s_perf.buf)[0]? = some mA1 := by
    rw [c6 0 (by omega) (by omega)]
    exact hs2a
  -- pop(): closes A
  obtain ⟨s4, hs4, -, -, -, -, d5, d6, d7, d8, d9, d10, d11, d12⟩ :=
    (pop_spec s3 0 hf3 (by rw [c3, u1]; omega) (by
      rw [c3, c4, u1]
      exact u5)).1 mA1 (by rw [hbuf3]; exact hs3a) a2i
  rw [hbuf3] at d5 d6 d7 d8
  have hlen3 : 1 < (s3.s_perf.markers s.s_perf.buf).length := by
    rcases List.getElem?_eq_some.mp c5 with ⟨hl, -⟩
    exact hl
  have hs4b : (s4.s_perf.markers s.s_perf.buf)[1]? =
      some { mB1 with issued := 2, end_ := s2.gpu_clock } := by
    rw [d6 1 (by omega) hlen3]
    exact c5
  have hrun : perf_run [.push (some "A"), .push (some "B"), .pop, .pop] s = .ok s4 := by
    simp only [perf_run, perf_step, hs1, hs2, hs3, hs4]
  have hrest : ∀ (i : Nat) (m : perf_marker), 2 ≤ i → (s4.s_perf.markers s.s_perf.buf)[i]? = some m → m.issued = 0 := by
    intro i m hi hm
    by_cases h3 : i < (s3.s_perf.markers s.s_perf.buf).length
    · rw [d6 i (by omega) h3] at hm
      by_cases h2 : i < (s2.s_perf.markers s.s_perf.buf).length
      · rw [c6 i (by omega) h2, b9 i (by omega), a9 i (by omega)] at hm
        exact hempty i m hm
      · rw [c7 i m (by omega) hm]
    · rw [d7 i m (by omega) hm]
  have hclockB : s2.gpu_clock = s.gpu_clock + 2 := by rw [b13, a13]
  have hclockA : s3.gpu_clock = s.gpu_clock + 3 := by rw [c12, hclockB]
  have heB : u64_sub s2.gpu_clock mB1.begin = 1 := by
    rw [b2b, hclockB, a13, show s.gpu_clock + 2 = s.gpu_clock + 1 + 1 from rfl, u64_sub_add]
    norm_num
  have heA : u64_sub s3.gpu_clock mA1.begin = 3 := by
    rw [a2b, hclockA, u64_sub_add]
    norm_num
  have hp4 : s4.s_perf.pos s.s_perf.buf = 2 := by
    rw [d9, c9, b6]
  have hother : ∀ b, b ≠ s.s_perf.buf →
      s4.s_perf.markers b = s.s_perf.markers b ∧ s4.s_perf.pos b = s.s_perf.pos b := by
    intro b hb
    have e1 := a10 b hb
    have e2 := b10 b (by rw [a11]; exact hb)
    constructor
    · rw [d8 b hb, c8 b hb, e2.1, e1.1]
    · rw [d9, c9, e2.2, e1.2]
  refine ⟨s4, { mA1 with issued := 2, end_ := s3.gpu_clock },
    { mB1 with issued := 2, end_ := s2.gpu_clock }, hrun, d5, hs4b, a2n, a2d, rfl, b2n, ?_, rfl,
    ?_, hrest, ?_, ?_, ?_, ?_, ?_, ?_, hp4, d10.trans hbuf3, d11.trans (c11.trans (b12.trans a12)),
    ?_, ?_⟩
  · rw [b2d, a7]
  · intro hlt
    rw [b2d, a7]
    exact u32_of_lt _ hlt
  · show mA1.begin < mB1.begin
    rw [a2b, b2b, a13]
    omega
  · show mB1.begin < s2.gpu_clock
    rw [b2b, hclockB, a13]
    omega
  · show s2.gpu_clock < s3.gpu_clock
    rw [hclockA, hclockB]
    omega
  · show mA1.begin ≤ mB1.begin
    rw [a2b, b2b, a13]
    omega
  · show s2.gpu_clock ≤ s3.gpu_clock
    rw [hclockA, hclockB]
    omega
  · show u64_sub s2.gpu_clock mB1.begin ≤ u64_sub s3.gpu_clock mA1.begin
    rw [heA, heB]
    omega
  · intro o hwfall
    apply gather_total o s4 (by rw [d11]; exact hf3)
    intro b
    by_cases hb : b = s.s_perf.buf
    · subst hb
      rw [hp4]
      rcases List.getElem?_eq_some.mp hs4b with ⟨hl, -⟩
      omega
    · rw [(hother b hb).1, (hother b hb).2]
      exact hwfall b
  · intro o s5 hb5 hd hb0 he0 hb1 he1 hg
    have hf4 : s4.s_frame ≠ 0 := by rw [d11]; exact hf3
    obtain ⟨g1, -, g3⟩ := gather_ready_buffer o s4 s5 hf4 hg s.s_perf.buf hb5 false hd
    have hcons : ∀ (i : Nat) (m : perf_marker), i < s4.s_perf.pos s.s_perf.buf →
        (s4.s_perf.markers s.s_perf.buf)[i]? = some m →
        consumes o s.s_perf.buf false i m = true := by
      intro i m hi hm
      rw [hp4] at hi
      have hi01 : i = 0 ∨ i = 1 := by omega
      rcases hi01 with rfl | rfl
      · rw [d5] at hm
        cases hm
        simp [consumes, hb0, he0]
      · rw [hs4b] at hm
        cases hm
        simp [consumes, hb1, he1]
    refine ⟨?_, ?_, (g1 hcons).1, (g1 hcons).2⟩
    · exact g3 0 _ (by rw [hp4]; omega) d5 (hcons 0 _ (by rw [hp4]; omega) d5)
    · exact g3 1 _ (by rw [hp4]; omega) hs4b (hcons 1 _ (by rw [hp4]; omega) hs4b)

/-- Witness of C4: the four calls in a frame whose buffer (buffer 1) is empty. -/
theorem C4_nested_markers_witness :
    ∃ s4 mA mB,
      perf_run [.push (some "A"), .push (some "B"), .pop, .pop]
        (state_after [.present oracle_none_ready, .pop, .gather oracle_all_ready]) = .ok s4 ∧
      (s4.s_perf.markers 1)[0]? = some mA ∧ (s4.s_perf.markers 1)[1]? = some mB ∧
      mA.name = some "A" ∧ mA.issued = 2 ∧ mB.name = some "B" ∧ mB.issued = 2 ∧
      mA.begin ≤ mB.begin ∧ mB.end_ ≤ mA.end_ ∧
      u64_sub mB.end_ mB.begin ≤ u64_sub mA.end_ mA.begin := by
  obtain ⟨s4, mA, mB, h1, h2, h3, h4, -, h6, h7, -, h9, -, -, -, -, -, h15, h16, h17, -⟩ :=
    C4_nested_markers (state_after [.present oracle_none_ready, .pop, .gather oracle_all_ready])
      (by decide) (by decide)
      (fun i m hm => by
        have he : (state_after [.present oracle_none_ready, .pop,
            .gather oracle_all_ready]).s_perf.markers
            (state_after [.present oracle_none_ready, .pop,
              .gather oracle_all_ready]).s_perf.buf = [] := by decide
        rw [he] at hm
        simp at hm)
      (by decide)
  exact ⟨s4, mA, mB, h1, h2, h3, h4, h6, h7, h9, h15, h16, h17⟩

/-! ## C5: a buffer whose validity result stays unread for a cycle of the ring -/

set_option maxRecDepth 100000 in
/-- Counterexample of C5. After `cycle_ops` the ring is back on buffer 0 at frame
counter 6, and buffer 0 still holds the three markers of frame 1, complete, below
the two markers of frame 6: position 5, no result computed so far. The next
present, at which buffer 0 is ready and valid, consumes all five: the markers of
frame 1 contribute the results 5, 1 and 1, and `g_gpu_total` is 5, the elapsed
time of the frame marker of frame 1 (that of frame 6 is 3). The markers of the
earlier frame were not dropped. -/
theorem C5_counterexample :
    (state_after cycle_ops).s_frame = 6 ∧ (state_after cycle_ops).s_perf.buf = 0 ∧
    (state_after cycle_ops).s_perf.pos 0 = 5 ∧
    slots_of (state_after cycle_ops) 0 =
      [(1, none, 2), (1, some "X", 2), (1, some "Z", 2), (6, none, 1), (6, some "Y", 2),
        (0, none, 0)] ∧
    (state_after cycle_ops).res_trace = [] ∧
    perf_run (cycle_ops ++ [.present (oracle_only 0)]) perf_init =
      .ok (state_after (cycle_ops ++ [.present (oracle_only 0)])) ∧
    (state_after (cycle_ops ++ [.present (oracle_only 0)])).res_trace =
      [{ buffer := 0, slot := 0, elapsed := 5 }, { buffer := 0, slot := 1, elapsed := 1 },
       { buffer := 0, slot := 2, elapsed := 1 }, { buffer := 0, slot := 3, elapsed := 3 },
       { buffer := 0, slot := 4, elapsed := 1 }] ∧
    (state_after (cycle_ops ++ [.present (oracle_only 0)])).g_gpu_total = 5 ∧
    (state_after (cycle_ops ++ [.present (oracle_only 0)])).s_perf.pos 0 = 0 := by
  refine ⟨by decide, by decide, by decide, by decide, by decide, rfl, by decide, by decide,
    by decide⟩

theorem gather_not_ready (o : query_oracle) (s s1 : perf_state)
    (h : gather_perf_markers o s = .ok s1) (b : Nat) (hd : o.disjoint b = none) :
    s1.s_perf.markers b = s.s_perf.markers b ∧ s1.s_perf.pos b = s.s_perf.pos b := by
  by_cases h0 : s.s_frame = 0
  · simp only [gather_perf_markers, h0, if_true, Except.ok.injEq] at h
    subst h
    exact ⟨rfl, rfl⟩
  · obtain ⟨s2, hf, rfl⟩ := (gather_ok_iff o s s1 h0).mp h
    obtain ⟨-, -, -, -, g5, -, -, g8⟩ := gather_fold_buffers o _ (List.nodup_range _) s s2 hf
    show s2.s_perf.markers b = _ ∧ s2.s_perf.pos b = _
    by_cases hb : b ∈ List.range num_marker_buffers
    · obtain ⟨t, t1, k1, k2, k3, -, k5, k6, -⟩ := g8 b hb
      rw [gather_buffer_not_ready o t b hd] at k1
      cases k1
      exact ⟨k5.trans k2, k6.trans k3⟩
    · exact g5 b hb

theorem gather_buf (o : query_oracle) (s s1 : perf_state)
    (h : gather_perf_markers o s = .ok s1) :
    s1.s_perf.buf = if s.s_frame = 0 then s.s_perf.buf else (s.s_perf.buf + 1) % num_marker_buffers := by
  by_cases h0 : s.s_frame = 0
  · simp only [gather_perf_markers, h0, if_true, Except.ok.injEq] at h
    subst h
    rw [if_pos h0]
  · rw [if_neg h0]
    exact (gather_slots o s s1 h0 h).2.2.2.1

theorem push_other (name : Option String) (s s1 : perf_state)
    (h : renderer_push_perf_marker name s = .ok s1) (b : Nat) (hb : s.s_perf.buf ≠ b) :
    s1.s_perf.markers b = s.s_perf.markers b ∧ s1.s_perf.pos b = s.s_perf.pos b ∧
      s1.s_perf.buf = s.s_perf.buf := by
  by_cases h0 : s.s_frame = 0
  · simp only [renderer_push_perf_marker, h0, if_true, Except.ok.injEq] at h
    subst h
    exact ⟨rfl, rfl, rfl⟩
  · obtain ⟨m, -, -, rfl⟩ := (push_ok_iff name s s1 h0).mp h
    exact ⟨array_set_other _ _ _ _ (Ne.symm hb), array_set_other _ _ _ _ (Ne.symm hb), rfl⟩

theorem pop_other (s s1 : perf_state) (h : renderer_pop_perf_marker s = .ok s1) (b : Nat)
    (hb : s.s_perf.buf ≠ b) :
    s1.s_perf.markers b = s.s_perf.markers b ∧ s1.s_perf.pos b = s.s_perf.pos b ∧
      s1.s_perf.buf = s.s_perf.buf ∧ s1.s_frame = s.s_frame := by
  by_cases h0 : s.s_frame = 0
  · have : renderer_pop_perf_marker s = .ok (dec_depth s) := by
      unfold renderer_pop_perf_marker insert_marker
      rw [if_pos (show (dec_depth s).s_frame = 0 from h0)]
    rw [this] at h
    cases h
    exact ⟨rfl, rfl, rfl, rfl⟩
  · obtain ⟨st1, p, m, -, -, -, rfl⟩ := (pop_ok_iff s s1 h0).mp h
    exact ⟨array_set_other _ _ _ _ (Ne.symm hb), rfl, rfl, rfl⟩

theorem present_other (o : query_oracle) (s s1 : perf_state)
    (h : renderer_present o s = .ok s1) (b : Nat) (hd : o.disjoint b = none)
    (hb : s.s_perf.buf ≠ b) (hb1 : (s.s_perf.buf + 1) % num_marker_buffers ≠ b) :
    s1.s_perf.markers b = s.s_perf.markers b ∧ s1.s_perf.pos b = s.s_perf.pos b := by
  obtain ⟨s2, s3, h1, h2, h3⟩ := present_steps o s s1 h
  have e1 : s2.s_perf.markers b = s.s_perf.markers b ∧ s2.s_perf.pos b = s.s_perf.pos b ∧
      s2.s_perf.buf = s.s_perf.buf ∧ s2.s_frame = s.s_frame := by
    by_cases hf : s.s_frame > 0
    · rw [if_pos hf] at h1
      exact pop_other s s2 h1 b hb
    · rw [if_neg hf] at h1
      cases h1
      exact ⟨rfl, rfl, rfl, rfl⟩
  have e2 := gather_not_ready o s2 s3 h2 b hd
  have e3 := gather_buf o s2 s3 h2
  have hb3 : s3.s_perf.buf ≠ b := by
    rw [e3, e1.2.2.1]
    split
    · exact hb
    · exact hb1
  have e4 := push_other none _ s1 h3 b hb3
  exact ⟨e4.1.trans (e2.1.trans e1.1), e4.2.1.trans (e2.2.trans e1.2.1)⟩

theorem quiet_on_keeps (b : Nat) (ops : List perf_op) (s s1 : perf_state)
    (hq : quiet_on b ops s = true) (h : perf_run ops s = .ok s1) :
    s1.s_perf.markers b = s.s_perf.markers b ∧ s1.s_perf.pos b = s.s_perf.pos b := by
  induction ops generalizing s with
  | nil =>
    cases h
    exact ⟨rfl, rfl⟩
  | cons op rest ih =>
    unfold perf_run at h
    unfold quiet_on at hq
    cases h1 : perf_step op s with
    | error e =>
      rw [h1] at h
      cases h
    | ok s2 =>
      rw [h1] at h hq
      simp only [Bool.and_eq_true] at hq
      obtain ⟨hl, hrest⟩ := hq
      have e2 := ih s2 hrest h
      have e1 : s2.s_perf.markers b = s.s_perf.markers b ∧ s2.s_perf.pos b = s.s_perf.pos b := by
        cases op with
        | push name =>
          simp only [leaves_alone, bne_iff_ne, ne_eq] at hl
          have := push_other name s s2 h1 b hl
          exact ⟨this.1, this.2.1⟩
        | pop =>
          simp only [leaves_alone, bne_iff_ne, ne_eq] at hl
          have := pop_other s s2 h1 b hl
          exact ⟨this.1, this.2.1⟩
        | gather o =>
          simp only [leaves_alone, Option.isNone_iff_eq_none] at hl
          exact gather_not_ready o s s2 h1 b hl
        | present o =>
          simp only [leaves_alone, Bool.and_eq_true, bne_iff_ne, ne_eq,
            Option.isNone_iff_eq_none] at hl
          exact present_other o s s2 h1 b hl.1.1 hl.1.2 hl.2
      exact ⟨e2.1.trans e1.1, e2.2.trans e1.2⟩

/-- C5, as amended. Let `b` be a buffer of the ring.
(1) A sequence of operations in which `b` is not ready at any gather and no push
or pop runs on `b` (a cycle of the ring away from `b`) leaves the markers of `b`
and `pos[b]` exactly as they were: nothing is dropped.
(2) When the ring is on `b`, at a frame counter above 0, with `pos[b]` inside the
buffer and every slot from `pos[b]` on unused, a push returns; it takes slot
`pos[b]`, after the markers of the earlier frame, and changes no other slot.
(3) A pop on `b` whose stack top names a slot with issued-count 1 returns and
changes neither `pos[b]` nor any other slot of `b` that existed.
(4) At a gather at which `b` is ready and valid, the timestamps of the slots
below `pos[b]` are readable and all these slots are complete, while the slots
from `pos[b]` on are unused: the gather returns (every position being inside its
buffer), every slot below `pos[b]`, those of the earlier frame included,
contributes its elapsed time, `pos[b]` and the nesting depth are 0 afterwards
and every slot of `b` is unused. -/
theorem C5_retained_markers (b : Nat) (hb : b < 5) :
    (∀ ops s s1, quiet_on b ops s = true → perf_run ops s = .ok s1 →
      s1.s_perf.markers b = s.s_perf.markers b ∧ s1.s_perf.pos b = s.s_perf.pos b) ∧
    (∀ name s, s.s_frame ≠ 0 → s.s_perf.buf = b →
      s.s_perf.pos b ≤ (s.s_perf.markers b).length →
      (∀ (i : Nat) (m : perf_marker), s.s_perf.pos b ≤ i → (s.s_perf.markers b)[i]? = some m →
        m.issued = 0) →
      ∃ s1 m1, renderer_push_perf_marker name s = .ok s1 ∧
        s1.s_perf.pos b = s.s_perf.pos b + 1 ∧
        (s1.s_perf.markers b)[s.s_perf.pos b]? = some m1 ∧ m1.issued = 1 ∧ m1.name = name ∧
        ∀ i, i ≠ s.s_perf.pos b → (s1.s_perf.markers b)[i]? = (s.s_perf.markers b)[i]?) ∧
    (∀ s p m, s.s_frame ≠ 0 → s.s_perf.buf = b → 0 < s.s_perf.stack.pos →
      s.s_perf.stack.indices[s.s_perf.stack.pos - 1]? = some p →
      (s.s_perf.markers b)[p]? = some m → m.issued = 1 →
      ∃ s1, renderer_pop_perf_marker s = .ok s1 ∧ s1.s_perf.pos b = s.s_perf.pos b ∧
        (s1.s_perf.markers b)[p]? = some { m with issued := 2, end_ := s.gpu_clock } ∧
        ∀ i, i ≠ p → i < (s.s_perf.markers b).length →
          (s1.s_perf.markers b)[i]? = (s.s_perf.markers b)[i]?) ∧
    (∀ o s, s.s_frame ≠ 0 → o.disjoint b = some false →
      (∀ i, i < s.s_perf.pos b → o.begin_ok b i = true ∧ o.end_ok b i = true) →
      (∀ (i : Nat) (m : perf_marker), i < s.s_perf.pos b → (s.s_perf.markers b)[i]? = some m →
        m.issued = 2) →
      (∀ (i : Nat) (m : perf_marker), s.s_perf.pos b ≤ i → (s.s_perf.markers b)[i]? = some m →
        m.issued = 0) →
      (∀ bb, s.s_perf.pos bb ≤ (s.s_perf.markers bb).length) →
      ∃ s1, gather_perf_markers o s = .ok s1 ∧
        s1.s_perf.pos b = 0 ∧ s1.s_perf.depth = 0 ∧
        (∀ (i : Nat) (m : perf_marker), (s1.s_perf.markers b)[i]? = some m → m.issued = 0) ∧
        (∀ (i : Nat) (m : perf_marker), i < s.s_perf.pos b → (s.s_perf.markers b)[i]? = some m →
          { buffer := b, slot := i, elapsed := u64_sub m.end_ m.begin } ∈ s1.res_trace)) := by
  refine ⟨fun ops s s1 hq h => quiet_on_keeps b ops s s1 hq h, ?_, ?_, ?_⟩
  · intro name s h0 hbuf hle hun
    subst hbuf
    obtain ⟨s1, hs1⟩ := ((push_spec name s).2 h0).1 ⟨hle, fun m hm => hun _ m (le_refl _) hm⟩
    obtain ⟨-, ⟨m1, a2, a2n, -, -, a2i, -⟩, -, -, -, a6, -, -, a9, -⟩ :=
      ((push_spec name s).2 h0).2 s1 hs1
    exact ⟨s1, m1, hs1, a6, a2, a2i, a2n, a9⟩
  · intro s p m h0 hbuf hpos htop hm hi
    subst hbuf
    obtain ⟨s1, hs1, -, -, -, -, c5, c6, -, -, c9, -⟩ := (pop_spec s p h0 hpos htop).1 m hm hi
    exact ⟨s1, hs1, by rw [c9], c5, c6⟩
  · intro o s h0 hd hok h2 hun hwf
    obtain ⟨s1, hs1⟩ := gather_total o s h0 hwf
    have hcons : ∀ (i : Nat) (m : perf_marker), i < s.s_perf.pos b →
        (s.s_perf.markers b)[i]? = some m → consumes o b false i m = true := by
      intro i m hi hm
      simp [consumes, h2 i m hi hm, (hok i hi).1, (hok i hi).2]
    obtain ⟨g1, -, g3⟩ := gather_ready_buffer o s s1 h0 hs1 b hb false hd
    obtain ⟨-, -, -, -, -, k6, k7⟩ := gather_slots o s s1 h0 hs1
    refine ⟨s1, hs1, (g1 hcons).1, (g1 hcons).2, ?_, fun i m hi hm => g3 i m hi hm (hcons i m hi hm)⟩
    intro i m1 hm1
    have hlt : i < (s.s_perf.markers b).length := by
      rcases List.getElem?_eq_some.mp hm1 with ⟨hl, -⟩
      rw [k6 b] at hl
      exact hl
    have hm := List.getElem?_eq_getElem hlt
    rw [k7 b hb i _ hm, hd] at hm1
    cases hm1
    unfold gathered
    dsimp only
    by_cases hi : i < s.s_perf.pos b
    · rw [if_pos ⟨hi, hcons i _ hi hm⟩]
    · rw [if_neg (fun hh => hi hh.1)]
      exact hun i _ (by omega) hm

theorem exists_of_is_ok {α : Type} (r : Except fault α) (h : is_ok r = true) :
    ∃ a, r = .ok a := by
  cases r with
  | ok a => exact ⟨a, rfl⟩
  | error e => cases h

set_option maxRecDepth 100000 in
/-- Witness of C5 as amended, on buffer 0: the three presents that take the ring
from buffer 1 to buffer 4 leave the three complete markers of frame 1 in
buffer 0. -/
theorem C5_retained_markers_witness :
    (0 : Nat) < 5 ∧
    ∃ s1, perf_run away_ops (state_after frame1_ops) = .ok s1 ∧
      slots_of s1 0 = slots_of (state_after frame1_ops) 0 ∧
      slots_of (state_after frame1_ops) 0 =
        [(1, none, 2), (1, some "X", 2), (1, some "Z", 2), (0, none, 0)] := by
  refine ⟨by decide, ?_⟩
  obtain ⟨s1, hrun⟩ := exists_of_is_ok (perf_run away_ops (state_after frame1_ops)) (by decide)
  have h := (C5_retained_markers 0 (by decide)).1 away_ops (state_after frame1_ops) s1
    (by decide) hrun
  refine ⟨s1, hrun, ?_, by decide⟩
  unfold slots_of
  rw [h.1]

/-! ## C6: the reset of a buffer whose markers are consumed over several gathers -/

set_option maxRecDepth 100000 in
/-- C6, the code at the failing input. The first gather consumes slot 0 of
buffer 0 and leaves slot 1 complete; the second gather consumes slot 1, the last
marker below `pos[0]`: every marker of buffer 0 is then consumed (issued-count
0), both results have been computed, and yet `pos[0]` is still 2 (and, with the
gathers called directly, the nesting depth still 1). Ten frames later `pos[0]` is
4: the buffer is never reset again. -/
theorem C6_spread_consumption_no_reset :
    is_ok (perf_run spread_ops perf_init) = true ∧
    slots_of (state_after (spread_ops.take 4)) 0 =
      [(1, none, 0), (1, some "A", 2), (0, none, 0)] ∧
    (state_after (spread_ops.take 4)).s_perf.pos 0 = 2 ∧
    slots_of (state_after spread_ops) 0 = [(1, none, 0), (1, some "A", 0), (0, none, 0)] ∧
    (state_after spread_ops).res_trace =
      [{ buffer := 0, slot := 0, elapsed := 3 }, { buffer := 0, slot := 1, elapsed := 1 }] ∧
    (state_after spread_ops).s_perf.pos 0 = 2 ∧
    is_ok (perf_run spread_gather_ops perf_init) = true ∧
    slots_of (state_after spread_gather_ops) 0 =
      [(1, none, 0), (1, some "A", 0), (0, none, 0)] ∧
    (state_after spread_gather_ops).s_perf.pos 0 = 2 ∧
    (state_after spread_gather_ops).s_perf.depth = 1 ∧
    (state_after (spread_ops ++ List.replicate 10 (.present (oracle_only 0)))).s_perf.pos 0 = 4 := by
  refine ⟨by decide, by decide, by decide, by decide, by decide, by decide, by decide, by decide,
    by decide, by decide, by decide⟩

/-! ## C11: what a gather does to each buffer -/

/-- A gather that returns found the position of every ready buffer inside the
buffer. -/
theorem gather_ok_wf (o : query_oracle) (s s1 : perf_state) (h0 : s.s_frame ≠ 0)
    (h : gather_perf_markers o s = .ok s1) (b : Nat) (hb : b < 5) (d : Bool)
    (hd : o.disjoint b = some d) : s.s_perf.pos b ≤ (s.s_perf.markers b).length := by
  obtain ⟨s2, hf, rfl⟩ := (gather_ok_iff o s s1 h0).mp h
  obtain ⟨-, -, -, -, -, -, -, g8⟩ := gather_fold_buffers o _ (List.nodup_range _) s s2 hf
  obtain ⟨t, t1, k1, k2, k3, -⟩ := g8 b ((mem_range_marker_buffers b).mpr hb)
  rcases gather_buffer_ok o t t1 b k1 with ⟨hn, -⟩ | ⟨d2, -, hpos, -⟩
  · rw [hd] at hn
    cases hn
  · rw [k2, k3] at hpos
    exact hpos

/-- C11. A gather at a frame counter above 0 returns when every position is
inside its buffer. Whenever it returns, for each of the five buffers `b`: if the
validity result of `b` is not ready, or is ready and reports a disjoint
interval, the markers of `b` and `pos[b]` are unchanged; if it is ready and
valid, the buffer keeps its slots, and slot `i` is reset to issued-count 0
exactly if `i < pos[b]`, its issued-count is 2 and its begin and end timestamps
are both readable; every other slot, in particular every slot with issued-count
0 or 1, is untouched. -/
theorem C11_gather_per_buffer (o : query_oracle) (s : perf_state) (h0 : s.s_frame ≠ 0)
    (b : Nat) (hb : b < 5) :
    ((∀ bb, s.s_perf.pos bb ≤ (s.s_perf.markers bb).length) →
      ∃ s1, gather_perf_markers o s = .ok s1) ∧
    ∀ s1, gather_perf_markers o s = .ok s1 →
      ((o.disjoint b = none ∨ o.disjoint b = some true) →
        s1.s_perf.markers b = s.s_perf.markers b ∧ s1.s_perf.pos b = s.s_perf.pos b) ∧
      (o.disjoint b = some false →
        (s1.s_perf.markers b).length = (s.s_perf.markers b).length ∧
        ∀ (i : Nat) (m : perf_marker), (s.s_perf.markers b)[i]? = some m →
          (s1.s_perf.markers b)[i]? =
            some (if i < s.s_perf.pos b ∧ m.issued = 2 ∧ o.begin_ok b i = true ∧
                o.end_ok b i = true then { m with issued := 0 } else m)) := by
  refine ⟨fun hwf => gather_total o s h0 hwf, fun s1 h => ⟨?_, ?_⟩⟩
  · rintro (hd | hd)
    · exact gather_not_ready o s s1 h b hd
    · obtain ⟨-, -, -, -, -, k6, k7⟩ := gather_slots o s s1 h0 h
      have hnc : ∀ (i : Nat) (m : perf_marker), consumes o b true i m = false := by
        intro i m
        simp [consumes]
      constructor
      · apply List.ext_getElem?
        intro i
        by_cases hi : i < (s.s_perf.markers b).length
        · have hm := List.getElem?_eq_getElem hi
          rw [k7 b hb i _ hm, hd, hm]
          simp [gathered, hnc]
        · rw [List.getElem?_eq_none (by rw [k6 b]; omega), List.getElem?_eq_none (by omega)]
      · obtain ⟨g1, g2, -⟩ := gather_ready_buffer o s s1 h0 h b hb true hd
        have hwf := gather_ok_wf o s s1 h0 h b hb true hd
        by_cases hp : s.s_perf.pos b = 0
        · by_cases hall : ∀ (i : Nat) (m : perf_marker), i < s.s_perf.pos b →
              (s.s_perf.markers b)[i]? = some m → consumes o b true i m = true
          · rw [(g1 hall).1, hp]
          · exact g2 hall
        · apply g2
          intro hall
          have hlt : 0 < (s.s_perf.markers b).length := by omega
          have := hall 0 _ (by omega) (List.getElem?_eq_getElem hlt)
          rw [hnc] at this
          cases this
  · intro hd
    obtain ⟨-, -, -, -, -, k6, k7⟩ := gather_slots o s s1 h0 h
    refine ⟨k6 b, fun i m hm => ?_⟩
    rw [k7 b hb i m hm, hd]
    unfold gathered
    dsimp only
    by_cases hc : i < s.s_perf.pos b ∧ m.issued = 2 ∧ o.begin_ok b i = true ∧ o.end_ok b i = true
    · rw [if_pos hc, if_pos ⟨hc.1, by simp [consumes, hc.2.1, hc.2.2.1, hc.2.2.2]⟩]
    · rw [if_neg hc, if_neg]
      rintro ⟨h1, h2⟩
      apply hc
      simp only [consumes, Bool.and_eq_true, decide_eq_true_eq, Bool.not_false] at h2
      exact ⟨h1, h2.1.1.1, h2.1.2, h2.2⟩

set_option maxRecDepth 100000 in
/-- Witness of C11: the gather of the failing input of C6 in which buffer 0 is
ready and valid and the end timestamp of slot 1 is not readable. -/
theorem C11_gather_per_buffer_witness :
    ∃ s1, gather_perf_markers (oracle_end_pending 0 1)
        (state_after [.present oracle_none_ready, .push (some "A"), .pop, .pop]) = .ok s1 ∧
      (s1.s_perf.markers 0)[0]? =
        some { begin := 0, end_ := 3, frame := 1, name := none, issued := 0, depth := 0 } ∧
      (s1.s_perf.markers 0)[1]? =
        some { begin := 1, end_ := 2, frame := 1, name := some "A", issued := 2, depth := 1 } := by
  have h := C11_gather_per_buffer (oracle_end_pending 0 1)
    (state_after [.present oracle_none_ready, .push (some "A"), .pop, .pop]) (by decide) 0
    (by decide)
  obtain ⟨s1, hs1⟩ := exists_of_is_ok (gather_perf_markers (oracle_end_pending 0 1)
    (state_after [.present oracle_none_ready, .push (some "A"), .pop, .pop])) (by decide)
  obtain ⟨-, k2⟩ := (h.2 s1 hs1).2 rfl
  refine ⟨s1, hs1, ?_, ?_⟩
  · rw [k2 0 { begin := 0, end_ := 3, frame := 1, name := none, issued := 2, depth := 0 }
      (by decide)]
    rfl
  · rw [k2 1 { begin := 1, end_ := 2, frame := 1, name := some "A", issued := 2, depth := 1 }
      (by decide)]
    rfl

/-! ## C12: the ring index -/

theorem push_buf (name : Option String) (s s1 : perf_state)
    (h : renderer_push_perf_marker name s = .ok s1) : s1.s_perf.buf = s.s_perf.buf :=
  (push_other name s s1 h (s.s_perf.buf + 1) (by omega)).2.2

theorem pop_buf (s s1 : perf_state) (h : renderer_pop_perf_marker s = .ok s1) :
    s1.s_perf.buf = s.s_perf.buf :=
  (pop_other s s1 h (s.s_perf.buf + 1) (by omega)).2.2.1

theorem gather_frame (o : query_oracle) (s s1 : perf_state)
    (h : gather_perf_markers o s = .ok s1) : s1.s_frame = s.s_frame := by
  by_cases h0 : s.s_frame = 0
  · simp only [gather_perf_markers, h0, if_true, Except.ok.injEq] at h
    subst h
    rfl
  · exact (gather_slots o s s1 h0 h).1

theorem perf_step_buf_lt (op : perf_op) (s s1 : perf_state) (h : perf_step op s = .ok s1)
    (hs : s.s_perf.buf < 5) : s1.s_perf.buf < 5 := by
  have hmod : ∀ n : Nat, (n + 1) % num_marker_buffers < 5 := fun n =>
    Nat.mod_lt _ (by decide)
  cases op with
  | push name => rw [push_buf name s s1 h]; exact hs
  | pop => rw [pop_buf s s1 h]; exact hs
  | gather o =>
    rw [gather_buf o s s1 h]
    split
    · exact hs
    · exact hmod _
  | present o =>
    obtain ⟨s2, s3, h1, h2, h3⟩ := present_steps o s s1 h
    have e1 : s2.s_perf.buf < 5 := by
      by_cases hf : s.s_frame > 0
      · rw [if_pos hf] at h1
        rw [pop_buf s s2 h1]
        exact hs
      · rw [if_neg hf] at h1
        cases h1
        exact hs
    have e3 := push_buf none _ s1 h3
    rw [e3]
    show s3.s_perf.buf < 5
    rw [gather_buf o s2 s3 h2]
    split
    · exact e1
    · exact hmod _

theorem reachable_buf_lt (s : perf_state) (hr : perf_reachable s) : s.s_perf.buf < 5 := by
  induction hr with
  | init => decide
  | step op s s1 _ hstep ih => exact perf_step_buf_lt op s s1 hstep ih

/-- A run of gathers at a frame counter above 0 advances the ring by their number. -/
theorem gathers_buf (os : List query_oracle) (s s1 : perf_state) (h0 : s.s_frame ≠ 0)
    (h : perf_run (os.map perf_op.gather) s = .ok s1) :
    s1.s_perf.buf = (s.s_perf.buf + os.length) % num_marker_buffers ∨
      (os = [] ∧ s1.s_perf.buf = s.s_perf.buf) := by
  induction os generalizing s with
  | nil =>
    cases h
    exact Or.inr ⟨rfl, rfl⟩
  | cons o rest ih =>
    left
    simp only [List.map_cons, perf_run] at h
    cases h1 : perf_step (perf_op.gather o) s with
    | error e =>
      rw [h1] at h
      cases h
    | ok s2 =>
      rw [h1] at h
      have hb := gather_buf o s s2 h1
      rw [if_neg h0] at hb
      have hf : s2.s_frame ≠ 0 := by rw [gather_frame o s s2 h1]; exact h0
      rcases ih s2 hf h with e | ⟨e1, e2⟩
      · rw [e, hb, List.length_cons]
        simp only [num_marker_buffers]
        omega
      · subst e1
        rw [e2, hb]
        rfl

/-- C12. A gather at a frame counter above 0 sets the current buffer index to
`(buf + 1) mod 5`, whatever the validity queries answer; a gather at frame
counter 0 returns the state unchanged; five consecutive gathers at a frame
counter above 0 from an index below 5 end on the same index; and in every state
reached from program start the index is below 5. -/
theorem C12_ring_index :
    (∀ o s s1, s.s_frame ≠ 0 → gather_perf_markers o s = .ok s1 →
      s1.s_perf.buf = (s.s_perf.buf + 1) % 5) ∧
    (∀ o s, s.s_frame = 0 → gather_perf_markers o s = .ok s) ∧
    (∀ (os : List query_oracle) s s1, os.length = 5 → s.s_frame ≠ 0 → s.s_perf.buf < 5 →
      perf_run (os.map perf_op.gather) s = .ok s1 → s1.s_perf.buf = s.s_perf.buf) ∧
    (∀ s, perf_reachable s → s.s_perf.buf < 5) := by
  refine ⟨fun o s s1 h0 h => ?_, fun o s h0 => ?_, fun os s s1 hl h0 hb h => ?_,
    reachable_buf_lt⟩
  · have := gather_buf o s s1 h
    rw [if_neg h0] at this
    exact this
  · simp [gather_perf_markers, h0]
  · rcases gathers_buf os s s1 h0 h with e | ⟨e1, -⟩
    · rw [e, hl]
      simp only [num_marker_buffers]
      omega
    · subst e1
      cases hl

theorem touch_colour_idem (r : resource_allocation) :
    touch_colour (touch_colour r) = touch_colour r := by
  obtain ⟨t, p⟩ := r
  cases p <;> simp only [touch_colour]
  rename_i ptr rt
  by_cases h : rt.has_mips = true
  · simp [h]
  · simp [h]

theorem write_views_touch_colour (r : resource_allocation) :
    write_views (touch_colour r) = write_views r := by
  obtain ⟨t, p⟩ := r
  cases p <;> simp only [touch_colour, write_views]
  rename_i ptr rt
  by_cases h : rt.has_mips = true <;> simp [h]

theorem mark_colour_written_spec (p p1 : res_pool) (ct : Nat)
    (h : mark_colour_written p ct = .ok p1) :
    p1.capacity = p.capacity ∧ ct < p.capacity ∧
    (∃ ptr rt, (p.slots ct).payload = .render_target ptr rt) ∧
    p1.slots = array_set p.slots ct (touch_colour (p.slots ct)) := by
  unfold mark_colour_written res_pool.get at h
  by_cases hc : ct < p.capacity
  · simp only [hc, if_true] at h
    cases hp : (p.slots ct).payload <;> simp only [hp] at h <;> try cases h
    rename_i ptr rt
    refine ⟨?_, hc, ⟨ptr, rt, rfl⟩, ?_⟩
    · by_cases hm : rt.has_mips = true
      · simp only [hm, if_true, res_pool.set, hc] at h
        cases h; rfl
      · simp only [hm] at h
        cases h; rfl
    · by_cases hm : rt.has_mips = true
      · simp only [hm, if_true, res_pool.set, hc] at h
        cases h
        simp [touch_colour, hp, hm]
      · simp only [hm] at h
        cases h
        funext j
        by_cases hj : j = ct
        · subst hj
          simp [array_set, touch_colour, hp, hm]
        · simp [array_set, hj]
  · simp [hc] at h

theorem mark_depth_written_spec (p p1 : res_pool) (dt : Nat)
    (h : mark_depth_written p dt = .ok p1) :
    p1.capacity = p.capacity ∧ dt < p.capacity ∧
    p1.slots = array_set p.slots dt (touch_depth (p.slots dt)) := by
  unfold mark_depth_written res_pool.get at h
  by_cases hc : dt < p.capacity
  · simp only [hc, if_true] at h
    have key : ∀ (q : res_pool), q.slots = p.slots → q.capacity = p.capacity →
        q.capacity = p.capacity ∧ dt < p.capacity ∧
        q.slots = array_set p.slots dt (p.slots dt) := by
      intro q h1 h2
      refine ⟨h2, hc, ?_⟩
      rw [h1]
      funext j
      by_cases hj : j = dt
      · subst hj; simp [array_set]
      · simp [array_set, hj]
    cases hp : (p.slots dt).payload <;> simp only [hp] at h <;> try cases h
    · rename_i ptr rt
      by_cases hm : rt.depth_has_mips = true
      · simp only [hm, if_true, res_pool.set, hc] at h
        cases h
        exact ⟨rfl, hc, by simp [touch_depth, hp, hm]⟩
      · simp only [hm] at h
        cases h
        have := key p rfl rfl
        simpa [touch_depth, hp, hm] using this
    · rename_i ptr rt
      by_cases hm : rt.has_mips = true
      · simp only [hm, if_true, res_pool.set, hc] at h
        cases h
        exact ⟨rfl, hc, by simp [touch_depth, hp, hm]⟩
      · simp only [hm] at h
        cases h
        have := key p rfl rfl
        simpa [touch_depth, hp, hm] using this
  · simp [hc] at h

theorem target_view_congr (p p1 : res_pool) (hc : p1.capacity = p.capacity)
    (hv : ∀ h, write_views (p1.slots h) = write_views (p.slots h)) (ct face : Nat) :
    target_view p1 ct face = target_view p ct face := by
  unfold target_view res_pool.get
  rw [hc]
  by_cases h : ct < p.capacity
  · simp only [h, if_true, hv]
  · simp only [h, if_false]

theorem set_colour_target_spec (cts : List Nat) (face i : Nat) (a a1 : targets_acc)
    (h : set_colour_target cts face i a = .ok a1) :
    ∃ ct, cts[i]? = some ct ∧ i < a.active.length ∧ i < a.colour_rtv.length ∧
      (valid_handle ct → ∃ v, target_view a.pool ct face = .ok v ∧
        a1.active = a.active.set i ct ∧ a1.colour_rtv = a.colour_rtv.set i v ∧
        a1.pool.capacity = a.pool.capacity ∧
        a1.pool.slots = array_set a.pool.slots ct (touch_colour (a.pool.slots ct))) ∧
      (¬ valid_handle ct → a1.active = a.active.set i 0 ∧ a1.colour_rtv = a.colour_rtv ∧
        a1.pool = a.pool) := by
  unfold set_colour_target at h
  cases hc : cts[i]? with
  | none => simp [hc] at h
  | some ct =>
    simp only [hc] at h
    by_cases hl : i < a.active.length ∧ i < a.colour_rtv.length
    · simp only [hl, and_self, if_true] at h
      refine ⟨ct, rfl, hl.1, hl.2, ?_, ?_⟩
      · intro hv
        have hv2 : ct ≠ 0 ∧ ct ≠ PEN_INVALID_HANDLE := hv
        simp only [hv2, ne_eq, not_false_eq_true, and_self, if_true] at h
        cases ht : target_view a.pool ct face with
        | error e => simp [ht] at h
        | ok v =>
          simp only [ht] at h
          cases hm : mark_colour_written a.pool ct with
          | error e => simp [hm] at h
          | ok p1 =>
            simp only [hm] at h
            cases h
            have := mark_colour_written_spec _ _ _ hm
            exact ⟨v, rfl, rfl, rfl, this.1, this.2.2.2⟩
      · intro hv
        have hv2 : ¬ (ct ≠ 0 ∧ ct ≠ PEN_INVALID_HANDLE) := hv
        simp only [hv2, if_false] at h
        cases h
        exact ⟨rfl, rfl, rfl⟩
    · simp only [hl, if_false] at h
      cases h

theorem targets_inv_views (cts : List Nat) (face : Nat) (a0 : targets_acc) (k : Nat)
    (a : targets_acc) (h : targets_inv cts face a0 k a) (x : Nat) :
    write_views (a.pool.slots x) = write_views (a0.pool.slots x) := by
  obtain ⟨-, -, -, -, -, hs, -, -⟩ := h
  by_cases hn : named_upto cts k x
  · rw [(hs x).1 hn, write_views_touch_colour]
  · rw [(hs x).2 hn]

theorem set_colour_targets_upto_inv (cts : List Nat) (face : Nat) (a0 : targets_acc) :
    ∀ (k : Nat) (a : targets_acc), set_colour_targets_upto cts face a0 k = .ok a →
      targets_inv cts face a0 k a := by
  intro k
  induction k with
  | zero =>
    intro a h
    simp only [set_colour_targets_upto] at h
    cases h
    refine ⟨rfl, rfl, Nat.zero_le _, Nat.zero_le _, rfl, fun h => ⟨?_, fun _ => rfl⟩, ?_,
      fun i _ => ⟨rfl, rfl⟩⟩
    · rintro ⟨i, hi, -⟩
      exact absurd hi (Nat.not_lt_zero _)
    · intro i hi
      exact absurd hi (Nat.not_lt_zero _)
  | succ k ih =>
    intro a1 h
    simp only [set_colour_targets_upto] at h
    cases hk : set_colour_targets_upto cts face a0 k with
    | error e => simp [hk] at h
    | ok a =>
      simp only [hk] at h
      have inv := ih a hk
      have hviews := targets_inv_views cts face a0 k a inv
      obtain ⟨l1, l2, k1, k2, hcap, hs, hlt, hge⟩ := inv
      obtain ⟨ct, hct, b1, b2, hvalid, hinvalid⟩ := set_colour_target_spec cts face k a a1 h
      by_cases hv : valid_handle ct
      · obtain ⟨v, htv, e1, e2, e3, e4⟩ := hvalid hv
        rw [target_view_congr a0.pool a.pool hcap hviews] at htv
        refine ⟨?_, ?_, ?_, ?_, ?_, ?_, ?_, ?_⟩
        · rw [e1, List.length_set, l1]
        · rw [e2, List.length_set, l2]
        · omega
        · omega
        · rw [e3, hcap]
        · intro x
          rw [e4]
          by_cases hx : x = ct
          · subst hx
            rw [array_set_same]
            refine ⟨fun _ => ?_, fun hn => absurd ⟨k, Nat.lt_succ_self k, hct, hv⟩ hn⟩
            by_cases hn : named_upto cts k x
            · rw [(hs x).1 hn, touch_colour_idem]
            · rw [(hs x).2 hn]
          · rw [array_set_other _ _ _ _ hx]
            constructor
            · rintro ⟨i, hi, hci, hvi⟩
              have : i < k := by
                rcases Nat.lt_succ_iff_lt_or_eq.mp hi with h1 | h1
                · exact h1
                · subst h1
                  rw [hct] at hci
                  exact absurd (Option.some.inj hci).symm hx
              exact (hs x).1 ⟨i, this, hci, hvi⟩
            · intro hn
              exact (hs x).2 (fun ⟨i, hi, hci, hvi⟩ => hn ⟨i, Nat.lt_succ_of_lt hi, hci, hvi⟩)
        · intro i hi
          rcases Nat.lt_succ_iff_lt_or_eq.mp hi with h1 | h1
          · obtain ⟨ci, hci, ha, hr⟩ := hlt i h1
            refine ⟨ci, hci, ?_, ?_⟩
            · rw [e1, List.getElem?_set_ne (by omega)]
              exact ha
            · rw [e2, List.getElem?_set_ne (by omega)]
              exact hr
          · subst h1
            refine ⟨ct, hct, ?_, ?_⟩
            · rw [e1, List.getElem?_set_self b1, if_pos hv]
            · rw [if_pos hv]
              exact ⟨v, htv, by rw [e2, List.getElem?_set_self b2]⟩
        · intro i hi
          rw [e1, e2, List.getElem?_set_ne (by omega), List.getElem?_set_ne (by omega)]
          exact hge i (by omega)
      · obtain ⟨e1, e2, e3⟩ := hinvalid hv
        refine ⟨?_, ?_, ?_, ?_, ?_, ?_, ?_, ?_⟩
        · rw [e1, List.length_set, l1]
        · rw [e2, l2]
        · omega
        · omega
        · rw [e3, hcap]
        · intro x
          rw [e3]
          constructor
          · rintro ⟨i, hi, hci, hvi⟩
            have : i < k := by
              rcases Nat.lt_succ_iff_lt_or_eq.mp hi with h1 | h1
              · exact h1
              · subst h1
                rw [hct] at hci
                rw [Option.some.inj hci] at hv
                exact absurd hvi hv
            exact (hs x).1 ⟨i, this, hci, hvi⟩
          · intro hn
            exact (hs x).2 (fun ⟨i, hi, hci, hvi⟩ => hn ⟨i, Nat.lt_succ_of_lt hi, hci, hvi⟩)
        · intro i hi
          rcases Nat.lt_succ_iff_lt_or_eq.mp hi with h1 | h1
          · obtain ⟨ci, hci, ha, hr⟩ := hlt i h1
            refine ⟨ci, hci, ?_, ?_⟩
            · rw [e1, List.getElem?_set_ne (by omega)]
              exact ha
            · rw [e2]
              exact hr
          · subst h1
            refine ⟨ct, hct, ?_, ?_⟩
            · rw [e1, List.getElem?_set_self b1, if_neg hv]
            · rw [if_neg hv, e2]
              exact (hge i (Nat.le_refl _)).2
        · intro i hi
          rw [e1, e2, List.getElem?_set_ne (by omega)]
          exact hge i (by omega)

theorem set_depth_target_spec (p p1 : res_pool) (d face dsv ad : Nat)
    (h : set_depth_target p d face = .ok (p1, dsv, ad)) :
    (valid_handle d → target_view p d face = .ok dsv ∧ ad = d ∧ p1.capacity = p.capacity ∧
      p1.slots = array_set p.slots d (touch_depth (p.slots d))) ∧
    (¬ valid_handle d → p1 = p ∧ dsv = 0 ∧ ad = 0) := by
  unfold set_depth_target at h
  by_cases hv : valid_handle d
  · have hv2 : d ≠ 0 ∧ d ≠ PEN_INVALID_HANDLE := hv
    simp only [hv2, ne_eq, not_false_eq_true, and_self, if_true] at h
    refine ⟨fun _ => ?_, fun hn => absurd hv hn⟩
    cases ht : target_view p d face with
    | error e => simp [ht] at h
    | ok v =>
      simp only [ht] at h
      cases hm : mark_depth_written p d with
      | error e => simp [hm] at h
      | ok p2 =>
        simp only [hm] at h
        cases h
        have := mark_depth_written_spec _ _ _ hm
        exact ⟨rfl, rfl, this.1, this.2.2⟩
  · have hv2 : ¬ (d ≠ 0 ∧ d ≠ PEN_INVALID_HANDLE) := hv
    simp only [hv2, if_false] at h
    cases h
    exact ⟨fun h => absurd h hv, fun _ => ⟨rfl, rfl, rfl⟩⟩

/-- What `renderer_set_targets` does when it returns. -/
theorem set_targets_spec (cts : List Nat) (n d cf df : Nat) (s s1 : renderer_state)
    (h : renderer_set_targets cts n d cf df s = .ok s1) :
    ∃ views dsv,
      s1.dev = s.dev.issue (.OMSetRenderTargets n views dsv) ∧
      views.length = MAX_MRT ∧ n ≤ MAX_MRT ∧ n ≤ s.ctx.active_colour_target.length ∧
      s1.ctx = { s.ctx with
        active_depth_target := if valid_handle d then d else 0
        num_active_colour_targets := n
        active_colour_target := s1.ctx.active_colour_target } ∧
      s1.ctx.active_colour_target.length = s.ctx.active_colour_target.length ∧
      (∀ i, i < n → ∃ ct, cts[i]? = some ct ∧
        s1.ctx.active_colour_target[i]? = some (if valid_handle ct then ct else 0) ∧
        (if valid_handle ct then ∃ v, target_view s.pool ct cf = .ok v ∧ views[i]? = some v
         else views[i]? = some 0)) ∧
      (∀ i, n ≤ i → s1.ctx.active_colour_target[i]? = s.ctx.active_colour_target[i]?) ∧
      (if valid_handle d then target_view s.pool d df = .ok dsv else dsv = 0) ∧
      s1.pool.capacity = s.pool.capacity ∧
      (∀ x, ∃ r, (named_upto cts n x → r = touch_colour (s.pool.slots x)) ∧
        (¬ named_upto cts n x → r = s.pool.slots x) ∧
        s1.pool.slots x = if x = d ∧ valid_handle d then touch_depth r else r) := by
  unfold renderer_set_targets at h
  cases hk : set_colour_targets_upto cts cf
      { pool := s.pool, active := s.ctx.active_colour_target
        colour_rtv := List.replicate MAX_MRT 0 } n with
  | error e => simp [hk] at h
  | ok a =>
    simp only [hk] at h
    have inv := set_colour_targets_upto_inv _ _ _ _ _ hk
    have hviews := targets_inv_views _ _ _ _ _ inv
    obtain ⟨l1, l2, k1, k2, hcap, hs, hlt, hge⟩ := inv
    simp only [List.length_replicate] at l2 k2
    cases hd : set_depth_target a.pool d df with
    | error e => simp [hd] at h
    | ok r =>
      obtain ⟨p1, dsv, ad⟩ := r
      simp only [hd] at h
      cases h
      obtain ⟨dv, dn⟩ := set_depth_target_spec _ _ _ _ _ _ hd
      refine ⟨a.colour_rtv, dsv, rfl, l2, k2, k1, ?_, l1, ?_, fun i hi => (hge i hi).1, ?_, ?_, ?_⟩
      · by_cases hv : valid_handle d
        · rw [if_pos hv, (dv hv).2.1]
        · rw [if_neg hv, (dn hv).2.2]
      · intro i hi
        obtain ⟨ct, hct, ha, hr⟩ := hlt i hi
        refine ⟨ct, hct, ha, ?_⟩
        by_cases hv : valid_handle ct
        · rw [if_pos hv] at hr ⊢
          exact hr
        · rw [if_neg hv] at hr ⊢
          rw [hr]
          exact List.getElem?_replicate_of_lt (by omega)
      · by_cases hv : valid_handle d
        · rw [if_pos hv, ← (dv hv).1]
          exact (target_view_congr _ _ hcap hviews d df).symm
        · rw [if_neg hv]
          exact (dn hv).2.1
      · by_cases hv : valid_handle d
        · show p1.capacity = s.pool.capacity
          rw [(dv hv).2.2.1, hcap]
        · show p1.capacity = s.pool.capacity
          rw [(dn hv).1, hcap]
      · intro x
        refine ⟨a.pool.slots x, (hs x).1, (hs x).2, ?_⟩
        show p1.slots x = _
        by_cases hv : valid_handle d
        · rw [(dv hv).2.2.2]
          by_cases hx : x = d
          · subst hx
            rw [array_set_same, if_pos ⟨rfl, hv⟩]
          · rw [array_set_other _ _ _ _ hx, if_neg (fun h => hx h.1)]
        · rw [(dn hv).1, if_neg (fun h => hv h.2)]

theorem target_view_ok (p : res_pool) (ct face v : Nat) (h : target_view p ct face = .ok v) :
    ct < p.capacity ∧ ∃ sv, write_views (p.slots ct) = .ok sv := by
  unfold target_view res_pool.get at h
  by_cases hc : ct < p.capacity
  · simp only [hc, if_true] at h
    cases hw : write_views (p.slots ct) with
    | error e => simp [hw] at h
    | ok sv => exact ⟨hc, sv, rfl⟩
  · simp [hc] at h

theorem is_render_target_slot_touch_colour (r : resource_allocation) :
    is_render_target_slot (touch_colour r) ↔ is_render_target_slot r := by
  obtain ⟨t, p⟩ := r
  cases p <;> simp only [touch_colour, is_render_target_slot]
  rename_i ptr rt
  by_cases h : rt.has_mips = true <;> simp [h]

theorem mark_colour_written_ok (p : res_pool) (ct : Nat) (hc : ct < p.capacity)
    (hr : is_render_target_slot (p.slots ct)) : ∃ p1, mark_colour_written p ct = .ok p1 := by
  obtain ⟨ptr, rt, hp⟩ := hr
  unfold mark_colour_written res_pool.get
  simp only [hc, if_true, hp]
  by_cases hm : rt.has_mips = true
  · simp [hm, res_pool.set, hc]
  · simp [hm]

theorem mark_depth_written_ok (p : res_pool) (d : Nat) (hc : d < p.capacity)
    (hr : ∃ sv, write_views (p.slots d) = .ok sv) : ∃ p1, mark_depth_written p d = .ok p1 := by
  obtain ⟨sv, hw⟩ := hr
  unfold mark_depth_written res_pool.get
  simp only [hc, if_true]
  unfold write_views at hw
  cases hp : (p.slots d).payload <;> simp only [hp] at hw <;> try cases hw
  · rename_i ptr rt
    by_cases hm : rt.depth_has_mips = true
    · simp [hm, res_pool.set, hc]
    · simp [hm]
  · rename_i ptr rt
    by_cases hm : rt.has_mips = true
    · simp [hm, res_pool.set, hc]
    · simp [hm]

/-- The loop of `renderer_set_targets` returns when the array holds the handles
it reads, the indices lie in the two arrays of 8, and every handle that passes
the test is a render target with a view for the face. -/
theorem set_colour_targets_upto_ok (cts : List Nat) (face : Nat) (a0 : targets_acc) (n : Nat)
    (hn : n ≤ cts.length) (h1 : n ≤ a0.active.length) (h2 : n ≤ a0.colour_rtv.length)
    (hb : ∀ i ct, i < n → cts[i]? = some ct → valid_handle ct →
      (∃ v, target_view a0.pool ct face = .ok v) ∧ is_render_target_slot (a0.pool.slots ct)) :
    ∀ k, k ≤ n → ∃ a, set_colour_targets_upto cts face a0 k = .ok a := by
  intro k
  induction k with
  | zero => exact fun _ => ⟨a0, rfl⟩
  | succ k ih =>
    intro hk
    obtain ⟨a, ha⟩ := ih (by omega)
    have inv := set_colour_targets_upto_inv _ _ _ _ _ ha
    have hviews := targets_inv_views _ _ _ _ _ inv
    obtain ⟨l1, l2, -, -, hcap, hs, -, -⟩ := inv
    simp only [set_colour_targets_upto, ha]
    have hlt : k < cts.length := by omega
    unfold set_colour_target
    rw [List.getElem?_eq_getElem hlt]
    simp only
    have hl : k < a.active.length ∧ k < a.colour_rtv.length := by
      constructor <;> omega
    simp only [hl, and_self, if_true]
    by_cases hv : valid_handle (cts[k])
    · have hv2 : cts[k] ≠ 0 ∧ cts[k] ≠ PEN_INVALID_HANDLE := hv
      simp only [hv2, ne_eq, not_false_eq_true, and_self, if_true]
      obtain ⟨⟨v, hv1⟩, hr⟩ := hb k (cts[k]) (by omega) (List.getElem?_eq_getElem hlt) hv
      rw [target_view_congr a0.pool a.pool hcap hviews, hv1]
      simp only
      have hc := (target_view_ok _ _ _ _ hv1).1
      have : is_render_target_slot (a.pool.slots (cts[k])) := by
        by_cases hn : named_upto cts k (cts[k])
        · rw [(hs _).1 hn, is_render_target_slot_touch_colour]
          exact hr
        · rw [(hs _).2 hn]
          exact hr
      obtain ⟨p1, hp1⟩ := mark_colour_written_ok a.pool (cts[k]) (by rw [hcap]; exact hc) this
      rw [hp1]
      exact ⟨_, rfl⟩
    · have hv2 : ¬ (cts[k] ≠ 0 ∧ cts[k] ≠ PEN_INVALID_HANDLE) := hv
      simp only [hv2, if_false]
      exact ⟨_, rfl⟩

theorem set_targets_ok (cts : List Nat) (n d cf df : Nat) (s : renderer_state)
    (hn : n ≤ cts.length) (h8 : n ≤ MAX_MRT) (h1 : n ≤ s.ctx.active_colour_target.length)
    (hb : ∀ i ct, i < n → cts[i]? = some ct → valid_handle ct →
      (∃ v, target_view s.pool ct cf = .ok v) ∧ is_render_target_slot (s.pool.slots ct))
    (hd : valid_handle d → ∃ v, target_view s.pool d df = .ok v) :
    ∃ s1, renderer_set_targets cts n d cf df s = .ok s1 := by
  obtain ⟨a, ha⟩ := set_colour_targets_upto_ok cts cf
    { pool := s.pool, active := s.ctx.active_colour_target
      colour_rtv := List.replicate MAX_MRT 0 } n hn h1
    (by simp only [List.length_replicate]; exact h8) hb n (Nat.le_refl _)
  have inv := set_colour_targets_upto_inv _ _ _ _ _ ha
  have hviews := targets_inv_views _ _ _ _ _ inv
  obtain ⟨-, -, -, -, hcap, -, -, -⟩ := inv
  unfold renderer_set_targets
  simp only [ha]
  unfold set_depth_target
  by_cases hv : valid_handle d
  · have hv2 : d ≠ 0 ∧ d ≠ PEN_INVALID_HANDLE := hv
    simp only [hv2, ne_eq, not_false_eq_true, and_self, if_true]
    obtain ⟨v, hv1⟩ := hd hv
    have hv3 := hv1
    rw [← target_view_congr _ _ hcap hviews] at hv3
    rw [hv3]
    simp only
    obtain ⟨p1, hp1⟩ := mark_depth_written_ok a.pool d (target_view_ok _ _ _ _ hv3).1
      (target_view_ok _ _ _ _ hv3).2
    rw [hp1]
    exact ⟨_, rfl⟩
  · have hv2 : ¬ (d ≠ 0 ∧ d ≠ PEN_INVALID_HANDLE) := hv
    simp only [hv2, if_false]
    exact ⟨_, rfl⟩

theorem clear_colour_upto_spec (s : renderer_state) (rgba : List Nat) (face : Nat) :
    ∀ (k : Nat) (cmds : List command), clear_colour_upto s rgba face k = .ok cmds →
      ∃ vs : List Nat, vs.length = k ∧
        (∀ i, i < k → ∃ v, bound_colour_view s i face = .ok v ∧ vs[i]? = some v) ∧
        cmds = (vs.filter (fun v => decide (v ≠ 0))).map
          (fun v => command.ClearRenderTargetView v rgba) := by
  intro k
  induction k with
  | zero =>
    intro cmds h
    simp only [clear_colour_upto] at h
    cases h
    exact ⟨[], rfl, fun i hi => absurd hi (Nat.not_lt_zero _), rfl⟩
  | succ k ih =>
    intro cmds h
    simp only [clear_colour_upto] at h
    cases hk : clear_colour_upto s rgba face k with
    | error e => simp [hk] at h
    | ok cmds0 =>
      simp only [hk] at h
      obtain ⟨vs, hl, hv, hc⟩ := ih cmds0 hk
      cases hb : bound_colour_view s k face with
      | error e => simp [hb] at h
      | ok v =>
        simp only [hb] at h
        refine ⟨vs ++ [v], by simp [hl], ?_, ?_⟩
        · intro i hi
          rcases Nat.lt_succ_iff_lt_or_eq.mp hi with h1 | h1
          · obtain ⟨w, hw1, hw2⟩ := hv i h1
            exact ⟨w, hw1, by rw [List.getElem?_append_left (by omega)]; exact hw2⟩
          · subst h1
            exact ⟨v, hb, by rw [← hl]; simp⟩
        · by_cases hz : v = 0
          · subst hz
            simp only [ne_eq, not_true_eq_false, if_false] at h
            cases h
            simp [List.filter_append, hc]
          · simp only [ne_eq, hz, not_false_eq_true, if_true] at h
            cases h
            simp [List.filter_append, hc, hz]

theorem clear_mrt_upto_spec (s : renderer_state) (cs : clear_state_internal) (face : Nat) :
    ∀ (k : Nat) (cmds : List command), clear_mrt_upto s cs face k = .ok cmds →
      cmds.length = k ∧
      (∀ i, i < k → ∃ v m, bound_colour_view s i face = .ok v ∧ cs.mrt[i]? = some m ∧
        cmds[i]? = some (command.ClearRenderTargetView v m.f)) := by
  intro k
  induction k with
  | zero =>
    intro cmds h
    simp only [clear_mrt_upto] at h
    cases h
    exact ⟨rfl, fun i hi => absurd hi (Nat.not_lt_zero _)⟩
  | succ k ih =>
    intro cmds h
    simp only [clear_mrt_upto] at h
    cases hk : clear_mrt_upto s cs face k with
    | error e => simp [hk] at h
    | ok cmds0 =>
      simp only [hk] at h
      obtain ⟨hl, hv⟩ := ih cmds0 hk
      cases hb : bound_colour_view s k face with
      | error e => simp [hb] at h
      | ok v =>
        simp only [hb] at h
        cases hm : cs.mrt[k]? with
        | none => simp [hm] at h
        | some m =>
          simp only [hm] at h
          cases h
          refine ⟨by simp [hl], ?_⟩
          intro i hi
          rcases Nat.lt_succ_iff_lt_or_eq.mp hi with h1 | h1
          · obtain ⟨w, m1, hw1, hw2, hw3⟩ := hv i h1
            exact ⟨w, m1, hw1, hw2, by rw [List.getElem?_append_left (by omega)]; exact hw3⟩
          · subst h1
            exact ⟨v, m, hb, hm, by rw [← hl]; simp⟩

theorem clear_depth_spec (s : renderer_state) (cs : clear_state_internal) (face : Nat)
    (cmds : List command) (h : clear_depth s cs face = .ok cmds) :
    (clear_d3d_flags cs.flags ≠ 0 ∧ s.ctx.active_depth_target ≠ 0 →
      ∃ dsv, target_view s.pool s.ctx.active_depth_target face = .ok dsv ∧
        cmds = [.ClearDepthStencilView dsv (clear_d3d_flags cs.flags) cs.depth cs.stencil]) ∧
    (¬ (clear_d3d_flags cs.flags ≠ 0 ∧ s.ctx.active_depth_target ≠ 0) → cmds = []) := by
  unfold clear_depth at h
  by_cases hc : clear_d3d_flags cs.flags ≠ 0 ∧ s.ctx.active_depth_target ≠ 0
  · simp only [hc, ne_eq, not_false_eq_true, and_self, if_true] at h
    refine ⟨fun _ => ?_, fun hn => absurd hc hn⟩
    cases ht : target_view s.pool s.ctx.active_depth_target face with
    | error e => simp [ht] at h
    | ok dsv =>
      simp only [ht] at h
      cases h
      exact ⟨dsv, rfl, rfl⟩
  · simp only [hc, if_false] at h
    cases h
    exact ⟨fun h => absurd h hc, fun _ => rfl⟩

theorem clear_depth_no_colour (s : renderer_state) (cs : clear_state_internal) (face : Nat)
    (cmds : List command) (h : clear_depth s cs face = .ok cmds) :
    cmds.filter is_colour_clear = [] := by
  obtain ⟨h1, h2⟩ := clear_depth_spec s cs face cmds h
  by_cases hc : clear_d3d_flags cs.flags ≠ 0 ∧ s.ctx.active_depth_target ≠ 0
  · obtain ⟨dsv, -, e⟩ := h1 hc
    subst e
    rfl
  · rw [h2 hc]
    rfl

/-- What `renderer_clear` does when it returns. -/
theorem renderer_clear_spec (csi cf df : Nat) (s s1 : renderer_state)
    (h : renderer_clear csi cf df s = .ok s1) :
    ∃ ptr cs colour mrt depth, csi < s.pool.capacity ∧
      (s.pool.slots csi).payload = .clear_state ptr cs ∧
      (if has_bit cs.flags PEN_CLEAR_COLOUR_BUFFER = true ∧ cs.num_colour_targets = 0 then
          clear_colour_upto s cs.rgba cf s.ctx.num_active_colour_targets
        else .ok []) = .ok colour ∧
      clear_mrt_upto s cs cf cs.num_colour_targets = .ok mrt ∧
      clear_depth s cs df = .ok depth ∧
      s1 = { s with dev := { s.dev with cmds := s.dev.cmds ++ (colour ++ mrt ++ depth) } } := by
  unfold renderer_clear res_pool.get at h
  by_cases hc : csi < s.pool.capacity
  · simp only [hc, if_true] at h
    cases hp : (s.pool.slots csi).payload <;> simp only [hp] at h <;> try cases h
    rename_i ptr cs
    unfold clear_commands at h
    cases h1 : (if has_bit cs.flags PEN_CLEAR_COLOUR_BUFFER = true ∧ cs.num_colour_targets = 0 then
          clear_colour_upto s cs.rgba cf s.ctx.num_active_colour_targets
        else .ok []) with
    | error e => simp [h1] at h
    | ok colour =>
      simp only [h1] at h
      cases h2 : clear_mrt_upto s cs cf cs.num_colour_targets with
      | error e => simp [h2] at h
      | ok mrt =>
        simp only [h2] at h
        cases h3 : clear_depth s cs df with
        | error e => simp [h3] at h
        | ok depth =>
          simp only [h3] at h
          cases h
          exact ⟨ptr, cs, colour, mrt, depth, hc, rfl, h1, h2, h3, rfl⟩
  · simp [hc] at h

theorem clear_colour_upto_ok (s : renderer_state) (rgba : List Nat) (face n : Nat)
    (hb : ∀ i, i < n → ∃ v, bound_colour_view s i face = .ok v) :
    ∀ k, k ≤ n → ∃ cmds, clear_colour_upto s rgba face k = .ok cmds := by
  intro k
  induction k with
  | zero => exact fun _ => ⟨[], rfl⟩
  | succ k ih =>
    intro hk
    obtain ⟨cmds, hc⟩ := ih (by omega)
    obtain ⟨v, hv⟩ := hb k (by omega)
    simp only [clear_colour_upto, hc, hv]
    exact ⟨_, rfl⟩

theorem clear_mrt_upto_ok (s : renderer_state) (cs : clear_state_internal) (face n : Nat)
    (hb : ∀ i, i < n → ∃ v, bound_colour_view s i face = .ok v) (hm : n ≤ cs.mrt.length) :
    ∀ k, k ≤ n → ∃ cmds, clear_mrt_upto s cs face k = .ok cmds := by
  intro k
  induction k with
  | zero => exact fun _ => ⟨[], rfl⟩
  | succ k ih =>
    intro hk
    obtain ⟨cmds, hc⟩ := ih (by omega)
    obtain ⟨v, hv⟩ := hb k (by omega)
    have hlt : k < cs.mrt.length := by omega
    simp only [clear_mrt_upto, hc, hv, List.getElem?_eq_getElem hlt]
    exact ⟨_, rfl⟩

theorem clear_depth_ok (s : renderer_state) (cs : clear_state_internal) (face : Nat)
    (hd : clear_d3d_flags cs.flags ≠ 0 ∧ s.ctx.active_depth_target ≠ 0 →
      ∃ v, target_view s.pool s.ctx.active_depth_target face = .ok v) :
    ∃ cmds, clear_depth s cs face = .ok cmds := by
  unfold clear_depth
  by_cases hc : clear_d3d_flags cs.flags ≠ 0 ∧ s.ctx.active_depth_target ≠ 0
  · obtain ⟨v, hv⟩ := hd hc
    simp only [hc, ne_eq, not_false_eq_true, and_self, if_true, hv]
    exact ⟨_, rfl⟩
  · simp only [hc, if_false]
    exact ⟨_, rfl⟩

/-- `renderer_clear` returns when its three parts do. -/
theorem renderer_clear_ok (csi cf df ptr : Nat) (cs : clear_state_internal) (s : renderer_state)
    (hc : csi < s.pool.capacity) (hp : (s.pool.slots csi).payload = .clear_state ptr cs)
    (colour mrt depth : List command)
    (h1 : (if has_bit cs.flags PEN_CLEAR_COLOUR_BUFFER = true ∧ cs.num_colour_targets = 0 then
          clear_colour_upto s cs.rgba cf s.ctx.num_active_colour_targets
        else .ok []) = .ok colour)
    (h2 : clear_mrt_upto s cs cf cs.num_colour_targets = .ok mrt)
    (h3 : clear_depth s cs df = .ok depth) :
    ∃ s1, renderer_clear csi cf df s = .ok s1 := by
  unfold renderer_clear res_pool.get
  simp only [hc, if_true, hp]
  unfold clear_commands
  rw [h1]
  simp only [h2, h3]
  exact ⟨_, rfl⟩

theorem clear_d3d_flags_ne_zero (flags : Nat) :
    clear_d3d_flags flags ≠ 0 ↔
      (has_bit flags PEN_CLEAR_DEPTH_BUFFER = true ∨ has_bit flags PEN_CLEAR_STENCIL_BUFFER = true) := by
  unfold clear_d3d_flags
  cases has_bit flags PEN_CLEAR_DEPTH_BUFFER <;> cases has_bit flags PEN_CLEAR_STENCIL_BUFFER <;>
    decide

theorem clear_d3d_flags_depth (flags : Nat) :
    has_bit (clear_d3d_flags flags) D3D11_CLEAR_DEPTH = has_bit flags PEN_CLEAR_DEPTH_BUFFER := by
  unfold clear_d3d_flags
  cases has_bit flags PEN_CLEAR_DEPTH_BUFFER <;> cases has_bit flags PEN_CLEAR_STENCIL_BUFFER <;>
    decide

theorem clear_d3d_flags_stencil (flags : Nat) :
    has_bit (clear_d3d_flags flags) D3D11_CLEAR_STENCIL =
      has_bit flags PEN_CLEAR_STENCIL_BUFFER := by
  unfold clear_d3d_flags
  cases has_bit flags PEN_CLEAR_DEPTH_BUFFER <;> cases has_bit flags PEN_CLEAR_STENCIL_BUFFER <;>
    decide

theorem filter_depth_clear_map (vs : List Nat) (rgba : List Nat) :
    (vs.map (fun v => command.ClearRenderTargetView v rgba)).filter is_depth_clear = [] := by
  induction vs with
  | nil => rfl
  | cons v vs _ => simp [List.filter, is_depth_clear]

theorem filter_eq_nil_of_getElem (p : command → Bool) (l : List command)
    (h : ∀ i, i < l.length → ∃ c, l[i]? = some c ∧ p c = false) : l.filter p = [] := by
  rw [List.filter_eq_nil_iff]
  intro c hc
  obtain ⟨i, hi, e⟩ := List.getElem_of_mem hc
  obtain ⟨c1, h1, h2⟩ := h i hi
  rw [List.getElem?_eq_getElem hi, e] at h1
  cases h1
  simp [h2]

/-- C13. For colour handles `cts[0..n)`, a depth handle `d` and any faces: when
`renderer_set_targets` returns, `n` is at most 8, `num_active_colour_targets` is
`n`, entry `i < n` of `active_colour_target` is `cts[i]` when it is neither 0 nor
`PEN_INVALID_HANDLE` and 0 otherwise, the entries from `n` on are unchanged,
`active_depth_target` is `d` when it is neither 0 nor `PEN_INVALID_HANDLE` and 0
otherwise, and the recorded depth-stencil state and stencil reference are
unchanged. It returns for every `n ≤ 8` when the array holds `n` handles and
every handle that passes the test is a render target with a view for the face. -/
theorem C13_set_targets_context (cts : List Nat) (n d colour_face depth_face : Nat)
    (s : renderer_state) :
    (∀ s1, renderer_set_targets cts n d colour_face depth_face s = .ok s1 →
      n ≤ 8 ∧ s1.ctx.num_active_colour_targets = n ∧
      (∀ i, i < n → ∃ ct, cts[i]? = some ct ∧ s1.ctx.active_colour_target[i]? =
        some (if ct ≠ 0 ∧ ct ≠ PEN_INVALID_HANDLE then ct else 0)) ∧
      (∀ i, n ≤ i → s1.ctx.active_colour_target[i]? = s.ctx.active_colour_target[i]?) ∧
      s1.ctx.active_depth_target = (if d ≠ 0 ∧ d ≠ PEN_INVALID_HANDLE then d else 0) ∧
      s1.ctx.depth_stencil_state = s.ctx.depth_stencil_state ∧
      s1.ctx.stencil_ref = s.ctx.stencil_ref) ∧
    (n ≤ 8 → n ≤ cts.length → s.ctx.active_colour_target.length = 8 →
      (∀ i ct, i < n → cts[i]? = some ct → ct ≠ 0 ∧ ct ≠ PEN_INVALID_HANDLE →
        (∃ v, target_view s.pool ct colour_face = .ok v) ∧
          is_render_target_slot (s.pool.slots ct)) →
      (d ≠ 0 ∧ d ≠ PEN_INVALID_HANDLE → ∃ v, target_view s.pool d depth_face = .ok v) →
      ∃ s1, renderer_set_targets cts n d colour_face depth_face s = .ok s1) := by
  constructor
  · intro s1 h
    obtain ⟨views, dsv, -, -, h8, -, hctx, -, hlt, hge, -, -, -⟩ :=
      set_targets_spec _ _ _ _ _ _ _ h
    refine ⟨h8, ?_, ?_, hge, ?_, ?_, ?_⟩
    · rw [hctx]
    · intro i hi
      obtain ⟨ct, h1, h2, -⟩ := hlt i hi
      exact ⟨ct, h1, h2⟩
    · rw [hctx]
      rfl
    · rw [hctx]
    · rw [hctx]
  · intro h8 hl ha hb hd
    exact set_targets_ok cts n d colour_face depth_face s hl h8 (by rw [ha]; exact h8) hb hd

set_option maxRecDepth 100000 in
/-- Witness of C13: binding the colour targets 5 and 6, a null third handle and
the depth target 7 while two other targets are recorded. -/
theorem C13_set_targets_context_witness :
    ∃ s1, renderer_set_targets [6, 5, 0] 3 7 0 0 demo_bound = .ok s1 ∧
      s1.ctx.num_active_colour_targets = 3 ∧
      s1.ctx.active_colour_target[0]? = some 6 ∧ s1.ctx.active_colour_target[1]? = some 5 ∧
      s1.ctx.active_colour_target[2]? = some 0 ∧ s1.ctx.active_colour_target[3]? = some 0 ∧
      s1.ctx.active_depth_target = 7 := by
  have h := C13_set_targets_context [6, 5, 0] 3 7 0 0 demo_bound
  obtain ⟨s1, hs1⟩ := h.2 (by decide) (by decide) (by decide)
    (by
      intro i ct hi hc hv
      have : ct = 6 ∨ ct = 5 := by
        rcases i with _ | _ | _ | i
        · left; simpa using hc.symm
        · right; simpa using hc.symm
        · have : ct = 0 := by simpa using hc.symm
          exact absurd this hv.1
        · omega
      rcases this with e | e
      · subst e
        exact ⟨⟨9, by decide⟩, _, _, rfl⟩
      · subst e
        exact ⟨⟨4, by decide⟩, _, _, rfl⟩)
    (fun _ => ⟨14, by decide⟩)
  obtain ⟨-, k2, k3, k4, k5, -, -⟩ := h.1 s1 hs1
  refine ⟨s1, hs1, k2, ?_, ?_, ?_, ?_, ?_⟩
  · obtain ⟨ct, e1, e2⟩ := k3 0 (by decide)
    cases e1
    exact e2
  · obtain ⟨ct, e1, e2⟩ := k3 1 (by decide)
    cases e1
    exact e2
  · obtain ⟨ct, e1, e2⟩ := k3 2 (by decide)
    cases e1
    exact e2
  · rw [k4 3 (by decide)]
    decide
  · rw [k5]
    decide

theorem ok_state_eq (r : Except fault renderer_state) (h : is_ok r = true) :
    r = .ok (ok_state r) := by
  cases r with
  | ok a => rfl
  | error e => cases h

theorem not_depth_clear_of_mem_colour (s : renderer_state) (rgba : List Nat) (face k : Nat)
    (cmds : List command) (h : clear_colour_upto s rgba face k = .ok cmds) (c : command)
    (hm : c ∈ cmds) : is_depth_clear c = false := by
  obtain ⟨vs, -, -, hc⟩ := clear_colour_upto_spec s rgba face k cmds h
  rw [hc, List.mem_map] at hm
  obtain ⟨w, -, e⟩ := hm
  subst e
  rfl

theorem not_depth_clear_of_mem_mrt (s : renderer_state) (cs : clear_state_internal)
    (face k : Nat) (cmds : List command) (h : clear_mrt_upto s cs face k = .ok cmds)
    (c : command) (hm : c ∈ cmds) : is_depth_clear c = false := by
  obtain ⟨hl, hv⟩ := clear_mrt_upto_spec s cs face k cmds h
  obtain ⟨i, hi, e⟩ := List.getElem_of_mem hm
  obtain ⟨w, m, -, -, h3⟩ := hv i (by omega)
  rw [List.getElem?_eq_getElem hi, e] at h3
  cases h3
  rfl

/-- The uniform colour part of `renderer_clear`, whatever the flags. -/
theorem not_depth_clear_of_mem_uniform (s : renderer_state) (cs : clear_state_internal)
    (face : Nat) (cmds : List command)
    (h : (if has_bit cs.flags PEN_CLEAR_COLOUR_BUFFER = true ∧ cs.num_colour_targets = 0 then
          clear_colour_upto s cs.rgba face s.ctx.num_active_colour_targets
        else .ok []) = .ok cmds) (c : command) (hm : c ∈ cmds) : is_depth_clear c = false := by
  split at h
  · exact not_depth_clear_of_mem_colour _ _ _ _ _ h c hm
  · cases h
    cases hm

/-- C2. For a clear state whose flags contain `PEN_CLEAR_COLOUR_BUFFER` and whose
`num_colour_targets` is 0, in a context in which every index below
`num_active_colour_targets` records a render target with a view for the face:
when `renderer_clear` returns, the commands it issued are one colour clear per
index `i < num_active_colour_targets`, in order, on the view selected for the
target recorded at `active_colour_target[i]`, each with the colour `rgba` of the
clear state, followed by commands none of which is a colour clear. It returns
whenever the depth target it is to clear has a view for the face. -/
theorem C2_uniform_colour_clear (clear_state_index colour_face depth_face ptr : Nat)
    (cs : clear_state_internal) (s : renderer_state)
    (hslot : clear_state_index < s.pool.capacity ∧
      (s.pool.slots clear_state_index).payload = .clear_state ptr cs)
    (hflag : has_bit cs.flags PEN_CLEAR_COLOUR_BUFFER = true)
    (hnum : cs.num_colour_targets = 0)
    (hbound : ∀ i, i < s.ctx.num_active_colour_targets →
      ∃ v, bound_colour_view s i colour_face = .ok v ∧ v ≠ 0) :
    (∀ s1, renderer_clear clear_state_index colour_face depth_face s = .ok s1 →
      ∃ (vs : List Nat) (rest : List command),
        vs.length = s.ctx.num_active_colour_targets ∧
        (∀ i, i < s.ctx.num_active_colour_targets →
          ∃ v, bound_colour_view s i colour_face = .ok v ∧ vs[i]? = some v) ∧
        s1.dev.cmds = s.dev.cmds ++
          (vs.map (fun v => command.ClearRenderTargetView v cs.rgba) ++ rest) ∧
        rest.filter is_colour_clear = []) ∧
    ((clear_d3d_flags cs.flags ≠ 0 ∧ s.ctx.active_depth_target ≠ 0 →
        ∃ v, target_view s.pool s.ctx.active_depth_target depth_face = .ok v) →
      ∃ s1, renderer_clear clear_state_index colour_face depth_face s = .ok s1) := by
  constructor
  · intro s1 h
    obtain ⟨ptr1, cs1, colour, mrt, depth, -, hp, h1, h2, h3, e⟩ :=
      renderer_clear_spec _ _ _ _ _ h
    rw [hslot.2] at hp
    cases hp
    rw [if_pos ⟨hflag, hnum⟩] at h1
    rw [hnum] at h2
    simp only [clear_mrt_upto] at h2
    cases h2
    obtain ⟨vs, hl, hv, hc⟩ := clear_colour_upto_spec _ _ _ _ _ h1
    have hall : vs.filter (fun v => decide (v ≠ 0)) = vs := by
      rw [List.filter_eq_self]
      intro v hm
      obtain ⟨i, hi, e⟩ := List.getElem_of_mem hm
      obtain ⟨w, w1, w2⟩ := hv i (by omega)
      obtain ⟨w', w3, w4⟩ := hbound i (by omega)
      rw [w1] at w3
      cases w3
      rw [List.getElem?_eq_getElem hi, e] at w2
      cases w2
      simpa using w4
    rw [hall] at hc
    refine ⟨vs, depth, hl, hv, ?_, clear_depth_no_colour _ _ _ _ h3⟩
    rw [e, hc]
    simp
  · intro hd
    obtain ⟨colour, h1⟩ := clear_colour_upto_ok s cs.rgba colour_face
      s.ctx.num_active_colour_targets (fun i hi => (hbound i hi).imp fun v hv => hv.1)
      s.ctx.num_active_colour_targets (Nat.le_refl _)
    obtain ⟨depth, h3⟩ := clear_depth_ok s cs depth_face hd
    exact renderer_clear_ok clear_state_index colour_face depth_face ptr cs s hslot.1 hslot.2
      colour [] depth (by rw [if_pos ⟨hflag, hnum⟩]; exact h1) (by rw [hnum]; rfl) h3

set_option maxRecDepth 100000 in
/-- Witness of C2: the clear state of `basic_texture.cpp` with the colour targets
5 and 6 and the depth target 7 bound. -/
theorem C2_uniform_colour_clear_witness :
    ∃ s1 rest, renderer_clear 8 0 0 demo_bound = .ok s1 ∧
      s1.dev.cmds = demo_bound.dev.cmds ++
        ([.ClearRenderTargetView 4 [0, 0, 0x3f000000, 0x3f800000],
          .ClearRenderTargetView 9 [0, 0, 0x3f000000, 0x3f800000]] ++ rest) ∧
      rest.filter is_colour_clear = [] := by
  have h := C2_uniform_colour_clear 8 0 0 16
    { rgba := [0, 0, 0x3f000000, 0x3f800000], depth := 0x3f800000, stencil := 0, flags := 3 }
    demo_bound ⟨by decide, by decide⟩ (by decide) (by decide)
    (by
      intro i hi
      have hi2 : i < 2 := hi
      rcases i with _ | _ | i
      · exact ⟨4, by decide, by decide⟩
      · exact ⟨9, by decide, by decide⟩
      · omega)
  obtain ⟨s1, hs1⟩ := h.2 (fun _ => ⟨14, by decide⟩)
  obtain ⟨vs, rest, hl, hv, hc, hr⟩ := h.1 s1 hs1
  have hl2 : vs.length = 2 := hl
  obtain ⟨v0, a0, b0⟩ := hv 0 (by decide)
  obtain ⟨v1, a1, b1⟩ := hv 1 (by decide)
  have e0 : bound_colour_view demo_bound 0 0 = .ok 4 := by decide
  have e1 : bound_colour_view demo_bound 1 0 = .ok 9 := by decide
  rw [e0] at a0
  rw [e1] at a1
  cases a0
  cases a1
  have : vs = [4, 9] := by
    match vs, hl2, b0, b1 with
    | [x, y], _, b0, b1 =>
      simp only [List.getElem?_cons_zero, List.getElem?_cons_succ, Option.some.injEq] at b0 b1
      rw [b0, b1]
  subst this
  exact ⟨s1, rest, hs1, hc, hr⟩

/-- C3. For a clear state with `num_colour_targets = k ≥ 1`, whatever its flags
and however many colour targets the context records as bound: when
`renderer_clear` returns, the commands it issued are `k` colour clears, the
`i`-th on the view selected for the target recorded at `active_colour_target[i]`
with the colour `mrt[i].f` of the clear state, followed by commands none of which
is a colour clear; so the targets at an index from `k` on get no colour clear and
`rgba` is not used. It returns whenever the first `k` entries are render targets
with a view for the face, `mrt` holds `k` entries and the depth target it is to
clear has a view for the face. -/
theorem C3_mrt_colour_clear (clear_state_index colour_face depth_face ptr : Nat)
    (cs : clear_state_internal) (s : renderer_state)
    (hslot : clear_state_index < s.pool.capacity ∧
      (s.pool.slots clear_state_index).payload = .clear_state ptr cs)
    (hnum : 1 ≤ cs.num_colour_targets) :
    (∀ s1, renderer_clear clear_state_index colour_face depth_face s = .ok s1 →
      ∃ (colour rest : List command),
        colour.length = cs.num_colour_targets ∧
        (∀ i, i < cs.num_colour_targets →
          ∃ v m, bound_colour_view s i colour_face = .ok v ∧ cs.mrt[i]? = some m ∧
            colour[i]? = some (command.ClearRenderTargetView v m.f)) ∧
        s1.dev.cmds = s.dev.cmds ++ (colour ++ rest) ∧
        rest.filter is_colour_clear = []) ∧
    ((∀ i, i < cs.num_colour_targets → ∃ v, bound_colour_view s i colour_face = .ok v) →
      cs.num_colour_targets ≤ cs.mrt.length →
      (clear_d3d_flags cs.flags ≠ 0 ∧ s.ctx.active_depth_target ≠ 0 →
        ∃ v, target_view s.pool s.ctx.active_depth_target depth_face = .ok v) →
      ∃ s1, renderer_clear clear_state_index colour_face depth_face s = .ok s1) := by
  have hne : ¬ (has_bit cs.flags PEN_CLEAR_COLOUR_BUFFER = true ∧ cs.num_colour_targets = 0) :=
    fun h => by omega
  constructor
  · intro s1 h
    obtain ⟨ptr1, cs1, colour, mrt, depth, -, hp, h1, h2, h3, e⟩ :=
      renderer_clear_spec _ _ _ _ _ h
    rw [hslot.2] at hp
    cases hp
    rw [if_neg hne] at h1
    cases h1
    obtain ⟨hl, hv⟩ := clear_mrt_upto_spec _ _ _ _ _ h2
    refine ⟨mrt, depth, hl, hv, ?_, clear_depth_no_colour _ _ _ _ h3⟩
    rw [e]
    simp
  · intro hb hm hd
    obtain ⟨mrt, h2⟩ := clear_mrt_upto_ok s cs colour_face cs.num_colour_targets hb hm
      cs.num_colour_targets (Nat.le_refl _)
    obtain ⟨depth, h3⟩ := clear_depth_ok s cs depth_face hd
    exact renderer_clear_ok clear_state_index colour_face depth_face ptr cs s hslot.1 hslot.2
      [] mrt depth (by rw [if_neg hne]) h2 h3

set_option maxRecDepth 100000 in
/-- Witness of C3: a clear state with two explicit colours and no flag, with the
colour targets 5 and 6 bound. -/
theorem C3_mrt_colour_clear_witness :
    ∃ s1 colour rest, renderer_clear 9 0 0 demo_bound = .ok s1 ∧
      s1.dev.cmds = demo_bound.dev.cmds ++ (colour ++ rest) ∧ colour.length = 2 ∧
      colour[0]? = some (.ClearRenderTargetView 4 [1, 2, 3, 4]) ∧
      colour[1]? = some (.ClearRenderTargetView 9 [5, 6, 7, 8]) ∧
      rest.filter is_colour_clear = [] := by
  have h := C3_mrt_colour_clear 9 0 0 17
    { flags := 0, num_colour_targets := 2, mrt := [{ f := [1, 2, 3, 4] }, { f := [5, 6, 7, 8] }] }
    demo_bound ⟨by decide, by decide⟩ (by decide)
  obtain ⟨s1, hs1⟩ := h.2
    (by
      intro i hi
      have hi2 : i < 2 := hi
      rcases i with _ | _ | i
      · exact ⟨4, by decide⟩
      · exact ⟨9, by decide⟩
      · omega)
    (by decide) (fun hc => absurd rfl hc.1)
  obtain ⟨colour, rest, hl, hv, hc, hr⟩ := h.1 s1 hs1
  obtain ⟨v0, m0, a0, c0, b0⟩ := hv 0 (by decide)
  obtain ⟨v1, m1, a1, c1, b1⟩ := hv 1 (by decide)
  have e0 : bound_colour_view demo_bound 0 0 = .ok 4 := by decide
  have e1 : bound_colour_view demo_bound 1 0 = .ok 9 := by decide
  rw [e0] at a0
  rw [e1] at a1
  cases a0
  cases a1
  cases c0
  cases c1
  exact ⟨s1, colour, rest, hs1, hc, hl, b0, b1, hr⟩

/-! ## C15: the depth-stencil clear of `renderer_clear` -/

/-- The depth-stencil clears among the commands `renderer_clear` issues are the
commands of its depth part. -/
theorem renderer_clear_depth_part (csi cf df : Nat) (s s1 : renderer_state)
    (h : renderer_clear csi cf df s = .ok s1) :
    ∃ ptr cs new depth, (s.pool.slots csi).payload = .clear_state ptr cs ∧
      s1.dev.cmds = s.dev.cmds ++ new ∧ new.filter is_depth_clear = depth ∧
      clear_depth s cs df = .ok depth := by
  obtain ⟨ptr, cs, colour, mrt, depth, -, hp, h1, h2, h3, e⟩ := renderer_clear_spec _ _ _ _ _ h
  refine ⟨ptr, cs, colour ++ mrt ++ depth, depth, hp, by rw [e], ?_, h3⟩
  have c1 : colour.filter is_depth_clear = [] := by
    rw [List.filter_eq_nil_iff]
    intro c hc
    simp [not_depth_clear_of_mem_uniform _ _ _ _ h1 c hc]
  have c2 : mrt.filter is_depth_clear = [] := by
    rw [List.filter_eq_nil_iff]
    intro c hc
    simp [not_depth_clear_of_mem_mrt _ _ _ _ _ h2 c hc]
  have c3 : depth.filter is_depth_clear = depth := by
    obtain ⟨k1, k2⟩ := clear_depth_spec _ _ _ _ h3
    by_cases hc : clear_d3d_flags cs.flags ≠ 0 ∧ s.ctx.active_depth_target ≠ 0
    · obtain ⟨dsv, -, e2⟩ := k1 hc
      rw [e2]
      rfl
    · rw [k2 hc]
      rfl
  rw [List.filter_append, List.filter_append, c1, c2, c3]
  rfl

theorem clear_d3d_flags_congr (f1 f2 : Nat)
    (hd : has_bit f1 PEN_CLEAR_DEPTH_BUFFER = has_bit f2 PEN_CLEAR_DEPTH_BUFFER)
    (hs : has_bit f1 PEN_CLEAR_STENCIL_BUFFER = has_bit f2 PEN_CLEAR_STENCIL_BUFFER) :
    clear_d3d_flags f1 = clear_d3d_flags f2 := by
  unfold clear_d3d_flags
  rw [hd, hs]

/-- C15. When `renderer_clear` returns, the depth-stencil clears among the
commands it issued are: exactly one, if the flags of the clear state contain
`PEN_CLEAR_DEPTH_BUFFER` or `PEN_CLEAR_STENCIL_BUFFER` and `active_depth_target`
is not 0, on the view selected for that target, with a flag word whose depth bit
is set iff `PEN_CLEAR_DEPTH_BUFFER` is in the flags and whose stencil bit is set
iff `PEN_CLEAR_STENCIL_BUFFER` is, and with the depth and stencil values of the
clear state; none otherwise. A clear with any other clear state that agrees in
these two flag bits and the two values issues the same depth-stencil clears,
whatever its `PEN_CLEAR_COLOUR_BUFFER` bit and `num_colour_targets` are. -/
theorem C15_depth_clear (clear_state_index colour_face depth_face : Nat)
    (s s1 : renderer_state)
    (h : renderer_clear clear_state_index colour_face depth_face s = .ok s1) :
    ∃ ptr cs new, (s.pool.slots clear_state_index).payload = .clear_state ptr cs ∧
      s1.dev.cmds = s.dev.cmds ++ new ∧
      ((has_bit cs.flags PEN_CLEAR_DEPTH_BUFFER = true ∨
          has_bit cs.flags PEN_CLEAR_STENCIL_BUFFER = true) ∧ s.ctx.active_depth_target ≠ 0 →
        ∃ dsv, target_view s.pool s.ctx.active_depth_target depth_face = .ok dsv ∧
          new.filter is_depth_clear =
            [.ClearDepthStencilView dsv (clear_d3d_flags cs.flags) cs.depth cs.stencil] ∧
          has_bit (clear_d3d_flags cs.flags) D3D11_CLEAR_DEPTH =
            has_bit cs.flags PEN_CLEAR_DEPTH_BUFFER ∧
          has_bit (clear_d3d_flags cs.flags) D3D11_CLEAR_STENCIL =
            has_bit cs.flags PEN_CLEAR_STENCIL_BUFFER) ∧
      (¬ ((has_bit cs.flags PEN_CLEAR_DEPTH_BUFFER = true ∨
          has_bit cs.flags PEN_CLEAR_STENCIL_BUFFER = true) ∧ s.ctx.active_depth_target ≠ 0) →
        new.filter is_depth_clear = []) ∧
      (∀ index2 colour_face2 s2 ptr2 cs2,
        (s.pool.slots index2).payload = .clear_state ptr2 cs2 →
        renderer_clear index2 colour_face2 depth_face s = .ok s2 →
        has_bit cs2.flags PEN_CLEAR_DEPTH_BUFFER = has_bit cs.flags PEN_CLEAR_DEPTH_BUFFER →
        has_bit cs2.flags PEN_CLEAR_STENCIL_BUFFER = has_bit cs.flags PEN_CLEAR_STENCIL_BUFFER →
        cs2.depth = cs.depth → cs2.stencil = cs.stencil →
        ∃ new2, s2.dev.cmds = s.dev.cmds ++ new2 ∧
          new2.filter is_depth_clear = new.filter is_depth_clear) := by
  obtain ⟨ptr, cs, new, depth, hp, hc, hf, hd⟩ := renderer_clear_depth_part _ _ _ _ _ h
  obtain ⟨k1, k2⟩ := clear_depth_spec _ _ _ _ hd
  refine ⟨ptr, cs, new, hp, hc, ?_, ?_, ?_⟩
  · rintro ⟨hb, ha⟩
    obtain ⟨dsv, e1, e2⟩ := k1 ⟨(clear_d3d_flags_ne_zero _).mpr hb, ha⟩
    exact ⟨dsv, e1, by rw [hf, e2], clear_d3d_flags_depth _, clear_d3d_flags_stencil _⟩
  · intro hn
    rw [hf]
    apply k2
    rintro ⟨hb, ha⟩
    exact hn ⟨(clear_d3d_flags_ne_zero _).mp hb, ha⟩
  · intro index2 colour_face2 s2 ptr2 cs2 hp2 h2 e1 e2 e3 e4
    obtain ⟨ptr3, cs3, new2, depth2, hp3, hc2, hf2, hd2⟩ := renderer_clear_depth_part _ _ _ _ _ h2
    rw [hp2] at hp3
    cases hp3
    refine ⟨new2, hc2, ?_⟩
    rw [hf2, hf]
    have : clear_depth s cs2 depth_face = clear_depth s cs depth_face := by
      unfold clear_depth
      rw [clear_d3d_flags_congr _ _ e1 e2, e3, e4]
    rw [this, hd] at hd2
    cases hd2
    rfl

set_option maxRecDepth 100000 in
/-- Witness of C15: the clear state of `basic_texture.cpp`, colour and depth,
with the depth target 7 bound. -/
theorem C15_depth_clear_witness :
    ∃ new, (ok_state (renderer_clear 8 0 0 demo_bound)).dev.cmds = demo_bound.dev.cmds ++ new ∧
      new.filter is_depth_clear =
        [.ClearDepthStencilView 14 D3D11_CLEAR_DEPTH 0x3f800000 0] := by
  obtain ⟨ptr, cs, new, hp, hc, h1, -, -⟩ := C15_depth_clear 8 0 0 demo_bound
    (ok_state (renderer_clear 8 0 0 demo_bound)) (ok_state_eq _ (by decide))
  have e : (demo_bound.pool.slots 8).payload = .clear_state 16
      { rgba := [0, 0, 0x3f000000, 0x3f800000], depth := 0x3f800000, stencil := 0, flags := 3 } := by
    decide
  rw [e] at hp
  cases hp
  obtain ⟨dsv, e1, e2, -, -⟩ := h1 ⟨Or.inl (by decide), by decide⟩
  have e3 : target_view demo_bound.pool demo_bound.ctx.active_depth_target 0 = .ok 14 := by
    decide
  rw [e3] at e1
  cases e1
  exact ⟨new, hc, e2⟩

/-- What `renderer_create_render_target` leaves in the struct it fills. -/
theorem build_render_target_fields (env : shared_env) (tcp : texture_creation_params)
    (d d1 : device) (rt : render_target_internal)
    (h : build_render_target env tcp d = .ok (d1, rt)) :
    rt.invalidate = 0 ∧ rt.has_mips = decide (effective_num_mips env tcp > 1) ∧
    rt.format = tcp.format ∧ rt.tex_resolve = {} ∧
    (tcp.sample_count > 1 → rt.tex = {} ∧ rt.rt = none ∧
      ∃ copy, rt.tcp = some (copy, tcp) ∧ d1.is_live copy = true) ∧
    (¬ tcp.sample_count > 1 → rt.tcp = none ∧ rt.tex_msaa = {} ∧ rt.rt_msaa = none) := by
  unfold build_render_target at h
  simp only at h
  split at h
  · cases h
  · rename_i d2 rt2 tcp1 hrb
    have hrt2 : rt2.invalidate = 0 ∧ rt2.has_mips = decide (effective_num_mips env tcp > 1) ∧
        rt2.format = tcp.format ∧ rt2.tex_resolve = {} ∧ rt2.tex = {} ∧ rt2.rt = none ∧
        rt2.tcp = none ∧ rt2.tex_msaa = {} ∧ rt2.rt_msaa = none := by
      split at hrb
      · split at hrb
        · cases hrb
        · cases hrb
          exact ⟨rfl, rfl, rfl, rfl, rfl, rfl, rfl, rfl, rfl⟩
      · cases hrb
        exact ⟨rfl, rfl, rfl, rfl, rfl, rfl, rfl, rfl, rfl⟩
    obtain ⟨k1, k2, k3, k4, k5, k6, k7, k8, k9⟩ := hrt2
    by_cases hms : tcp.sample_count > 1
    · simp only [hms, if_true] at h
      split at h
      · cases h
      · rename_i d3 tex_msaa views hm
        cases h
        refine ⟨k1, k2, k3, k4, fun _ => ⟨k5, k6, d3.next_id, rfl, ?_⟩, fun hn => absurd hms hn⟩
        simp [device.acquire, device.is_live]
    · simp only [hms, if_false] at h
      split at h
      · cases h
      · rename_i d3 tex views hm
        cases h
        exact ⟨k1, k2, k3, k4, fun hn => absurd hn hms, fun _ => ⟨k7, k8, k9⟩⟩

theorem touch_colour_mips (r : resource_allocation) (h : slot_has_mips r) :
    slot_has_mips (touch_colour r) ∧ slot_invalidate (touch_colour r) = some 1 := by
  obtain ⟨t, p⟩ := r
  obtain ⟨ht, ptr, rt, hp, hm⟩ := h
  simp only at ht hp
  subst hp
  simp only [touch_colour, slot_invalidate]
  rw [if_pos hm]
  exact ⟨⟨ht, ptr, _, rfl, hm⟩, rfl⟩

theorem touch_depth_mips (r : resource_allocation) (h : slot_has_mips r) :
    slot_has_mips (touch_depth r) ∧ slot_invalidate (touch_depth r) = slot_invalidate r := by
  obtain ⟨t, p⟩ := r
  obtain ⟨ht, ptr, rt, hp, hm⟩ := h
  simp only at ht hp
  subst hp
  simp only [touch_depth, slot_invalidate]
  by_cases hd : rt.depth_has_mips = true
  · rw [if_pos hd]
    exact ⟨⟨ht, ptr, _, rfl, hm⟩, rfl⟩
  · rw [if_neg hd]
    exact ⟨⟨ht, ptr, _, rfl, hm⟩, rfl⟩

/-- The slot `renderer_create_render_target` writes. -/
theorem create_render_target_slot (env : shared_env) (tcp : texture_creation_params)
    (h : Nat) (track : Bool) (s s1 : renderer_state)
    (hv : tcp.collection_type ≠ .TEXTURE_COLLECTION_VOLUME)
    (hc : renderer_create_render_target env tcp h track s = .ok s1) :
    ∃ rt, build_render_target env tcp (s.dev.acquire .heap_struct).1 = .ok (s1.dev, rt) ∧
      s1.pool.capacity = (s.pool.grow h).capacity ∧ h < s1.pool.capacity ∧
      s1.pool.slots = array_set s.pool.slots h
        { type := RES_RENDER_TARGET, payload := .render_target s.dev.next_id rt } ∧
      s1.ctx = s.ctx := by
  unfold renderer_create_render_target at hc
  simp only [hv, if_false] at hc
  have hg : h < (s.pool.grow h).capacity := by
    unfold res_pool.grow
    split
    · assumption
    · exact Nat.lt_succ_self h
  have hs : (s.pool.grow h).slots = s.pool.slots := by
    unfold res_pool.grow
    split <;> rfl
  cases hb : build_render_target env tcp (s.dev.acquire .heap_struct).1 with
  | error e =>
    simp only [device.acquire] at hb
    simp [device.acquire, hb] at hc
  | ok r =>
    obtain ⟨d2, rt⟩ := r
    simp only [device.acquire] at hb
    simp only [device.acquire, hb, res_pool.set, hg, if_true] at hc
    cases hc
    exact ⟨rt, rfl, rfl, hg, by rw [hs], rfl⟩

/-- The block `if (texture_index > 0)` of `renderer_set_texture` on a render
target with mips: one `GenerateMips` and the reset of `invalidate` when it is
not 0, nothing otherwise. -/
theorem set_texture_resource_mips (h : Nat) (bf : texture_bind_flags) (s : renderer_state)
    (hm : mip_target s h) :
    ∃ s1 srv uav f, set_texture_resource h bf s = .ok (s1, srv, uav) ∧
      invalidate_flag s h = some f ∧ mip_target s1 h ∧ invalidate_flag s1 h = some 0 ∧
      s1.dev.cmds = s.dev.cmds ++ (if f ≠ 0 then [.GenerateMips srv] else []) ∧
      s1.dev.live = s.dev.live ∧ s1.dev.next_id = s.dev.next_id := by
  obtain ⟨hc, ht, ptr, rt, hp, hmips⟩ := hm
  unfold set_texture_resource res_pool.get
  simp only [hc, if_true, hp, texture_resource_of, ht]
  by_cases hi : rt.invalidate = 0
  · have : (rt.has_mips && rt.invalidate != 0) = false := by simp [hi]
    simp only [this]
    refine ⟨_, _, _, 0, rfl, ?_, ⟨hc, ht, ptr, rt, hp, hmips⟩, ?_, ?_, rfl, rfl⟩
    · simp only [invalidate_flag, slot_invalidate, hp, hi]
    · simp only [invalidate_flag, slot_invalidate, hp, hi]
    · simp
  · have : (rt.has_mips && rt.invalidate != 0) = true := by simp [hi, hmips]
    simp only [this, if_true, res_pool.set, hc]
    refine ⟨_, _, _, rt.invalidate, rfl, ?_, ⟨hc, ?_⟩, ?_, ?_, rfl, rfl⟩
    · simp only [invalidate_flag, slot_invalidate, hp]
    · simp only [array_set_same]
      exact ⟨rfl, ptr, _, rfl, hmips⟩
    · simp only [invalidate_flag, slot_invalidate, array_set_same]
    · simp only [device.issue, hi, ne_eq, not_false_eq_true, if_true]

/-- `renderer_set_texture` on a render target with mips returns when the sampler
index lies in the resource table, and issues `GenerateMips` once if the dirty
flag is set and not at all otherwise; the flag is 0 afterwards. -/
theorem set_texture_mips (h sampler_index unit : Nat) (bf : texture_bind_flags)
    (s : renderer_state) (h0 : h ≠ 0) (hm : mip_target s h) :
    (sampler_index < s.pool.capacity →
      ∃ s1, renderer_set_texture h sampler_index unit bf s = .ok s1) ∧
    (∀ s1, renderer_set_texture h sampler_index unit bf s = .ok s1 →
      ∃ new f, s1.dev.cmds = s.dev.cmds ++ new ∧ invalidate_flag s h = some f ∧
        new.countP is_generate_mips = (if f ≠ 0 then 1 else 0) ∧
        mip_target s1 h ∧ invalidate_flag s1 h = some 0 ∧ s1.dev.live = s.dev.live ∧
        s1.dev.next_id = s.dev.next_id) := by
  obtain ⟨s2, srv, uav, f, e, hf, hm2, hf2, hc, hl, hn⟩ := set_texture_resource_mips h bf s hm
  have hpos : h > 0 := Nat.pos_of_ne_zero h0
  constructor
  · intro hs
    have hs2 : sampler_index < s.pool.capacity := hs
    unfold renderer_set_texture
    simp only [hpos, if_true, e, res_pool.get, hs2]
    by_cases h1 : (bf.ps || bf.vs) = true
    · simp only [h1, if_true]
      by_cases h2 : sampler_index > 0
      · simp only [h2, if_true]
        exact ⟨_, rfl⟩
      · simp only [h2, if_false]
        exact ⟨_, rfl⟩
    · simp only [h1]
      exact ⟨_, rfl⟩
  · intro s1 hs1
    unfold renderer_set_texture at hs1
    simp only [hpos, if_true, e] at hs1
    split at hs1
    · cases hs1
    · rename_i smp hsmp
      cases hs1
      refine ⟨(if f ≠ 0 then [command.GenerateMips srv] else []) ++
        ((if bf.ps = true then [command.PSSetSamplers unit smp,
            command.PSSetShaderResources unit srv] else []) ++
         (if bf.vs = true then [command.VSSetSamplers unit smp,
            command.VSSetShaderResources unit srv] else []) ++
         (if bf.cs = true then
            command.CSSetUnorderedAccessViews unit uav ::
              (if uav = 0 then [command.CSSetShaderResources unit srv] else [])
          else [])), f, ?_, hf, ?_, hm2, hf2, hl, hn⟩
      · simp only [hc, List.append_assoc]
      · rw [List.countP_append]
        have : ∀ (l : List command), (∀ c ∈ l, is_generate_mips c = false) →
            l.countP is_generate_mips = 0 := by
          intro l hl
          rw [List.countP_eq_zero]
          intro c hc
          simp [hl c hc]
        rw [this (_ ++ _ ++ _)]
        · by_cases hz : f = 0
          · simp [hz]
          · simp [hz, is_generate_mips]
        · intro c hc
          simp only [List.mem_append] at hc
          rcases hc with (hc | hc) | hc
          · split at hc
            · simp only [List.mem_cons, List.mem_singleton, List.not_mem_nil, or_false] at hc
              rcases hc with e | e <;> subst e <;> rfl
            · cases hc
          · split at hc
            · simp only [List.mem_cons, List.mem_singleton, List.not_mem_nil, or_false] at hc
              rcases hc with e | e <;> subst e <;> rfl
            · cases hc
          · split at hc
            · simp only [List.mem_cons] at hc
              rcases hc with e | hc
              · subst e; rfl
              · split at hc
                · simp only [List.mem_singleton] at hc
                  subst hc; rfl
                · cases hc
            · cases hc

/-- A render target with mips that `renderer_set_targets` binds as a colour
target has its dirty flag set; one it does not bind keeps its flag. -/
theorem set_targets_mips (cts : List Nat) (n d cf df : Nat) (s s1 : renderer_state)
    (h : Nat) (hs : renderer_set_targets cts n d cf df s = .ok s1) (hm : mip_target s h) :
    mip_target s1 h ∧
    (named_upto cts n h → invalidate_flag s1 h = some 1) ∧
    (¬ named_upto cts n h → invalidate_flag s1 h = invalidate_flag s h) := by
  obtain ⟨views, dsv, -, -, -, -, -, -, -, -, -, hcap, hslots⟩ := set_targets_spec _ _ _ _ _ _ _ hs
  obtain ⟨r, h1, h2, h3⟩ := hslots h
  obtain ⟨hc, hmips⟩ := hm
  have hr : slot_has_mips r ∧ (named_upto cts n h → slot_invalidate r = some 1) ∧
      (¬ named_upto cts n h → slot_invalidate r = slot_invalidate (s.pool.slots h)) := by
    by_cases hn : named_upto cts n h
    · rw [h1 hn]
      exact ⟨(touch_colour_mips _ hmips).1, fun _ => (touch_colour_mips _ hmips).2,
        fun hx => absurd hn hx⟩
    · rw [h2 hn]
      exact ⟨hmips, fun hx => absurd hx hn, fun _ => rfl⟩
  unfold mip_target invalidate_flag
  rw [h3, hcap]
  split
  · exact ⟨⟨hc, (touch_depth_mips _ hr.1).1⟩,
      fun hn => by rw [(touch_depth_mips _ hr.1).2]; exact hr.2.1 hn,
      fun hn => by rw [(touch_depth_mips _ hr.1).2]; exact hr.2.2 hn⟩
  · exact ⟨⟨hc, hr.1⟩, hr.2.1, hr.2.2⟩

/-- A render target created with an effective mip count above 1 is a render
target with mips whose dirty flag is 0. -/
theorem create_render_target_mips (env : shared_env) (tcp : texture_creation_params)
    (h : Nat) (track : Bool) (s s1 : renderer_state)
    (hv : tcp.collection_type ≠ .TEXTURE_COLLECTION_VOLUME)
    (hmips : effective_num_mips env tcp > 1)
    (hc : renderer_create_render_target env tcp h track s = .ok s1) :
    mip_target s1 h ∧ invalidate_flag s1 h = some 0 := by
  obtain ⟨rt, hb, -, hcap, hslots, -⟩ := create_render_target_slot env tcp h track s s1 hv hc
  obtain ⟨k1, k2, -⟩ := build_render_target_fields _ _ _ _ _ hb
  unfold mip_target invalidate_flag
  rw [hslots, array_set_same]
  refine ⟨⟨hcap, rfl, _, rt, rfl, ?_⟩, ?_⟩
  · rw [k2]
    exact decide_eq_true hmips
  · simp only [slot_invalidate, k1]

/-! ## C1: the dirty flag of a render target with mips -/

/-- C1. For a render target created by `renderer_create_render_target` (of a
collection type other than volume) with an effective mip count above 1, at a
handle that is neither 0 nor `PEN_INVALID_HANDLE`: right after the creation its
member `invalidate` is 0; after a `renderer_set_targets` that names it as a
colour target it is 1; the next `renderer_set_texture` on it issues exactly one
`GenerateMips` and leaves it 0; and a second `renderer_set_texture` right after
issues no `GenerateMips` and leaves it 0. -/
theorem C1_mip_dirty_flag (env : shared_env) (tcp : texture_creation_params) (h : Nat)
    (track : Bool) (cts : List Nat) (n d colour_face depth_face : Nat)
    (sampler1 unit1 sampler2 unit2 : Nat) (bf1 bf2 : texture_bind_flags)
    (s s1 s2 s3 s4 : renderer_state)
    (hkind : tcp.collection_type ≠ .TEXTURE_COLLECTION_VOLUME)
    (hmips : effective_num_mips env tcp > 1)
    (hh : h ≠ 0 ∧ h ≠ PEN_INVALID_HANDLE)
    (hnamed : ∃ i, i < n ∧ cts[i]? = some h)
    (h1 : renderer_create_render_target env tcp h track s = .ok s1)
    (h2 : renderer_set_targets cts n d colour_face depth_face s1 = .ok s2)
    (h3 : renderer_set_texture h sampler1 unit1 bf1 s2 = .ok s3)
    (h4 : renderer_set_texture h sampler2 unit2 bf2 s3 = .ok s4) :
    invalidate_flag s1 h = some 0 ∧
    invalidate_flag s2 h = some 1 ∧
    (∃ new, s3.dev.cmds = s2.dev.cmds ++ new ∧ new.countP is_generate_mips = 1) ∧
    invalidate_flag s3 h = some 0 ∧
    (∃ new, s4.dev.cmds = s3.dev.cmds ++ new ∧ new.countP is_generate_mips = 0) ∧
    invalidate_flag s4 h = some 0 := by
  obtain ⟨m1, f1⟩ := create_render_target_mips env tcp h track s s1 hkind hmips h1
  obtain ⟨i, hi, hc⟩ := hnamed
  obtain ⟨m2, f2, -⟩ := set_targets_mips cts n d colour_face depth_face s1 s2 h h2 m1
  have f2 := f2 ⟨i, hi, hc, hh⟩
  obtain ⟨new3, g3, c3, e3, k3, m3, f3, -, -⟩ :=
    (set_texture_mips h sampler1 unit1 bf1 s2 hh.1 m2).2 s3 h3
  rw [f2] at e3
  cases e3
  obtain ⟨new4, g4, c4, e4, k4, m4, f4, -, -⟩ :=
    (set_texture_mips h sampler2 unit2 bf2 s3 hh.1 m3).2 s4 h4
  rw [f3] at e4
  cases e4
  exact ⟨f1, f2, ⟨new3, c3, k3⟩, f3, ⟨new4, c4, k4⟩, f4⟩

set_option maxRecDepth 100000 in
/-- Witness of C1: a 64 x 64 colour target with 4 mips created in slot 5, bound
as the only colour target, then bound twice as a pixel shader texture. -/
theorem C1_mip_dirty_flag_witness :
    ∃ s1 s2 s3 s4,
      renderer_create_render_target demo_env demo_colour_tcp 5 false renderer_init = .ok s1 ∧
      renderer_set_targets [5] 1 0 0 0 s1 = .ok s2 ∧
      renderer_set_texture 5 0 0 { ps := true } s2 = .ok s3 ∧
      renderer_set_texture 5 0 0 { ps := true } s3 = .ok s4 ∧
      invalidate_flag s1 5 = some 0 ∧ invalidate_flag s2 5 = some 1 ∧
      (∃ new, s3.dev.cmds = s2.dev.cmds ++ new ∧ new.countP is_generate_mips = 1) ∧
      invalidate_flag s3 5 = some 0 ∧
      (∃ new, s4.dev.cmds = s3.dev.cmds ++ new ∧ new.countP is_generate_mips = 0) ∧
      invalidate_flag s4 5 = some 0 := by
  have e1 := ok_state_eq
    (renderer_create_render_target demo_env demo_colour_tcp 5 false renderer_init) (by decide)
  have e2 := ok_state_eq (renderer_set_targets [5] 1 0 0 0 (ok_state
    (renderer_create_render_target demo_env demo_colour_tcp 5 false renderer_init))) (by decide)
  have e3 := ok_state_eq (renderer_set_texture 5 0 0 { ps := true } (ok_state
    (renderer_set_targets [5] 1 0 0 0 (ok_state
      (renderer_create_render_target demo_env demo_colour_tcp 5 false renderer_init)))))
    (by decide)
  have e4 := ok_state_eq (renderer_set_texture 5 0 0 { ps := true } (ok_state
    (renderer_set_texture 5 0 0 { ps := true } (ok_state
      (renderer_set_targets [5] 1 0 0 0 (ok_state
        (renderer_create_render_target demo_env demo_colour_tcp 5 false renderer_init)))))))
    (by decide)
  exact ⟨_, _, _, _, e1, e2, e3, e4,
    C1_mip_dirty_flag demo_env demo_colour_tcp 5 false [5] 1 0 0 0 0 0 0 0 { ps := true }
      { ps := true } renderer_init _ _ _ _ (by decide) (by decide) (by decide)
      ⟨0, by decide, rfl⟩ e1 e2 e3 e4⟩

theorem create_slice_views_spec (depth : Bool) (texture format n : Nat) :
    ∀ (k : Nat) (d : device) (views : List (Option Nat)), k ≤ n → views.length = n →
      ∃ d1 views1, create_slice_views depth texture format n k d views = .ok (d1, views1) ∧
        d1.next_id = d.next_id + k ∧ d1.cmds = d.cmds ∧
        d1.live = d.live ++ (List.range k).map (fun j =>
          (d.next_id + j, write_view_object depth texture format true (n - k + j) 1 0)) ∧
        views1.length = n ∧
        (∀ a, n - k ≤ a → a < n → views1[a]? = some (some (d.next_id + (a - (n - k))))) ∧
        (∀ a, a < n - k → views1[a]? = views[a]?) := by
  intro k
  induction k with
  | zero =>
    intro d views _ hl
    refine ⟨d, views, rfl, rfl, rfl, by simp, hl, ?_, fun a _ => rfl⟩
    intro a h1 h2
    omega
  | succ k ih =>
    intro d views hk hl
    have ha : n - (k + 1) < views.length := by omega
    obtain ⟨d1, views1, e, h1, h2, h3, h4, h5, h6⟩ := ih
      (d.acquire (write_view_object depth texture format true (n - (k + 1)) 1 0)).1
      (views.set (n - (k + 1)) (some d.next_id)) (by omega) (by rw [List.length_set]; exact hl)
    refine ⟨d1, views1, ?_, ?_, ?_, ?_, h4, ?_, ?_⟩
    · simp only [create_slice_views, ha, if_true]
      simp only [write_view_object, device.acquire] at e
      simp only [device.acquire]
      exact e
    · rw [h1]
      simp only [device.acquire]
      omega
    · rw [h2]
      rfl
    · rw [h3]
      simp only [device.acquire, List.append_assoc, List.singleton_append]
      congr 1
      rw [List.range_succ_eq_map, List.map_cons, List.map_map]
      congr 1
      apply List.map_congr_left
      intro j _
      have e1 : d.next_id + 1 + j = d.next_id + (j + 1) := by omega
      have e2 : n - k + j = n - (k + 1) + (j + 1) := by omega
      simp only [Function.comp, Nat.succ_eq_add_one]
      rw [e1, e2]
    · intro a ha1 ha2
      by_cases hx : a = n - (k + 1)
      · subst hx
        rw [h6 _ (by omega), List.getElem?_set_self ha]
        simp
      · rw [h5 a (by omega) ha2]
        simp only [device.acquire]
        congr 2
        omega
    · intro a ha1
      rw [h6 a (by omega), List.getElem?_set_ne (by omega)]

/-- What the creation of the write views acquires and stores. -/
theorem create_write_views_spec (depth : Bool) (texture format dim n : Nat) (d d1 : device)
    (arr : view_array) (h : create_write_views depth texture format dim n d = .ok (d1, arr)) :
    d1.cmds = d.cmds ∧ arr.id = d.next_id ∧ arr.views.length = n ∧
    (is_array dim = false →
      0 < n ∧ d1.next_id = d.next_id + 2 ∧
      d1.live = d.live ++ [(d.next_id, .view_array n),
        (d.next_id + 1, write_view_object depth texture format false 0 0 0)] ∧
      arr.views[0]? = some (some (d.next_id + 1))) ∧
    (is_array dim = true →
      d1.next_id = d.next_id + 1 + n ∧
      d1.live = d.live ++ (d.next_id, .view_array n) :: (List.range n).map (fun a =>
        (d.next_id + 1 + a, write_view_object depth texture format true a 1 0)) ∧
      ∀ a, a < n → arr.views[a]? = some (some (d.next_id + 1 + a))) := by
  unfold create_write_views at h
  simp only [device.acquire] at h
  by_cases hd : is_array dim = true
  · simp only [hd, Bool.not_true, Bool.false_eq_true, if_false] at h
    obtain ⟨d2, views2, e, h1, h2, h3, h4, h5, -⟩ := create_slice_views_spec depth texture format
      n n { next_id := d.next_id + 1, live := d.live ++ [(d.next_id, gpu_object.view_array n)],
            cmds := d.cmds } (List.replicate n none) (Nat.le_refl _) (List.length_replicate _ _)
    rw [e] at h
    cases h
    refine ⟨h2, rfl, h4, ?_, fun _ => ⟨?_, ?_, ?_⟩⟩
    · intro hn
      rw [hd] at hn
      cases hn
    · rw [h1]
    · rw [h3]
      simp only [List.append_assoc, List.singleton_append, Nat.sub_self, Nat.zero_add]
    · intro a ha
      have := h5 a (by omega) ha
      simp only [Nat.sub_self, Nat.sub_zero] at this
      exact this
  · have hd2 : is_array dim = false := by
      cases hx : is_array dim
      · rfl
      · exact absurd hx hd
    simp only [hd2, Bool.not_false, if_true, List.length_replicate] at h
    by_cases hn : 0 < n
    · simp only [hn, if_true] at h
      cases h
      refine ⟨rfl, rfl, by simp, fun _ => ⟨hn, rfl, ?_, ?_⟩, ?_⟩
      · simp [write_view_object]
      · rw [List.getElem?_set_self (by simp; exact hn)]
      · intro hx
        rw [hd2] at hx
        cases hx
    · simp only [hn, if_false] at h
      cases h

/-- What `renderer_create_render_target_multi` does when it returns. -/
theorem multi_spec (tcp : texture_creation_params) (d d1 : device)
    (c tex : texture_resource) (views : view_array)
    (h : renderer_create_render_target_multi tcp d c = .ok (d1, tex, views)) :
    ∃ format usage depth wfmt sfmt d2,
      to_d3d11_texture_format tcp.format = .ok format ∧
      to_d3d11_usage tcp.usage = .ok usage ∧
      ¬ (tcp.num_arrays > 1 ∧ tcp.sample_count > 1) ∧
      tcp.collection_type ≠ .TEXTURE_COLLECTION_VOLUME ∧
      (depth = true →
        has_bit (to_d3d11_bind_flags tcp.bind_flags) D3D11_BIND_DEPTH_STENCIL = true ∧
        depth_texture_format_to_dsv_format format = .ok wfmt ∧
        depth_texture_format_to_srv_format format = .ok sfmt) ∧
      (depth = false →
        has_bit (to_d3d11_bind_flags tcp.bind_flags) D3D11_BIND_DEPTH_STENCIL = false ∧
        has_bit (to_d3d11_bind_flags tcp.bind_flags) D3D11_BIND_RENDER_TARGET = true ∧
        wfmt = format ∧ sfmt = format) ∧
      create_write_views depth d.next_id wfmt (multi_dimension tcp) tcp.num_arrays
        (d.acquire (multi_texture tcp format usage)).1 = .ok (d2, views) ∧
      d1 = (d2.acquire (.shader_resource_view d.next_id sfmt (multi_dimension tcp)
        (read_view_array_size (multi_dimension tcp) tcp.num_arrays) tcp.num_mips)).1 ∧
      tex = { c with texture := d.next_id, srv := d2.next_id } := by
  unfold renderer_create_render_target_multi at h
  cases hf : to_d3d11_texture_format tcp.format with
  | error e => simp [hf] at h
  | ok format =>
    cases hu : to_d3d11_usage tcp.usage with
    | error e => simp [hf, hu] at h
    | ok usage =>
      simp only [hf, hu] at h
      by_cases ha : tcp.num_arrays > 1 ∧ tcp.sample_count > 1
      · simp [ha] at h
      · by_cases hv : tcp.collection_type = .TEXTURE_COLLECTION_VOLUME
        · simp [ha, hv] at h
        · have ha2 : ¬ (tcp.num_arrays > 1 ∧ decide (tcp.sample_count > 1) = true) := by
            simpa using ha
          simp only [ha2, hv, if_false] at h
          by_cases hds : has_bit (to_d3d11_bind_flags tcp.bind_flags) D3D11_BIND_DEPTH_STENCIL = true
          · simp only [hds, if_true] at h
            cases hs : depth_texture_format_to_srv_format format with
            | error e => simp [hs] at h
            | ok sfmt =>
              cases hw : depth_texture_format_to_dsv_format format with
              | error e => simp [hs, hw] at h
              | ok wfmt =>
                simp only [hs, hw] at h
                split at h
                · cases h
                · rename_i d2 views2 hcw
                  cases h
                  exact ⟨format, usage, true, wfmt, sfmt, d2, rfl, rfl, ha, hv,
                    fun _ => ⟨hds, hw, hs⟩, fun hx => Bool.noConfusion hx, hcw, rfl, rfl⟩
          · have hds2 : has_bit (to_d3d11_bind_flags tcp.bind_flags) D3D11_BIND_DEPTH_STENCIL =
                false := by
              cases hx : has_bit (to_d3d11_bind_flags tcp.bind_flags) D3D11_BIND_DEPTH_STENCIL
              · rfl
              · exact absurd hx hds
            simp only [hds2, Bool.false_eq_true, if_false] at h
            by_cases hrt : has_bit (to_d3d11_bind_flags tcp.bind_flags) D3D11_BIND_RENDER_TARGET =
                true
            · simp only [hrt, if_true] at h
              split at h
              · cases h
              · rename_i d2 views2 hcw
                cases h
                exact ⟨format, usage, false, format, format, d2, rfl, rfl, ha, hv,
                  fun hx => Bool.noConfusion hx, fun _ => ⟨hds2, hrt, rfl, rfl⟩, hcw, rfl, rfl⟩
            · simp [hrt] at h

theorem is_write_view_object (depth : Bool) (t f : Nat) (b : Bool) (x y z : Nat) :
    is_write_view (write_view_object depth t f b x y z) = true ∧
    is_read_view (write_view_object depth t f b x y z) = false := by
  cases depth <;> exact ⟨rfl, rfl⟩

theorem covered_slices_array (depth : Bool) (t f x y z : Nat) :
    covered_slices (write_view_object depth t f true x y z) = some (x, y, z) := by
  cases depth <;> rfl

theorem covered_slices_plain (depth : Bool) (t f x y z : Nat) :
    covered_slices (write_view_object depth t f false x y z) = some (0, 1, z) := by
  cases depth <;> rfl

theorem countP_write_views (depth : Bool) (t f id n : Nat) :
    ((List.range n).map (fun a =>
      (id + a, write_view_object depth t f true a 1 0))).countP (fun e => is_write_view e.2) = n ∧
    ((List.range n).map (fun a =>
      (id + a, write_view_object depth t f true a 1 0))).countP (fun e => is_read_view e.2) = 0 := by
  constructor
  · rw [List.countP_map]
    have : ((fun e : Nat × gpu_object => is_write_view e.2) ∘
        fun a => (id + a, write_view_object depth t f true a 1 0)) = fun _ => true := by
      funext a
      exact (is_write_view_object depth t f true a 1 0).1
    rw [this, List.countP_true, List.length_range]
  · rw [List.countP_map]
    have : ((fun e : Nat × gpu_object => is_read_view e.2) ∘
        fun a => (id + a, write_view_object depth t f true a 1 0)) = fun _ => false := by
      funext a
      exact (is_write_view_object depth t f true a 1 0).2
    rw [this, List.countP_false]
    rfl

theorem is_array_multi_dimension (tcp : texture_creation_params) :
    is_array (multi_dimension tcp) =
      match tcp.collection_type with
      | .TEXTURE_COLLECTION_CUBE => true
      | .TEXTURE_COLLECTION_CUBE_ARRAY => true
      | .TEXTURE_COLLECTION_ARRAY => !decide (tcp.sample_count > 1)
      | _ => false := by
  unfold multi_dimension to_d3d11_srv_dimension
  cases tcp.collection_type <;> simp only
  · cases decide (tcp.sample_count > 1) <;> rfl
  · rfl
  · rfl
  · cases decide (tcp.sample_count > 1) <;> rfl
  · rfl

/-- The objects `renderer_create_render_target_multi` acquires, in order: the
texture, the array of write views, the write views and the read view. -/
theorem multi_objects (tcp : texture_creation_params) (d d1 : device)
    (c tex : texture_resource) (views : view_array)
    (h : renderer_create_render_target_multi tcp d c = .ok (d1, tex, views)) :
    ∃ format usage depth wfmt sfmt,
      to_d3d11_texture_format tcp.format = .ok format ∧
      to_d3d11_usage tcp.usage = .ok usage ∧
      ¬ (tcp.num_arrays > 1 ∧ tcp.sample_count > 1) ∧
      (depth = true →
        depth_texture_format_to_dsv_format format = .ok wfmt ∧
        depth_texture_format_to_srv_format format = .ok sfmt) ∧
      (depth = false → wfmt = format ∧ sfmt = format) ∧
      d1.cmds = d.cmds ∧ tex.texture = d.next_id ∧ tex.uav = c.uav ∧
      views.id = d.next_id + 1 ∧ views.views.length = tcp.num_arrays ∧
      (is_array (multi_dimension tcp) = false →
        0 < tcp.num_arrays ∧ tex.srv = d.next_id + 3 ∧ d1.next_id = d.next_id + 4 ∧
        views.views[0]? = some (some (d.next_id + 2)) ∧
        d1.live = d.live ++ [(d.next_id, multi_texture tcp format usage),
          (d.next_id + 1, .view_array tcp.num_arrays),
          (d.next_id + 2, write_view_object depth d.next_id wfmt false 0 0 0),
          (d.next_id + 3, .shader_resource_view d.next_id sfmt (multi_dimension tcp)
            (read_view_array_size (multi_dimension tcp) tcp.num_arrays) tcp.num_mips)]) ∧
      (is_array (multi_dimension tcp) = true →
        tex.srv = d.next_id + 2 + tcp.num_arrays ∧
        d1.next_id = d.next_id + 3 + tcp.num_arrays ∧
        (∀ a, a < tcp.num_arrays → views.views[a]? = some (some (d.next_id + 2 + a))) ∧
        d1.live = d.live ++ ((d.next_id, multi_texture tcp format usage) ::
          (d.next_id + 1, .view_array tcp.num_arrays) ::
          ((List.range tcp.num_arrays).map (fun a =>
            (d.next_id + 2 + a, write_view_object depth d.next_id wfmt true a 1 0)) ++
          [(d.next_id + 2 + tcp.num_arrays,
            .shader_resource_view d.next_id sfmt (multi_dimension tcp)
              (read_view_array_size (multi_dimension tcp) tcp.num_arrays) tcp.num_mips)]))) := by
  obtain ⟨format, usage, depth, wfmt, sfmt, d2, hf, hu, ha, -, hd1, hd2, hcw, e1, e2⟩ :=
    multi_spec tcp d d1 c tex views h
  obtain ⟨k1, k2, k3, k4, k5⟩ := create_write_views_spec _ _ _ _ _ _ _ _ hcw
  simp only [device.acquire] at k1 k2 k3 k4 k5
  refine ⟨format, usage, depth, wfmt, sfmt, hf, hu, ha, fun hx => ⟨(hd1 hx).2.1, (hd1 hx).2.2⟩,
    fun hx => ⟨(hd2 hx).2.2.1, (hd2 hx).2.2.2⟩, ?_, ?_, ?_, k2, k3, ?_, ?_⟩
  · rw [e1]
    simp only [device.acquire]
    exact k1
  · rw [e2]
  · rw [e2]
  · intro hx
    obtain ⟨n0, n1, n2, n3⟩ := k4 hx
    refine ⟨n0, ?_, ?_, n3, ?_⟩
    · rw [e2]
      exact n1
    · rw [e1]
      simp only [device.acquire]
      omega
    · rw [e1]
      simp only [device.acquire]
      rw [n2, n1]
      simp only [List.append_assoc, List.cons_append, List.nil_append]
  · intro hx
    obtain ⟨n1, n2, n3⟩ := k5 hx
    refine ⟨?_, ?_, n3, ?_⟩
    · rw [e2]
      exact n1
    · rw [e1]
      simp only [device.acquire]
      omega
    · rw [e1]
      simp only [device.acquire]
      rw [n2, n1]
      simp only [List.append_assoc, List.cons_append, List.nil_append]

theorem read_view_array_size_cube (tcp : texture_creation_params)
    (hk : tcp.collection_type = .TEXTURE_COLLECTION_CUBE ∨
      tcp.collection_type = .TEXTURE_COLLECTION_CUBE_ARRAY) :
    read_view_array_size (multi_dimension tcp) tcp.num_arrays = some (tcp.num_arrays / 6) := by
  unfold multi_dimension to_d3d11_srv_dimension
  rcases hk with hk | hk <;> rw [hk] <;> rfl

/-! ## C16: the views the builder creates -/

/-- C16. When `renderer_create_render_target_multi` returns (it accepted the
descriptor), the objects it acquired hold exactly one read view, the one it
stores in the container, on the texture it created; for the plain collection
type exactly one write view, stored in entry 0; for the array, cube and
cube-array types with array size `n` exactly `n` write views, entry `a` of the
array it stores being a view that covers slice `a`, one slice, mip 0 (described
so as an array view, except for the array type with a sample count above 1,
where `n` is 1 and the view is the plain multisample view); and for the cube and
cube-array types the read view is described with array size `n / 6`. -/
theorem C16_builder_views (tcp : texture_creation_params) (d d1 : device)
    (c tex : texture_resource) (views : view_array)
    (h : renderer_create_render_target_multi tcp d c = .ok (d1, tex, views)) :
    ∃ news : List (Nat × gpu_object), d1.live = d.live ++ news ∧
      news.countP (fun e => is_read_view e.2) = 1 ∧
      (∃ fmt dim size mips,
        (tex.srv, gpu_object.shader_resource_view tex.texture fmt dim size mips) ∈ news ∧
        (tcp.collection_type = .TEXTURE_COLLECTION_CUBE ∨
          tcp.collection_type = .TEXTURE_COLLECTION_CUBE_ARRAY →
            size = some (tcp.num_arrays / 6))) ∧
      (tcp.collection_type = .TEXTURE_COLLECTION_NONE →
        news.countP (fun e => is_write_view e.2) = 1 ∧
        ∃ v o, views.views[0]? = some (some v) ∧ (v, o) ∈ news ∧ is_write_view o = true ∧
          covered_slices o = some (0, 1, 0)) ∧
      (tcp.collection_type = .TEXTURE_COLLECTION_ARRAY ∨
        tcp.collection_type = .TEXTURE_COLLECTION_CUBE ∨
        tcp.collection_type = .TEXTURE_COLLECTION_CUBE_ARRAY →
        news.countP (fun e => is_write_view e.2) = tcp.num_arrays ∧
        views.views.length = tcp.num_arrays ∧
        ∀ a, a < tcp.num_arrays → ∃ v o, views.views[a]? = some (some v) ∧ (v, o) ∈ news ∧
          is_write_view o = true ∧ covered_slices o = some (a, 1, 0) ∧
          (¬ (tcp.collection_type = .TEXTURE_COLLECTION_ARRAY ∧ tcp.sample_count > 1) →
            ∃ t f, o = .render_target_view t f true a 1 0 ∨
              o = .depth_stencil_view t f true a 1 0)) := by
  obtain ⟨format, usage, depth, wfmt, sfmt, hf, hu, ha, -, -, -, htex, -, -, hlen, hplain,
    harr⟩ := multi_objects tcp d d1 c tex views h
  have hdim := is_array_multi_dimension tcp
  by_cases hx : is_array (multi_dimension tcp) = true
  · obtain ⟨n1, n2, n3, n4⟩ := harr hx
    have hwv := countP_write_views depth d.next_id wfmt (d.next_id + 2) tcp.num_arrays
    refine ⟨_, n4, ?_, ⟨sfmt, multi_dimension tcp,
      read_view_array_size (multi_dimension tcp) tcp.num_arrays, tcp.num_mips, ?_,
      read_view_array_size_cube tcp⟩, ?_, ?_⟩
    · simp only [List.countP_cons, List.countP_append, hwv.2, List.countP_nil]
      simp [multi_texture, is_read_view]
    · rw [n1, htex]
      simp
    · intro hk
      rw [hx, hk] at hdim
      cases hdim
    · intro hk
      refine ⟨?_, hlen, ?_⟩
      · simp only [List.countP_cons, List.countP_append, hwv.1, List.countP_nil]
        simp [multi_texture, is_write_view]
      · intro a ha1
        refine ⟨d.next_id + 2 + a, write_view_object depth d.next_id wfmt true a 1 0, n3 a ha1, ?_,
          (is_write_view_object _ _ _ _ _ _ _).1, covered_slices_array _ _ _ _ _ _, ?_⟩
        · simp only [List.mem_cons, List.mem_append, List.mem_map, List.mem_range]
          exact Or.inr (Or.inr (Or.inl ⟨a, ha1, rfl⟩))
        · intro _
          cases depth
          · exact ⟨_, _, Or.inl rfl⟩
          · exact ⟨_, _, Or.inr rfl⟩
  · have hx2 : is_array (multi_dimension tcp) = false := by
      cases hy : is_array (multi_dimension tcp)
      · rfl
      · exact absurd hy hx
    obtain ⟨n0, n1, n2, n3, n4⟩ := hplain hx2
    have hcount : List.countP (fun e : Nat × gpu_object => is_write_view e.2)
        [(d.next_id, multi_texture tcp format usage),
          (d.next_id + 1, .view_array tcp.num_arrays),
          (d.next_id + 2, write_view_object depth d.next_id wfmt false 0 0 0),
          (d.next_id + 3, .shader_resource_view d.next_id sfmt (multi_dimension tcp)
            (read_view_array_size (multi_dimension tcp) tcp.num_arrays) tcp.num_mips)] = 1 := by
      cases depth <;> simp [List.countP_cons, multi_texture, is_write_view, write_view_object]
    have hmem : (d.next_id + 2, write_view_object depth d.next_id wfmt false 0 0 0) ∈
        [(d.next_id, multi_texture tcp format usage),
          (d.next_id + 1, gpu_object.view_array tcp.num_arrays),
          (d.next_id + 2, write_view_object depth d.next_id wfmt false 0 0 0),
          (d.next_id + 3, gpu_object.shader_resource_view d.next_id sfmt (multi_dimension tcp)
            (read_view_array_size (multi_dimension tcp) tcp.num_arrays) tcp.num_mips)] := by
      simp
    refine ⟨_, n4, ?_, ⟨sfmt, multi_dimension tcp,
      read_view_array_size (multi_dimension tcp) tcp.num_arrays, tcp.num_mips, ?_, ?_⟩, ?_, ?_⟩
    · cases depth <;> simp [List.countP_cons, multi_texture, is_read_view, write_view_object]
    · rw [n1, htex]
      simp
    · intro hk
      rw [hx2] at hdim
      rcases hk with hk | hk <;> rw [hk] at hdim <;> cases hdim
    · intro _
      exact ⟨hcount, _, _, n3, hmem, (is_write_view_object _ _ _ _ _ _ _).1,
        covered_slices_plain _ _ _ _ _ _⟩
    · intro hk
      have hms : tcp.collection_type = .TEXTURE_COLLECTION_ARRAY ∧ tcp.sample_count > 1 := by
        rw [hx2] at hdim
        rcases hk with hk | hk | hk <;> rw [hk] at hdim
        · simp only [Bool.false_eq, Bool.not_eq_false', decide_eq_true_eq] at hdim
          exact ⟨hk, hdim⟩
        · cases hdim
        · cases hdim
      have hn : tcp.num_arrays = 1 := by
        have : ¬ tcp.num_arrays > 1 := fun hgt => ha ⟨hgt, hms.2⟩
        omega
      refine ⟨by rw [hn]; exact hcount, hlen, ?_⟩
      intro a ha1
      have : a = 0 := by omega
      subst this
      exact ⟨_, _, n3, hmem, (is_write_view_object _ _ _ _ _ _ _).1,
        covered_slices_plain _ _ _ _ _ _, fun hn => absurd hms hn⟩

set_option maxRecDepth 100000 in
/-- Witness of C16: a cube-array colour target with 12 slices has 12 write
views, the fifth on slice 4, and one read view described with 2 cubes. -/
theorem C16_builder_views_witness :
    ∃ d1 tex views news,
      renderer_create_render_target_multi
        { format := PEN_TEX_FORMAT_RGBA8_UNORM, bind_flags := PEN_BIND_RENDER_TARGET
          num_arrays := 12, collection_type := .TEXTURE_COLLECTION_CUBE_ARRAY } {} {} =
        .ok (d1, tex, views) ∧
      d1.live = news ∧ news.countP (fun e => is_read_view e.2) = 1 ∧
      news.countP (fun e => is_write_view e.2) = 12 ∧ views.views.length = 12 ∧
      views.views[4]? = some (some 7) ∧
      (7, gpu_object.render_target_view 1 DXGI_FORMAT_R8G8B8A8_UNORM true 4 1 0) ∈ news ∧
      (tex.srv, gpu_object.shader_resource_view 1 DXGI_FORMAT_R8G8B8A8_UNORM
        D3D_SRV_DIMENSION_TEXTURECUBEARRAY (some 2) 1) ∈ news := by
  obtain ⟨r, hr⟩ := exists_of_is_ok (renderer_create_render_target_multi
    { format := PEN_TEX_FORMAT_RGBA8_UNORM, bind_flags := PEN_BIND_RENDER_TARGET
      num_arrays := 12, collection_type := .TEXTURE_COLLECTION_CUBE_ARRAY } {} {}) (by decide)
  obtain ⟨d1, tex, views⟩ := r
  obtain ⟨news, h1, h2, -, -, h5⟩ := C16_builder_views _ _ _ _ _ _ hr
  obtain ⟨k1, k2, -⟩ := h5 (Or.inr (Or.inr rfl))
  have e : renderer_create_render_target_multi
      { format := PEN_TEX_FORMAT_RGBA8_UNORM, bind_flags := PEN_BIND_RENDER_TARGET
        num_arrays := 12, collection_type := .TEXTURE_COLLECTION_CUBE_ARRAY } {} {} =
      .ok ({ next_id := 16, cmds := []
             live := (1, .texture2d 28 0 32 0 4 12 1 1) :: (2, .view_array 12) ::
              ((List.range 12).map (fun a =>
                (3 + a, gpu_object.render_target_view 1 28 true a 1 0)) ++
              [(15, .shader_resource_view 1 28 10 (some 2) 1)]) },
        { texture := 1, srv := 15 },
        { id := 2, views := (List.range 12).map (fun a => some (3 + a)) }) := by
    decide
  rw [e] at hr
  cases hr
  have hn : news = (1, gpu_object.texture2d 28 0 32 0 4 12 1 1) :: (2, .view_array 12) ::
              ((List.range 12).map (fun a =>
                (3 + a, gpu_object.render_target_view 1 28 true a 1 0)) ++
              [(15, .shader_resource_view 1 28 10 (some 2) 1)]) := by
    simpa using h1.symm
  refine ⟨_, _, _, news, rfl, by simpa using h1, h2, k1, k2, by decide, ?_, ?_⟩
  · rw [hn]
    decide
  · rw [hn]
    decide

theorem ite_ok_error {c : Prop} [Decidable c] {a : Nat} {x : Except fault Nat} {e : fault}
    (h : (if c then .ok a else x) = .error e) : x = .error e := by
  split at h
  · cases h
  · exact h

theorem to_d3d11_texture_format_error (f : Nat) (e : fault)
    (h : to_d3d11_texture_format f = .error e) : e = fault.assertion := by
  unfold to_d3d11_texture_format at h
  repeat (replace h := ite_ok_error h)
  cases h
  rfl

theorem to_d3d11_usage_error (u : Nat) (e : fault)
    (h : to_d3d11_usage u = .error e) : e = fault.assertion := by
  unfold to_d3d11_usage at h
  repeat (replace h := ite_ok_error h)
  cases h
  rfl

/-- The builder fails the assertion on an array with multisampling and on a
volume. -/
theorem multi_rejects (tcp : texture_creation_params) (d : device) (c : texture_resource)
    (h : (tcp.num_arrays > 1 ∧ tcp.sample_count > 1) ∨
      tcp.collection_type = .TEXTURE_COLLECTION_VOLUME) :
    renderer_create_render_target_multi tcp d c = .error fault.assertion := by
  unfold renderer_create_render_target_multi
  cases hf : to_d3d11_texture_format tcp.format with
  | error e =>
    simp only
    rw [to_d3d11_texture_format_error _ _ hf]
  | ok format =>
    cases hu : to_d3d11_usage tcp.usage with
    | error e =>
      simp only
      rw [to_d3d11_usage_error _ _ hu]
    | ok usage =>
      simp only
      by_cases ha : tcp.num_arrays > 1 ∧ tcp.sample_count > 1
      · have ha2 : tcp.num_arrays > 1 ∧ decide (tcp.sample_count > 1) = true := by
          simpa using ha
        rw [if_pos ha2]
      · have ha2 : ¬ (tcp.num_arrays > 1 ∧ decide (tcp.sample_count > 1) = true) := by
          simpa using ha
        have hv : tcp.collection_type = .TEXTURE_COLLECTION_VOLUME := by
          rcases h with h | h
          · exact absurd h ha
          · exact h
        rw [if_neg ha2, if_pos hv]

/-- What `renderer_create_texture` does with a volume descriptor whose pixel
format and usage it can translate. -/
theorem create_texture_volume (tcp : texture_creation_params) (slot : Nat) (s : renderer_state)
    (format usage : Nat) (hv : tcp.collection_type = .TEXTURE_COLLECTION_VOLUME)
    (hf : to_d3d11_texture_format tcp.format = .ok format)
    (hu : to_d3d11_usage tcp.usage = .ok usage)
    (hd : ¬ (tcp.data = true ∧ tcp.pixels_per_block = 0)) :
    ∃ s1 t, renderer_create_texture tcp slot s = .ok s1 ∧
      s1.pool.slots slot = { type := RES_TEXTURE_3D, payload := .texture s.dev.next_id t } ∧
      (t.texture, gpu_object.texture3d) ∈ s1.dev.live := by
  have hg : slot < (s.pool.grow slot).capacity := by
    unfold res_pool.grow
    split
    · assumption
    · exact Nat.lt_succ_self slot
  unfold renderer_create_texture
  simp only [hv, hf, hu, decide_True, if_true, device.acquire]
  have hd2 : ¬ (tcp.data = true ∧ tcp.pixels_per_block = 0 ∧ 0 < 1) := fun hx => hd ⟨hx.1, hx.2.1⟩
  rw [if_neg hd2]
  simp only [res_pool.set, hg, if_true]
  refine ⟨_, ?t, rfl, ?h2, ?h3⟩
  case h2 =>
    show array_set _ _ _ slot = _
    rw [array_set_same]
    exact rfl
  case h3 =>
    simp only
    split <;> split <;> simp

/-! ## C17: what is rejected -/

/-- Counterexample to C17 as stated: `renderer_create_render_target` with a
volume descriptor returns and leaves a 3D texture in the slot. -/
theorem C17_counterexample :
    ∃ s1, renderer_create_render_target demo_env
        { demo_colour_tcp with collection_type := .TEXTURE_COLLECTION_VOLUME } 5 false
        renderer_init = .ok s1 ∧
      (s1.pool.slots 5).type = RES_TEXTURE_3D ∧
      s1.dev.live = [(1, .heap_struct), (2, .texture3d),
        (3, .shader_resource_view 2 DXGI_FORMAT_R8G8B8A8_UNORM D3D_SRV_DIMENSION_TEXTURE3D
          (some 0) (-1))] := by
  refine ⟨_, ok_state_eq _ (by decide), by decide, by decide⟩

/-- C17, amended. The builder `renderer_create_render_target_multi` fails the
assertion on every descriptor with an array size above 1 and a sample count
above 1 and on every descriptor of the volume collection type. The entry point
`renderer_create_render_target` does not reject a volume descriptor: it is
`renderer_create_texture` on it, which, when it can translate the pixel format
and the usage, returns with a 3D texture in the slot, tagged `RES_TEXTURE_3D`. -/
theorem C17_rejected_descriptors :
    (∀ (tcp : texture_creation_params) (d : device) (c : texture_resource),
      (tcp.num_arrays > 1 ∧ tcp.sample_count > 1) ∨
        tcp.collection_type = .TEXTURE_COLLECTION_VOLUME →
      renderer_create_render_target_multi tcp d c = .error fault.assertion) ∧
    (∀ (env : shared_env) (tcp : texture_creation_params) (slot : Nat) (track : Bool)
      (s : renderer_state), tcp.collection_type = .TEXTURE_COLLECTION_VOLUME →
      renderer_create_render_target env tcp slot track s = renderer_create_texture tcp slot s) ∧
    (∀ (env : shared_env) (tcp : texture_creation_params) (slot : Nat) (track : Bool)
      (s : renderer_state) (format usage : Nat),
      tcp.collection_type = .TEXTURE_COLLECTION_VOLUME →
      to_d3d11_texture_format tcp.format = .ok format → to_d3d11_usage tcp.usage = .ok usage →
      ¬ (tcp.data = true ∧ tcp.pixels_per_block = 0) →
      ∃ s1 t, renderer_create_render_target env tcp slot track s = .ok s1 ∧
        s1.pool.slots slot = { type := RES_TEXTURE_3D, payload := .texture s.dev.next_id t } ∧
        (t.texture, gpu_object.texture3d) ∈ s1.dev.live) := by
  refine ⟨multi_rejects, ?_, ?_⟩
  · intro env tcp slot track s hv
    unfold renderer_create_render_target
    rw [if_pos hv]
  · intro env tcp slot track s format usage hv hf hu hd
    unfold renderer_create_render_target
    rw [if_pos hv]
    exact create_texture_volume tcp slot s format usage hv hf hu hd

/-- Witness of C17 as amended: the builder on a colour array of 6 slices with 4
samples. -/
theorem C17_rejected_descriptors_witness :
    renderer_create_render_target_multi
      { demo_colour_tcp with num_arrays := 6, sample_count := 4
                             collection_type := .TEXTURE_COLLECTION_ARRAY } {} {} =
      .error fault.assertion :=
  C17_rejected_descriptors.1 _ _ _ (Or.inl ⟨by decide, by decide⟩)

/-! ## C18: the formats of a depth target -/

/-- C18. The three depth pixel formats are translated to typeless storage
formats; on the storage format of each of them
`depth_texture_format_to_dsv_format` and `depth_texture_format_to_srv_format`
return, without assertion, two formats that are not `DXGI_FORMAT_UNKNOWN` and
differ, the first being the depth format that corresponds to the pixel format;
and on every storage format other than the four typeless depth formats both
functions fail the assertion. -/
theorem C18_depth_formats :
    (to_d3d11_texture_format PEN_TEX_FORMAT_D24_UNORM_S8_UINT = .ok DXGI_FORMAT_R24G8_TYPELESS ∧
      to_d3d11_texture_format PEN_TEX_FORMAT_D32_FLOAT = .ok DXGI_FORMAT_R32_TYPELESS ∧
      to_d3d11_texture_format PEN_TEX_FORMAT_D32_FLOAT_S8_UINT =
        .ok DXGI_FORMAT_R32G8X24_TYPELESS) ∧
    (depth_texture_format_to_dsv_format DXGI_FORMAT_R24G8_TYPELESS =
        .ok DXGI_FORMAT_D24_UNORM_S8_UINT ∧
      depth_texture_format_to_dsv_format DXGI_FORMAT_R32_TYPELESS = .ok DXGI_FORMAT_D32_FLOAT ∧
      depth_texture_format_to_dsv_format DXGI_FORMAT_R32G8X24_TYPELESS =
        .ok DXGI_FORMAT_D32_FLOAT_S8X24_UINT) ∧
    (∀ f, f = PEN_TEX_FORMAT_D24_UNORM_S8_UINT ∨ f = PEN_TEX_FORMAT_D32_FLOAT ∨
        f = PEN_TEX_FORMAT_D32_FLOAT_S8_UINT →
      ∃ t dsv srv, to_d3d11_texture_format f = .ok t ∧
        depth_texture_format_to_dsv_format t = .ok dsv ∧
        depth_texture_format_to_srv_format t = .ok srv ∧
        dsv ≠ DXGI_FORMAT_UNKNOWN ∧ srv ≠ DXGI_FORMAT_UNKNOWN ∧ dsv ≠ srv) ∧
    (∀ t, t ≠ DXGI_FORMAT_R16_TYPELESS → t ≠ DXGI_FORMAT_R32_TYPELESS →
      t ≠ DXGI_FORMAT_R24G8_TYPELESS → t ≠ DXGI_FORMAT_R32G8X24_TYPELESS →
      depth_texture_format_to_dsv_format t = .error fault.assertion ∧
      depth_texture_format_to_srv_format t = .error fault.assertion) := by
  refine ⟨⟨rfl, rfl, rfl⟩, ⟨rfl, rfl, rfl⟩, ?_, ?_⟩
  · rintro f (h | h | h) <;> subst h
    · exact ⟨_, _, _, rfl, rfl, rfl, by decide, by decide, by decide⟩
    · exact ⟨_, _, _, rfl, rfl, rfl, by decide, by decide, by decide⟩
    · exact ⟨_, _, _, rfl, rfl, rfl, by decide, by decide, by decide⟩
  · intro t h1 h2 h3 h4
    unfold depth_texture_format_to_dsv_format depth_texture_format_to_srv_format
    simp only [h1, h2, h3, h4, if_false, and_self]

/-- Witness of C18: the storage format of a colour pixel format has neither a
depth view format nor a depth read format. -/
theorem C18_depth_formats_witness :
    depth_texture_format_to_dsv_format DXGI_FORMAT_R8G8B8A8_UNORM = .error fault.assertion ∧
    depth_texture_format_to_srv_format DXGI_FORMAT_R8G8B8A8_UNORM = .error fault.assertion :=
  C18_depth_formats.2.2.2 DXGI_FORMAT_R8G8B8A8_UNORM (by decide) (by decide) (by decide)
    (by decide)

theorem same_objects_refl (s : renderer_state) : same_objects s s :=
  ⟨rfl, rfl, rfl, fun _ => ⟨rfl, Or.inl rfl⟩⟩

theorem same_objects_trans (s s1 s2 : renderer_state) (h1 : same_objects s s1)
    (h2 : same_objects s1 s2) : same_objects s s2 := by
  obtain ⟨a1, a2, a3, a4⟩ := h1
  obtain ⟨b1, b2, b3, b4⟩ := h2
  refine ⟨by rw [b1, a1], by rw [b2, a2], by rw [b3, a3], fun h => ⟨by rw [(b4 h).1, (a4 h).1], ?_⟩⟩
  rcases (a4 h).2 with e1 | ⟨ptr, rt, i, e1, e2⟩
  · rcases (b4 h).2 with e3 | ⟨ptr2, rt2, j, e3, e4⟩
    · exact Or.inl (by rw [e3, e1])
    · rw [e1] at e3
      exact Or.inr ⟨ptr2, rt2, j, e3, e4⟩
  · rcases (b4 h).2 with e3 | ⟨ptr2, rt2, j, e3, e4⟩
    · rw [e3]
      exact Or.inr ⟨ptr, rt, i, e1, e2⟩
    · rw [e2] at e3
      cases e3
      exact Or.inr ⟨ptr, rt, j, e1, e4⟩

theorem same_objects_surface (s s1 : renderer_state) (h : same_objects s s1) (x : Nat) :
    resolve_surface s1 x = resolve_surface s x := by
  unfold resolve_surface
  rcases (h.2.2.2 x).2 with e | ⟨ptr, rt, i, e1, e2⟩
  · rw [e]
  · rw [e1, e2]

/-- A state that differs from `s` in the commands issued only. -/
theorem same_objects_cmds (s : renderer_state) (cmds : List command) :
    same_objects s { s with dev := { s.dev with cmds := cmds } } :=
  ⟨rfl, rfl, rfl, fun _ => ⟨rfl, Or.inl rfl⟩⟩

theorem set_resolve_targets_same (ct dt : Nat) (s s1 : renderer_state)
    (h : renderer_set_resolve_targets ct dt s = .ok s1) : same_objects s s1 := by
  unfold renderer_set_resolve_targets at h
  simp only at h
  split at h
  · cases h
  · split at h
    · cases h
    · cases h
      exact same_objects_cmds s _

theorem update_buffer_same (b : Nat) (s s1 : renderer_state)
    (h : renderer_update_buffer b s = .ok s1) : same_objects s s1 := by
  unfold renderer_update_buffer at h
  split at h
  · cases h
  · split at h
    · cases h
      exact same_objects_cmds s _
    · cases h

theorem set_constant_buffer_same (b u : Nat) (f : cbuffer_bind_flags) (s s1 : renderer_state)
    (h : renderer_set_constant_buffer b u f s = .ok s1) : same_objects s s1 := by
  unfold renderer_set_constant_buffer at h
  split at h
  · split at h
    · cases h
    · cases h
      exact same_objects_cmds s _
  · cases h
    exact same_objects_refl s

theorem set_viewport_same (s s1 : renderer_state)
    (h : renderer_set_viewport s = .ok s1) : same_objects s s1 := by
  unfold renderer_set_viewport at h
  cases h
  exact same_objects_cmds s _

theorem set_vertex_buffers_same (bs : List Nat) (n st : Nat) (s s1 : renderer_state)
    (h : renderer_set_vertex_buffers bs n st s = .ok s1) : same_objects s s1 := by
  unfold renderer_set_vertex_buffers at h
  split at h
  · split at h
    · cases h
    · cases h
      exact same_objects_cmds s _
  · cases h

theorem set_index_buffer_same (b f o : Nat) (s s1 : renderer_state)
    (h : renderer_set_index_buffer b f o s = .ok s1) : same_objects s s1 := by
  unfold renderer_set_index_buffer at h
  split at h
  · cases h
  · split at h
    · cases h
    · cases h
      exact same_objects_cmds s _

theorem draw_indexed_same (a b c t : Nat) (s s1 : renderer_state)
    (h : renderer_draw_indexed a b c t s = .ok s1) : same_objects s s1 := by
  unfold renderer_draw_indexed at h
  split at h
  · cases h
  · cases h
    exact same_objects_cmds s _

theorem set_texture_resource_same (t : Nat) (bf : texture_bind_flags) (s s1 : renderer_state)
    (srv uav : Nat) (h : set_texture_resource t bf s = .ok (s1, srv, uav)) :
    same_objects s s1 := by
  unfold set_texture_resource res_pool.get at h
  by_cases hc : t < s.pool.capacity
  · simp only [hc, if_true] at h
    split at h
    · cases h
    · split at h
      · split at h
        · rename_i ptr rt hp
          split at h
          · simp only [res_pool.set, hc, if_true] at h
            cases h
            refine ⟨rfl, rfl, rfl, fun x => ?_⟩
            by_cases hx : x = t
            · subst hx
              have e := array_set_same s.pool.slots x
                { s.pool.slots x with payload := .render_target ptr { rt with invalidate := 0 } }
              dsimp only
              rw [e]
              exact ⟨rfl, Or.inr ⟨ptr, rt, 0, hp, rfl⟩⟩
            · have e := array_set_other s.pool.slots t x
                { s.pool.slots t with payload := .render_target ptr { rt with invalidate := 0 } }
                hx
              dsimp only
              rw [e]
              exact ⟨rfl, Or.inl rfl⟩
          · cases h
            exact same_objects_refl s
        · cases h
      · cases h
        exact same_objects_refl s
  · simp [hc] at h

/-- `renderer_set_texture` acquires nothing and gives no render target a
surface. -/
theorem set_texture_same (t smp u : Nat) (bf : texture_bind_flags) (s s1 : renderer_state)
    (h : renderer_set_texture t smp u bf s = .ok s1) : same_objects s s1 := by
  unfold renderer_set_texture at h
  simp only at h
  split at h
  · cases h
  · rename_i s2 srv uav hr
    have h2 : same_objects s s2 := by
      split at hr
      · exact set_texture_resource_same _ _ _ _ _ _ hr
      · cases hr
        exact same_objects_refl s
    split at h
    · cases h
    · cases h
      exact same_objects_trans _ _ _ h2 (same_objects_cmds s2 _)

/-- The shader resolve of `renderer_resolve_target` acquires nothing. -/
theorem resolve_custom_same (t : Nat) (res : resolve_resources) (s s1 : renderer_state)
    (h : resolve_custom t res s = .ok s1) : same_objects s s1 := by
  unfold resolve_custom at h
  cases h1 : renderer_set_resolve_targets t 0 s with
  | error e => simp [h1, Except.bind] at h
  | ok a1 =>
    simp only [h1, Except.bind] at h
    cases h2 : renderer_update_buffer res.constant_buffer a1 with
    | error e => simp [h2] at h
    | ok a2 =>
      simp only [h2] at h
      cases h3 : renderer_set_constant_buffer res.constant_buffer 0 { ps := true } a2 with
      | error e => simp [h3] at h
      | ok a3 =>
        simp only [h3] at h
        cases h4 : renderer_set_viewport a3 with
        | error e => simp [h4] at h
        | ok a4 =>
          simp only [h4] at h
          cases h5 : renderer_set_vertex_buffers [res.vertex_buffer] 1 0 a4 with
          | error e => simp [h5] at h
          | ok a5 =>
            simp only [h5] at h
            cases h6 : renderer_set_index_buffer res.index_buffer PEN_FORMAT_R16_UINT 0 a5 with
            | error e => simp [h6] at h
            | ok a6 =>
              simp only [h6] at h
              cases h7 : renderer_set_texture t 0 0 { msaa := true, ps := true } a6 with
              | error e => simp [h7] at h
              | ok a7 =>
                simp only [h7] at h
                exact same_objects_trans _ _ _ (set_resolve_targets_same _ _ _ _ h1)
                  (same_objects_trans _ _ _ (update_buffer_same _ _ _ h2)
                  (same_objects_trans _ _ _ (set_constant_buffer_same _ _ _ _ _ h3)
                  (same_objects_trans _ _ _ (set_viewport_same _ _ h4)
                  (same_objects_trans _ _ _ (set_vertex_buffers_same _ _ _ _ _ h5)
                  (same_objects_trans _ _ _ (set_index_buffer_same _ _ _ _ _ h6)
                  (same_objects_trans _ _ _ (set_texture_same _ _ _ _ _ _ h7)
                  (draw_indexed_same _ _ _ _ _ _ h)))))))

theorem multi_first_object (tcp : texture_creation_params) (d d1 : device)
    (c tex : texture_resource) (views : view_array)
    (h : renderer_create_render_target_multi tcp d c = .ok (d1, tex, views)) :
    ∃ o rest, texture_samples o = some tcp.sample_count ∧
      d1.live = d.live ++ (d.next_id, o) :: rest ∧ tex.texture = d.next_id ∧
      tex.uav = c.uav := by
  obtain ⟨format, usage, depth, wfmt, sfmt, -, -, -, -, -, -, htex, huav, -, -, hplain, harr⟩ :=
    multi_objects _ _ _ _ _ _ h
  by_cases hx : is_array (multi_dimension tcp) = true
  · obtain ⟨-, -, -, hl⟩ := harr hx
    exact ⟨multi_texture tcp format usage, _, rfl, hl, htex, huav⟩
  · have hx2 : is_array (multi_dimension tcp) = false := by
      revert hx
      cases is_array _ <;> simp
    obtain ⟨-, -, -, -, hl⟩ := hplain hx2
    exact ⟨multi_texture tcp format usage, _, rfl, hl, htex, huav⟩

theorem create_resolve_surface_spec (h ptr : Nat) (rti rti0 : render_target_internal)
    (tcp : texture_creation_params) (w ht : Int) (s s0 : renderer_state)
    (e : create_resolve_surface h ptr (s.pool.slots h) rti tcp w ht s = .ok (s0, rti0)) :
    (rti.tex.texture ≠ 0 → s0 = s ∧ rti0 = rti) ∧
    (rti.tex.texture = 0 → ∃ o,
      texture_samples o = some 1 ∧ (s.dev.next_id, o) ∈ s0.dev.live ∧
      (∃ news, s0.dev.live = s.dev.live ++ news) ∧
      rti0.tex.texture = s.dev.next_id ∧ rti0.tex_msaa = rti.tex_msaa ∧
      rti0.format = rti.format ∧
      (s0.pool.slots h).payload = .render_target ptr rti0) := by
  unfold create_resolve_surface at e
  by_cases hz : rti.tex.texture = 0
  · simp only [hz, if_true] at e
    refine ⟨fun hn => absurd hz hn, fun _ => ?_⟩
    split at e
    · cases e
    · rename_i d1 tex views hm
      obtain ⟨o, rest, ho, hl, htex, -⟩ := multi_first_object _ _ _ _ _ _ hm
      have hs : texture_samples o = some 1 := by
        rw [ho]
        split <;> rfl
      split at e
      · cases e
      · rename_i pool1 hset
        cases e
        have hslot : (pool1.slots h).payload =
            .render_target ptr { rti with tex := tex, rt := some views } := by
          unfold res_pool.set at hset
          split at hset
          · cases hset
            simp only [array_set_same]
          · cases hset
        refine ⟨o, hs, ?_, ⟨_, hl⟩, htex, rfl, rfl, hslot⟩
        show (s.dev.next_id, o) ∈ d1.live
        rw [hl]
        simp
  · simp only [hz, if_false] at e
    cases e
    exact ⟨fun _ => ⟨rfl, rfl⟩, fun hn => absurd hn hz⟩

/-- `renderer_resolve_target` with `RESOLVE_GENERATE_MIPS` acquires nothing. -/
theorem resolve_generate_mips_same (ws : Int → Int × Int) (h : Nat) (res : resolve_resources)
    (s s1 : renderer_state)
    (hr : renderer_resolve_target ws h .RESOLVE_GENERATE_MIPS res s = .ok s1) :
    same_objects s s1 := by
  unfold renderer_resolve_target at hr
  split at hr
  · cases hr
  · simp only [if_true] at hr
    split at hr
    · split at hr
      · cases hr
      · cases hr
        exact same_objects_cmds s _
    · cases hr
      exact same_objects_refl s

/-- The two phases of `renderer_resolve_target` with a resolve type other than
`RESOLVE_GENERATE_MIPS`: the creation of the surface if there is none, then
commands that acquire nothing. -/
theorem resolve_target_phases (ws : Int → Int × Int) (h : Nat) (ty : e_msaa_resolve_type)
    (res : resolve_resources) (s s1 : renderer_state)
    (hty : ty ≠ .RESOLVE_GENERATE_MIPS)
    (hr : renderer_resolve_target ws h ty res s = .ok s1) :
    ∃ ptr rti, (s.pool.slots h).payload = .render_target ptr rti ∧
      (rti.tcp = none → s1 = s) ∧
      (∀ copy tcp, rti.tcp = some (copy, tcp) → ∃ s0 rti0 w ht,
        create_resolve_surface h ptr (s.pool.slots h) rti tcp w ht s = .ok (s0, rti0) ∧
        same_objects s0 s1) := by
  unfold renderer_resolve_target at hr
  unfold res_pool.get at hr
  split at hr
  · cases hr
  · rename_i r hg
    have hrs : r = s.pool.slots h := by
      split at hg
      · cases hg
        rfl
      · cases hg
    subst hrs
    simp only [hty, if_false] at hr
    split at hr
    · rename_i ptr rti hp
      refine ⟨ptr, rti, hp, ?_, ?_⟩
      · intro hn
        rw [hn] at hr
        cases hr
        rfl
      · intro copy tcp hc
        rw [hc] at hr
        simp only at hr
        split at hr
        · split at hr
          · cases hr
          · rename_i s0 rti0 hcs
            refine ⟨s0, rti0, _, _, hcs, ?_⟩
            split at hr
            · cases hr
              exact same_objects_refl _
            · split at hr
              · exact resolve_custom_same _ _ _ _ hr
              · split at hr
                · cases hr
                  exact same_objects_refl _
                · cases hr
                  exact same_objects_cmds s0 _
        · cases hr
    · cases hr

/-- A multisampled render target has no surface right after its creation. -/
theorem create_msaa_no_surface (env : shared_env) (tcp : texture_creation_params)
    (h : Nat) (track : Bool) (s s1 : renderer_state)
    (hv : tcp.collection_type ≠ .TEXTURE_COLLECTION_VOLUME) (hms : tcp.sample_count > 1)
    (hc : renderer_create_render_target env tcp h track s = .ok s1) :
    resolve_surface s1 h = some 0 ∧
    ∃ ptr rt copy, (s1.pool.slots h).payload = .render_target ptr rt ∧
      rt.tcp = some (copy, tcp) ∧ s1.dev.is_live copy = true := by
  obtain ⟨rt, hb, -, -, hslots, -⟩ := create_render_target_slot env tcp h track s s1 hv hc
  obtain ⟨-, -, -, -, k5, -⟩ := build_render_target_fields _ _ _ _ _ hb
  obtain ⟨e1, -, copy, e2, e3⟩ := k5 hms
  unfold resolve_surface
  rw [hslots, array_set_same]
  refine ⟨?_, _, rt, copy, rfl, e2, e3⟩
  show some rt.tex.texture = some 0
  rw [e1]

/-! ## C19: the resolve surface of a multisampled target -/

/-- Counterexample to C19 as stated: reading a multisampled target that was
never resolved creates no surface; it binds the null view. -/
theorem C19_counterexample :
    ∃ s1, renderer_set_texture 5 0 0 { ps := true } demo_msaa_created = .ok s1 ∧
      resolve_surface demo_msaa_created 5 = some 0 ∧ resolve_surface s1 5 = some 0 ∧
      s1.dev.live = demo_msaa_created.dev.live ∧
      s1.dev.cmds = [.PSSetSamplers 0 0, .PSSetShaderResources 0 0] := by
  refine ⟨_, ok_state_eq _ (by decide), by decide, by decide, by decide, by decide⟩

/-- C19, amended. A render target created with a sample count above 1 has no
single-sample surface right after its creation. `renderer_set_texture` never
creates one: it acquires no object and leaves the surface of every target as it
was. `renderer_resolve_target` with `RESOLVE_GENERATE_MIPS` does not either. The
first `renderer_resolve_target` with another resolve type on a multisampled
target that has no surface creates it, a texture with sample count 1; and a
`renderer_resolve_target` on a target that has a surface acquires no object and
leaves the surface in place. -/
theorem C19_resolve_surface :
    (∀ (env : shared_env) (tcp : texture_creation_params) (h : Nat) (track : Bool)
      (s s1 : renderer_state), tcp.collection_type ≠ .TEXTURE_COLLECTION_VOLUME →
      tcp.sample_count > 1 → renderer_create_render_target env tcp h track s = .ok s1 →
      resolve_surface s1 h = some 0) ∧
    (∀ (t sampler unit : Nat) (bf : texture_bind_flags) (s s1 : renderer_state),
      renderer_set_texture t sampler unit bf s = .ok s1 →
      s1.dev.live = s.dev.live ∧ ∀ h, resolve_surface s1 h = resolve_surface s h) ∧
    (∀ (ws : Int → Int × Int) (h : Nat) (res : resolve_resources) (s s1 : renderer_state),
      renderer_resolve_target ws h .RESOLVE_GENERATE_MIPS res s = .ok s1 →
      s1.dev.live = s.dev.live ∧ ∀ x, resolve_surface s1 x = resolve_surface s x) ∧
    (∀ (ws : Int → Int × Int) (h : Nat) (ty : e_msaa_resolve_type) (res : resolve_resources)
      (s s1 : renderer_state) (ptr copy : Nat) (rti : render_target_internal)
      (tcp : texture_creation_params), ty ≠ .RESOLVE_GENERATE_MIPS →
      (s.pool.slots h).payload = .render_target ptr rti → rti.tcp = some (copy, tcp) →
      resolve_surface s h = some 0 →
      renderer_resolve_target ws h ty res s = .ok s1 →
      resolve_surface s1 h = some s.dev.next_id ∧
      (∃ news, s1.dev.live = s.dev.live ++ news) ∧
      ∃ o, (s.dev.next_id, o) ∈ s1.dev.live ∧ texture_samples o = some 1) ∧
    (∀ (ws : Int → Int × Int) (h : Nat) (ty : e_msaa_resolve_type) (res : resolve_resources)
      (s s1 : renderer_state) (t : Nat), resolve_surface s h = some t → t ≠ 0 →
      renderer_resolve_target ws h ty res s = .ok s1 →
      s1.dev.live = s.dev.live ∧ resolve_surface s1 h = some t) := by
  refine ⟨?_, ?_, ?_, ?_, ?_⟩
  · intro env tcp h track s s1 hv hms hc
    exact (create_msaa_no_surface env tcp h track s s1 hv hms hc).1
  · intro t sampler unit bf s s1 hs
    have := set_texture_same _ _ _ _ _ _ hs
    exact ⟨this.1, same_objects_surface _ _ this⟩
  · intro ws h res s s1 hr
    have := resolve_generate_mips_same _ _ _ _ _ hr
    exact ⟨this.1, same_objects_surface _ _ this⟩
  · intro ws h ty res s s1 ptr copy rti tcp hty hp htcp hsurf hr
    obtain ⟨ptr1, rti1, hp1, -, hsome⟩ := resolve_target_phases ws h ty res s s1 hty hr
    rw [hp] at hp1
    cases hp1
    obtain ⟨s0, rti0, w, ht, hcs, hsame⟩ := hsome copy tcp htcp
    have hz : rti.tex.texture = 0 := by
      unfold resolve_surface at hsurf
      rw [hp] at hsurf
      exact Option.some.inj hsurf
    obtain ⟨o, ho, hmem, ⟨news, hl⟩, htex, -, -, hslot⟩ :=
      (create_resolve_surface_spec h ptr rti rti0 tcp w ht s s0 hcs).2 hz
    refine ⟨?_, ⟨news, by rw [hsame.1, hl]⟩, o, by rw [hsame.1]; exact hmem, ho⟩
    rw [same_objects_surface _ _ hsame]
    unfold resolve_surface
    rw [hslot]
    show some rti0.tex.texture = _
    rw [htex]
  · intro ws h ty res s s1 t hsurf ht hr
    by_cases hty : ty = .RESOLVE_GENERATE_MIPS
    · subst hty
      have := resolve_generate_mips_same _ _ _ _ _ hr
      exact ⟨this.1, by rw [same_objects_surface _ _ this, hsurf]⟩
    · obtain ⟨ptr, rti, hp, hnone, hsome⟩ := resolve_target_phases ws h ty res s s1 hty hr
      have hz : rti.tex.texture ≠ 0 := by
        unfold resolve_surface at hsurf
        rw [hp] at hsurf
        rw [Option.some.inj hsurf]
        exact ht
      cases htcp : rti.tcp with
      | none =>
        rw [hnone htcp]
        exact ⟨rfl, hsurf⟩
      | some ct =>
        obtain ⟨copy, tcp⟩ := ct
        obtain ⟨s0, rti0, w, ht, hcs, hsame⟩ := hsome copy tcp htcp
        obtain ⟨e1, -⟩ := (create_resolve_surface_spec h ptr rti rti0 tcp w ht s s0 hcs).1 hz
        subst e1
        exact ⟨hsame.1, by rw [same_objects_surface _ _ hsame, hsurf]⟩

set_option maxRecDepth 100000 in
/-- Witness of C19 as amended: the multisampled colour target 5 is resolved,
read, and resolved again; the first resolve creates the surface, object 7 with
sample count 1, the read and the second resolve acquire nothing. -/
theorem C19_resolve_surface_witness :
    ∃ s1 s2 s3,
      renderer_resolve_target (fun _ => (0, 0)) 5 (.other 0) {} demo_msaa_created = .ok s1 ∧
      renderer_set_texture 5 0 0 { ps := true } s1 = .ok s2 ∧
      renderer_resolve_target (fun _ => (0, 0)) 5 (.other 0) {} s2 = .ok s3 ∧
      resolve_surface demo_msaa_created 5 = some 0 ∧ resolve_surface s1 5 = some 7 ∧
      (∃ o, (7, o) ∈ s1.dev.live ∧ texture_samples o = some 1) ∧
      s2.dev.live = s1.dev.live ∧ s3.dev.live = s2.dev.live ∧ resolve_surface s3 5 = some 7 := by
  have e0 : renderer_create_render_target demo_env demo_msaa_tcp 5 false renderer_init =
      .ok demo_msaa_created := ok_state_eq _ (by decide)
  have e1 := ok_state_eq (renderer_resolve_target (fun _ => (0, 0)) 5 (.other 0) {}
    demo_msaa_created) (by decide)
  have e2 := ok_state_eq (renderer_set_texture 5 0 0 { ps := true }
    (ok_state (renderer_resolve_target (fun _ => (0, 0)) 5 (.other 0) {} demo_msaa_created)))
    (by decide)
  have e3 := ok_state_eq (renderer_resolve_target (fun _ => (0, 0)) 5 (.other 0) {}
    (ok_state (renderer_set_texture 5 0 0 { ps := true }
      (ok_state (renderer_resolve_target (fun _ => (0, 0)) 5 (.other 0) {}
        demo_msaa_created))))) (by decide)
  obtain ⟨k1, k2, -, k4, k5⟩ := C19_resolve_surface
  have a0 := k1 _ _ _ _ _ _ (by decide) (by decide) e0
  obtain ⟨-, ptr, rt, copy, hp, htcp, -⟩ := create_msaa_no_surface _ _ _ _ _ _ (by decide)
    (by decide) e0
  obtain ⟨b1, -, b3⟩ := k4 _ 5 _ _ _ _ ptr copy rt demo_msaa_tcp (by decide) hp htcp a0 e1
  have n7 : demo_msaa_created.dev.next_id = 7 := by decide
  rw [n7] at b1 b3
  obtain ⟨c1, c2⟩ := k2 _ _ _ _ _ _ e2
  obtain ⟨d1, d2⟩ := k5 _ 5 _ _ _ _ 7 (by rw [c2 5]; exact b1) (by decide) e3
  exact ⟨_, _, _, e1, e2, e3, a0, b1, b3, c1, d1, d2⟩

/-! ## C20: the fixed-function resolve of a depth target -/

set_option maxRecDepth 100000 in
/-- C20 fails: for a multisampled depth target of pixel format
`PEN_TEX_FORMAT_D32_FLOAT` or `PEN_TEX_FORMAT_D32_FLOAT_S8_UINT`,
`renderer_resolve_target` with a resolve type that is neither
`RESOLVE_GENERATE_MIPS` nor `RESOLVE_CUSTOM` returns after issuing
`ResolveSubresource` from the multisampled texture, object 2, to the surface it
created, object 7; only `PEN_TEX_FORMAT_D24_UNORM_S8_UINT` is skipped. -/
theorem C20_depth_resolve_not_skipped :
    (∃ s0 s1,
      renderer_create_render_target demo_env (demo_msaa_depth_tcp PEN_TEX_FORMAT_D32_FLOAT) 5
        false renderer_init = .ok s0 ∧
      renderer_resolve_target (fun _ => (0, 0)) 5 (.other 0) {} s0 = .ok s1 ∧
      s1.dev.cmds = [.ResolveSubresource 7 0 2 0 PEN_TEX_FORMAT_D32_FLOAT]) ∧
    (∃ s0 s1,
      renderer_create_render_target demo_env
        (demo_msaa_depth_tcp PEN_TEX_FORMAT_D32_FLOAT_S8_UINT) 5 false renderer_init = .ok s0 ∧
      renderer_resolve_target (fun _ => (0, 0)) 5 (.other 0) {} s0 = .ok s1 ∧
      s1.dev.cmds = [.ResolveSubresource 7 0 2 0 PEN_TEX_FORMAT_D32_FLOAT_S8_UINT]) ∧
    (∃ s0 s1,
      renderer_create_render_target demo_env
        (demo_msaa_depth_tcp PEN_TEX_FORMAT_D24_UNORM_S8_UINT) 5 false renderer_init = .ok s0 ∧
      renderer_resolve_target (fun _ => (0, 0)) 5 (.other 0) {} s0 = .ok s1 ∧
      s1.dev.cmds = []) := by
  refine ⟨⟨_, _, ok_state_eq _ (by decide), ok_state_eq _ (by decide), by decide⟩,
    ⟨_, _, ok_state_eq _ (by decide), ok_state_eq _ (by decide), by decide⟩,
    ⟨_, _, ok_state_eq _ (by decide), ok_state_eq _ (by decide), by decide⟩⟩

/-! ## C7: what a release destroys -/

set_option maxRecDepth 100000 in
/-- C7 fails: from the state after `_res_pool.init`, in which no object is
live, a create at handle 5 followed by the release at handle 5 leaves live, for
a render target, the struct the slot points to and the array of write views
(also for a multisampled target with a read-back texture); for a structured
buffer, its unordered access view and its shader resource view; for a texture,
the struct the slot points to. A second create at handle 5 then overwrites the
pointer to the live struct. Only the clear state is destroyed by its release. -/
theorem C7_release_leaks :
    (∃ s1 s2,
      renderer_create_render_target demo_env demo_colour_tcp 5 false renderer_init = .ok s1 ∧
      renderer_release_render_target 5 s1 = .ok s2 ∧
      s2.dev.live = [(1, .heap_struct), (3, .view_array 1)] ∧
      ∃ s3, renderer_create_render_target demo_env demo_colour_tcp 5 false s2 = .ok s3 ∧
        s3.dev.live.take 2 = [(1, .heap_struct), (3, .view_array 1)] ∧
        union_pointer (s3.pool.slots 5).payload = 6) ∧
    (∃ s1 s2,
      renderer_create_render_target demo_env demo_msaa_read_back_tcp 5 false renderer_init =
        .ok s1 ∧
      renderer_release_render_target 5 s1 = .ok s2 ∧
      s2.dev.live = [(1, .heap_struct), (4, .view_array 1)]) ∧
    (∃ s1 s2,
      renderer_create_buffer demo_structured_buffer 5 renderer_init = .ok s1 ∧
      renderer_release_buffer 5 s1 = .ok s2 ∧
      s2.dev.live = [(2, .unordered_access_view 1),
        (3, .shader_resource_view 1 DXGI_FORMAT_UNKNOWN 11 none 0)]) ∧
    (∃ s1 s2,
      renderer_create_texture demo_colour_tcp 5 renderer_init = .ok s1 ∧
      renderer_release_texture 5 s1 = .ok s2 ∧
      s2.dev.live = [(1, .heap_struct)]) ∧
    (∃ s1 s2,
      renderer_create_clear_state (fun u => u) demo_clear_state 5 renderer_init = .ok s1 ∧
      renderer_release_clear_state 5 s1 = .ok s2 ∧
      s2.dev.live = []) := by
  refine ⟨⟨_, _, ok_state_eq _ (by decide), ok_state_eq _ (by decide), by decide,
      _, ok_state_eq _ (by decide), by decide, by decide⟩,
    ⟨_, _, ok_state_eq _ (by decide), ok_state_eq _ (by decide), by decide⟩,
    ⟨_, _, ok_state_eq _ (by decide), ok_state_eq _ (by decide), by decide⟩,
    ⟨_, _, ok_state_eq _ (by decide), ok_state_eq _ (by decide), by decide⟩,
    ⟨_, _, ok_state_eq _ (by decide), ok_state_eq _ (by decide), by decide⟩⟩

/-! ## C21: resolving a target without multisample data -/

/-- C21. A render target created by `renderer_create_render_target` (of a
descriptor that is not a volume) with a sample count of at most 1 holds no
multisample data: the member `tcp` of its struct is null. In every state in
which slot `h` is such a target, and for every resolve type other than
`RESOLVE_GENERATE_MIPS`, `renderer_resolve_target` returns the state it was
called in: it fails no assertion, issues no command (no resolve, no draw, no
target bind), acquires no object (no resolve surface) and leaves the resource
table and the context state as they were. -/
theorem C21_resolve_single_sample (env : shared_env) (tcp : texture_creation_params) (h : Nat)
    (track : Bool) (s s1 : renderer_state)
    (hv : tcp.collection_type ≠ .TEXTURE_COLLECTION_VOLUME) (hms : ¬ tcp.sample_count > 1)
    (hc : renderer_create_render_target env tcp h track s = .ok s1) :
    single_sample_target s1 h ∧
    ∀ (s2 : renderer_state) (ws : Int → Int × Int) (ty : e_msaa_resolve_type)
      (res : resolve_resources), single_sample_target s2 h → ty ≠ .RESOLVE_GENERATE_MIPS →
      renderer_resolve_target ws h ty res s2 = .ok s2 := by
  constructor
  · obtain ⟨rt, hb, -, hcap, hslots, -⟩ := create_render_target_slot env tcp h track s s1 hv hc
    obtain ⟨-, -, -, -, -, k6⟩ := build_render_target_fields _ _ _ _ _ hb
    refine ⟨hcap, s.dev.next_id, rt, ?_, (k6 hms).1⟩
    rw [hslots, array_set_same]
  · intro s2 ws ty res hs hty
    obtain ⟨hcap, ptr, rt, hp, ht⟩ := hs
    unfold renderer_resolve_target res_pool.get
    simp only [hcap, if_true, hty, if_false, hp, ht]

set_option maxRecDepth 100000 in
/-- Witness of C21: the colour target of sample count 1 created in slot 5, and a
fixed-function resolve of it. -/
theorem C21_resolve_single_sample_witness :
    renderer_resolve_target (fun _ => (0, 0)) 5 (.other 0) {} demo_single_created =
      .ok demo_single_created :=
  (C21_resolve_single_sample demo_env demo_colour_tcp 5 false renderer_init demo_single_created
    (by decide) (by decide) (ok_state_eq _ (by decide))).2 _ _ _ _
    (C21_resolve_single_sample demo_env demo_colour_tcp 5 false renderer_init demo_single_created
      (by decide) (by decide) (ok_state_eq _ (by decide))).1 (by decide)

/-- The commands of the MRT loop are colour clears. -/
theorem clear_mrt_upto_filter (s : renderer_state) (cs : clear_state_internal) (face : Nat) :
    ∀ (k : Nat) (cmds : List command), clear_mrt_upto s cs face k = .ok cmds →
      cmds.filter is_colour_clear = cmds := by
  intro k
  induction k with
  | zero =>
    intro cmds h
    simp only [clear_mrt_upto] at h
    cases h
    rfl
  | succ k ih =>
    intro cmds h
    simp only [clear_mrt_upto] at h
    split at h
    · cases h
    · rename_i c0 hc
      split at h
      · cases h
      · split at h
        · cases h
        · cases h
          rw [List.filter_append, ih c0 hc]
          rfl

/-! ## C27: a clear state without the colour flag -/

set_option maxRecDepth 100000 in
/-- Counterexample to C27 as stated: the clear state in slot 9 has no flag at
all and two explicit colour targets; with the colour targets 5 and 6 bound,
`renderer_clear` issues two colour clears. -/
theorem C27_counterexample :
    ∃ ptr cs s1, (demo_bound.pool.slots 9).payload = .clear_state ptr cs ∧
      has_bit cs.flags PEN_CLEAR_COLOUR_BUFFER = false ∧
      renderer_clear 9 0 0 demo_bound = .ok s1 ∧
      s1.dev.cmds = demo_bound.dev.cmds ++
        [.ClearRenderTargetView 4 [1, 2, 3, 4], .ClearRenderTargetView 9 [5, 6, 7, 8]] :=
  ⟨17, { flags := 0, num_colour_targets := 2, mrt := [{ f := [1, 2, 3, 4] }, { f := [5, 6, 7, 8] }] },
    _, by decide, by decide, ok_state_eq _ (by decide), by decide⟩

/-- C27, amended. For a clear state whose flags do not contain
`PEN_CLEAR_COLOUR_BUFFER`, and for every context state: when `renderer_clear`
returns, the colour clears among the commands it issued are those of the loop
over the explicit colour targets, `num_colour_targets` in number; so with
`num_colour_targets = 0` it issues no colour clear at all, and then it returns
whenever the depth target it is to clear has a view for the face. -/
theorem C27_no_colour_flag (clear_state_index colour_face depth_face ptr : Nat)
    (cs : clear_state_internal) (s : renderer_state)
    (hslot : clear_state_index < s.pool.capacity ∧
      (s.pool.slots clear_state_index).payload = .clear_state ptr cs)
    (hflag : has_bit cs.flags PEN_CLEAR_COLOUR_BUFFER = false) :
    (∀ s1, renderer_clear clear_state_index colour_face depth_face s = .ok s1 →
      ∃ new : List command, s1.dev.cmds = s.dev.cmds ++ new ∧
        (new.filter is_colour_clear).length = cs.num_colour_targets ∧
        (cs.num_colour_targets = 0 → new.filter is_colour_clear = [])) ∧
    (cs.num_colour_targets = 0 →
      (clear_d3d_flags cs.flags ≠ 0 ∧ s.ctx.active_depth_target ≠ 0 →
        ∃ v, target_view s.pool s.ctx.active_depth_target depth_face = .ok v) →
      ∃ s1, renderer_clear clear_state_index colour_face depth_face s = .ok s1) := by
  have hne : ¬ (has_bit cs.flags PEN_CLEAR_COLOUR_BUFFER = true ∧ cs.num_colour_targets = 0) := by
    rw [hflag]
    exact fun h => Bool.noConfusion h.1
  constructor
  · intro s1 h
    obtain ⟨ptr1, cs1, colour, mrt, depth, -, hp, h1, h2, h3, e⟩ :=
      renderer_clear_spec _ _ _ _ _ h
    rw [hslot.2] at hp
    cases hp
    rw [if_neg hne] at h1
    cases h1
    have hf : ([] ++ mrt ++ depth).filter is_colour_clear = mrt := by
      rw [List.nil_append, List.filter_append, clear_mrt_upto_filter _ _ _ _ _ h2,
        clear_depth_no_colour _ _ _ _ h3, List.append_nil]
    have hl := (clear_mrt_upto_spec _ _ _ _ _ h2).1
    refine ⟨[] ++ mrt ++ depth, by rw [e], by rw [hf, hl], fun hz => ?_⟩
    rw [hf]
    rw [hz] at hl
    exact List.eq_nil_of_length_eq_zero hl
  · intro hz hd
    obtain ⟨depth, h3⟩ := clear_depth_ok s cs depth_face hd
    exact renderer_clear_ok clear_state_index colour_face depth_face ptr cs s hslot.1 hslot.2
      [] [] depth (by rw [if_neg hne]) (by rw [hz]; rfl) h3

set_option maxRecDepth 100000 in
/-- Witness of C27 as amended: the clear state in slot 9, which has no flag and
two explicit colour targets, with the colour targets 5 and 6 bound. -/
theorem C27_no_colour_flag_witness :
    ∃ s1 new, renderer_clear 9 0 0 demo_bound = .ok s1 ∧
      s1.dev.cmds = demo_bound.dev.cmds ++ new ∧ (new.filter is_colour_clear).length = 2 := by
  have h := C27_no_colour_flag 9 0 0 17
    { flags := 0, num_colour_targets := 2, mrt := [{ f := [1, 2, 3, 4] }, { f := [5, 6, 7, 8] }] }
    demo_bound ⟨by decide, by decide⟩ (by decide)
  obtain ⟨new, e, hl, -⟩ := h.1 _ (ok_state_eq (renderer_clear 9 0 0 demo_bound) (by decide))
  exact ⟨_, new, ok_state_eq _ (by decide), e, hl⟩

/-! ## C28: the handles `renderer_clear` reads -/

set_option maxRecDepth 100000 in
/-- C28 fails, in both parts. (1) After a depth-only bind (one colour handle,
`PEN_INVALID_HANDLE`, and the depth target 7) the context records the null handle
0 at index 0; `renderer_clear` with the clear state of `basic_texture.cpp` (colour
and depth, no explicit targets) then reads the struct of slot 0, which is the null
pointer: the model's out-of-bounds fault. (2) After binding the colour targets 5
and 6 and then the colour target 5 alone, `num_active_colour_targets` is 1 and
entry 1 still holds 6; `renderer_clear` with a clear state of two explicit colour
targets clears the view of target 6 (object 9) through that stale entry. -/
theorem C28_clear_null_and_stale :
    (renderer_set_targets [PEN_INVALID_HANDLE] 1 7 0 0 demo_created = .ok demo_depth_only ∧
      demo_depth_only.ctx.num_active_colour_targets = 1 ∧
      demo_depth_only.ctx.active_colour_target[0]? = some 0 ∧
      (demo_depth_only.pool.slots 0).payload = .empty ∧
      bound_colour_view demo_depth_only 0 0 = .error fault.out_of_bounds ∧
      fault_of (renderer_clear 8 0 0 demo_depth_only) = some fault.out_of_bounds) ∧
    (renderer_set_targets [5] 1 7 0 0 demo_bound = .ok demo_rebound ∧
      demo_rebound.ctx.num_active_colour_targets = 1 ∧
      demo_rebound.ctx.active_colour_target[1]? = some 6 ∧
      target_view demo_rebound.pool 6 0 = .ok 9 ∧
      ∃ s1, renderer_clear 9 0 0 demo_rebound = .ok s1 ∧
        s1.dev.cmds = demo_rebound.dev.cmds ++
          [.ClearRenderTargetView 4 [1, 2, 3, 4], .ClearRenderTargetView 9 [5, 6, 7, 8]]) :=
  ⟨⟨ok_state_eq _ (by decide), by decide, by decide, by decide, by decide, by decide⟩,
    ok_state_eq _ (by decide), by decide, by decide, by decide, _, ok_state_eq _ (by decide),
    by decide⟩

/-! ## C30: the format of the fixed-function resolve -/

theorem ite_ok_ok {c : Prop} [Decidable c] {a d : Nat} {x : Except fault Nat}
    (h : (if c then .ok a else x) = .ok d) : (c ∧ a = d) ∨ x = .ok d := by
  split at h
  · cases h
    exact Or.inl ⟨by assumption, rfl⟩
  · exact Or.inr h

/-- No pixel format has the number of the native format it is translated to. -/
theorem to_d3d11_texture_format_ne (f d : Nat) (h : to_d3d11_texture_format f = .ok d) :
    d ≠ f := by
  unfold to_d3d11_texture_format at h
  iterate 17
    rcases ite_ok_ok h with ⟨hc, ha⟩ | h
    · subst hc
      subst ha
      decide
  cases h

set_option maxRecDepth 100000 in
/-- C30 fails: the multisampled colour target 5 is created from a descriptor of
pixel format `PEN_TEX_FORMAT_RGBA8_UNORM`, which `to_d3d11_texture_format`
translates to `DXGI_FORMAT_R8G8B8A8_UNORM` (28), the format of its multisampled
texture (object 2) and of its resolve surface (object 7). The fixed-function
resolve of `renderer_resolve_target` passes the member `format` of the struct,
which holds the number of the pixel format itself: 1. No pixel format has the
number of the native format it is translated to. -/
theorem C30_resolve_format :
    to_d3d11_texture_format demo_msaa_tcp.format = .ok DXGI_FORMAT_R8G8B8A8_UNORM ∧
    ∃ s1, renderer_resolve_target (fun _ => (0, 0)) 5 (.other 0) {} demo_msaa_created = .ok s1 ∧
      s1.dev.cmds = demo_msaa_created.dev.cmds ++
        [.ResolveSubresource 7 0 2 0 PEN_TEX_FORMAT_RGBA8_UNORM] ∧
      PEN_TEX_FORMAT_RGBA8_UNORM ≠ DXGI_FORMAT_R8G8B8A8_UNORM ∧
      (∃ o, (2, o) ∈ s1.dev.live ∧ o = .texture2d DXGI_FORMAT_R8G8B8A8_UNORM 0 40 0 0 1 1 4) ∧
      (∃ o, (7, o) ∈ s1.dev.live ∧ o = .texture2d DXGI_FORMAT_R8G8B8A8_UNORM 0 40 0 0 1 1 1) ∧
      ∀ f d, to_d3d11_texture_format f = .ok d → d ≠ f :=
  ⟨by decide, _, ok_state_eq _ (by decide), by decide, by decide,
    ⟨_, by decide, rfl⟩, ⟨_, by decide, rfl⟩, to_d3d11_texture_format_ne⟩

/-! ## C29: the translation of blend factors -/

/-- C29 fails on two enumerators. `to_d3d11_blend_factor` has no case for
`PEN_BLEND_DEST_COLOR` and fails the assertion on it; its case for
`PEN_BLEND_INV_DEST_COLOR` returns `D3D11_BLEND_DEST_COLOR`; no enumerator is
translated to `D3D11_BLEND_INV_DEST_COLOR`. On the other fifteen enumerators it
returns the constant of the same name, and where it returns it is injective. -/
theorem C29_blend_factor :
    to_d3d11_blend_factor PEN_BLEND_DEST_COLOR = .error fault.assertion ∧
    to_d3d11_blend_factor PEN_BLEND_INV_DEST_COLOR = .ok D3D11_BLEND_DEST_COLOR ∧
    D3D11_BLEND_DEST_COLOR ≠ D3D11_BLEND_INV_DEST_COLOR ∧
    (∀ x, to_d3d11_blend_factor x ≠ .ok D3D11_BLEND_INV_DEST_COLOR) ∧
    (∀ p ∈ blend_factor_names, p.1 ≠ PEN_BLEND_DEST_COLOR → p.1 ≠ PEN_BLEND_INV_DEST_COLOR →
      to_d3d11_blend_factor p.1 = .ok p.2) ∧
    (∀ x y d, to_d3d11_blend_factor x = .ok d → to_d3d11_blend_factor y = .ok d → x = y) := by
  refine ⟨by decide, by decide, by decide, ?_, by decide, ?_⟩
  · intro x h
    unfold to_d3d11_blend_factor at h
    iterate 16
      rcases ite_ok_ok h with ⟨-, ha⟩ | h
      · revert ha
        decide
    cases h
  · intro x y d hx hy
    unfold to_d3d11_blend_factor at hx
    iterate 16
      rcases ite_ok_ok hx with ⟨hc, ha⟩ | hx
      · subst hc
        subst ha
        unfold to_d3d11_blend_factor at hy
        iterate 16
          rcases ite_ok_ok hy with ⟨hc, ha⟩ | hy
          · first
              | exact hc.symm
              | exact absurd ha (by decide)
        cases hy
    cases hx

/-! ## C22: growing the resource table before writing a slot -/

/-- C22 fails for `renderer_link_shader_program`, which writes the slot without
a call of `grow`. In the state after `_res_pool.init(2048)` the handle 2048 is
outside the table: linking a shader program at it writes beyond the capacity
(the model's out-of-bounds fault), while `renderer_create_clear_state` at the
same handle grows the table to 2049 slots and returns. Inside the capacity the
link writes the slot it is given and no other. -/
theorem C22_link_shader_program_no_grow :
    renderer_init.pool.capacity = 2048 ∧
    fault_of (renderer_link_shader_program { input_layout := 3, vertex_shader := 4, pixel_shader := 5 }
      2048 renderer_init) = some fault.out_of_bounds ∧
    (∃ s1, renderer_create_clear_state (fun u => u) demo_clear_state 2048 renderer_init = .ok s1 ∧
      s1.pool.capacity = 2049) ∧
    (∀ (params : shader_link_params) (h : Nat) (s : renderer_state), h < s.pool.capacity →
      ∃ s1, renderer_link_shader_program params h s = .ok s1 ∧
        s1.pool.capacity = s.pool.capacity ∧
        (s1.pool.slots h).payload =
          .shader_program params.vertex_shader params.pixel_shader params.input_layout ∧
        ∀ x, x ≠ h → s1.pool.slots x = s.pool.slots x) ∧
    (∀ (params : shader_link_params) (h : Nat) (s : renderer_state), ¬ h < s.pool.capacity →
      fault_of (renderer_link_shader_program params h s) = some fault.out_of_bounds) := by
  refine ⟨rfl, by decide, ⟨_, ok_state_eq _ (by decide), by decide⟩, ?_, ?_⟩
  · intro params h s hc
    let sp : resource_payload :=
      .shader_program params.vertex_shader params.pixel_shader params.input_layout
    let slots := array_set s.pool.slots h { s.pool.slots h with payload := sp }
    have e : renderer_link_shader_program params h s =
        .ok { s with pool := { s.pool with slots := slots } } := by
      unfold renderer_link_shader_program res_pool.get res_pool.set
      simp only [hc, if_true]
    refine ⟨_, e, ?_, ?_, ?_⟩
    · rfl
    · show (array_set s.pool.slots h _ h).payload = _
      rw [array_set_same]
    · intro x hx
      exact array_set_other _ _ _ _ hx
  · intro params h s hc
    unfold renderer_link_shader_program res_pool.get
    simp only [hc, if_false]
    rfl

theorem named_upto_iff (cts : List Nat) (n h : Nat) :
    named_upto cts n h ↔ (h ∈ cts.take n ∧ valid_handle h) := by
  unfold named_upto
  rw [List.mem_iff_getElem?]
  constructor
  · rintro ⟨i, hi, hc, hv⟩
    exact ⟨⟨i, by rw [List.getElem?_take_of_lt hi]; exact hc⟩, hv⟩
  · rintro ⟨⟨i, hi⟩, hv⟩
    by_cases hlt : i < n
    · rw [List.getElem?_take_of_lt hlt] at hi
      exact ⟨i, hlt, hi, hv⟩
    · rw [List.getElem?_take_eq_none (by omega)] at hi
      cases hi

theorem binds_iff (h : Nat) (cts : List Nat) (n d cf df : Nat) :
    binds h (.set_targets cts n d cf df) = true ↔ named_upto cts n h := by
  rw [named_upto_iff]
  simp [binds]

/-- The count of `GenerateMips` of a run on a render target with mips. -/
theorem target_run_mips (h : Nat) (h0 : h ≠ 0) :
    ∀ (ops : List target_op) (s s1 : renderer_state) (f : Nat),
      mip_target s h → invalidate_flag s h = some f → target_run h ops s = .ok s1 →
      ∃ new, s1.dev.cmds = s.dev.cmds ++ new ∧
        new.countP is_generate_mips = regenerations h (decide (f ≠ 0)) ops ∧
        mip_target s1 h := by
  intro ops
  induction ops with
  | nil =>
    intro s s1 f hm _ hr
    simp only [target_run] at hr
    cases hr
    exact ⟨[], by simp, rfl, hm⟩
  | cons op ops ih =>
    intro s s1 f hm hf hr
    simp only [target_run] at hr
    cases hstep : target_step h op s with
    | error e => simp [hstep] at hr
    | ok s2 =>
      simp only [hstep] at hr
      cases op with
      | set_targets cts n d cf df =>
        simp only [target_step] at hstep
        obtain ⟨m2, k1, k2⟩ := set_targets_mips cts n d cf df s s2 h hstep hm
        obtain ⟨views, dsv, hdev, -⟩ := set_targets_spec _ _ _ _ _ _ _ hstep
        by_cases hn : named_upto cts n h
        · obtain ⟨new, e, c, m⟩ := ih s2 s1 1 m2 (k1 hn) hr
          refine ⟨command.OMSetRenderTargets n views dsv :: new, ?_, ?_, m⟩
          · rw [e, hdev]
            simp [device.issue]
          · rw [List.countP_cons_of_neg _ _ (by simp [is_generate_mips]), c]
            simp only [regenerations, (binds_iff h cts n d cf df).2 hn, Bool.or_true]
            rfl
        · obtain ⟨new, e, c, m⟩ := ih s2 s1 f m2 (by rw [k2 hn]; exact hf) hr
          refine ⟨command.OMSetRenderTargets n views dsv :: new, ?_, ?_, m⟩
          · rw [e, hdev]
            simp [device.issue]
          · rw [List.countP_cons_of_neg _ _ (by simp [is_generate_mips]), c]
            have hb : binds h (.set_targets cts n d cf df) = false := by
              cases hx : binds h (.set_targets cts n d cf df)
              · rfl
              · exact absurd ((binds_iff h cts n d cf df).1 hx) hn
            simp only [regenerations, hb, Bool.or_false]
      | set_texture smp u bf =>
        simp only [target_step] at hstep
        obtain ⟨new2, f2, e2, hf2, c2, m2, z2, -, -⟩ := (set_texture_mips h smp u bf s h0 hm).2 s2 hstep
        rw [hf] at hf2
        cases hf2
        obtain ⟨new, e, c, m⟩ := ih s2 s1 0 m2 z2 hr
        refine ⟨new2 ++ new, ?_, ?_, m⟩
        · rw [e, e2, List.append_assoc]
        · rw [List.countP_append, c2, c]
          simp only [regenerations]
          by_cases hz : f = 0
          · simp [hz]
          · simp [hz]

/-- The commands `renderer_set_texture` issues after the block
`if (texture_index > 0)`: none is a `GenerateMips`, and the resource table is
left alone. -/
theorem set_texture_tail (h smp u : Nat) (bf : texture_bind_flags) (s s1 s2 : renderer_state)
    (srv uav : Nat) (hpos : h > 0) (e : set_texture_resource h bf s = .ok (s2, srv, uav))
    (hs1 : renderer_set_texture h smp u bf s = .ok s1) :
    ∃ tail, s1.dev.cmds = s2.dev.cmds ++ tail ∧ tail.countP is_generate_mips = 0 ∧
      s1.pool = s2.pool := by
  unfold renderer_set_texture at hs1
  simp only [hpos, if_true, e] at hs1
  split at hs1
  · cases hs1
  · rename_i sm hsmp
    cases hs1
    refine ⟨(if bf.ps = true then [command.PSSetSamplers u sm,
            command.PSSetShaderResources u srv] else []) ++
         (if bf.vs = true then [command.VSSetSamplers u sm,
            command.VSSetShaderResources u srv] else []) ++
         (if bf.cs = true then
            command.CSSetUnorderedAccessViews u uav ::
              (if uav = 0 then [command.CSSetShaderResources u srv] else [])
          else []), ?_, ?_, rfl⟩
    · simp only [List.append_assoc]
    · rw [List.countP_eq_zero]
      intro c hc
      simp only [List.mem_append] at hc
      rcases hc with (hc | hc) | hc
      · split at hc
        · simp only [List.mem_cons, List.mem_singleton, List.not_mem_nil, or_false] at hc
          rcases hc with e | e <;> subst e <;> simp [is_generate_mips]
        · cases hc
      · split at hc
        · simp only [List.mem_cons, List.mem_singleton, List.not_mem_nil, or_false] at hc
          rcases hc with e | e <;> subst e <;> simp [is_generate_mips]
        · cases hc
      · split at hc
        · simp only [List.mem_cons] at hc
          rcases hc with e | hc
          · subst e
            simp [is_generate_mips]
          · split at hc
            · simp only [List.mem_singleton] at hc
              subst hc
              simp [is_generate_mips]
            · cases hc
        · cases hc

/-- `renderer_set_texture` on a render target without mips issues no
`GenerateMips` and leaves the resource table alone. -/
theorem set_texture_plain (h smp u : Nat) (bf : texture_bind_flags) (s s1 : renderer_state)
    (h0 : h ≠ 0) (hp : plain_target s h)
    (hs1 : renderer_set_texture h smp u bf s = .ok s1) :
    ∃ new, s1.dev.cmds = s.dev.cmds ++ new ∧ new.countP is_generate_mips = 0 ∧
      s1.pool = s.pool := by
  obtain ⟨hc, ht, ptr, rt, hpl, hm⟩ := hp
  have e : ∃ srv uav, set_texture_resource h bf s = .ok (s, srv, uav) := by
    unfold set_texture_resource res_pool.get
    simp only [hc, if_true, hpl, texture_resource_of, ht, hm, Bool.false_and]
    exact ⟨_, _, rfl⟩
  obtain ⟨srv, uav, e⟩ := e
  exact set_texture_tail h smp u bf s s1 s srv uav (Nat.pos_of_ne_zero h0) e hs1

/-- `renderer_set_targets` keeps a render target without mips as it is, but for
what it writes through the union member `depth_target`. -/
theorem set_targets_plain (cts : List Nat) (n d cf df : Nat) (s s1 : renderer_state)
    (h : Nat) (hs : renderer_set_targets cts n d cf df s = .ok s1) (hp : plain_target s h) :
    plain_target s1 h ∧ invalidate_flag s1 h = invalidate_flag s h := by
  obtain ⟨views, dsv, -, -, -, -, -, -, -, -, -, hcap, hslots⟩ := set_targets_spec _ _ _ _ _ _ _ hs
  obtain ⟨r, h1, h2, h3⟩ := hslots h
  obtain ⟨hc, ht, ptr, rt, hpl, hm⟩ := hp
  have hr : r = s.pool.slots h := by
    by_cases hn : named_upto cts n h
    · rw [h1 hn]
      unfold touch_colour
      rw [hpl]
      simp only [hm]
      rfl
    · exact h2 hn
  subst hr
  unfold plain_target invalidate_flag
  rw [h3, hcap]
  split
  · unfold touch_depth
    rw [hpl]
    simp only
    split
    · exact ⟨⟨hc, ht, ptr, _, rfl, hm⟩, by simp only [slot_invalidate, hpl]⟩
    · exact ⟨⟨hc, ht, ptr, rt, hpl, hm⟩, rfl⟩
  · exact ⟨⟨hc, ht, ptr, rt, hpl, hm⟩, rfl⟩

/-- A run on a render target without mips issues no `GenerateMips` and leaves
its dirty flag as it is. -/
theorem target_run_plain (h : Nat) (h0 : h ≠ 0) :
    ∀ (ops : List target_op) (s s1 : renderer_state),
      plain_target s h → target_run h ops s = .ok s1 →
      ∃ new, s1.dev.cmds = s.dev.cmds ++ new ∧ new.countP is_generate_mips = 0 ∧
        invalidate_flag s1 h = invalidate_flag s h := by
  intro ops
  induction ops with
  | nil =>
    intro s s1 _ hr
    simp only [target_run] at hr
    cases hr
    exact ⟨[], by simp, rfl, rfl⟩
  | cons op ops ih =>
    intro s s1 hp hr
    simp only [target_run] at hr
    cases hstep : target_step h op s with
    | error e => simp [hstep] at hr
    | ok s2 =>
      simp only [hstep] at hr
      cases op with
      | set_targets cts n d cf df =>
        simp only [target_step] at hstep
        obtain ⟨p2, f2⟩ := set_targets_plain cts n d cf df s s2 h hstep hp
        obtain ⟨views, dsv, hdev, -⟩ := set_targets_spec _ _ _ _ _ _ _ hstep
        obtain ⟨new, e, c, f⟩ := ih s2 s1 p2 hr
        refine ⟨command.OMSetRenderTargets n views dsv :: new, ?_, ?_, by rw [f, f2]⟩
        · rw [e, hdev]
          simp [device.issue]
        · rw [List.countP_cons_of_neg _ _ (by simp [is_generate_mips]), c]
      | set_texture smp u bf =>
        simp only [target_step] at hstep
        obtain ⟨new2, e2, c2, hpool⟩ := set_texture_plain h smp u bf s s2 h0 hp hstep
        have p2 : plain_target s2 h := by
          unfold plain_target
          rw [hpool]
          exact hp
        obtain ⟨new, e, c, f⟩ := ih s2 s1 p2 hr
        refine ⟨new2 ++ new, ?_, ?_, ?_⟩
        · rw [e, e2, List.append_assoc]
        · rw [List.countP_append, c2, c]
        · rw [f]
          unfold invalidate_flag
          rw [hpool]

/-- A render target created with an effective mip count of at most 1 is a render
target without mips whose dirty flag is 0. -/
theorem create_render_target_plain (env : shared_env) (tcp : texture_creation_params)
    (h : Nat) (track : Bool) (s s1 : renderer_state)
    (hv : tcp.collection_type ≠ .TEXTURE_COLLECTION_VOLUME)
    (hmips : ¬ effective_num_mips env tcp > 1)
    (hc : renderer_create_render_target env tcp h track s = .ok s1) :
    plain_target s1 h ∧ invalidate_flag s1 h = some 0 := by
  obtain ⟨rt, hb, -, hcap, hslots, -⟩ := create_render_target_slot env tcp h track s s1 hv hc
  obtain ⟨k1, k2, -⟩ := build_render_target_fields _ _ _ _ _ hb
  unfold plain_target invalidate_flag
  rw [hslots, array_set_same]
  refine ⟨⟨hcap, rfl, _, rt, rfl, ?_⟩, ?_⟩
  · rw [k2]
    exact decide_eq_false hmips
  · simp only [slot_invalidate, k1]

/-! ## C23: lazy mip generation over a sequence of calls -/

/-- C23. Let a render target be created by `renderer_create_render_target` (of a
descriptor that is not a volume) at a handle `h` that is neither 0 nor
`PEN_INVALID_HANDLE`, and let `ops` be any sequence of calls of
`renderer_set_targets` (with any arguments) and of `renderer_set_texture` on `h`
that returns. If the effective mip count is above 1, the number of
`GenerateMips` the sequence issues is the number of its `renderer_set_texture`
calls that were preceded by at least one `renderer_set_targets` naming `h` as a
colour target since the previous `renderer_set_texture` (or since the creation);
in particular a `renderer_set_texture` with no such bind since the previous one
issues none. If the effective mip count is at most 1, the sequence issues no
`GenerateMips` and the dirty flag is 0 after it. -/
theorem C23_lazy_mip_generation (env : shared_env) (tcp : texture_creation_params) (h : Nat)
    (track : Bool) (ops : List target_op) (s0 s s1 : renderer_state)
    (hkind : tcp.collection_type ≠ .TEXTURE_COLLECTION_VOLUME)
    (hh : valid_handle h)
    (hc : renderer_create_render_target env tcp h track s0 = .ok s)
    (hr : target_run h ops s = .ok s1) :
    ∃ new, s1.dev.cmds = s.dev.cmds ++ new ∧
      (effective_num_mips env tcp > 1 →
        new.countP is_generate_mips = regenerations h false ops) ∧
      (¬ effective_num_mips env tcp > 1 →
        new.countP is_generate_mips = 0 ∧ invalidate_flag s1 h = some 0) := by
  by_cases hm : effective_num_mips env tcp > 1
  · obtain ⟨m1, f1⟩ := create_render_target_mips env tcp h track s0 s hkind hm hc
    obtain ⟨new, e, c, -⟩ := target_run_mips h hh.1 ops s s1 0 m1 f1 hr
    exact ⟨new, e, fun _ => c, fun hn => absurd hm hn⟩
  · obtain ⟨p1, f1⟩ := create_render_target_plain env tcp h track s0 s hkind hm hc
    obtain ⟨new, e, c, f⟩ := target_run_plain h hh.1 ops s s1 p1 hr
    exact ⟨new, e, fun hn => absurd hn hm, fun _ => ⟨c, by rw [f, f1]⟩⟩

set_option maxRecDepth 100000 in
/-- Witness of C23: the colour target with 4 mips created in slot 5, after the
targets 6 and 7, and nine calls: of the five reads, the first follows no bind,
the second follows two binds, the third follows the second, the fourth follows a
bind of target 6 alone and the fifth a bind of 6 and 5; two reads regenerate the
mips. -/
theorem C23_lazy_mip_generation_witness :
    ∃ s1 new, target_run 5 demo_target_ops demo_mip_created = .ok s1 ∧
      s1.dev.cmds = demo_mip_created.dev.cmds ++ new ∧ new.countP is_generate_mips = 2 := by
  have hc : renderer_create_render_target demo_env demo_colour_tcp 5 false demo_two_created =
      .ok demo_mip_created := ok_state_eq _ (by decide)
  have hr := ok_state_eq (target_run 5 demo_target_ops demo_mip_created) (by decide)
  obtain ⟨new, e, c, -⟩ := C23_lazy_mip_generation demo_env demo_colour_tcp 5 false
    demo_target_ops demo_two_created demo_mip_created _ (by decide) (by decide) hc hr
  exact ⟨_, new, hr, e, c (by decide)⟩

theorem is_live_of_mem (d : device) (id : Nat) (o : gpu_object) (h : (id, o) ∈ d.live) :
    d.is_live id = true := by
  unfold device.is_live
  rw [List.any_eq_true]
  exact ⟨(id, o), h, by simp⟩

theorem is_live_release (d d1 : device) (id x : Nat) (h : d.release id = .ok d1)
    (hx : x ≠ id) : d1.is_live x = d.is_live x := by
  unfold device.release at h
  split at h
  · cases h
    unfold device.is_live
    simp only [List.any_filter]
    congr 1
    funext e
    by_cases he : e.1 = x
    · simp [he, hx]
    · simp [he]
  · cases h

theorem release_ok (d : device) (id : Nat) (h : d.is_live id = true) :
    ∃ d1, d.release id = .ok d1 := by
  unfold device.release
  rw [if_pos h]
  exact ⟨_, rfl⟩

theorem back_buffer_struct_colour (d : device) (p : resource_payload)
    (h : p = .empty ∨ ∃ ptr rt, p = .render_target ptr rt) :
    ∃ d1 ptr, back_buffer_struct d p false = .ok (d1, ptr) := by
  rcases h with h | ⟨ptr, rt, h⟩ <;> subst h <;> exact ⟨_, _, rfl⟩

theorem back_buffer_struct_depth (d : device) (p : resource_payload)
    (h : p = .empty ∨ (∃ ptr dt, p = .depth_target ptr dt) ∨ ∃ ptr rt, p = .render_target ptr rt) :
    ∃ d1 ptr, back_buffer_struct d p true = .ok (d1, ptr) := by
  rcases h with h | ⟨ptr, rt, h⟩ | ⟨ptr, rt, h⟩ <;> subst h <;> exact ⟨_, _, rfl⟩

/-- What `create_rtvs` with the reserved handles establishes. -/
theorem create_rtvs_spec (env : swap_chain_env) (w h : Nat) (s : renderer_state)
    (hr : back_buffer_ready s) :
    ∃ s1, create_rtvs env PEN_BACK_BUFFER_COLOUR PEN_BACK_BUFFER_DEPTH w h s = .ok s1 ∧
      back_buffer_slots s1 ∧ back_buffer_bound s1 ∧
      s1.ctx.active_colour_target.length = MAX_MRT ∧
      s1.ctx.depth_stencil_state = s.ctx.depth_stencil_state ∧
      s1.ctx.stencil_ref = s.ctx.stencil_ref := by
  obtain ⟨hc, h1, h2, hl⟩ := hr
  obtain ⟨d1, ptr, e1⟩ := back_buffer_struct_colour s.dev _ h1
  obtain ⟨d2, dptr, e2⟩ := back_buffer_struct_depth d1 _ h2
  have hc1 : 1 < s.pool.capacity := by omega
  have hl0 : 0 < s.ctx.active_colour_target.length := by rw [hl]; decide
  have e21 : array_set s.pool.slots 1
      { type := RES_RENDER_TARGET, payload := .render_target ptr {} } 2 = s.pool.slots 2 :=
    array_set_other _ _ _ _ (by decide)
  unfold create_rtvs
  simp only [PEN_BACK_BUFFER_COLOUR, PEN_BACK_BUFFER_DEPTH, ne_eq, not_true_eq_false, if_false,
    res_pool.get, res_pool.set, hc, hc1, if_true, e1, e21, e2, device.acquire, hl0]
  refine ⟨_, rfl, ⟨hc, rfl, rfl, ?_, ?_⟩, ⟨rfl, ?_, rfl⟩, ?_, rfl, rfl⟩
  · simp [array_set]
  · refine ⟨ptr,
      { tex := { texture := d2.next_id + 2 }
        rt := some { id := d2.next_id, views := [some (d2.next_id + 3)] }
        format := env.format, msaa_resolve_readback := true
        tex_resolve := { texture := d2.next_id + 4 }
        tex_read_back := { texture := d2.next_id + 5 } },
      { id := d2.next_id, views := [some (d2.next_id + 3)] }, d2.next_id + 3, dptr,
      { tex := { texture := d2.next_id + 6 }
        ds := some { id := d2.next_id + 1, views := [some (d2.next_id + 7)] } },
      { id := d2.next_id + 1, views := [some (d2.next_id + 7)] }, d2.next_id + 7,
      ?_, rfl, rfl, rfl, ?_, rfl, rfl, rfl, ⟨env.format, ?_⟩,
      ⟨DXGI_FORMAT_D24_UNORM_S8_UINT, ?_⟩, ?_, ?_, ?_⟩
    · simp [array_set]
    · simp [array_set]
    · simp [device.issue]
    · simp [device.issue]
    · simp [device.issue, device.is_live]
    · simp [device.issue, device.is_live]
    · simp
  · simp [hl0, PEN_BACK_BUFFER_COLOUR]
  · simp [hl]

theorem release_back_buffer_ok (d : device) (r : resource_allocation) (a : view_array)
    (m : Option view_array) (v : Nat) (t : texture_resource)
    (hw : write_views r = .ok (some a, m)) (ha : a.views = [some v])
    (ht : texture_resource_of r.payload = .ok t)
    (hv : d.is_live v = true) (htex : d.is_live t.texture = true) (hne : t.texture ≠ v) :
    ∃ d1, release_back_buffer d r = .ok d1 ∧
      ∀ x, x ≠ v → x ≠ t.texture → d1.is_live x = d.is_live x := by
  obtain ⟨d1, e1⟩ := release_ok d v hv
  have l1 := is_live_release d d1 v
  obtain ⟨d2, e2⟩ := release_ok d1 t.texture (by rw [l1 _ e1 hne]; exact htex)
  refine ⟨d2, ?_, ?_⟩
  · unfold release_back_buffer
    simp only [hw, view_at, ha, List.getElem?_cons_zero, e1, ht, e2]
  · intro x hx1 hx2
    rw [is_live_release d1 d2 t.texture x e2 hx2, l1 x e1 hx1]

/-- What a resize in `renderer_new_frame` does to a state in which the back
buffer is established. -/
theorem new_frame_resize (env : swap_chain_env) (w h : Nat) (s : renderer_state)
    (hs : back_buffer_slots s) (hl : s.ctx.active_colour_target.length = MAX_MRT) :
    ∃ s1, renderer_new_frame env true w h s = .ok s1 ∧
      back_buffer_slots s1 ∧ back_buffer_bound s1 ∧
      s1.ctx.active_colour_target.length = MAX_MRT ∧
      s1.ctx.depth_stencil_state = s.ctx.depth_stencil_state ∧
      s1.ctx.stencil_ref = s.ctx.stencil_ref := by
  obtain ⟨hc, hbc, hbd, -, ptr, rt, ac, vc, dptr, dt, ad, vd, hp1, hrt, hac, hrm, hp2, hds, had,
    hdm, ⟨fc, hvc⟩, ⟨fd, hvd⟩, htc, htd, hnd⟩ := hs
  have hc1 : 1 < s.pool.capacity := by omega
  simp only [List.nodup_cons, List.mem_cons, List.mem_singleton, not_or, List.not_mem_nil,
    not_false_eq_true, List.nodup_nil, and_true] at hnd
  obtain ⟨⟨n1, n2, n3⟩, ⟨n4, n5⟩, n6⟩ := hnd
  obtain ⟨d1, e1, l1⟩ := release_back_buffer_ok (s.dev.issue (.OMSetRenderTargets 0 [] 0))
    (s.pool.slots 2) ad dt.ds_msaa vd dt.tex
    (by simp only [write_views, hp2, hds]) had (by simp only [texture_resource_of, hp2])
    (is_live_of_mem s.dev _ _ hvd) htd (Ne.symm n6)
  obtain ⟨d2, e2, -⟩ := release_back_buffer_ok d1
    (s.pool.slots 1) ac rt.rt_msaa vc rt.tex
    (by simp only [write_views, hp1, hrt]) hac (by simp only [texture_resource_of, hp1])
    (by rw [l1 vc n2 n3]; exact is_live_of_mem s.dev _ _ hvc)
    (by rw [l1 _ n4 n5]; exact htc) (Ne.symm n1)
  have hready : back_buffer_ready { s with dev := d2 } :=
    ⟨hc, Or.inr ⟨ptr, rt, hp1⟩, Or.inr (Or.inl ⟨dptr, dt, hp2⟩), hl⟩
  obtain ⟨s1, k1, k2, k3, k4, k5, k6⟩ := create_rtvs_spec env w h _ hready
  refine ⟨s1, ?_, k2, k3, k4, k5, k6⟩
  unfold renderer_new_frame
  simp only [if_true, hbc, hbd, res_pool.get, PEN_BACK_BUFFER_COLOUR, PEN_BACK_BUFFER_DEPTH,
    hc, hc1, e1, e2]
  exact k1

/-! ## C25: the reserved handles of the back buffer -/

/-- C25. `create_rtvs` fails an assertion unless its colour handle is
`PEN_BACK_BUFFER_COLOUR` (1) and its depth handle is `PEN_BACK_BUFFER_DEPTH` (2).
With these handles, in a table of more than two slots whose slots 1 and 2 are
unused or hold an earlier back buffer (the state after `_res_pool.init` is such
a state), it returns, and then: slot 1 is tagged `RES_RENDER_TARGET` and its
array of colour write views has exactly one entry, a render target view of its
texture, with no multisample array; slot 2 holds a depth struct whose array of
depth write views has exactly one entry, a depth-stencil view of its texture,
with no multisample array; and the context records
`num_active_colour_targets = 1`, `active_colour_target[0] = 1`,
`active_depth_target = 2`, `backbuffer_colour = 1` and `backbuffer_depth = 2`.
A resize in `renderer_new_frame`, in a state in which the back buffer is so
established (whatever targets are bound), returns and establishes the same
again; without the resize flag `renderer_new_frame` changes nothing. -/
theorem C25_back_buffer :
    (∀ (env : swap_chain_env) (crtv dsv w h : Nat) (s : renderer_state),
      ¬ (crtv = PEN_BACK_BUFFER_COLOUR ∧ dsv = PEN_BACK_BUFFER_DEPTH) →
      fault_of (create_rtvs env crtv dsv w h s) = some fault.assertion) ∧
    (∀ (env : swap_chain_env) (w h : Nat) (s : renderer_state), back_buffer_ready s →
      ∃ s1, create_rtvs env PEN_BACK_BUFFER_COLOUR PEN_BACK_BUFFER_DEPTH w h s = .ok s1 ∧
        back_buffer_slots s1 ∧ back_buffer_bound s1 ∧
        s1.ctx.active_colour_target.length = MAX_MRT) ∧
    back_buffer_ready renderer_init ∧
    (∀ (env : swap_chain_env) (w h : Nat) (s : renderer_state),
      back_buffer_slots s → s.ctx.active_colour_target.length = MAX_MRT →
      ∃ s1, renderer_new_frame env true w h s = .ok s1 ∧
        back_buffer_slots s1 ∧ back_buffer_bound s1 ∧
        s1.ctx.active_colour_target.length = MAX_MRT) ∧
    (∀ (env : swap_chain_env) (w h : Nat) (s : renderer_state),
      renderer_new_frame env false w h s = .ok s) := by
  refine ⟨?_, ?_, ?_, ?_, fun _ _ _ _ => rfl⟩
  · intro env crtv dsv w h s hn
    unfold create_rtvs
    by_cases h1 : crtv = PEN_BACK_BUFFER_COLOUR
    · have h2 : dsv ≠ PEN_BACK_BUFFER_DEPTH := fun h2 => hn ⟨h1, h2⟩
      simp only [h1, ne_eq, not_true_eq_false, if_false, h2, not_false_eq_true, if_true]
      rfl
    · simp only [ne_eq, h1, not_false_eq_true, if_true]
      rfl
  · intro env w h s hr
    obtain ⟨s1, k1, k2, k3, k4, -⟩ := create_rtvs_spec env w h s hr
    exact ⟨s1, k1, k2, k3, k4⟩
  · exact ⟨by decide, Or.inl rfl, Or.inl rfl, rfl⟩
  · intro env w h s hs hl
    obtain ⟨s1, k1, k2, k3, k4, -⟩ := new_frame_resize env w h s hs hl
    exact ⟨s1, k1, k2, k3, k4⟩

/-- The slots of the current buffer after the first step of `insert_marker`, at
or behind the position, are unused. -/
theorem markers_alloc_unused (s : perf_state) (hi : ring_inv s) (i : Nat) (m : perf_marker)
    (hm : (markers_alloc s)[i]? = some m) (hp : s.s_perf.pos s.s_perf.buf ≤ i) :
    m.issued = 0 := by
  by_cases hlt : i < (s.s_perf.markers s.s_perf.buf).length
  · rw [markers_alloc_getElem?_of_lt s i hlt] at hm
    exact (hi s.s_perf.buf).2 i m hm hp
  · obtain ⟨e, -, -⟩ := markers_alloc_getElem?_ge s i m (by omega) hm
    rw [e]

theorem markers_alloc_length_ge (s : perf_state) (hi : ring_inv s) :
    s.s_perf.pos s.s_perf.buf + 1 ≤ (markers_alloc s).length ∨
      (s.s_perf.pos s.s_perf.buf < (s.s_perf.markers s.s_perf.buf).length ∧
        (markers_alloc s).length = (s.s_perf.markers s.s_perf.buf).length) := by
  rw [markers_alloc_length]
  have := (hi s.s_perf.buf).1
  split
  · left
    omega
  · right
    exact ⟨by omega, rfl⟩

theorem push_ring_inv (name : Option String) (s s1 : perf_state) (hi : ring_inv s)
    (h : renderer_push_perf_marker name s = .ok s1) : ring_inv s1 := by
  by_cases h0 : s.s_frame = 0
  · simp only [renderer_push_perf_marker, h0, if_true] at h
    cases h
    exact hi
  · obtain ⟨m, hm, hz, rfl⟩ := (push_ok_iff name s s1 h0).mp h
    intro b
    by_cases hb : b = s.s_perf.buf
    · subst hb
      simp only [push_state, array_set_same, List.length_set]
      constructor
      · rcases markers_alloc_length_ge s hi with hl | ⟨hl, -⟩
        · exact hl
        · have := markers_alloc_length s
          split at this <;> omega
      · intro i m1 hm1 hp
        rw [List.getElem?_set_ne (by omega)] at hm1
        exact markers_alloc_unused s hi i m1 hm1 (by omega)
    · simp only [push_state, array_set_other _ _ _ _ hb]
      exact hi b

theorem pop_ring_inv (s s1 : perf_state) (hi : ring_inv s)
    (h : renderer_pop_perf_marker s = .ok s1) : ring_inv s1 := by
  by_cases h0 : s.s_frame = 0
  · simp only [renderer_pop_perf_marker, insert_marker, dec_depth, h0, if_true] at h
    cases h
    exact hi
  · obtain ⟨st1, p, m, -, hm, h1, rfl⟩ := (pop_ok_iff s s1 h0).mp h
    intro b
    by_cases hb : b = s.s_perf.buf
    · subst hb
      simp only [pop_state, array_set_same, List.length_set]
      constructor
      · have hl := markers_alloc_length s
        have := (hi s.s_perf.buf).1
        split at hl <;> omega
      · intro i m1 hm1 hp
        have hpi : i ≠ p := by
          intro e
          subst e
          have := markers_alloc_unused s hi i m hm hp
          omega
        rw [List.getElem?_set_ne (Ne.symm hpi)] at hm1
        exact markers_alloc_unused s hi i m1 hm1 hp
    · simp only [pop_state, array_set_other _ _ _ _ hb]
      exact hi b

theorem gather_ring_inv (o : query_oracle) (s s1 : perf_state) (hi : ring_inv s)
    (h : gather_perf_markers o s = .ok s1) : ring_inv s1 := by
  by_cases h0 : s.s_frame = 0
  · simp only [gather_perf_markers, h0, if_true] at h
    cases h
    exact hi
  · obtain ⟨-, -, -, -, k5, k6, k7⟩ := gather_slots o s s1 h0 h
    intro b
    by_cases hb : b < 5
    · cases hd : o.disjoint b with
      | none =>
        obtain ⟨e1, e2⟩ := gather_not_ready o s s1 h b hd
        rw [e1, e2]
        exact hi b
      | some d =>
        obtain ⟨g1, g2, -⟩ := gather_ready_buffer o s s1 h0 h b hb d hd
        have hslot : ∀ i m1, (s1.s_perf.markers b)[i]? = some m1 →
            ∃ m, (s.s_perf.markers b)[i]? = some m ∧
              m1 = gathered o b (some d) (s.s_perf.pos b) i m := by
          intro i m1 hm1
          have hlt : i < (s.s_perf.markers b).length := by
            rw [← k6 b]
            by_contra hge
            rw [List.getElem?_eq_none (by omega)] at hm1
            cases hm1
          have hm := List.getElem?_eq_getElem hlt
          have := k7 b hb i _ hm
          rw [hm1, hd] at this
          exact ⟨_, hm, Option.some.inj this⟩
        by_cases hall : ∀ i m, i < s.s_perf.pos b → (s.s_perf.markers b)[i]? = some m →
            consumes o b d i m = true
        · rw [(g1 hall).1]
          refine ⟨Nat.zero_le _, fun i m1 hm1 _ => ?_⟩
          obtain ⟨m, hm, rfl⟩ := hslot i m1 hm1
          unfold gathered
          dsimp only
          by_cases hlt : i < s.s_perf.pos b
          · rw [if_pos ⟨hlt, hall i m hlt hm⟩]
          · rw [if_neg (fun hc => hlt hc.1)]
            exact (hi b).2 i m hm (by omega)
        · rw [g2 hall, k6 b]
          refine ⟨(hi b).1, fun i m1 hm1 hp => ?_⟩
          obtain ⟨m, hm, rfl⟩ := hslot i m1 hm1
          unfold gathered
          dsimp only
          rw [if_neg (fun hc => by omega)]
          exact (hi b).2 i m hm hp
    · obtain ⟨e1, e2⟩ := k5 b hb
      rw [e1, e2]
      exact hi b

theorem ring_inv_frame (s : perf_state) (f : Nat) (hi : ring_inv s) :
    ring_inv { s with s_frame := f } := hi

theorem present_ring_inv (o : query_oracle) (s s1 : perf_state) (hi : ring_inv s)
    (h : renderer_present o s = .ok s1) : ring_inv s1 := by
  obtain ⟨s2, s3, h1, h2, h3⟩ := present_steps o s s1 h
  have i2 : ring_inv s2 := by
    split at h1
    · exact pop_ring_inv s s2 hi h1
    · cases h1
      exact hi
  have i3 := gather_ring_inv o s2 s3 i2 h2
  exact push_ring_inv none _ s1 (ring_inv_frame s3 _ i3) h3

theorem perf_step_ring_inv (op : perf_op) (s s1 : perf_state) (hi : ring_inv s)
    (h : perf_step op s = .ok s1) : ring_inv s1 := by
  cases op with
  | push name => exact push_ring_inv name s s1 hi h
  | pop => exact pop_ring_inv s s1 hi h
  | gather o => exact gather_ring_inv o s s1 hi h
  | present o => exact present_ring_inv o s s1 hi h

theorem reachable_ring_inv (s : perf_state) (hr : perf_reachable s) : ring_inv s := by
  induction hr with
  | init =>
    intro b
    exact ⟨Nat.le_refl _, fun i m hm _ => by simp [perf_init] at hm⟩
  | step op s s1 _ h ih => exact perf_step_ring_inv op s s1 ih h

/-- Under the invariant of the ring a push returns. -/
theorem push_ok_of_ring_inv (name : Option String) (s : perf_state) (hi : ring_inv s) :
    ∃ s1, renderer_push_perf_marker name s = .ok s1 := by
  by_cases h0 : s.s_frame = 0
  · exact ⟨s, (push_spec name s).1 h0⟩
  · exact ((push_spec name s).2 h0).1
      ⟨(hi s.s_perf.buf).1, fun m hm => (hi s.s_perf.buf).2 _ m hm (Nat.le_refl _)⟩

/-- Under the invariant of the ring a present whose pop returns, returns. -/
theorem present_ok_of_ring_inv (o : query_oracle) (s s2 : perf_state) (hi : ring_inv s)
    (hp : (if s.s_frame > 0 then renderer_pop_perf_marker s else .ok s) = .ok s2) :
    ∃ s1, renderer_present o s = .ok s1 := by
  have i2 : ring_inv s2 := by
    split at hp
    · exact pop_ring_inv s s2 hi hp
    · cases hp
      exact hi
  have hg : ∃ s3, gather_perf_markers o s2 = .ok s3 := by
    by_cases h0 : s2.s_frame = 0
    · exact ⟨s2, by simp only [gather_perf_markers, h0, if_true]⟩
    · exact gather_total o s2 h0 (fun bb => (i2 bb).1)
  obtain ⟨s3, hg⟩ := hg
  have i3 := gather_ring_inv o s2 s3 i2 hg
  obtain ⟨s1, h1⟩ := push_ok_of_ring_inv none { s3 with s_frame := s3.s_frame + 1 }
    (ring_inv_frame s3 _ i3)
  refine ⟨s1, ?_⟩
  unfold renderer_present
  rw [hp]
  simp only [hg]
  exact h1

/-! ## C26: the slots behind the position are unused -/

/-- C26. In every state reached from program start by pushes, pops, gathers
(whatever the oracle answers) and presents none of which failed, every slot of
every buffer at an index from `pos[b]` on has issued-count 0, and `pos[b]` is at
most the number of slots of the buffer. Consequently a push in such a state
returns: the assertion that the slot at `pos` is unused does not fail, and the
slot exists or is the one the push appends; and a present in such a state whose
pop returns (or that makes no pop, at frame counter 0) returns, its push
included. -/
theorem C26_unused_behind_pos (s : perf_state) (hr : perf_reachable s) :
    (∀ b i m, (s.s_perf.markers b)[i]? = some m → s.s_perf.pos b ≤ i → m.issued = 0) ∧
    (∀ b, s.s_perf.pos b ≤ (s.s_perf.markers b).length) ∧
    (∀ name, ∃ s1, renderer_push_perf_marker name s = .ok s1) ∧
    (∀ o s2, (if s.s_frame > 0 then renderer_pop_perf_marker s else .ok s) = .ok s2 →
      ∃ s1, renderer_present o s = .ok s1) := by
  have hi := reachable_ring_inv s hr
  exact ⟨fun b => (hi b).2, fun b => (hi b).1, fun name => push_ok_of_ring_inv name s hi,
    fun o s2 hp => present_ok_of_ring_inv o s s2 hi hp⟩

/-- Witness of C26: the state after `cycle_ops`, in which the ring is back on
buffer 0, whose three markers of frame 1 were never gathered and hold the slots
0 to 2; the markers of frame 6 took the slots 3 and 4, the position of buffer 0
is 5, the slot 5 that the last pop appended is unused, and a push returns. -/
theorem C26_unused_behind_pos_witness :
    (state_after cycle_ops).s_perf.buf = 0 ∧ (state_after cycle_ops).s_perf.pos 0 = 5 ∧
    ((state_after cycle_ops).s_perf.markers 0).map (fun m => m.issued) = [2, 2, 2, 1, 2, 0] ∧
    ∃ s1, renderer_push_perf_marker (some "W") (state_after cycle_ops) = .ok s1 :=
  ⟨by decide, by decide, by decide,
    (C26_unused_behind_pos (state_after cycle_ops) (state_after_reachable cycle_ops)).2.2.1 _⟩

theorem push_perf_wf (name : Option String) (s s1 : perf_state) (hw : perf_wf s)
    (h : renderer_push_perf_marker name s = .ok s1) : perf_wf s1 := by
  by_cases h0 : s.s_frame = 0
  · simp only [renderer_push_perf_marker, h0, if_true] at h
    cases h
    exact hw
  · obtain ⟨m, -, -, rfl⟩ := (push_ok_iff name s s1 h0).mp h
    exact ⟨(stack_push_spec _ _ hw.1).2.1, Nat.mod_lt _ (by norm_num)⟩

theorem pop_perf_wf (s s1 : perf_state) (hw : perf_wf s)
    (h : renderer_pop_perf_marker s = .ok s1) : perf_wf s1 := by
  by_cases h0 : s.s_frame = 0
  · simp only [renderer_pop_perf_marker, insert_marker, dec_depth, h0, if_true] at h
    cases h
    exact ⟨hw.1, u32_dec_lt _⟩
  · obtain ⟨st1, p, m, hp, -, -, rfl⟩ := (pop_ok_iff s s1 h0).mp h
    obtain ⟨-, -, rfl⟩ := (stack_pop_ok_iff _ _ _).mp hp
    refine ⟨?_, u32_dec_lt _⟩
    have := hw.1
    simp only [pop_state]
    omega

theorem gather_perf_wf (o : query_oracle) (s s1 : perf_state) (hw : perf_wf s)
    (h : gather_perf_markers o s = .ok s1) : perf_wf s1 := by
  by_cases h0 : s.s_frame = 0
  · simp only [gather_perf_markers, h0, if_true] at h
    cases h
    exact hw
  · obtain ⟨s2, hf, rfl⟩ := (gather_ok_iff o s s1 h0).mp h
    obtain ⟨-, g2, -, -, -, -, g7, -⟩ := gather_fold_buffers o _ (List.nodup_range _) s s2 hf
    refine ⟨?_, ?_⟩
    · show s2.s_perf.stack.pos ≤ s2.s_perf.stack.indices.length
      rw [g2]
      exact hw.1
    · show s2.s_perf.depth < 2 ^ 32
      rcases g7 with e | e
      · rw [e]
        exact hw.2
      · rw [e]
        norm_num

theorem perf_step_perf_wf (op : perf_op) (s s1 : perf_state) (hw : perf_wf s)
    (h : perf_step op s = .ok s1) : perf_wf s1 := by
  cases op with
  | push name => exact push_perf_wf name s s1 hw h
  | pop => exact pop_perf_wf s s1 hw h
  | gather o => exact gather_perf_wf o s s1 hw h
  | present o =>
    obtain ⟨s2, s3, h1, h2, h3⟩ := present_steps o s s1 h
    have w2 : perf_wf s2 := by
      split at h1
      · exact pop_perf_wf s s2 hw h1
      · cases h1
        exact hw
    have w3 := gather_perf_wf o s2 s3 w2 h2
    exact push_perf_wf none { s3 with s_frame := s3.s_frame + 1 } s1 w3 h3

theorem reachable_perf_wf (s : perf_state) (hr : perf_reachable s) : perf_wf s := by
  induction hr with
  | init => exact ⟨Nat.le_refl _, by norm_num [perf_init]⟩
  | step op s s1 _ h ih => exact perf_step_perf_wf op s s1 ih h

theorem open_slot_lt (s : perf_state) (opens : List (Nat × Nat)) (hi : open_inv s opens)
    (x : Nat) (hx : x ∈ opens.map Prod.fst) : x < s.s_perf.pos s.s_perf.buf := by
  obtain ⟨e, he, rfl⟩ := List.mem_map.mp hx
  obtain ⟨j, hj⟩ := List.mem_iff_getElem?.mp he
  exact (hi.2.2.2.2.2 j e hj).2.1

/-- A push under the invariant of a run: it returns and opens the slot at the
position. -/
theorem push_open_inv (name : Option String) (s : perf_state) (opens : List (Nat × Nat))
    (hi : open_inv s opens) :
    ∃ s2, renderer_push_perf_marker name s = .ok s2 ∧
      open_inv s2 ((s.s_perf.pos s.s_perf.buf, s.gpu_clock) :: opens) ∧
      s2.s_perf.stack.pos = s.s_perf.stack.pos + 1 ∧
      s2.s_perf.depth = u32 (s.s_perf.depth + 1) ∧
      s2.s_perf.pos s.s_perf.buf = s.s_perf.pos s.s_perf.buf + 1 ∧
      s2.s_perf.buf = s.s_perf.buf ∧ s2.s_frame = s.s_frame ∧
      s2.gpu_clock = s.gpu_clock + 1 ∧
      (∀ b, b ≠ s.s_perf.buf →
        s2.s_perf.markers b = s.s_perf.markers b ∧ s2.s_perf.pos b = s.s_perf.pos b) ∧
      (∀ i, i ≠ s.s_perf.pos s.s_perf.buf →
        (s2.s_perf.markers s.s_perf.buf)[i]? = (s.s_perf.markers s.s_perf.buf)[i]?) := by
  have hlt := open_slot_lt s opens hi
  obtain ⟨h0, hr, hw, hlen, hnd, hop⟩ := hi
  obtain ⟨s2, h2⟩ := push_ok_of_ring_inv name s hr
  obtain ⟨-, ⟨m1, k2, -, -, -, k2i, k2b⟩, k3, k4, k5, k6, k7, -, k9, k10, k11, k12, k13⟩ :=
    ((push_spec name s).2 h0).2 s2 h2
  refine ⟨s2, h2, ⟨by rw [k12]; exact h0, push_ring_inv name s s2 hr h2,
    push_perf_wf name s s2 hw h2, ?_, ?_, ?_⟩, k4, k7, k6, k11, k12, k13, k10, k9⟩
  · rw [k4, List.length_cons]
    omega
  · rw [List.map_cons, List.nodup_cons]
    exact ⟨fun hx => Nat.lt_irrefl _ (hlt _ hx), hnd⟩
  · intro j e hj
    rw [k11, k6, k4]
    cases j with
    | zero =>
      simp only [List.getElem?_cons_zero, Option.some.injEq] at hj
      subst hj
      refine ⟨?_, Nat.lt_succ_self _, m1, k2, k2i, k2b⟩
      have := k5 hw.1
      simpa using this
    | succ j =>
      simp only [List.getElem?_cons_succ] at hj
      obtain ⟨a1, a2, m, a3, a4, a5⟩ := hop j e hj
      have hjl : j < opens.length := (List.getElem?_eq_some.mp hj).1
      refine ⟨?_, by omega, m, ?_, a4, a5⟩
      · rw [k3, (stack_push_spec _ _ hw.1).2.2.2 _ (by omega)]
        rw [← a1]
        congr 1
        omega
      · rw [k9 _ (by omega)]
        exact a3

/-- A pop under the invariant of a run with an open slot: it returns and closes
the slot opened last. -/
theorem pop_open_inv (s : perf_state) (e : Nat × Nat) (opens : List (Nat × Nat))
    (hi : open_inv s (e :: opens)) :
    ∃ s2 m, renderer_pop_perf_marker s = .ok s2 ∧ open_inv s2 opens ∧
      (s.s_perf.markers s.s_perf.buf)[e.1]? = some m ∧ m.begin = e.2 ∧
      (s2.s_perf.markers s.s_perf.buf)[e.1]? = some { m with issued := 2, end_ := s.gpu_clock } ∧
      s2.s_perf.stack.pos + 1 = s.s_perf.stack.pos ∧
      s2.s_perf.depth = u32_dec s.s_perf.depth ∧
      s2.s_perf.pos = s.s_perf.pos ∧
      s2.s_perf.buf = s.s_perf.buf ∧ s2.s_frame = s.s_frame ∧
      s2.gpu_clock = s.gpu_clock + 1 ∧
      (∀ b, b ≠ s.s_perf.buf → s2.s_perf.markers b = s.s_perf.markers b) ∧
      (∀ i, i ≠ e.1 → i < (s.s_perf.markers s.s_perf.buf).length →
        (s2.s_perf.markers s.s_perf.buf)[i]? = (s.s_perf.markers s.s_perf.buf)[i]?) := by
  obtain ⟨h0, hr, hw, hlen, hnd, hop⟩ := hi
  obtain ⟨a1, a2, m, a3, a4, a5⟩ := hop 0 e (List.getElem?_cons_zero)
  have hpos : 0 < s.s_perf.stack.pos := by
    rw [List.length_cons] at hlen
    omega
  obtain ⟨s2, h2, k1, -, k3, k4, k5, k6, -, k8, k9, k10, k11, k12⟩ :=
    (pop_spec s e.1 h0 hpos (by simpa using a1)).1 m a3 a4
  rw [List.map_cons, List.nodup_cons] at hnd
  refine ⟨s2, m, h2, ⟨by rw [k11]; exact h0, pop_ring_inv s s2 hr h2, pop_perf_wf s s2 hw h2,
    ?_, hnd.2, ?_⟩, a3, a5, k5, by omega, k1, k9, k10, k11, k12, k8, k6⟩
  · rw [List.length_cons] at hlen
    omega
  · intro j e1 hj
    obtain ⟨b1, b2, m1, b3, b4, b5⟩ := hop (j + 1) e1 (by simpa using hj)
    have hne : e1.1 ≠ e.1 := by
      intro he
      apply hnd.1
      rw [← he]
      exact List.mem_map.mpr ⟨e1, List.mem_iff_getElem?.mpr ⟨j, hj⟩, rfl⟩
    rw [k10, k9, k4, k3]
    refine ⟨?_, b2, m1, ?_, b4, b5⟩
    · rw [← b1]
      congr 1
      omega
    · rw [k6 _ hne (List.getElem?_eq_some.mp b3).1]
      exact b3

theorem balanced_above_nil (h : Nat) (hb : balanced_above h []) : h = 0 := by
  have := hb.2.2
  simpa using this

theorem balanced_above_push (h : Nat) (name : Option String) (ops : List perf_op)
    (hb : balanced_above h (.push name :: ops)) : balanced_above (h + 1) ops := by
  obtain ⟨h1, h2, h3⟩ := hb
  refine ⟨fun op hop => h1 op (List.mem_cons_of_mem _ hop), fun k => ?_, ?_⟩
  · have := h2 (k + 1)
    simp only [List.take_succ_cons, List.countP_cons, is_pop, is_push, if_true,
      Bool.false_eq_true, if_false] at this
    omega
  · simp only [List.countP_cons, is_pop, is_push, if_true, Bool.false_eq_true, if_false] at h3
    omega

theorem balanced_above_pop (h : Nat) (ops : List perf_op)
    (hb : balanced_above h (.pop :: ops)) : 0 < h ∧ balanced_above (h - 1) ops := by
  obtain ⟨h1, h2, h3⟩ := hb
  have hpos : 0 < h := by
    have := h2 1
    simp only [List.take_succ_cons, List.take_zero, List.countP_cons, is_pop, is_push, if_true,
      Bool.false_eq_true, if_false, List.countP_nil] at this
    omega
  refine ⟨hpos, fun op hop => h1 op (List.mem_cons_of_mem _ hop), fun k => ?_, ?_⟩
  · have := h2 (k + 1)
    simp only [List.take_succ_cons, List.countP_cons, is_pop, is_push, if_true,
      Bool.false_eq_true, if_false] at this
    omega
  · simp only [List.countP_cons, is_pop, is_push, if_true, Bool.false_eq_true, if_false] at h3
    omega

theorem u32_depth_push (a b n : Nat) (hb : b < 2 ^ 32) (h : u32 (a + (n + 1)) = u32 (b + 1)) :
    u32 (a + n) = b := by
  unfold u32 at *
  omega

theorem u32_depth_pop (a b n : Nat) (hb : b < 2 ^ 32) (h : u32 (a + n) = u32_dec b) :
    u32 (a + (n + 1)) = b := by
  unfold u32 u32_dec at *
  split at h <;> omega

/-- A run of pushes and pops that is balanced above the open slots returns, and
leaves what `run_result` says. -/
theorem run_balanced_above :
    ∀ (ops : List perf_op) (s : perf_state) (opens : List (Nat × Nat)),
      open_inv s opens → balanced_above opens.length ops →
      ∃ s1, perf_run ops s = .ok s1 ∧ run_result s s1 opens ops := by
  intro ops
  induction ops with
  | nil =>
    intro s opens hi hb
    have hl := balanced_above_nil _ hb
    have he : opens = [] := List.eq_nil_of_length_eq_zero hl
    subst he
    refine ⟨s, rfl, rfl, u32_of_lt _ hi.2.2.1.2, hi.2.2.1.2, rfl, rfl, rfl, rfl,
      fun _ _ => ⟨rfl, rfl⟩, ?_, ?_, ?_, fun _ _ _ _ hm => hm⟩
    · intro e he
      simp [lifo_closed] at he
    · intro e he
      cases he
    · intro i h1 h2
      simp at h2
      omega
  | cons op ops ih =>
    intro s opens hi hb
    cases op with
    | push name =>
      obtain ⟨s2, h2, i2, k1, k2, k3, k4, k5, k6, k7, k8⟩ := push_open_inv name s opens hi
      obtain ⟨s1, hr, r1, r2, r3, r4, r5, r6, r7, r8, r9, r10, r11, r12⟩ :=
        ih s2 _ i2 (balanced_above_push _ name ops hb)
      rw [k4] at r4 r8 r9 r10 r11 r12
      rw [k3] at r4 r9 r11 r12
      rw [k6] at r7 r9
      have hcount : (perf_op.push name :: ops).countP is_push = ops.countP is_push + 1 := by
        simp [List.countP_cons, is_push]
      refine ⟨s1, ?_, ?_, ?_, r3, ?_, by rw [r5, k4], by rw [r6, k5], ?_, ?_, ?_, ?_, ?_, ?_⟩
      · simp only [perf_run, perf_step, h2]
        exact hr
      · rw [List.length_cons] at r1
        omega
      · rw [List.length_cons, k2] at r2
        exact u32_depth_push _ _ _ hi.2.2.1.2 r2
      · rw [r4, hcount]
        omega
      · rw [r7, List.length_cons]
        omega
      · intro b hb1
        obtain ⟨e1, e2⟩ := r8 b hb1
        obtain ⟨e3, e4⟩ := k7 b hb1
        exact ⟨by rw [e1, e3], by rw [e2, e4]⟩
      · intro e he
        simp only [lifo_closed] at he
        exact r9 e he
      · intro e he
        exact r10 e (List.mem_cons_of_mem _ he)
      · intro i hi1 hi2
        rw [hcount] at hi2
        by_cases hip : i = s.s_perf.pos s.s_perf.buf
        · subst hip
          exact r10 _ (List.mem_cons_self _ _)
        · exact r11 i (by omega) (by omega)
      · intro i m hi1 hi2 hm
        apply r12 i m (by omega)
        · rw [List.map_cons, List.mem_cons]
          rintro (hx | hx)
          · omega
          · exact hi2 hx
        · rw [k8 i (by omega)]
          exact hm
    | pop =>
      obtain ⟨hpos, hb2⟩ := balanced_above_pop _ ops hb
      cases opens with
      | nil => simp at hpos
      | cons e opens =>
        have hnd := hi.2.2.2.2.1
        have hlen := (hi.2.1 s.s_perf.buf).1
        obtain ⟨s2, m, h2, i2, a1, a2, a3, k1, k2, k3, k4, k5, k6, k7, k8⟩ :=
          pop_open_inv s e opens hi
        have helt := (hi.2.2.2.2.2 0 e List.getElem?_cons_zero).2.1
        obtain ⟨s1, hr, r1, r2, r3, r4, r5, r6, r7, r8, r9, r10, r11, r12⟩ :=
          ih s2 opens i2 (by simpa using hb2)
        rw [k4] at r4 r8 r9 r10 r11 r12
        rw [k3] at r4 r9 r11 r12
        rw [k6] at r7 r9
        rw [List.map_cons, List.nodup_cons] at hnd
        have hcount : (perf_op.pop :: ops).countP is_push = ops.countP is_push := by
          simp [List.countP_cons, is_push]
        have hslot := r12 e.1 _ helt hnd.1 a3
        refine ⟨s1, ?_, ?_, ?_, r3, ?_, by rw [r5, k4], by rw [r6, k5], ?_, ?_, ?_, ?_, ?_, ?_⟩
        · simp only [perf_run, perf_step, h2]
          exact hr
        · rw [List.length_cons]
          omega
        · rw [List.length_cons]
          rw [k2] at r2
          exact u32_depth_pop _ _ _ hi.2.2.1.2 r2
        · rw [r4, hcount]
        · rw [r7, List.length_cons]
          omega
        · intro b hb1
          obtain ⟨e1, e2⟩ := r8 b hb1
          exact ⟨by rw [e1, k7 b hb1], by rw [e2, k3]⟩
        · intro x hx
          simp only [lifo_closed, List.mem_cons] at hx
          rcases hx with hx | hx
          · subst hx
            exact ⟨_, hslot, rfl, a2, rfl⟩
          · exact r9 x hx
        · intro x hx
          rw [List.mem_cons] at hx
          rcases hx with hx | hx
          · subst hx
            exact ⟨_, hslot, rfl⟩
          · exact r10 x hx
        · intro i hi1 hi2
          rw [hcount] at hi2
          exact r11 i hi1 hi2
        · intro i m1 hi1 hi2 hm
          rw [List.map_cons, List.mem_cons, not_or] at hi2
          apply r12 i m1 hi1 hi2.2
          rw [k8 i hi2.1 (by omega)]
          exact hm
    | gather o =>
      have := hb.1 (.gather o) (List.mem_cons_self _ _)
      simp [is_push, is_pop] at this
    | present o =>
      have := hb.1 (.present o) (List.mem_cons_self _ _)
      simp [is_push, is_pop] at this

theorem demo_balanced : balanced demo_balanced_ops := by
  refine ⟨by decide, fun k => ?_, by decide⟩
  by_cases hk : k < 6
  · interval_cases k <;> decide
  · rw [List.take_of_length_le (by simp [demo_balanced_ops]; omega)]
    decide

/-! ## C24: balanced pushes and pops -/

/-- C24. Let `s` be a state reached from program start by operations none of
which failed, at a frame counter above 0, and `ops` a balanced sequence of pushes
and pops. Run from `s`, the sequence returns: no assertion fails and no pop finds
the index stack empty. Afterwards the stack height and the nesting depth are
those of `s`, the current buffer is the same and its position has grown by the
number of pushes; every slot the sequence opened, from the old position up to
the new one, has issued-count 2; and each pop closed the most recently pushed
slot that was still open: for each pop, the slot that the LIFO rule pairs with
it holds the time of its push as begin timestamp and the time of that pop as
end timestamp. The slots below the old position and the other buffers are as
they were. -/
theorem C24_balanced_markers (s : perf_state) (ops : List perf_op) (hr : perf_reachable s)
    (h0 : s.s_frame ≠ 0) (hb : balanced ops) :
    ∃ s1, perf_run ops s = .ok s1 ∧
      s1.s_perf.stack.pos = s.s_perf.stack.pos ∧
      s1.s_perf.depth = s.s_perf.depth ∧
      s1.s_perf.buf = s.s_perf.buf ∧
      s1.s_perf.pos s.s_perf.buf = s.s_perf.pos s.s_perf.buf + ops.countP is_push ∧
      (∀ i, s.s_perf.pos s.s_perf.buf ≤ i →
        i < s.s_perf.pos s.s_perf.buf + ops.countP is_push →
        ∃ m, (s1.s_perf.markers s.s_perf.buf)[i]? = some m ∧ m.issued = 2) ∧
      (∀ e ∈ lifo_closed ops [] (s.s_perf.pos s.s_perf.buf) s.gpu_clock,
        ∃ m, (s1.s_perf.markers s.s_perf.buf)[e.1]? = some m ∧ m.issued = 2 ∧
          m.begin = e.2.1 ∧ m.end_ = e.2.2) ∧
      (∀ i m, i < s.s_perf.pos s.s_perf.buf → (s.s_perf.markers s.s_perf.buf)[i]? = some m →
        (s1.s_perf.markers s.s_perf.buf)[i]? = some m) ∧
      (∀ b, b ≠ s.s_perf.buf →
        s1.s_perf.markers b = s.s_perf.markers b ∧ s1.s_perf.pos b = s.s_perf.pos b) := by
  have hi : open_inv s [] :=
    ⟨h0, reachable_ring_inv s hr, reachable_perf_wf s hr, Nat.zero_le _, List.nodup_nil,
      fun j e hj => by simp at hj⟩
  have hb0 : balanced_above ([] : List (Nat × Nat)).length ops :=
    ⟨hb.1, fun k => by simpa using hb.2.1 k, by simpa using hb.2.2⟩
  obtain ⟨s1, hrun, r1, r2, r3, r4, r5, -, -, r8, r9, -, r11, r12⟩ :=
    run_balanced_above ops s [] hi hb0
  refine ⟨s1, hrun, by simpa using r1, ?_, r5, r4, r11, r9,
    fun i m h1 hm => r12 i m h1 (by simp) hm, r8⟩
  rw [List.length_nil, Nat.add_zero, u32_of_lt _ r3] at r2
  exact r2

/-- Witness of C24: the first frame, after the present that starts it; the frame
marker is open in slot 0 of buffer 0. "A" takes slot 1 at time 1, "B" slot 2 at
time 2; the pops at the times 3 and 4 close "B" and "A"; "C" takes slot 3 at
time 5 and is closed at time 6. -/
theorem C24_balanced_markers_witness :
    lifo_closed demo_balanced_ops [] 1 1 = [(2, 2, 3), (1, 1, 4), (3, 5, 6)] ∧
    ∃ s1, perf_run demo_balanced_ops (state_after [.present oracle_none_ready]) = .ok s1 ∧
      s1.s_perf.stack.pos = 1 ∧ s1.s_perf.depth = 1 ∧ s1.s_perf.pos 0 = 4 ∧
      ∀ e ∈ [(2, 2, 3), (1, 1, 4), (3, 5, 6)],
        ∃ m, (s1.s_perf.markers 0)[e.1]? = some m ∧ m.issued = 2 ∧
          m.begin = e.2.1 ∧ m.end_ = e.2.2 := by
  obtain ⟨s1, h, a, b, -, c, -, d, -⟩ := C24_balanced_markers
    (state_after [.present oracle_none_ready]) demo_balanced_ops (state_after_reachable _)
    (by decide) demo_balanced
  exact ⟨by decide, s1, h, a.trans (by decide), b.trans (by decide), c.trans (by decide), d⟩

end pen
